import Mathlib

/-!
# C-OO-Examples: vtable inheritance, dispatch and casts

A shallow embedding of `common.[ch]`, `base1.c`, `base2.c`, `derived1.c` and
`derived2.c`.

Memory model.  The C program manipulates objects through raw addresses
(embedded sub-objects, `offsetof` down-casts, tables of function pointers that
are patched in place).  The embedding therefore keeps one flat store
`mem : Nat → Nat`: every scalar field of every struct is one cell, keyed by the
address of its first byte, and `p->f` is `mem (p + offsetof f)`.  Address `0`
is `NULL`.  Struct layouts are those of the LP64 ABI (8-byte pointers, natural
alignment).  Function pointers are the (non-zero) addresses `addr_*` of the
functions; an indirect call through a value that is not the address of a
function of the slot's type has no defined behaviour and yields `none`.
`calloc` hands out fresh zeroed blocks from `brk` upwards and fails when the
head of `calloc_fails` says so; `free` is recorded in `freed`.  `LOG_ERR` only
prints and is not modelled.
-/

namespace COO

/-! ## common.h -/

/-- Return codes (`my_rc_e`). -/
inductive my_rc_e where
  | MY_RC_E_INVALID
  | MY_RC_E_SUCCESS
  | MY_RC_E_EINVAL
  | MY_RC_E_ENOMEM
  | MY_RC_E_MAX
  deriving DecidableEq

open my_rc_e

/-- Program state: the flat store, the allocator and the allocation logs. -/
structure State where
  /-- one cell per scalar field, keyed by address -/
  mem : Nat → Nat
  /-- next fresh heap address -/
  brk : Nat
  /-- outcomes of the coming `calloc` calls (`true`: returns NULL); empty: all succeed -/
  calloc_fails : List Bool
  /-- blocks returned by `calloc`, most recent first -/
  allocated : List Nat
  /-- arguments of the `free` calls, most recent first -/
  freed : List Nat

/-- Write of one cell: `*a = v`. -/
def State.store (s : State) (a v : Nat) : State :=
  { s with mem := fun x => if x = a then v else s.mem x }

/-- The library call `calloc(1, size)`. -/
def calloc (s : State) (size : Nat) : Nat × State :=
  match s.calloc_fails with
  | true :: rest => (0, { s with calloc_fails := rest })
  | _ =>
    (s.brk,
     { mem := fun x => if s.brk ≤ x ∧ x < s.brk + size then 0 else s.mem x
       brk := s.brk + size
       calloc_fails := s.calloc_fails.tail
       allocated := s.brk :: s.allocated
       freed := s.freed })

/-- The library call `free(p)`. -/
def free (s : State) (p : Nat) : State :=
  { s with freed := p :: s.freed }

/-- `my_rc_e_is_notok`. -/
def my_rc_e_is_notok (rc : my_rc_e) : Bool := rc != MY_RC_E_SUCCESS

/-- `my_rc_e_is_ok`. -/
def my_rc_e_is_ok (rc : my_rc_e) : Bool := rc == MY_RC_E_SUCCESS

/-! ### Layout (LP64) -/

/-- `offsetof(base1_st, private_h)`; also of `base2_st` and `derived1_st`. -/
abbrev off_private_h : Nat := 0
/-- `offsetof(base1_private_st, vtable)`; also of the other private structs. -/
abbrev off_vtable : Nat := 0
/-- `offsetof(base1_st, public_data)`. -/
abbrev off_public_data : Nat := 8
/-- `offsetof(base1_public_data_st, val1)`. -/
abbrev off_pd_val1 : Nat := 0
/-- `offsetof(base1_public_data_st, val2)`. -/
abbrev off_pd_val2 : Nat := 4
/-- `offsetof(base1_st, val3)`. -/
abbrev off_val3 : Nat := 16
/-- `sizeof(base1_st)`. -/
abbrev sizeof_base1_st : Nat := 24
/-- `offsetof(base2_st, val1)`. -/
abbrev off_b2_val1 : Nat := 8
/-- `sizeof(base2_st)`. -/
abbrev sizeof_base2_st : Nat := 16
/-- `offsetof(derived1_st, base1)`. -/
abbrev off_d1_base1 : Nat := 8
/-- `offsetof(derived1_st, base2)`. -/
abbrev off_d1_base2 : Nat := 32
/-- `offsetof(derived1_st, val4)`. -/
abbrev off_d1_val4 : Nat := 48
/-- `sizeof(derived1_st)`. -/
abbrev sizeof_derived1_st : Nat := 56
/-- `offsetof(derived2_st, derived1)`. -/
abbrev off_d2_derived1 : Nat := 0
/-- `sizeof(derived2_st)`. -/
abbrev sizeof_derived2_st : Nat := 56
/-- `sizeof` of each private struct (one pointer). -/
abbrev sizeof_private_st : Nat := 8

/-- Slot offsets of `base1_vtable_st` and `base2_vtable_st` (five pointers). -/
abbrev off_delete_fn : Nat := 0
/-- Slot `type_string_fn`. -/
abbrev off_type_string_fn : Nat := 8
/-- Slot `string_fn`. -/
abbrev off_string_fn : Nat := 16
/-- Slot `string_size_fn`. -/
abbrev off_string_size_fn : Nat := 24
/-- Slot `increase_val3_fn` of `base1_vtable_st`. -/
abbrev off_increase_val3_fn : Nat := 32
/-- Slot `increase_val1_fn` of `base2_vtable_st`. -/
abbrev off_increase_val1_fn : Nat := 32
/-- `sizeof(base1_vtable_st)` = `sizeof(base2_vtable_st)`. -/
abbrev sizeof_vtable_st : Nat := 40

/-- Slot offsets of `derived1_vtable_st` (four pointers). -/
abbrev off_d1vt_base1_vtable : Nat := 0
/-- Slot `base2_vtable`. -/
abbrev off_d1vt_base2_vtable : Nat := 8
/-- Slot `delete_fn`. -/
abbrev off_d1vt_delete_fn : Nat := 16
/-- Slot `increase_val4_fn`. -/
abbrev off_d1vt_increase_val4_fn : Nat := 24

/-- The macro `VALIDATE_VTABLE_FN(obj_h, private_h, vtable, fn, rc)`: the value
of `rc` after the macro, given its value before. -/
def VALIDATE_VTABLE_FN (s : State) (obj_h fn : Nat) (rc : my_rc_e) : my_rc_e :=
  if obj_h = 0 then MY_RC_E_EINVAL
  else if s.mem (obj_h + off_private_h) = 0 then MY_RC_E_EINVAL
  else if s.mem (s.mem (obj_h + off_private_h) + off_vtable) = 0 then MY_RC_E_EINVAL
  else if s.mem (s.mem (s.mem (obj_h + off_private_h) + off_vtable) + fn) = 0 then
    MY_RC_E_EINVAL
  else rc

/-- The expression `obj_h->private_h->vtable->fn`. -/
def vtable_fn (s : State) (obj_h fn : Nat) : Nat :=
  s.mem (s.mem (s.mem (obj_h + off_private_h) + off_vtable) + fn)

/-- The macro `INHERIT_VTABLE_FN(parent_vtable, child_vtable, fn, do_null_check, rc)`:
the state after it, and `some rc` when it jumps to `err_exit` with that `rc`. -/
def INHERIT_VTABLE_FN (s : State) (parent_vtable child_vtable fn : Nat)
    (do_null_check : Bool) : State × Option my_rc_e :=
  if s.mem (child_vtable + fn) = 0 then
    let s1 := s.store (child_vtable + fn) (s.mem (parent_vtable + fn))
    if do_null_check && decide (s1.mem (child_vtable + fn) = 0) then
      (s1, some MY_RC_E_EINVAL)
    else (s1, none)
  else (s, none)

/-! ## base1.c / base2.c: table reconciliation -/

/-- `base1_inherit_vtable`. -/
def base1_inherit_vtable (s : State) (parent_vtable child_vtable : Nat)
    (do_null_check : Bool) : my_rc_e × State :=
  if parent_vtable = 0 ∨ child_vtable = 0 then (MY_RC_E_EINVAL, s) else
  match INHERIT_VTABLE_FN s parent_vtable child_vtable off_delete_fn do_null_check with
  | (s, some rc) => (rc, s)
  | (s, none) =>
  match INHERIT_VTABLE_FN s parent_vtable child_vtable off_type_string_fn do_null_check with
  | (s, some rc) => (rc, s)
  | (s, none) =>
  match INHERIT_VTABLE_FN s parent_vtable child_vtable off_string_fn do_null_check with
  | (s, some rc) => (rc, s)
  | (s, none) =>
  match INHERIT_VTABLE_FN s parent_vtable child_vtable off_string_size_fn do_null_check with
  | (s, some rc) => (rc, s)
  | (s, none) =>
  match INHERIT_VTABLE_FN s parent_vtable child_vtable off_increase_val3_fn do_null_check with
  | (s, some rc) => (rc, s)
  | (s, none) => (MY_RC_E_SUCCESS, s)

/-- `base2_inherit_vtable`. -/
def base2_inherit_vtable (s : State) (parent_vtable child_vtable : Nat)
    (do_null_check : Bool) : my_rc_e × State :=
  if parent_vtable = 0 ∨ child_vtable = 0 then (MY_RC_E_EINVAL, s) else
  match INHERIT_VTABLE_FN s parent_vtable child_vtable off_delete_fn do_null_check with
  | (s, some rc) => (rc, s)
  | (s, none) =>
  match INHERIT_VTABLE_FN s parent_vtable child_vtable off_type_string_fn do_null_check with
  | (s, some rc) => (rc, s)
  | (s, none) =>
  match INHERIT_VTABLE_FN s parent_vtable child_vtable off_string_fn do_null_check with
  | (s, some rc) => (rc, s)
  | (s, none) =>
  match INHERIT_VTABLE_FN s parent_vtable child_vtable off_string_size_fn do_null_check with
  | (s, some rc) => (rc, s)
  | (s, none) =>
  match INHERIT_VTABLE_FN s parent_vtable child_vtable off_increase_val1_fn do_null_check with
  | (s, some rc) => (rc, s)
  | (s, none) => (MY_RC_E_SUCCESS, s)

/-! ## Addresses of the program's functions and static objects

Any non-zero, pairwise distinct values serve; tables are 64 bytes apart. -/

/-- `&base1_private_delete` (base1.c). -/
abbrev addr_base1_private_delete : Nat := 0x1010
/-- `&base1_type_string_internal` (base1.c). -/
abbrev addr_base1_type_string_internal : Nat := 0x1020
/-- `&base1_string_internal` (base1.c). -/
abbrev addr_base1_string_internal : Nat := 0x1030
/-- `&base1_string_size_internal` (base1.c). -/
abbrev addr_base1_string_size_internal : Nat := 0x1040
/-- `&base1_increase_val3_internal` (base1.c). -/
abbrev addr_base1_increase_val3_internal : Nat := 0x1050
/-- `&base2_private_delete` (base2.c). -/
abbrev addr_base2_private_delete : Nat := 0x1060
/-- `&base2_type_string_internal` (base2.c). -/
abbrev addr_base2_type_string_internal : Nat := 0x1070
/-- `&base2_string_internal` (base2.c). -/
abbrev addr_base2_string_internal : Nat := 0x1080
/-- `&base2_string_size_internal` (base2.c). -/
abbrev addr_base2_string_size_internal : Nat := 0x1090
/-- `&derived1_base1_delete` (derived1.c). -/
abbrev addr_derived1_base1_delete : Nat := 0x10a0
/-- `&derived1_base1_type_string` (derived1.c). -/
abbrev addr_derived1_base1_type_string : Nat := 0x10b0
/-- `&derived1_base1_string` (derived1.c). -/
abbrev addr_derived1_base1_string : Nat := 0x10c0
/-- `&derived1_base1_string_size` (derived1.c). -/
abbrev addr_derived1_base1_string_size : Nat := 0x10d0
/-- `&derived1_base2_delete` (derived1.c). -/
abbrev addr_derived1_base2_delete : Nat := 0x10e0
/-- `&derived1_base2_type_string` (derived1.c). -/
abbrev addr_derived1_base2_type_string : Nat := 0x10f0
/-- `&derived1_base2_string` (derived1.c). -/
abbrev addr_derived1_base2_string : Nat := 0x1100
/-- `&derived1_base2_string_size` (derived1.c). -/
abbrev addr_derived1_base2_string_size : Nat := 0x1110
/-- `&derived1_base2_increase_val1` (derived1.c). -/
abbrev addr_derived1_base2_increase_val1 : Nat := 0x1120
/-- `&derived1_private_delete` (derived1.c). -/
abbrev addr_derived1_private_delete : Nat := 0x1130
/-- `&derived1_increase_val4_internal` (derived1.c). -/
abbrev addr_derived1_increase_val4_internal : Nat := 0x1140
/-- `&derived2_base1_delete` (derived2.c). -/
abbrev addr_derived2_base1_delete : Nat := 0x1150
/-- `&derived2_base1_type_string` (derived2.c). -/
abbrev addr_derived2_base1_type_string : Nat := 0x1160
/-- `&derived2_base2_delete` (derived2.c). -/
abbrev addr_derived2_base2_delete : Nat := 0x1170
/-- `&derived2_base2_type_string` (derived2.c). -/
abbrev addr_derived2_base2_type_string : Nat := 0x1180
/-- `&derived2_derived1_delete` (derived2.c). -/
abbrev addr_derived2_derived1_delete : Nat := 0x1190
/-- `&derived2_derived1_increase_val4` (derived2.c). -/
abbrev addr_derived2_derived1_increase_val4 : Nat := 0x11a0

/-- `&base1_vtable`, the `static const` table of base1.c. -/
abbrev base1_vtable : Nat := 0x2000
/-- `&base2_vtable`, the `static const` table of base2.c. -/
abbrev base2_vtable : Nat := 0x2040
/-- `&base1_vtable`, the `static` table of derived1.c. -/
abbrev derived1_base1_vtable : Nat := 0x2080
/-- `&base2_vtable`, the `static` table of derived1.c. -/
abbrev derived1_base2_vtable : Nat := 0x20c0
/-- `&derived1_vtable`, the `static` table of derived1.c. -/
abbrev derived1_vtable : Nat := 0x2100
/-- `&base1_vtable`, the `static` table of derived2.c. -/
abbrev derived2_base1_vtable : Nat := 0x2140
/-- `&base2_vtable`, the `static` table of derived2.c. -/
abbrev derived2_base2_vtable : Nat := 0x2180
/-- `&derived1_vtable`, the `static` table of derived2.c. -/
abbrev derived2_derived1_vtable : Nat := 0x21c0
/-- `&min_size`, the automatic variable of the `*_string_internal` functions. -/
abbrev addr_min_size : Nat := 0x3000
/-- First address the heap hands out. -/
abbrev heap_base : Nat := 0x10000

/-- `BASE1_STR_SIZE`. -/
abbrev BASE1_STR_SIZE : Nat := 128
/-- `BASE2_STR_SIZE`. -/
abbrev BASE2_STR_SIZE : Nat := 64
/-- `DERIVED1_STR_SIZE`. -/
abbrev DERIVED1_STR_SIZE : Nat := 256

/-! ## libc: `memcpy` of a public-data record, `snprintf` -/

/-- `memcpy(dst, src, sizeof(base1_public_data_st))`: both fields of the record. -/
def memcpy_public_data (s : State) (dst src : Nat) : State :=
  (s.store (dst + off_pd_val1) (s.mem (src + off_pd_val1))).store (dst + off_pd_val2)
    (s.mem (src + off_pd_val2))

/-- The conversion `%u`. -/
def fmt_u (n : Nat) : List Char := Nat.toDigits 10 n

/-- Consecutive bytes written from address `a` on. -/
def store_bytes (s : State) (a : Nat) : List Nat → State
  | [] => s
  | b :: bs => store_bytes (s.store a b) (a + 1) bs

/-- What `snprintf(buffer, size, ...)` leaves in the buffer when the complete
formatted text is `text`: at most `size - 1` characters, then NUL. -/
def snprintf_bytes (size : Nat) (text : List Char) : List Nat :=
  (text.take (size - 1)).map Char.toNat ++ [0]

/-- `snprintf(buffer, size, ...)` with formatted text `text`. -/
def snprintf (s : State) (buffer size : Nat) (text : List Char) : State :=
  if size = 0 then s else store_bytes s buffer (snprintf_bytes size text)

/-- Read of a `uint8_t` field. -/
def load8 (s : State) (a : Nat) : Nat := s.mem a % 2 ^ 8

/-- Read of a `uint32_t` field. -/
def load32 (s : State) (a : Nat) : Nat := s.mem a % 2 ^ 32

/-! ## base1.c -/

/-- `base1_get_public_data`. -/
def base1_get_public_data (s : State) (base1_h public_data : Nat) : my_rc_e × State :=
  if base1_h = 0 ∨ public_data = 0 then (MY_RC_E_EINVAL, s)
  else (MY_RC_E_SUCCESS, memcpy_public_data s public_data (base1_h + off_public_data))

/-- `base1_set_public_data`. -/
def base1_set_public_data (s : State) (base1_h public_data : Nat) : my_rc_e × State :=
  if base1_h = 0 ∨ public_data = 0 then (MY_RC_E_EINVAL, s)
  else (MY_RC_E_SUCCESS, memcpy_public_data s (base1_h + off_public_data) public_data)

/-- `base1_string_size_internal`. -/
def base1_string_size_internal (s : State) (base1_h buffer_size : Nat) : my_rc_e × State :=
  if base1_h = 0 ∨ buffer_size = 0 then (MY_RC_E_EINVAL, s)
  else (MY_RC_E_SUCCESS, s.store buffer_size BASE1_STR_SIZE)

/-- `base1_type_string_internal`. -/
def base1_type_string_internal (_s : State) (_base1_h : Nat) : String := "base1"

/-- `base1_delete_internal`. -/
def base1_delete_internal (s : State) (base1_h : Nat) (free_base1_h : Bool) : State :=
  if base1_h = 0 then s else
  let s1 :=
    if s.mem (base1_h + off_private_h) ≠ 0 then
      (free s (s.mem (base1_h + off_private_h))).store (base1_h + off_private_h) 0
    else s
  if free_base1_h then free s1 base1_h else s1

/-- `base1_friend_delete`. -/
def base1_friend_delete (s : State) (base1_h : Nat) : State :=
  base1_delete_internal s base1_h false

/-- `base1_private_delete`. -/
def base1_private_delete (s : State) (base1_h : Nat) : State :=
  base1_delete_internal s base1_h true

/-- `base1_increase_val3_internal`. -/
def base1_increase_val3_internal (s : State) (base1_h : Nat) : my_rc_e × State :=
  if base1_h = 0 then (MY_RC_E_EINVAL, s)
  else (MY_RC_E_SUCCESS,
    s.store (base1_h + off_val3) (load32 s (base1_h + off_val3) * 2 % 2 ^ 32))

/-- `base1_set_vtable`. -/
def base1_set_vtable (s : State) (base1_h vtable : Nat) : my_rc_e × State :=
  if base1_h = 0 ∨ vtable = 0 then (MY_RC_E_EINVAL, s)
  else if s.mem (base1_h + off_private_h) = 0 then (MY_RC_E_EINVAL, s)
  else
    let r := base1_inherit_vtable s base1_vtable vtable true
    if my_rc_e_is_notok r.1 then (r.1, r.2)
    else (MY_RC_E_SUCCESS, r.2.store (r.2.mem (base1_h + off_private_h) + off_vtable) vtable)

/-- `base1_init`. -/
def base1_init (s : State) (base1_h : Nat) : my_rc_e × State :=
  if base1_h = 0 then (MY_RC_E_EINVAL, s) else
  let r := calloc s sizeof_private_st
  let s1 := r.2.store (base1_h + off_private_h) r.1
  if s1.mem (base1_h + off_private_h) = 0 then
    -- err_exit
    let s2 :=
      if s1.mem (base1_h + off_private_h) ≠ 0 then
        (free s1 (s1.mem (base1_h + off_private_h))).store (base1_h + off_private_h) 0
      else s1
    (MY_RC_E_ENOMEM, s2)
  else
    let s2 := s1.store (s1.mem (base1_h + off_private_h) + off_vtable) base1_vtable
    let s3 := s2.store (base1_h + off_public_data + off_pd_val1) 1
    let s4 := s3.store (base1_h + off_public_data + off_pd_val2) 2
    let s5 := s4.store (base1_h + off_val3) 42
    (MY_RC_E_SUCCESS, s5)

/-- `base1_new1`. -/
def base1_new1 (s : State) : Nat × State :=
  let r := calloc s sizeof_base1_st
  if r.1 ≠ 0 then
    let i := base1_init r.2 r.1
    if my_rc_e_is_notok i.1 then
      -- err_exit
      (0, base1_private_delete i.2 r.1)
    else (r.1, i.2)
  else (r.1, r.2)

/-- `base1_new2`. -/
def base1_new2 (s : State) (public_data : Nat) : Nat × State :=
  if public_data = 0 then (0, s) else
  let r := base1_new1 s
  if r.1 ≠ 0 then (r.1, memcpy_public_data r.2 (r.1 + off_public_data) public_data)
  else (r.1, r.2)

/-- `base1_new3`. -/
def base1_new3 (s : State) (val1 val3 : Nat) : Nat × State :=
  let r := base1_new1 s
  if r.1 ≠ 0 then
    (r.1, (r.2.store (r.1 + off_public_data + off_pd_val1) (val1 % 2 ^ 8)).store
      (r.1 + off_val3) (val3 % 2 ^ 32))
  else (r.1, r.2)

/-! ## base2.c -/

/-- `base2_string_size_internal`. -/
def base2_string_size_internal (s : State) (base2_h buffer_size : Nat) : my_rc_e × State :=
  if base2_h = 0 ∨ buffer_size = 0 then (MY_RC_E_EINVAL, s)
  else (MY_RC_E_SUCCESS, s.store buffer_size BASE2_STR_SIZE)

/-- `base2_type_string_internal`. -/
def base2_type_string_internal (_s : State) (_base2_h : Nat) : String := "base2"

/-- `base2_delete_internal`. -/
def base2_delete_internal (s : State) (base2_h : Nat) (free_base2_h : Bool) : State :=
  if base2_h = 0 then s else
  let s1 :=
    if s.mem (base2_h + off_private_h) ≠ 0 then
      (free s (s.mem (base2_h + off_private_h))).store (base2_h + off_private_h) 0
    else s
  if free_base2_h then free s1 base2_h else s1

/-- `base2_friend_delete`. -/
def base2_friend_delete (s : State) (base2_h : Nat) : State :=
  base2_delete_internal s base2_h false

/-- `base2_private_delete`. -/
def base2_private_delete (s : State) (base2_h : Nat) : State :=
  base2_delete_internal s base2_h true

/-- `base2_get_val1`. -/
def base2_get_val1 (s : State) (base2_h val1 : Nat) : my_rc_e × State :=
  if base2_h = 0 ∨ val1 = 0 then (MY_RC_E_EINVAL, s)
  else (MY_RC_E_SUCCESS, s.store val1 (load32 s (base2_h + off_b2_val1)))

/-- `base2_set_vtable`. -/
def base2_set_vtable (s : State) (base2_h vtable : Nat) : my_rc_e × State :=
  if base2_h = 0 ∨ vtable = 0 then (MY_RC_E_EINVAL, s)
  else if s.mem (base2_h + off_private_h) = 0 then (MY_RC_E_EINVAL, s)
  else
    let r := base2_inherit_vtable s base2_vtable vtable true
    if my_rc_e_is_notok r.1 then (r.1, r.2)
    else (MY_RC_E_SUCCESS, r.2.store (r.2.mem (base2_h + off_private_h) + off_vtable) vtable)

/-- `base2_init`. -/
def base2_init (s : State) (base2_h : Nat) : my_rc_e × State :=
  if base2_h = 0 then (MY_RC_E_EINVAL, s) else
  let r := calloc s sizeof_private_st
  let s1 := r.2.store (base2_h + off_private_h) r.1
  if s1.mem (base2_h + off_private_h) = 0 then
    -- err_exit
    let s2 :=
      if s1.mem (base2_h + off_private_h) ≠ 0 then
        (free s1 (s1.mem (base2_h + off_private_h))).store (base2_h + off_private_h) 0
      else s1
    (MY_RC_E_ENOMEM, s2)
  else
    let s2 := s1.store (s1.mem (base2_h + off_private_h) + off_vtable) base2_vtable
    let s3 := s2.store (base2_h + off_b2_val1) 7
    (MY_RC_E_SUCCESS, s3)

/-! ## derived1.c: functions that make no indirect call -/

/-- `base1_cast_to_derived1`.  (An address below the offset is not the address
of an embedded field; natural-number subtraction gives 0 there.) -/
def base1_cast_to_derived1 (base1_h : Nat) : Nat :=
  if base1_h ≠ 0 then base1_h - off_d1_base1 else 0

/-- `base2_cast_to_derived1`. -/
def base2_cast_to_derived1 (base2_h : Nat) : Nat :=
  if base2_h ≠ 0 then base2_h - off_d1_base2 else 0

/-- `derived1_cast_to_base1`. -/
def derived1_cast_to_base1 (derived1_h : Nat) : Nat :=
  if derived1_h ≠ 0 then derived1_h + off_d1_base1 else 0

/-- `derived1_cast_to_base2`. -/
def derived1_cast_to_base2 (derived1_h : Nat) : Nat :=
  if derived1_h ≠ 0 then derived1_h + off_d1_base2 else 0

/-- `derived1_base2_increase_val1`. -/
def derived1_base2_increase_val1 (s : State) (base2_h : Nat) : my_rc_e × State :=
  if base2_h = 0 then (MY_RC_E_EINVAL, s)
  else (MY_RC_E_SUCCESS,
    s.store (base2_h + off_b2_val1) ((load32 s (base2_h + off_b2_val1) + 5) % 2 ^ 32))

/-- `derived1_string_size_internal`. -/
def derived1_string_size_internal (s : State) (derived1_h buffer_size : Nat) :
    my_rc_e × State :=
  if derived1_h = 0 ∨ buffer_size = 0 then (MY_RC_E_EINVAL, s)
  else (MY_RC_E_SUCCESS, s.store buffer_size DERIVED1_STR_SIZE)

/-- `derived1_base1_string_size`. -/
def derived1_base1_string_size (s : State) (base1_h buffer_size : Nat) : my_rc_e × State :=
  derived1_string_size_internal s (base1_cast_to_derived1 base1_h) buffer_size

/-- `derived1_base2_string_size`. -/
def derived1_base2_string_size (s : State) (base2_h buffer_size : Nat) : my_rc_e × State :=
  derived1_string_size_internal s (base2_cast_to_derived1 base2_h) buffer_size

/-- `derived1_type_string_internal`. -/
def derived1_type_string_internal (_s : State) (_derived1_h : Nat) : String := "derived1"

/-- `derived1_base1_type_string`. -/
def derived1_base1_type_string (s : State) (base1_h : Nat) : String :=
  derived1_type_string_internal s (base1_cast_to_derived1 base1_h)

/-- `derived1_base2_type_string`. -/
def derived1_base2_type_string (s : State) (base2_h : Nat) : String :=
  derived1_type_string_internal s (base2_cast_to_derived1 base2_h)

/-- The text formatted by `derived1_string_internal`:
`"b1_val1(%u) b1_val2(%u) b1_val3(%u) b2_val1(%u) d1_val4(%u)"`. -/
def derived1_text (s : State) (derived1_h : Nat) : List Char :=
  "b1_val1(".toList ++ fmt_u (load8 s (derived1_h + off_d1_base1 + off_public_data + off_pd_val1))
    ++ ") b1_val2(".toList
    ++ fmt_u (load32 s (derived1_h + off_d1_base1 + off_public_data + off_pd_val2))
    ++ ") b1_val3(".toList ++ fmt_u (load32 s (derived1_h + off_d1_base1 + off_val3))
    ++ ") b2_val1(".toList ++ fmt_u (load32 s (derived1_h + off_d1_base2 + off_b2_val1))
    ++ ") d1_val4(".toList ++ fmt_u (load32 s (derived1_h + off_d1_val4)) ++ ")".toList

/-- `derived1_string_internal`. -/
def derived1_string_internal (s : State) (derived1_h buffer buffer_size : Nat) :
    my_rc_e × State :=
  if derived1_h = 0 ∨ buffer = 0 then (MY_RC_E_EINVAL, s) else
  let r := derived1_string_size_internal s derived1_h addr_min_size
  if my_rc_e_is_notok r.1 then (r.1, r.2)
  else if buffer_size < r.2.mem addr_min_size then (MY_RC_E_EINVAL, r.2)
  else (MY_RC_E_SUCCESS, snprintf r.2 buffer buffer_size (derived1_text r.2 derived1_h))

/-- `derived1_base1_string`. -/
def derived1_base1_string (s : State) (base1_h buffer buffer_size : Nat) : my_rc_e × State :=
  derived1_string_internal s (base1_cast_to_derived1 base1_h) buffer buffer_size

/-- `derived1_base2_string`. -/
def derived1_base2_string (s : State) (base2_h buffer buffer_size : Nat) : my_rc_e × State :=
  derived1_string_internal s (base2_cast_to_derived1 base2_h) buffer buffer_size

/-- `derived1_increase_val4_internal`. -/
def derived1_increase_val4_internal (s : State) (derived1_h : Nat) : my_rc_e × State :=
  if derived1_h = 0 then (MY_RC_E_EINVAL, s)
  else (MY_RC_E_SUCCESS,
    s.store (derived1_h + off_d1_val4) (load32 s (derived1_h + off_d1_val4) * 3 % 2 ^ 32))

/-- `derived1_delete_internal`. -/
def derived1_delete_internal (s : State) (derived1_h : Nat) (free_derived1_h : Bool) : State :=
  if derived1_h = 0 then s else
  let s1 := base1_friend_delete s (derived1_h + off_d1_base1)
  let s2 := base2_friend_delete s1 (derived1_h + off_d1_base2)
  let s3 :=
    if s2.mem (derived1_h + off_private_h) ≠ 0 then
      (free s2 (s2.mem (derived1_h + off_private_h))).store (derived1_h + off_private_h) 0
    else s2
  if free_derived1_h then free s3 derived1_h else s3

/-- `derived1_friend_delete`. -/
def derived1_friend_delete (s : State) (derived1_h : Nat) : State :=
  derived1_delete_internal s derived1_h false

/-- `derived1_private_delete`. -/
def derived1_private_delete (s : State) (derived1_h : Nat) : State :=
  derived1_delete_internal s derived1_h true

/-! ## derived2.c: functions that make no indirect call -/

/-- `derived1_cast_to_derived2`. -/
def derived1_cast_to_derived2 (derived1_h : Nat) : Nat :=
  if derived1_h ≠ 0 then derived1_h - off_d2_derived1 else 0

/-- `base1_cast_to_derived2`. -/
def base1_cast_to_derived2 (base1_h : Nat) : Nat :=
  if base1_h ≠ 0 then base1_h - off_d2_derived1 - off_d1_base1 else 0

/-- `base2_cast_to_derived2`. -/
def base2_cast_to_derived2 (base2_h : Nat) : Nat :=
  if base2_h ≠ 0 then base2_h - off_d2_derived1 - off_d1_base2 else 0

/-- `derived2_cast_to_derived1`. -/
def derived2_cast_to_derived1 (derived2_h : Nat) : Nat :=
  if derived2_h ≠ 0 then derived2_h + off_d2_derived1 else 0

/-- `derived2_derived1_increase_val4`. -/
def derived2_derived1_increase_val4 (s : State) (derived1_h : Nat) : my_rc_e × State :=
  if derived1_h = 0 then (MY_RC_E_EINVAL, s)
  else (MY_RC_E_SUCCESS,
    s.store (derived1_h + off_d1_val4) ((load32 s (derived1_h + off_d1_val4) + 20) % 2 ^ 32))

/-- `derived2_type_string_internal`. -/
def derived2_type_string_internal (_s : State) (_derived2_h : Nat) : String := "derived2"

/-- `derived2_base1_type_string`. -/
def derived2_base1_type_string (s : State) (base1_h : Nat) : String :=
  derived2_type_string_internal s (base1_cast_to_derived2 base1_h)

/-- `derived2_base2_type_string`. -/
def derived2_base2_type_string (s : State) (base2_h : Nat) : String :=
  derived2_type_string_internal s (base2_cast_to_derived2 base2_h)

/-- `derived2_delete`. -/
def derived2_delete (s : State) (derived2_h : Nat) : State :=
  if derived2_h = 0 then s
  else free (derived1_friend_delete s (derived2_h + off_d2_derived1)) derived2_h

/-- `derived2_base1_delete`. -/
def derived2_base1_delete (s : State) (base1_h : Nat) : State :=
  derived2_delete s (base1_cast_to_derived2 base1_h)

/-- `derived2_base2_delete`. -/
def derived2_base2_delete (s : State) (base2_h : Nat) : State :=
  derived2_delete s (base2_cast_to_derived2 base2_h)

/-- `derived2_derived1_delete`. -/
def derived2_derived1_delete (s : State) (derived1_h : Nat) : State :=
  derived2_delete s (derived1_cast_to_derived2 derived1_h)

/-! ## Virtual operations of derived1 -/

/-- The indirect call `f(derived1_h)` through a `derived1_delete_fn`. -/
def call_derived1_delete_fn (f : Nat) (s : State) (derived1_h : Nat) : Option State :=
  if f = addr_derived1_private_delete then some (derived1_private_delete s derived1_h)
  else if f = addr_derived2_derived1_delete then some (derived2_derived1_delete s derived1_h)
  else none

/-- The indirect call `f(derived1_h)` through a `derived1_increase_val4_fn`. -/
def call_derived1_increase_val4_fn (f : Nat) (s : State) (derived1_h : Nat) :
    Option (my_rc_e × State) :=
  if f = addr_derived1_increase_val4_internal then
    some (derived1_increase_val4_internal s derived1_h)
  else if f = addr_derived2_derived1_increase_val4 then
    some (derived2_derived1_increase_val4 s derived1_h)
  else none

/-- `derived1_increase_val4`. -/
def derived1_increase_val4 (s : State) (derived1_h : Nat) : Option (my_rc_e × State) :=
  let rc := VALIDATE_VTABLE_FN s derived1_h off_d1vt_increase_val4_fn MY_RC_E_SUCCESS
  if my_rc_e_is_notok rc then some (rc, s)
  else call_derived1_increase_val4_fn (vtable_fn s derived1_h off_d1vt_increase_val4_fn) s
    derived1_h

/-- `derived1_delete`. -/
def derived1_delete (s : State) (derived1_h : Nat) : Option State :=
  let rc := VALIDATE_VTABLE_FN s derived1_h off_d1vt_delete_fn MY_RC_E_SUCCESS
  if my_rc_e_is_notok rc then some s
  else call_derived1_delete_fn (vtable_fn s derived1_h off_d1vt_delete_fn) s derived1_h

/-- `derived1_base1_delete`. -/
def derived1_base1_delete (s : State) (base1_h : Nat) : Option State :=
  derived1_delete s (base1_cast_to_derived1 base1_h)

/-- `derived1_base2_delete`. -/
def derived1_base2_delete (s : State) (base2_h : Nat) : Option State :=
  derived1_delete s (base2_cast_to_derived1 base2_h)

/-! ## Virtual operations of base1 -/

/-- The indirect call `f(base1_h, buffer_size)` through a `base1_string_size_fn`. -/
def call_base1_string_size_fn (f : Nat) (s : State) (base1_h buffer_size : Nat) :
    Option (my_rc_e × State) :=
  if f = addr_base1_string_size_internal then
    some (base1_string_size_internal s base1_h buffer_size)
  else if f = addr_derived1_base1_string_size then
    some (derived1_base1_string_size s base1_h buffer_size)
  else none

/-- `base1_string_size`. -/
def base1_string_size (s : State) (base1_h buffer_size : Nat) : Option (my_rc_e × State) :=
  let rc := VALIDATE_VTABLE_FN s base1_h off_string_size_fn MY_RC_E_SUCCESS
  if my_rc_e_is_notok rc then some (rc, s)
  else call_base1_string_size_fn (vtable_fn s base1_h off_string_size_fn) s base1_h buffer_size

/-- The text formatted by `base1_string_internal`: `"val1(%u) val2(%u) val3(%u)"`. -/
def base1_text (s : State) (base1_h : Nat) : List Char :=
  "val1(".toList ++ fmt_u (load8 s (base1_h + off_public_data + off_pd_val1))
    ++ ") val2(".toList ++ fmt_u (load32 s (base1_h + off_public_data + off_pd_val2))
    ++ ") val3(".toList ++ fmt_u (load32 s (base1_h + off_val3)) ++ ")".toList

/-- `base1_string_internal`. -/
def base1_string_internal (s : State) (base1_h buffer buffer_size : Nat) :
    Option (my_rc_e × State) :=
  if base1_h = 0 ∨ buffer = 0 then some (MY_RC_E_EINVAL, s) else
  let rc := VALIDATE_VTABLE_FN s base1_h off_string_size_fn MY_RC_E_SUCCESS
  if my_rc_e_is_notok rc then some (rc, s) else
  match call_base1_string_size_fn (vtable_fn s base1_h off_string_size_fn) s base1_h
      addr_min_size with
  | none => none
  | some r =>
    if my_rc_e_is_notok r.1 then some (r.1, r.2)
    else if buffer_size < r.2.mem addr_min_size then some (MY_RC_E_EINVAL, r.2)
    else some (MY_RC_E_SUCCESS, snprintf r.2 buffer buffer_size (base1_text r.2 base1_h))

/-- The indirect call `f(base1_h)` through a `base1_type_string_fn`. -/
def call_base1_type_string_fn (f : Nat) (s : State) (base1_h : Nat) : Option String :=
  if f = addr_base1_type_string_internal then some (base1_type_string_internal s base1_h)
  else if f = addr_derived1_base1_type_string then some (derived1_base1_type_string s base1_h)
  else if f = addr_derived2_base1_type_string then some (derived2_base1_type_string s base1_h)
  else none

/-- `base1_type_string`. -/
def base1_type_string (s : State) (base1_h : Nat) : Option String :=
  let rc := VALIDATE_VTABLE_FN s base1_h off_type_string_fn MY_RC_E_SUCCESS
  if my_rc_e_is_notok rc then some ""
  else call_base1_type_string_fn (vtable_fn s base1_h off_type_string_fn) s base1_h

/-- The indirect call `f(base1_h, buffer, buffer_size)` through a `base1_string_fn`. -/
def call_base1_string_fn (f : Nat) (s : State) (base1_h buffer buffer_size : Nat) :
    Option (my_rc_e × State) :=
  if f = addr_base1_string_internal then base1_string_internal s base1_h buffer buffer_size
  else if f = addr_derived1_base1_string then
    some (derived1_base1_string s base1_h buffer buffer_size)
  else none

/-- `base1_string`. -/
def base1_string (s : State) (base1_h buffer buffer_size : Nat) : Option (my_rc_e × State) :=
  let rc := VALIDATE_VTABLE_FN s base1_h off_string_fn MY_RC_E_SUCCESS
  if my_rc_e_is_notok rc then some (rc, s)
  else call_base1_string_fn (vtable_fn s base1_h off_string_fn) s base1_h buffer buffer_size

/-- The indirect call `f(base1_h)` through a `base1_delete_fn`. -/
def call_base1_delete_fn (f : Nat) (s : State) (base1_h : Nat) : Option State :=
  if f = addr_base1_private_delete then some (base1_private_delete s base1_h)
  else if f = addr_derived1_base1_delete then derived1_base1_delete s base1_h
  else if f = addr_derived2_base1_delete then some (derived2_base1_delete s base1_h)
  else none

/-- `base1_delete`. -/
def base1_delete (s : State) (base1_h : Nat) : Option State :=
  let rc := VALIDATE_VTABLE_FN s base1_h off_delete_fn MY_RC_E_SUCCESS
  if my_rc_e_is_notok rc then some s
  else call_base1_delete_fn (vtable_fn s base1_h off_delete_fn) s base1_h

/-- The indirect call `f(base1_h)` through a `base1_increase_val3_fn`. -/
def call_base1_increase_val3_fn (f : Nat) (s : State) (base1_h : Nat) :
    Option (my_rc_e × State) :=
  if f = addr_base1_increase_val3_internal then some (base1_increase_val3_internal s base1_h)
  else none

/-- `base1_increase_val3`. -/
def base1_increase_val3 (s : State) (base1_h : Nat) : Option (my_rc_e × State) :=
  let rc := VALIDATE_VTABLE_FN s base1_h off_increase_val3_fn MY_RC_E_SUCCESS
  if my_rc_e_is_notok rc then some (rc, s)
  else call_base1_increase_val3_fn (vtable_fn s base1_h off_increase_val3_fn) s base1_h

/-! ## Virtual operations of base2 -/

/-- The indirect call `f(base2_h, buffer_size)` through a `base2_string_size_fn`. -/
def call_base2_string_size_fn (f : Nat) (s : State) (base2_h buffer_size : Nat) :
    Option (my_rc_e × State) :=
  if f = addr_base2_string_size_internal then
    some (base2_string_size_internal s base2_h buffer_size)
  else if f = addr_derived1_base2_string_size then
    some (derived1_base2_string_size s base2_h buffer_size)
  else none

/-- `base2_string_size`. -/
def base2_string_size (s : State) (base2_h buffer_size : Nat) : Option (my_rc_e × State) :=
  let rc := VALIDATE_VTABLE_FN s base2_h off_string_size_fn MY_RC_E_SUCCESS
  if my_rc_e_is_notok rc then some (rc, s)
  else call_base2_string_size_fn (vtable_fn s base2_h off_string_size_fn) s base2_h buffer_size

/-- The text formatted by `base2_string_internal`: `"val1(%u)"`. -/
def base2_text (s : State) (base2_h : Nat) : List Char :=
  "val1(".toList ++ fmt_u (load32 s (base2_h + off_b2_val1)) ++ ")".toList

/-- `base2_string_internal`. -/
def base2_string_internal (s : State) (base2_h buffer buffer_size : Nat) :
    Option (my_rc_e × State) :=
  if base2_h = 0 ∨ buffer = 0 then some (MY_RC_E_EINVAL, s) else
  let rc := VALIDATE_VTABLE_FN s base2_h off_string_size_fn MY_RC_E_SUCCESS
  if my_rc_e_is_notok rc then some (rc, s) else
  match call_base2_string_size_fn (vtable_fn s base2_h off_string_size_fn) s base2_h
      addr_min_size with
  | none => none
  | some r =>
    if my_rc_e_is_notok r.1 then some (r.1, r.2)
    else if buffer_size < r.2.mem addr_min_size then some (MY_RC_E_EINVAL, r.2)
    else some (MY_RC_E_SUCCESS, snprintf r.2 buffer buffer_size (base2_text r.2 base2_h))

/-- The indirect call `f(base2_h)` through a `base2_type_string_fn`. -/
def call_base2_type_string_fn (f : Nat) (s : State) (base2_h : Nat) : Option String :=
  if f = addr_base2_type_string_internal then some (base2_type_string_internal s base2_h)
  else if f = addr_derived1_base2_type_string then some (derived1_base2_type_string s base2_h)
  else if f = addr_derived2_base2_type_string then some (derived2_base2_type_string s base2_h)
  else none

/-- `base2_type_string`. -/
def base2_type_string (s : State) (base2_h : Nat) : Option String :=
  let rc := VALIDATE_VTABLE_FN s base2_h off_type_string_fn MY_RC_E_SUCCESS
  if my_rc_e_is_notok rc then some ""
  else call_base2_type_string_fn (vtable_fn s base2_h off_type_string_fn) s base2_h

/-- The indirect call `f(base2_h, buffer, buffer_size)` through a `base2_string_fn`. -/
def call_base2_string_fn (f : Nat) (s : State) (base2_h buffer buffer_size : Nat) :
    Option (my_rc_e × State) :=
  if f = addr_base2_string_internal then base2_string_internal s base2_h buffer buffer_size
  else if f = addr_derived1_base2_string then
    some (derived1_base2_string s base2_h buffer buffer_size)
  else none

/-- `base2_string`. -/
def base2_string (s : State) (base2_h buffer buffer_size : Nat) : Option (my_rc_e × State) :=
  let rc := VALIDATE_VTABLE_FN s base2_h off_string_fn MY_RC_E_SUCCESS
  if my_rc_e_is_notok rc then some (rc, s)
  else call_base2_string_fn (vtable_fn s base2_h off_string_fn) s base2_h buffer buffer_size

/-- The indirect call `f(base2_h)` through a `base2_delete_fn`. -/
def call_base2_delete_fn (f : Nat) (s : State) (base2_h : Nat) : Option State :=
  if f = addr_base2_private_delete then some (base2_private_delete s base2_h)
  else if f = addr_derived1_base2_delete then derived1_base2_delete s base2_h
  else if f = addr_derived2_base2_delete then some (derived2_base2_delete s base2_h)
  else none

/-- `base2_delete`. -/
def base2_delete (s : State) (base2_h : Nat) : Option State :=
  let rc := VALIDATE_VTABLE_FN s base2_h off_delete_fn MY_RC_E_SUCCESS
  if my_rc_e_is_notok rc then some s
  else call_base2_delete_fn (vtable_fn s base2_h off_delete_fn) s base2_h

/-- The indirect call `f(base2_h)` through a `base2_increase_val1_fn`. -/
def call_base2_increase_val1_fn (f : Nat) (s : State) (base2_h : Nat) :
    Option (my_rc_e × State) :=
  if f = addr_derived1_base2_increase_val1 then some (derived1_base2_increase_val1 s base2_h)
  else none

/-- `base2_increase_val1`. -/
def base2_increase_val1 (s : State) (base2_h : Nat) : Option (my_rc_e × State) :=
  let rc := VALIDATE_VTABLE_FN s base2_h off_increase_val1_fn MY_RC_E_SUCCESS
  if my_rc_e_is_notok rc then some (rc, s)
  else call_base2_increase_val1_fn (vtable_fn s base2_h off_increase_val1_fn) s base2_h

/-! ## derived1.c: tables, initialisation, construction -/

/-- `derived1_inherit_vtable`. -/
def derived1_inherit_vtable (s : State) (parent_vtable child_vtable : Nat)
    (do_null_check : Bool) : my_rc_e × State :=
  if parent_vtable = 0 ∨ child_vtable = 0 then (MY_RC_E_EINVAL, s) else
  let r1 := base1_inherit_vtable s derived1_base1_vtable
    (s.mem (child_vtable + off_d1vt_base1_vtable)) false
  if my_rc_e_is_notok r1.1 then (r1.1, r1.2) else
  let r2 := base2_inherit_vtable r1.2 derived1_base2_vtable
    (r1.2.mem (child_vtable + off_d1vt_base2_vtable)) false
  if my_rc_e_is_notok r2.1 then (r2.1, r2.2) else
  match INHERIT_VTABLE_FN r2.2 parent_vtable child_vtable off_d1vt_delete_fn do_null_check with
  | (s3, some rc) => (rc, s3)
  | (s3, none) =>
  match INHERIT_VTABLE_FN s3 parent_vtable child_vtable off_d1vt_increase_val4_fn
      do_null_check with
  | (s4, some rc) => (rc, s4)
  | (s4, none) => (MY_RC_E_SUCCESS, s4)

/-- `derived1_set_vtable`. -/
def derived1_set_vtable (s : State) (derived1_h vtable : Nat) : my_rc_e × State :=
  if derived1_h = 0 ∨ vtable = 0 then (MY_RC_E_EINVAL, s)
  else if s.mem (derived1_h + off_private_h) = 0 then (MY_RC_E_EINVAL, s)
  else
    let r := derived1_inherit_vtable s derived1_vtable vtable true
    if my_rc_e_is_notok r.1 then (r.1, r.2) else
    let r1 := base1_set_vtable r.2 (derived1_h + off_d1_base1)
      (r.2.mem (vtable + off_d1vt_base1_vtable))
    if my_rc_e_is_notok r1.1 then (r1.1, r1.2) else
    let r2 := base2_set_vtable r1.2 (derived1_h + off_d1_base2)
      (r1.2.mem (vtable + off_d1vt_base2_vtable))
    if my_rc_e_is_notok r2.1 then (r2.1, r2.2) else
    (MY_RC_E_SUCCESS, r2.2.store (r2.2.mem (derived1_h + off_private_h) + off_vtable) vtable)

/-- `derived1_init`. -/
def derived1_init (s : State) (derived1_h : Nat) : my_rc_e × State :=
  if derived1_h = 0 then (MY_RC_E_EINVAL, s) else
  let r1 := base1_init s (derived1_h + off_d1_base1)
  if my_rc_e_is_notok r1.1 then (r1.1, r1.2) else
  -- did_base1_init = true
  let r2 := base1_set_vtable r1.2 (derived1_h + off_d1_base1) derived1_base1_vtable
  if my_rc_e_is_notok r2.1 then (r2.1, r2.2) else
  let r3 := base2_init r2.2 (derived1_h + off_d1_base2)
  if my_rc_e_is_notok r3.1 then (r3.1, r3.2) else
  -- did_base2_init = true
  let r4 := base2_set_vtable r3.2 (derived1_h + off_d1_base2) derived1_base2_vtable
  if my_rc_e_is_notok r4.1 then (r4.1, r4.2) else
  let r5 := calloc r4.2 sizeof_private_st
  let s5 := r5.2.store (derived1_h + off_private_h) r5.1
  if s5.mem (derived1_h + off_private_h) = 0 then
    -- err_exit, reached with did_base1_init = did_base2_init = true
    let s6 :=
      if s5.mem (derived1_h + off_private_h) ≠ 0 then
        (free s5 (s5.mem (derived1_h + off_private_h))).store (derived1_h + off_private_h) 0
      else s5
    let s7 := base2_friend_delete s6 (derived1_h + off_d1_base2)
    let s8 := base1_friend_delete s7 (derived1_h + off_d1_base1)
    (MY_RC_E_ENOMEM, s8)
  else
    let s6 := s5.store (s5.mem (derived1_h + off_private_h) + off_vtable) derived1_vtable
    let s7 := s6.store (derived1_h + off_d1_val4) 500
    (MY_RC_E_SUCCESS, s7)

/-- `derived1_new1`. -/
def derived1_new1 (s : State) : Option (Nat × State) :=
  let r := calloc s sizeof_derived1_st
  if r.1 ≠ 0 then
    let i := derived1_init r.2 r.1
    if my_rc_e_is_notok i.1 then
      -- err_exit
      (derived1_delete i.2 r.1).map (fun s1 => (0, s1))
    else some (r.1, i.2)
  else some (r.1, r.2)

/-! ## derived2.c: initialisation, construction -/

/-- `derived2_init`. -/
def derived2_init (s : State) (derived2_h : Nat) : my_rc_e × State :=
  if derived2_h = 0 then (MY_RC_E_EINVAL, s) else
  let r1 := derived1_init s (derived2_h + off_d2_derived1)
  if my_rc_e_is_notok r1.1 then (r1.1, r1.2) else
  let r2 := derived1_set_vtable r1.2 (derived2_h + off_d2_derived1) derived2_derived1_vtable
  if my_rc_e_is_notok r2.1 then (r2.1, r2.2) else
  let s3 := r2.2.store (derived2_h + off_d2_derived1 + off_d1_base2 + off_b2_val1) 999
  let s4 := s3.store (derived2_h + off_d2_derived1 + off_d1_val4) 700
  (MY_RC_E_SUCCESS, s4)

/-- `derived2_new1`. -/
def derived2_new1 (s : State) : Nat × State :=
  let r := calloc s sizeof_derived2_st
  if r.1 ≠ 0 then
    let i := derived2_init r.2 r.1
    if my_rc_e_is_notok i.1 then
      -- err_exit
      (0, derived2_delete i.2 r.1)
    else (r.1, i.2)
  else (r.1, r.2)

/-! ## Static data at program start -/

/-- The initialisers of the eight static tables, as (address, value) pairs. -/
def static_data : List (Nat × Nat) :=
  [ -- base1.c: base1_vtable
    (base1_vtable + off_delete_fn, addr_base1_private_delete),
    (base1_vtable + off_type_string_fn, addr_base1_type_string_internal),
    (base1_vtable + off_string_fn, addr_base1_string_internal),
    (base1_vtable + off_string_size_fn, addr_base1_string_size_internal),
    (base1_vtable + off_increase_val3_fn, addr_base1_increase_val3_internal),
    -- base2.c: base2_vtable
    (base2_vtable + off_delete_fn, addr_base2_private_delete),
    (base2_vtable + off_type_string_fn, addr_base2_type_string_internal),
    (base2_vtable + off_string_fn, addr_base2_string_internal),
    (base2_vtable + off_string_size_fn, addr_base2_string_size_internal),
    (base2_vtable + off_increase_val1_fn, 0),
    -- derived1.c: base1_vtable
    (derived1_base1_vtable + off_delete_fn, addr_derived1_base1_delete),
    (derived1_base1_vtable + off_type_string_fn, addr_derived1_base1_type_string),
    (derived1_base1_vtable + off_string_fn, addr_derived1_base1_string),
    (derived1_base1_vtable + off_string_size_fn, addr_derived1_base1_string_size),
    (derived1_base1_vtable + off_increase_val3_fn, 0),
    -- derived1.c: base2_vtable
    (derived1_base2_vtable + off_delete_fn, addr_derived1_base2_delete),
    (derived1_base2_vtable + off_type_string_fn, addr_derived1_base2_type_string),
    (derived1_base2_vtable + off_string_fn, addr_derived1_base2_string),
    (derived1_base2_vtable + off_string_size_fn, addr_derived1_base2_string_size),
    (derived1_base2_vtable + off_increase_val1_fn, addr_derived1_base2_increase_val1),
    -- derived1.c: derived1_vtable
    (derived1_vtable + off_d1vt_base1_vtable, derived1_base1_vtable),
    (derived1_vtable + off_d1vt_base2_vtable, derived1_base2_vtable),
    (derived1_vtable + off_d1vt_delete_fn, addr_derived1_private_delete),
    (derived1_vtable + off_d1vt_increase_val4_fn, addr_derived1_increase_val4_internal),
    -- derived2.c: base1_vtable
    (derived2_base1_vtable + off_delete_fn, addr_derived2_base1_delete),
    (derived2_base1_vtable + off_type_string_fn, addr_derived2_base1_type_string),
    (derived2_base1_vtable + off_string_fn, 0),
    (derived2_base1_vtable + off_string_size_fn, 0),
    (derived2_base1_vtable + off_increase_val3_fn, 0),
    -- derived2.c: base2_vtable
    (derived2_base2_vtable + off_delete_fn, addr_derived2_base2_delete),
    (derived2_base2_vtable + off_type_string_fn, addr_derived2_base2_type_string),
    (derived2_base2_vtable + off_string_fn, 0),
    (derived2_base2_vtable + off_string_size_fn, 0),
    (derived2_base2_vtable + off_increase_val1_fn, 0),
    -- derived2.c: derived1_vtable
    (derived2_derived1_vtable + off_d1vt_base1_vtable, derived2_base1_vtable),
    (derived2_derived1_vtable + off_d1vt_base2_vtable, derived2_base2_vtable),
    (derived2_derived1_vtable + off_d1vt_delete_fn, addr_derived2_derived1_delete),
    (derived2_derived1_vtable + off_d1vt_increase_val4_fn,
      addr_derived2_derived1_increase_val4) ]

/-- The state at program start: static tables as initialised, empty heap, every
allocation succeeding. -/
def initial_state : State :=
  { mem := fun a => (static_data.lookup a).getD 0
    brk := heap_base
    calloc_fails := []
    allocated := []
    freed := [] }

/-- A slot of a static table holds its initialiser or, when that is `NULL`, possibly
the value reconciliation puts there. -/
def slot_is (s : State) (a init resolved : Nat) : Prop :=
  s.mem a = init ∨ s.mem a = resolved

instance slot_is_decidable (s : State) (a init resolved : Nat) :
    Decidable (slot_is s a init resolved) := by
  unfold slot_is; infer_instance

/-- The static tables are as at program start or as patched by earlier
constructions, and the heap lies above the static data. -/
structure statics_ok (s : State) : Prop where
  heap : heap_base ≤ s.brk
  -- base1.c
  b1_delete : s.mem (base1_vtable + off_delete_fn) = addr_base1_private_delete
  b1_type_string : s.mem (base1_vtable + off_type_string_fn) = addr_base1_type_string_internal
  b1_string : s.mem (base1_vtable + off_string_fn) = addr_base1_string_internal
  b1_string_size : s.mem (base1_vtable + off_string_size_fn) = addr_base1_string_size_internal
  b1_increase :
    s.mem (base1_vtable + off_increase_val3_fn) = addr_base1_increase_val3_internal
  -- base2.c
  b2_delete : s.mem (base2_vtable + off_delete_fn) = addr_base2_private_delete
  b2_type_string : s.mem (base2_vtable + off_type_string_fn) = addr_base2_type_string_internal
  b2_string : s.mem (base2_vtable + off_string_fn) = addr_base2_string_internal
  b2_string_size : s.mem (base2_vtable + off_string_size_fn) = addr_base2_string_size_internal
  b2_increase : s.mem (base2_vtable + off_increase_val1_fn) = 0
  -- derived1.c
  d1b1_delete : s.mem (derived1_base1_vtable + off_delete_fn) = addr_derived1_base1_delete
  d1b1_type_string :
    s.mem (derived1_base1_vtable + off_type_string_fn) = addr_derived1_base1_type_string
  d1b1_string : s.mem (derived1_base1_vtable + off_string_fn) = addr_derived1_base1_string
  d1b1_string_size :
    s.mem (derived1_base1_vtable + off_string_size_fn) = addr_derived1_base1_string_size
  d1b1_increase :
    slot_is s (derived1_base1_vtable + off_increase_val3_fn) 0 addr_base1_increase_val3_internal
  d1b2_delete : s.mem (derived1_base2_vtable + off_delete_fn) = addr_derived1_base2_delete
  d1b2_type_string :
    s.mem (derived1_base2_vtable + off_type_string_fn) = addr_derived1_base2_type_string
  d1b2_string : s.mem (derived1_base2_vtable + off_string_fn) = addr_derived1_base2_string
  d1b2_string_size :
    s.mem (derived1_base2_vtable + off_string_size_fn) = addr_derived1_base2_string_size
  d1b2_increase :
    s.mem (derived1_base2_vtable + off_increase_val1_fn) = addr_derived1_base2_increase_val1
  d1_base1_vtable : s.mem (derived1_vtable + off_d1vt_base1_vtable) = derived1_base1_vtable
  d1_base2_vtable : s.mem (derived1_vtable + off_d1vt_base2_vtable) = derived1_base2_vtable
  d1_delete : s.mem (derived1_vtable + off_d1vt_delete_fn) = addr_derived1_private_delete
  d1_increase :
    s.mem (derived1_vtable + off_d1vt_increase_val4_fn) = addr_derived1_increase_val4_internal
  -- derived2.c
  d2b1_delete : s.mem (derived2_base1_vtable + off_delete_fn) = addr_derived2_base1_delete
  d2b1_type_string :
    s.mem (derived2_base1_vtable + off_type_string_fn) = addr_derived2_base1_type_string
  d2b1_string : slot_is s (derived2_base1_vtable + off_string_fn) 0 addr_derived1_base1_string
  d2b1_string_size :
    slot_is s (derived2_base1_vtable + off_string_size_fn) 0 addr_derived1_base1_string_size
  d2b1_increase :
    slot_is s (derived2_base1_vtable + off_increase_val3_fn) 0 addr_base1_increase_val3_internal
  d2b2_delete : s.mem (derived2_base2_vtable + off_delete_fn) = addr_derived2_base2_delete
  d2b2_type_string :
    s.mem (derived2_base2_vtable + off_type_string_fn) = addr_derived2_base2_type_string
  d2b2_string : slot_is s (derived2_base2_vtable + off_string_fn) 0 addr_derived1_base2_string
  d2b2_string_size :
    slot_is s (derived2_base2_vtable + off_string_size_fn) 0 addr_derived1_base2_string_size
  d2b2_increase :
    slot_is s (derived2_base2_vtable + off_increase_val1_fn) 0 addr_derived1_base2_increase_val1
  d2d1_base1_vtable :
    s.mem (derived2_derived1_vtable + off_d1vt_base1_vtable) = derived2_base1_vtable
  d2d1_base2_vtable :
    s.mem (derived2_derived1_vtable + off_d1vt_base2_vtable) = derived2_base2_vtable
  d2d1_delete :
    s.mem (derived2_derived1_vtable + off_d1vt_delete_fn) = addr_derived2_derived1_delete
  d2d1_increase :
    s.mem (derived2_derived1_vtable + off_d1vt_increase_val4_fn) =
      addr_derived2_derived1_increase_val4

/-- Slot `i` (0..4) of the five-slot table at `vt`. -/
def slot (s : State) (vt i : Nat) : Nat := s.mem (vt + 8 * i)

/-- Two five-slot tables are the same object or do not overlap. -/
def tables_ok (parent child : Nat) : Prop :=
  parent = child ∨ parent + sizeof_vtable_st ≤ child ∨ child + sizeof_vtable_st ≤ parent

instance tables_ok_decidable (parent child : Nat) : Decidable (tables_ok parent child) := by
  unfold tables_ok; infer_instance

/-- One `INHERIT_VTABLE_FN` without its error exit: fill the child's slot from
the parent's when the child's is null. -/
def fill_slot (s : State) (parent_vtable child_vtable fn : Nat) : State :=
  if s.mem (child_vtable + fn) = 0 then
    s.store (child_vtable + fn) (s.mem (parent_vtable + fn))
  else s

/-- All five slots filled, in the order of `base1_inherit_vtable`. -/
def fill5 (s : State) (p c : Nat) : State :=
  fill_slot (fill_slot (fill_slot (fill_slot (fill_slot s p c 0) p c 8) p c 16) p c 24) p c 32

/-- The merge rule of one slot: the child's value if non-null, else the parent's. -/
def merge_slot (child parent : Nat) : Nat := if child = 0 then parent else child

/-- The value reconciliation puts into a slot that a static table of derived1.c or
derived2.c leaves `NULL` (0 for every other address). -/
def resolved (x : Nat) : Nat :=
  if x = derived1_base1_vtable + off_increase_val3_fn then addr_base1_increase_val3_internal
  else if x = derived2_base1_vtable + off_string_fn then addr_derived1_base1_string
  else if x = derived2_base1_vtable + off_string_size_fn then addr_derived1_base1_string_size
  else if x = derived2_base1_vtable + off_increase_val3_fn then
    addr_base1_increase_val3_internal
  else if x = derived2_base2_vtable + off_string_fn then addr_derived1_base2_string
  else if x = derived2_base2_vtable + off_string_size_fn then addr_derived1_base2_string_size
  else if x = derived2_base2_vtable + off_increase_val1_fn then
    addr_derived1_base2_increase_val1
  else 0

/-- Some of the four validations of `VALIDATE_VTABLE_FN` fails: the handle is null, or
its private block is null, or the block's vtable reference is null, or slot `fn` of that
table is null. -/
def dispatch_invalid (s : State) (obj_h fn : Nat) : Prop :=
  obj_h = 0 ∨ s.mem (obj_h + off_private_h) = 0 ∨
    s.mem (s.mem (obj_h + off_private_h) + off_vtable) = 0 ∨ vtable_fn s obj_h fn = 0

/-- The byte ranges `[a, a + n)` and `[b, b + m)` do not overlap. -/
def separate (a n b m : Nat) : Prop := a + n ≤ b ∨ b + m ≤ a

instance separate_decidable (a n b m : Nat) : Decidable (separate a n b m) := by
  unfold separate; infer_instance

/-- Table `vt` is installed on the heap object at `obj_h`: the object has a private
block on the heap and that block refers to `vt`. -/
def installed (s : State) (obj_h vt : Nat) : Prop :=
  heap_base ≤ obj_h ∧ heap_base ≤ s.mem (obj_h + off_private_h) ∧
    s.mem (s.mem (obj_h + off_private_h) + off_vtable) = vt

/-- A fully constructed plain base1 object: base1.c's table is installed and the private
block lies outside the object. -/
def base1_object (s : State) (base1_h : Nat) : Prop :=
  statics_ok s ∧ installed s base1_h base1_vtable ∧
  separate (s.mem (base1_h + off_private_h)) sizeof_private_st base1_h sizeof_base1_st

/-- A fully constructed derived1 object: the three tables of derived1.c are installed on
the embedded base1, the embedded base2 and the object itself, the three private blocks are
distinct and lie outside the object, and the slot derived1.c leaves `NULL` has been
inherited. -/
def derived1_object (s : State) (derived1_h : Nat) : Prop :=
  statics_ok s ∧
  installed s (derived1_h + off_d1_base1) derived1_base1_vtable ∧
  installed s (derived1_h + off_d1_base2) derived1_base2_vtable ∧
  installed s derived1_h derived1_vtable ∧
  separate (s.mem (derived1_h + off_d1_base1 + off_private_h)) sizeof_private_st
    derived1_h sizeof_derived1_st ∧
  separate (s.mem (derived1_h + off_d1_base2 + off_private_h)) sizeof_private_st
    derived1_h sizeof_derived1_st ∧
  (separate (s.mem (derived1_h + off_private_h)) sizeof_private_st
      derived1_h sizeof_derived1_st ∧
    s.mem (derived1_h + off_d1_base1 + off_private_h)
      ≠ s.mem (derived1_h + off_d1_base2 + off_private_h) ∧
    s.mem (derived1_h + off_d1_base1 + off_private_h) ≠ s.mem (derived1_h + off_private_h) ∧
    s.mem (derived1_h + off_d1_base2 + off_private_h) ≠ s.mem (derived1_h + off_private_h)) ∧
  s.mem (derived1_base1_vtable + off_increase_val3_fn) = addr_base1_increase_val3_internal

/-- A fully constructed derived2 object: the three tables of derived2.c are installed on
the embedded base1, the embedded base2 and the embedded derived1, the three private blocks
are distinct and lie outside the object, and every slot derived2.c leaves `NULL` has been
inherited. -/
def derived2_object (s : State) (derived2_h : Nat) : Prop :=
  statics_ok s ∧
  installed s (derived2_h + off_d2_derived1 + off_d1_base1) derived2_base1_vtable ∧
  installed s (derived2_h + off_d2_derived1 + off_d1_base2) derived2_base2_vtable ∧
  installed s (derived2_h + off_d2_derived1) derived2_derived1_vtable ∧
  separate (s.mem (derived2_h + off_d2_derived1 + off_d1_base1 + off_private_h))
    sizeof_private_st derived2_h sizeof_derived2_st ∧
  separate (s.mem (derived2_h + off_d2_derived1 + off_d1_base2 + off_private_h))
    sizeof_private_st derived2_h sizeof_derived2_st ∧
  (separate (s.mem (derived2_h + off_d2_derived1 + off_private_h)) sizeof_private_st
      derived2_h sizeof_derived2_st ∧
    s.mem (derived2_h + off_d2_derived1 + off_d1_base1 + off_private_h)
      ≠ s.mem (derived2_h + off_d2_derived1 + off_d1_base2 + off_private_h) ∧
    s.mem (derived2_h + off_d2_derived1 + off_d1_base1 + off_private_h)
      ≠ s.mem (derived2_h + off_d2_derived1 + off_private_h) ∧
    s.mem (derived2_h + off_d2_derived1 + off_d1_base2 + off_private_h)
      ≠ s.mem (derived2_h + off_d2_derived1 + off_private_h)) ∧
  s.mem (derived2_base1_vtable + off_string_fn) = addr_derived1_base1_string ∧
  s.mem (derived2_base1_vtable + off_string_size_fn) = addr_derived1_base1_string_size ∧
  s.mem (derived2_base1_vtable + off_increase_val3_fn) = addr_base1_increase_val3_internal ∧
  s.mem (derived2_base2_vtable + off_string_fn) = addr_derived1_base2_string ∧
  s.mem (derived2_base2_vtable + off_string_size_fn) = addr_derived1_base2_string_size ∧
  s.mem (derived2_base2_vtable + off_increase_val1_fn) = addr_derived1_base2_increase_val1

/-! ## common.c -/

/-- The numeric value of a return code (the position in the `enum`). -/
def my_rc_e.code : my_rc_e → Int
  | MY_RC_E_INVALID => 0
  | MY_RC_E_SUCCESS => 1
  | MY_RC_E_EINVAL => 2
  | MY_RC_E_ENOMEM => 3
  | MY_RC_E_MAX => 4

/-- The table `my_rc_e_string`. -/
def my_rc_e_string : List String :=
  ["Invalid RC", "Success", "Invalid input", "No memory", "Max RC"]

/-- `my_rc_e_is_valid`, on the numeric value of its argument. -/
def my_rc_e_is_valid (rc : Int) : Bool :=
  decide (rc ≥ my_rc_e.code MY_RC_E_INVALID) && decide (rc ≤ my_rc_e.code MY_RC_E_MAX)

/-- `my_rc_e_get_string`, on the numeric value of its argument; `none` is an access
outside the table. -/
def my_rc_e_get_string (rc : Int) : Option String :=
  if my_rc_e_is_valid rc then my_rc_e_string[rc.toNat]? else some "__Invalid__"

/-! ## The public non-deleting operations, as one call each -/

/-- A call of a public non-deleting operation of base1.h on a base1 handle, with its
arguments other than the handle. -/
inductive base1_op where
  | get_public_data (public_data : Nat)
  | set_public_data (public_data : Nat)
  | type_string
  | string_size (buffer_size : Nat)
  | string (buffer buffer_size : Nat)
  | increase_val3

/-- A call of a public non-deleting operation of base2.h on a base2 handle. -/
inductive base2_op where
  | get_val1 (val1 : Nat)
  | type_string
  | string_size (buffer_size : Nat)
  | string (buffer buffer_size : Nat)
  | increase_val1

/-- The state after the call `op` on `base1_h`; `none` when the call's behaviour is
undefined. -/
def base1_op.run (s : State) (base1_h : Nat) : base1_op → Option State
  | .get_public_data public_data => some (base1_get_public_data s base1_h public_data).2
  | .set_public_data public_data => some (base1_set_public_data s base1_h public_data).2
  | .type_string => (base1_type_string s base1_h).map (fun _ => s)
  | .string_size buffer_size => (base1_string_size s base1_h buffer_size).map Prod.snd
  | .string buffer buffer_size => (base1_string s base1_h buffer buffer_size).map Prod.snd
  | .increase_val3 => (base1_increase_val3 s base1_h).map Prod.snd

/-- The state after the call `op` on `base2_h`; `none` when the call's behaviour is
undefined. -/
def base2_op.run (s : State) (base2_h : Nat) : base2_op → Option State
  | .get_val1 val1 => some (base2_get_val1 s base2_h val1).2
  | .type_string => (base2_type_string s base2_h).map (fun _ => s)
  | .string_size buffer_size => (base2_string_size s base2_h buffer_size).map Prod.snd
  | .string buffer buffer_size => (base2_string s base2_h buffer buffer_size).map Prod.snd
  | .increase_val1 => (base2_increase_val1 s base2_h).map Prod.snd

/-- Address `x` lies in the caller's output object of the call: the record of a get, the
`size_t` of a size query, the buffer of `string`. -/
def base1_op.output : base1_op → Nat → Prop
  | .get_public_data public_data, x => public_data ≤ x ∧ x < public_data + 8
  | .string_size buffer_size, x => buffer_size ≤ x ∧ x < buffer_size + 8
  | .string buffer buffer_size, x => buffer ≤ x ∧ x < buffer + buffer_size
  | _, _ => False

/-- Address `x` lies in the caller's output object of the call. -/
def base2_op.output : base2_op → Nat → Prop
  | .get_val1 val1, x => val1 ≤ x ∧ x < val1 + 4
  | .string_size buffer_size, x => buffer_size ≤ x ∧ x < buffer_size + 8
  | .string buffer buffer_size, x => buffer ≤ x ∧ x < buffer + buffer_size
  | _, _ => False

/-- The cells the dispatch on a plain base1 object reads: the static tables, the private
reference and the vtable reference. -/
def base1_dispatch_cells (s : State) (base1_h x : Nat) : Prop :=
  x < addr_min_size ∨ x = base1_h + off_private_h ∨
    x = s.mem (base1_h + off_private_h) + off_vtable

/-- The cells the dispatch on a derived1 object (or on the derived1 embedded at offset 0
in a derived2 object) reads: the static tables, the three private references and the three
vtable references. -/
def derived1_dispatch_cells (s : State) (derived1_h x : Nat) : Prop :=
  x < addr_min_size ∨ x = derived1_h + off_private_h ∨
    x = derived1_h + off_d1_base1 + off_private_h ∨
    x = derived1_h + off_d1_base2 + off_private_h ∨
    x = s.mem (derived1_h + off_private_h) + off_vtable ∨
    x = s.mem (derived1_h + off_d1_base1 + off_private_h) + off_vtable ∨
    x = s.mem (derived1_h + off_d1_base2 + off_private_h) + off_vtable

/-- The state at program start when the coming `calloc` calls have the outcomes `fails`
(`true`: returns NULL). -/
def initial_state_failing (fails : List Bool) : State :=
  { initial_state with calloc_fails := fails }

/-- The result code is `MY_RC_E_SUCCESS` or `MY_RC_E_EINVAL`. -/
def success_or_einval (rc : my_rc_e) : Prop :=
  rc = MY_RC_E_SUCCESS ∨ rc = MY_RC_E_EINVAL

instance success_or_einval_decidable (rc : my_rc_e) : Decidable (success_or_einval rc) := by
  unfold success_or_einval; infer_instance

/-- The functions of derived2.c that its three static tables name (the non-null
initialisers of `base1_vtable`, `base2_vtable` and `derived1_vtable` in derived2.c). -/
def derived2_functions : List Nat :=
  [addr_derived2_base1_delete, addr_derived2_base1_type_string, addr_derived2_base2_delete,
    addr_derived2_base2_type_string, addr_derived2_derived1_delete,
    addr_derived2_derived1_increase_val4]

/-- `sizeof(derived1_vtable_st)` (four pointers). -/
abbrev sizeof_derived1_vtable_st : Nat := 32

/-- The `derived1_vtable_st` at `vtable` and the two five-slot tables it names lie in static
storage, below the heap, and neither of the two tables overlaps the `derived1_vtable_st`
itself. -/
def vtable_in_statics (s : State) (vtable : Nat) : Prop :=
  vtable + sizeof_derived1_vtable_st ≤ heap_base ∧
  s.mem (vtable + off_d1vt_base1_vtable) + sizeof_vtable_st ≤ heap_base ∧
  s.mem (vtable + off_d1vt_base2_vtable) + sizeof_vtable_st ≤ heap_base ∧
  separate (s.mem (vtable + off_d1vt_base1_vtable)) sizeof_vtable_st vtable
    sizeof_derived1_vtable_st ∧
  separate (s.mem (vtable + off_d1vt_base2_vtable)) sizeof_vtable_st vtable
    sizeof_derived1_vtable_st

instance vtable_in_statics_decidable (s : State) (vtable : Nat) :
    Decidable (vtable_in_statics s vtable) := by
  unfold vtable_in_statics; infer_instance

/-- The derived1 object at `derived1_h` lies on the heap; each of its three private
references (its own, the embedded base1's, the embedded base2's) is null or a block on the
heap; base1's block, when there is one, lies outside the object and is not the block of
base2 or of derived1. -/
def private_blocks_on_heap (s : State) (derived1_h : Nat) : Prop :=
  heap_base ≤ derived1_h ∧
  (s.mem (derived1_h + off_private_h) = 0 ∨ heap_base ≤ s.mem (derived1_h + off_private_h)) ∧
  (s.mem (derived1_h + off_d1_base2 + off_private_h) = 0 ∨
    heap_base ≤ s.mem (derived1_h + off_d1_base2 + off_private_h)) ∧
  (s.mem (derived1_h + off_d1_base1 + off_private_h) = 0 ∨
    (heap_base ≤ s.mem (derived1_h + off_d1_base1 + off_private_h) ∧
      separate (s.mem (derived1_h + off_d1_base1 + off_private_h)) sizeof_private_st
        derived1_h sizeof_derived1_st ∧
      s.mem (derived1_h + off_d1_base1 + off_private_h)
        ≠ s.mem (derived1_h + off_d1_base2 + off_private_h) ∧
      s.mem (derived1_h + off_d1_base1 + off_private_h) ≠ s.mem (derived1_h + off_private_h)))

instance private_blocks_on_heap_decidable (s : State) (derived1_h : Nat) :
    Decidable (private_blocks_on_heap s derived1_h) := by
  unfold private_blocks_on_heap; infer_instance

/-! # Theorems -/

@[simp] theorem store_mem (s : State) (a v x : Nat) :
    (s.store a v).mem x = if x = a then v else s.mem x := rfl

@[simp] theorem store_brk (s : State) (a v : Nat) : (s.store a v).brk = s.brk := rfl

theorem INHERIT_VTABLE_FN_eq (s : State) (p c fn : Nat) (dnc : Bool) :
    INHERIT_VTABLE_FN s p c fn dnc =
      (fill_slot s p c fn,
        if dnc = true ∧ s.mem (c + fn) = 0 ∧ s.mem (p + fn) = 0 then some MY_RC_E_EINVAL
        else none) := by
  unfold INHERIT_VTABLE_FN fill_slot
  by_cases h : s.mem (c + fn) = 0 <;> cases dnc <;> simp [h]
  by_cases h2 : s.mem (p + fn) = 0 <;> simp [h2]

theorem fill_slot_mem (s : State) (p c fn x : Nat) :
    (fill_slot s p c fn).mem x =
      if x = c + fn ∧ s.mem (c + fn) = 0 then s.mem (p + fn) else s.mem x := by
  unfold fill_slot
  by_cases h : s.mem (c + fn) = 0 <;> simp [h]

theorem fill_slot_parent (s : State) (p c fn g : Nat) (h : tables_ok p c)
    (hfn : fn < 40) (hg : g < 40) :
    (fill_slot s p c fn).mem (p + g) = s.mem (p + g) := by
  rw [fill_slot_mem]
  simp only [tables_ok, sizeof_vtable_st] at h
  split_ifs with h1
  · rcases h with h | h | h
    · subst h
      have : g = fn := by omega
      rw [this]
    · omega
    · omega
  · rfl

theorem fill_slot_child (s : State) (p c fn g : Nat) :
    (fill_slot s p c fn).mem (c + g) =
      if g = fn then (if s.mem (c + fn) = 0 then s.mem (p + fn) else s.mem (c + fn))
      else s.mem (c + g) := by
  rw [fill_slot_mem]
  by_cases h : g = fn
  · subst h
    by_cases h2 : s.mem (c + g) = 0 <;> simp [h2]
  · have : ¬ (c + g = c + fn) := by omega
    simp [h, this]

theorem fill5_parent (s : State) (p c g : Nat) (h : tables_ok p c) (hg : g < 40) :
    (fill5 s p c).mem (p + g) = s.mem (p + g) := by
  unfold fill5
  rw [fill_slot_parent _ _ _ _ _ h (by norm_num) hg, fill_slot_parent _ _ _ _ _ h (by norm_num) hg,
    fill_slot_parent _ _ _ _ _ h (by norm_num) hg, fill_slot_parent _ _ _ _ _ h (by norm_num) hg,
    fill_slot_parent _ _ _ _ _ h (by norm_num) hg]

theorem fill5_child (s : State) (p c i : Nat) (h : tables_ok p c) (hi : i < 5) :
    (fill5 s p c).mem (c + 8 * i) = merge_slot (s.mem (c + 8 * i)) (s.mem (p + 8 * i)) := by
  have hp : ∀ (t : State) (fn g : Nat), fn < 40 → g < 40 →
      (fill_slot t p c fn).mem (p + g) = t.mem (p + g) :=
    fun t fn g h1 h2 => fill_slot_parent t p c fn g h h1 h2
  unfold fill5 merge_slot
  interval_cases i <;>
    simp +decide only [fill_slot_child, if_true, if_false] <;> simp [hp]

theorem base1_inherit_vtable_lenient (s : State) (p c : Nat) (hp : p ≠ 0) (hc : c ≠ 0) :
    base1_inherit_vtable s p c false = (MY_RC_E_SUCCESS, fill5 s p c) := by
  unfold base1_inherit_vtable fill5
  simp [hp, hc, INHERIT_VTABLE_FN_eq]

theorem exists_lt_five (P : Nat → Prop) :
    (∃ i, i < 5 ∧ P i) ↔ P 0 ∨ P 1 ∨ P 2 ∨ P 3 ∨ P 4 := by
  constructor
  · rintro ⟨i, hi, h⟩
    interval_cases i <;> simp [h]
  · rintro (h | h | h | h | h)
    exacts [⟨0, by norm_num, h⟩, ⟨1, by norm_num, h⟩, ⟨2, by norm_num, h⟩,
      ⟨3, by norm_num, h⟩, ⟨4, by norm_num, h⟩]

theorem fill_slot_child0 (s : State) (p c fn : Nat) (hfn : 0 < fn) :
    (fill_slot s p c fn).mem c = s.mem c := by
  have := fill_slot_child s p c fn 0
  simp only [Nat.add_zero] at this
  rw [this, if_neg (by omega)]

theorem fill_slot_parent0 (s : State) (p c fn : Nat) (h : tables_ok p c) (hfn : fn < 40) :
    (fill_slot s p c fn).mem p = s.mem p := by
  have := fill_slot_parent s p c fn 0 h hfn (by norm_num)
  simpa using this

theorem base1_inherit_vtable_strict (s : State) (p c : Nat) (hp : p ≠ 0) (hc : c ≠ 0)
    (h : tables_ok p c) :
    ((∃ i, i < 5 ∧ s.mem (c + 8 * i) = 0 ∧ s.mem (p + 8 * i) = 0) →
        (base1_inherit_vtable s p c true).1 = MY_RC_E_EINVAL) ∧
      ((¬ ∃ i, i < 5 ∧ s.mem (c + 8 * i) = 0 ∧ s.mem (p + 8 * i) = 0) →
        base1_inherit_vtable s p c true = (MY_RC_E_SUCCESS, fill5 s p c)) := by
  have hpar : ∀ (t : State) (fn g : Nat), fn < 40 → g < 40 →
      (fill_slot t p c fn).mem (p + g) = t.mem (p + g) :=
    fun t fn g h1 h2 => fill_slot_parent t p c fn g h h1 h2
  have hpar0 : ∀ (t : State) (fn : Nat), fn < 40 → (fill_slot t p c fn).mem p = t.mem p :=
    fun t fn h1 => fill_slot_parent0 t p c fn h h1
  rw [exists_lt_five]
  unfold base1_inherit_vtable fill5
  simp only [INHERIT_VTABLE_FN_eq, off_delete_fn, off_type_string_fn, off_string_fn,
    off_string_size_fn, off_increase_val3_fn]
  by_cases h0 : s.mem c = 0 ∧ s.mem p = 0
  · simp [hp, hc, h0]
  by_cases h1 : s.mem (c + 8) = 0 ∧ s.mem (p + 8) = 0
  · simp [hp, hc, h0, h1, fill_slot_child, hpar]
  by_cases h2 : s.mem (c + 16) = 0 ∧ s.mem (p + 16) = 0
  · simp [hp, hc, h0, h1, h2, fill_slot_child, hpar]
  by_cases h3 : s.mem (c + 24) = 0 ∧ s.mem (p + 24) = 0
  · simp [hp, hc, h0, h1, h2, h3, fill_slot_child, hpar]
  by_cases h4 : s.mem (c + 32) = 0 ∧ s.mem (p + 32) = 0
  · simp [hp, hc, h0, h1, h2, h3, h4, fill_slot_child, hpar]
  · simp [hp, hc, h0, h1, h2, h3, h4, fill_slot_child, hpar]

theorem base2_inherit_vtable_eq (s : State) (p c : Nat) (dnc : Bool) :
    base2_inherit_vtable s p c dnc = base1_inherit_vtable s p c dnc := rfl

theorem inherit_cases (inherit : State → Nat → Nat → Bool → my_rc_e × State)
    (h : inherit = base1_inherit_vtable ∨ inherit = base2_inherit_vtable) :
    inherit = base1_inherit_vtable := by
  rcases h with h | h
  · exact h
  · rw [h]
    funext s p c dnc
    exact base2_inherit_vtable_eq s p c dnc

theorem merge_slot_eq (c p : Nat) : merge_slot c p = if c ≠ 0 then c else p := by
  unfold merge_slot
  by_cases h : c = 0 <;> simp [h]

/-- C1: lenient reconciliation (`do_null_check = false`) of two non-null five-slot
tables (the same table or two tables that do not overlap) returns `MY_RC_E_SUCCESS`
from `base1_inherit_vtable` and from `base2_inherit_vtable`; each slot of the resulting
child is the child's original slot if that was non-null and the parent's otherwise, so
it is null exactly when it was null in both; the parent table is unchanged. -/
theorem C1_lenient_reconciliation (s : State) (parent child : Nat)
    (hp : parent ≠ 0) (hc : child ≠ 0) (hsep : tables_ok parent child) :
    ∀ inherit, (inherit = base1_inherit_vtable ∨ inherit = base2_inherit_vtable) →
      (inherit s parent child false).1 = MY_RC_E_SUCCESS ∧
      (∀ i, i < 5 → slot (inherit s parent child false).2 child i =
          if slot s child i ≠ 0 then slot s child i else slot s parent i) ∧
      (∀ i, i < 5 → (slot (inherit s parent child false).2 child i = 0 ↔
          slot s child i = 0 ∧ slot s parent i = 0)) ∧
      (∀ i, i < 5 → slot (inherit s parent child false).2 parent i = slot s parent i) := by
  intro inherit hinh
  rw [inherit_cases inherit hinh, base1_inherit_vtable_lenient s parent child hp hc]
  have hch : ∀ i, i < 5 → slot (fill5 s parent child) child i =
      if slot s child i ≠ 0 then slot s child i else slot s parent i := by
    intro i hi
    unfold slot
    rw [fill5_child s parent child i hsep hi, merge_slot_eq]
  refine ⟨rfl, hch, ?_, ?_⟩
  · intro i hi
    rw [hch i hi]
    by_cases h : slot s child i = 0 <;> simp [h]
  · intro i hi
    unfold slot
    exact fill5_parent s parent child (8 * i) hsep (by omega)

/-- C1 at the tables of the program: Derived2's sparse Base2 table reconciled against
Derived1's Base2 table at program start. -/
theorem C1_lenient_reconciliation_witness :
    derived1_base2_vtable ≠ 0 ∧ derived2_base2_vtable ≠ 0 ∧
    tables_ok derived1_base2_vtable derived2_base2_vtable ∧
    (base2_inherit_vtable initial_state derived1_base2_vtable derived2_base2_vtable false).1
      = MY_RC_E_SUCCESS :=
  ⟨by decide, by decide, by decide,
    (C1_lenient_reconciliation initial_state derived1_base2_vtable derived2_base2_vtable
      (by decide) (by decide) (by decide) base2_inherit_vtable (Or.inr rfl)).1⟩

/-- C2: strict reconciliation (`do_null_check = true`) of two non-null five-slot tables
(the same table or two tables that do not overlap), by `base1_inherit_vtable` and by
`base2_inherit_vtable`, returns `MY_RC_E_EINVAL` if and only if some slot is null in
both the child and the parent; otherwise it returns `MY_RC_E_SUCCESS`, every slot of the
resulting child is the child's original slot if non-null and the parent's otherwise, and
every slot of the resulting child is non-null. -/
theorem C2_strict_reconciliation (s : State) (parent child : Nat)
    (hp : parent ≠ 0) (hc : child ≠ 0) (hsep : tables_ok parent child) :
    ∀ inherit, (inherit = base1_inherit_vtable ∨ inherit = base2_inherit_vtable) →
      ((inherit s parent child true).1 = MY_RC_E_EINVAL ↔
        ∃ i, i < 5 ∧ slot s child i = 0 ∧ slot s parent i = 0) ∧
      ((¬ ∃ i, i < 5 ∧ slot s child i = 0 ∧ slot s parent i = 0) →
        (inherit s parent child true).1 = MY_RC_E_SUCCESS ∧
        (∀ i, i < 5 → slot (inherit s parent child true).2 child i =
            if slot s child i ≠ 0 then slot s child i else slot s parent i) ∧
        (∀ i, i < 5 → slot (inherit s parent child true).2 child i ≠ 0)) := by
  intro inherit hinh
  rw [inherit_cases inherit hinh]
  obtain ⟨h1, h2⟩ := base1_inherit_vtable_strict s parent child hp hc hsep
  unfold slot
  have hch : ∀ i, i < 5 → (fill5 s parent child).mem (child + 8 * i) =
      if s.mem (child + 8 * i) ≠ 0 then s.mem (child + 8 * i) else s.mem (parent + 8 * i) := by
    intro i hi
    rw [fill5_child s parent child i hsep hi, merge_slot_eq]
  constructor
  · constructor
    · intro hrc
      by_contra hne
      rw [h2 hne] at hrc
      cases hrc
    · exact h1
  · intro hne
    rw [h2 hne]
    refine ⟨rfl, hch, ?_⟩
    intro i hi
    rw [hch i hi]
    by_cases h : s.mem (child + 8 * i) = 0
    · simp only [h, ne_eq, not_true_eq_false, if_false]
      intro h0
      exact hne ⟨i, hi, h, h0⟩
    · simp [h]

/-- C2 at the tables of the program: Derived2's sparse Base2 table reconciled strictly
against base2.c's table at program start fails, the pure-virtual slot being null in
both. -/
theorem C2_strict_reconciliation_witness :
    base2_vtable ≠ 0 ∧ derived2_base2_vtable ≠ 0 ∧
    tables_ok base2_vtable derived2_base2_vtable ∧
    (base2_inherit_vtable initial_state base2_vtable derived2_base2_vtable true).1
      = MY_RC_E_EINVAL :=
  ⟨by decide, by decide, by decide,
    ((C2_strict_reconciliation initial_state base2_vtable derived2_base2_vtable
      (by decide) (by decide) (by decide) base2_inherit_vtable (Or.inr rfl)).1).2
      ⟨4, by decide, by decide, by decide⟩⟩

theorem VALIDATE_VTABLE_FN_invalid (s : State) (obj_h fn : Nat) (rc : my_rc_e)
    (h : dispatch_invalid s obj_h fn) : VALIDATE_VTABLE_FN s obj_h fn rc = MY_RC_E_EINVAL := by
  unfold VALIDATE_VTABLE_FN
  unfold dispatch_invalid vtable_fn at h
  split_ifs with h1 h2 h3 h4 <;> first | rfl | (exfalso; tauto)

theorem VALIDATE_VTABLE_FN_valid (s : State) (obj_h fn : Nat) (rc : my_rc_e)
    (h : ¬ dispatch_invalid s obj_h fn) : VALIDATE_VTABLE_FN s obj_h fn rc = rc := by
  unfold VALIDATE_VTABLE_FN
  unfold dispatch_invalid vtable_fn at h
  split_ifs with h1 h2 h3 h4 <;> first | rfl | (exfalso; tauto)

/-- C3: each result-code-returning virtual entry point returns `MY_RC_E_EINVAL` and
leaves the whole state unchanged when the handle is null, or its private block is null,
or the block's vtable reference is null, or the operation's slot is null; in every other
case its result is that of the indirect call through the slot's value with the same
handle and arguments. -/
theorem C3_uniform_dispatch (s : State) (obj_h buffer buffer_size : Nat) :
    ((dispatch_invalid s obj_h off_string_size_fn →
        base1_string_size s obj_h buffer_size = some (MY_RC_E_EINVAL, s)) ∧
      (¬ dispatch_invalid s obj_h off_string_size_fn →
        base1_string_size s obj_h buffer_size =
          call_base1_string_size_fn (vtable_fn s obj_h off_string_size_fn) s obj_h
            buffer_size)) ∧
    ((dispatch_invalid s obj_h off_string_fn →
        base1_string s obj_h buffer buffer_size = some (MY_RC_E_EINVAL, s)) ∧
      (¬ dispatch_invalid s obj_h off_string_fn →
        base1_string s obj_h buffer buffer_size =
          call_base1_string_fn (vtable_fn s obj_h off_string_fn) s obj_h buffer
            buffer_size)) ∧
    ((dispatch_invalid s obj_h off_increase_val3_fn →
        base1_increase_val3 s obj_h = some (MY_RC_E_EINVAL, s)) ∧
      (¬ dispatch_invalid s obj_h off_increase_val3_fn →
        base1_increase_val3 s obj_h =
          call_base1_increase_val3_fn (vtable_fn s obj_h off_increase_val3_fn) s obj_h)) ∧
    ((dispatch_invalid s obj_h off_string_size_fn →
        base2_string_size s obj_h buffer_size = some (MY_RC_E_EINVAL, s)) ∧
      (¬ dispatch_invalid s obj_h off_string_size_fn →
        base2_string_size s obj_h buffer_size =
          call_base2_string_size_fn (vtable_fn s obj_h off_string_size_fn) s obj_h
            buffer_size)) ∧
    ((dispatch_invalid s obj_h off_string_fn →
        base2_string s obj_h buffer buffer_size = some (MY_RC_E_EINVAL, s)) ∧
      (¬ dispatch_invalid s obj_h off_string_fn →
        base2_string s obj_h buffer buffer_size =
          call_base2_string_fn (vtable_fn s obj_h off_string_fn) s obj_h buffer
            buffer_size)) ∧
    ((dispatch_invalid s obj_h off_increase_val1_fn →
        base2_increase_val1 s obj_h = some (MY_RC_E_EINVAL, s)) ∧
      (¬ dispatch_invalid s obj_h off_increase_val1_fn →
        base2_increase_val1 s obj_h =
          call_base2_increase_val1_fn (vtable_fn s obj_h off_increase_val1_fn) s obj_h)) ∧
    ((dispatch_invalid s obj_h off_d1vt_increase_val4_fn →
        derived1_increase_val4 s obj_h = some (MY_RC_E_EINVAL, s)) ∧
      (¬ dispatch_invalid s obj_h off_d1vt_increase_val4_fn →
        derived1_increase_val4 s obj_h =
          call_derived1_increase_val4_fn (vtable_fn s obj_h off_d1vt_increase_val4_fn) s
            obj_h)) := by
  refine ⟨⟨?_, ?_⟩, ⟨?_, ?_⟩, ⟨?_, ?_⟩, ⟨?_, ?_⟩, ⟨?_, ?_⟩, ⟨?_, ?_⟩, ⟨?_, ?_⟩⟩ <;> intro h
  all_goals
    first
    | (simp only [base1_string_size, base1_string, base1_increase_val3, base2_string_size,
        base2_string, base2_increase_val1, derived1_increase_val4,
        VALIDATE_VTABLE_FN_invalid _ _ _ _ h]
       rfl)
    | (simp only [base1_string_size, base1_string, base1_increase_val3, base2_string_size,
        base2_string, base2_increase_val1, derived1_increase_val4,
        VALIDATE_VTABLE_FN_valid _ _ _ _ h]
       rfl)

/-- C3 on a null handle at program start. -/
theorem C3_uniform_dispatch_witness :
    dispatch_invalid initial_state 0 off_increase_val3_fn ∧
    base1_increase_val3 initial_state 0 = some (MY_RC_E_EINVAL, initial_state) :=
  ⟨Or.inl rfl, (C3_uniform_dispatch initial_state 0 0 0).2.2.1.1 (Or.inl rfl)⟩

theorem statics_ok_initial_state : statics_ok initial_state := by
  constructor <;> decide

theorem calloc_ok (s : State) (n : Nat) (h : (calloc s n).1 ≠ 0) :
    (calloc s n).1 = s.brk ∧ (calloc s n).2.brk = s.brk + n ∧
      ∀ x, (calloc s n).2.mem x = if s.brk ≤ x ∧ x < s.brk + n then 0 else s.mem x := by
  unfold calloc at h ⊢
  split
  · rename_i heq
    simp [heq] at h
  · exact ⟨rfl, rfl, fun _ => rfl⟩

theorem base2_init_ok (s : State) (h : Nat) (hrc : (base2_init s h).1 = MY_RC_E_SUCCESS) :
    h ≠ 0 ∧ s.brk ≠ 0 ∧ (base2_init s h).2.brk = s.brk + 8 ∧
      ∀ x, (base2_init s h).2.mem x =
        if x = h + 8 then 7 else if x = s.brk then base2_vtable
        else if x = h then s.brk
        else if s.brk ≤ x ∧ x < s.brk + 8 then 0 else s.mem x := by
  unfold base2_init at hrc ⊢
  by_cases h0 : h = 0
  · simp [h0] at hrc
  by_cases hr : (calloc s sizeof_private_st).1 = 0
  · simp [h0, hr] at hrc
  obtain ⟨h1, h2, h3⟩ := calloc_ok s sizeof_private_st hr
  rw [h1] at hr
  refine ⟨h0, hr, ?_, ?_⟩
  · simp [h0, h1, hr, State.store, h2]
  · intro x
    simp [h0, h1, hr, h3]

/-- C5: on a base2 object that has only been initialised by `base2_init` (the object
lies apart from base2.c's static table and from the block `calloc` hands out),
`base2_increase_val1` returns `MY_RC_E_EINVAL` and leaves the whole state, hence `val1`
(still 7) and every other field, unchanged. -/
theorem C5_abstract_enforcement (s : State) (base2_h : Nat) (hs : statics_ok s)
    (hsep1 : separate base2_h sizeof_base2_st base2_vtable sizeof_vtable_st)
    (hsep2 : separate base2_h sizeof_base2_st s.brk sizeof_private_st)
    (hinit : (base2_init s base2_h).1 = MY_RC_E_SUCCESS) :
    base2_increase_val1 (base2_init s base2_h).2 base2_h =
        some (MY_RC_E_EINVAL, (base2_init s base2_h).2) ∧
      load32 (base2_init s base2_h).2 (base2_h + off_b2_val1) = 7 := by
  obtain ⟨h0, hb, _, hmem⟩ := base2_init_ok s base2_h hinit
  have hheap := hs.heap
  have hnull := hs.b2_increase
  simp only [separate, sizeof_base2_st, base2_vtable, sizeof_vtable_st, sizeof_private_st]
    at hsep1 hsep2
  simp only [heap_base] at hheap
  simp only [base2_vtable, off_increase_val1_fn] at hnull
  have e1 : (base2_init s base2_h).2.mem base2_h = s.brk := by
    rw [hmem]
    simp only [base2_vtable]
    split_ifs <;> first | rfl | omega
  have e2 : (base2_init s base2_h).2.mem s.brk = base2_vtable := by
    rw [hmem]
    split_ifs <;> first | rfl | omega
  have e3 : (base2_init s base2_h).2.mem (base2_vtable + 32) = 0 := by
    rw [hmem]
    simp only [base2_vtable]
    split_ifs <;> first | rfl | omega
  constructor
  · have hinv : dispatch_invalid (base2_init s base2_h).2 base2_h off_increase_val1_fn := by
      right; right; right
      simp only [vtable_fn, off_private_h, off_vtable, off_increase_val1_fn, Nat.add_zero, e1, e2,
        e3]
    simp only [base2_increase_val1, VALIDATE_VTABLE_FN_invalid _ _ _ _ hinv]
    rfl
  · simp only [load32, off_b2_val1]
    rw [hmem]
    simp

/-- C5 on a base2 object at address `0x4000`, initialised at program start. -/
theorem C5_abstract_enforcement_witness :
    statics_ok initial_state ∧
    (base2_init initial_state 0x4000).1 = MY_RC_E_SUCCESS ∧
    load32 (base2_init initial_state 0x4000).2 (0x4000 + off_b2_val1) = 7 :=
  ⟨statics_ok_initial_state, by decide,
    (C5_abstract_enforcement initial_state 0x4000 statics_ok_initial_state (by decide)
      (by decide) (by decide)).2⟩

/-- C6: the down-cast of an up-cast is the original address, at both depths: for a
non-null derived1 handle through its base1 and its base2, and for a non-null derived2
handle through its derived1, its base1 and its base2. -/
theorem C6_cast_round_trip (h g : Nat) (hh : h ≠ 0) (hg : g ≠ 0) :
    base1_cast_to_derived1 (derived1_cast_to_base1 h) = h ∧
    base2_cast_to_derived1 (derived1_cast_to_base2 h) = h ∧
    derived1_cast_to_derived2 (derived2_cast_to_derived1 g) = g ∧
    base1_cast_to_derived2 (derived1_cast_to_base1 (derived2_cast_to_derived1 g)) = g ∧
    base2_cast_to_derived2 (derived1_cast_to_base2 (derived2_cast_to_derived1 g)) = g := by
  simp only [base1_cast_to_derived1, derived1_cast_to_base1, base2_cast_to_derived1,
    derived1_cast_to_base2, derived1_cast_to_derived2, derived2_cast_to_derived1,
    base1_cast_to_derived2, base2_cast_to_derived2, off_d1_base1, off_d1_base2, off_d2_derived1]
  refine ⟨?_, ?_, ?_, ?_, ?_⟩ <;> simp [hh, hg]

/-- C6 at the first two heap addresses. -/
theorem C6_cast_round_trip_witness :
    base1_cast_to_derived1 (derived1_cast_to_base1 heap_base) = heap_base ∧
    base2_cast_to_derived2 (derived1_cast_to_base2 (derived2_cast_to_derived1 (heap_base + 72)))
      = heap_base + 72 :=
  ⟨(C6_cast_round_trip heap_base (heap_base + 72) (by decide) (by decide)).1,
    (C6_cast_round_trip heap_base (heap_base + 72) (by decide) (by decide)).2.2.2.2⟩

/-- C7: for every non-null base1 handle (whatever object it is the address of: a plain
base1 object or the base1 embedded in a derived1 or derived2 object) and every record
`public_data`, if `base1_set_public_data` returns success then an immediately following
`base1_get_public_data` into a non-null record `out` returns success and `out` holds the
`val1` and the `val2` the caller passed to set. -/
theorem C7_set_get_round_trip (s : State) (base1_h public_data out : Nat)
    (hh : base1_h ≠ 0) (hout : out ≠ 0)
    (hset : (base1_set_public_data s base1_h public_data).1 = MY_RC_E_SUCCESS) :
    (base1_get_public_data (base1_set_public_data s base1_h public_data).2 base1_h out).1
        = MY_RC_E_SUCCESS ∧
      (base1_get_public_data (base1_set_public_data s base1_h public_data).2 base1_h out).2.mem
        (out + off_pd_val1) = s.mem (public_data + off_pd_val1) ∧
      (base1_get_public_data (base1_set_public_data s base1_h public_data).2 base1_h out).2.mem
        (out + off_pd_val2) = s.mem (public_data + off_pd_val2) := by
  have hd : public_data ≠ 0 := by
    intro h0
    simp [base1_set_public_data, h0] at hset
  simp [base1_set_public_data, base1_get_public_data, memcpy_public_data, hh, hd, hout]

/-- C7 on the base1 embedded in a derived1 object at the first heap address, the
caller's records at `0x4000` and `0x4010`. -/
theorem C7_set_get_round_trip_witness :
    (base1_set_public_data initial_state (derived1_cast_to_base1 heap_base) 0x4000).1
        = MY_RC_E_SUCCESS ∧
    (base1_get_public_data
        (base1_set_public_data initial_state (derived1_cast_to_base1 heap_base) 0x4000).2
        (derived1_cast_to_base1 heap_base) 0x4010).1 = MY_RC_E_SUCCESS :=
  ⟨by decide,
    (C7_set_get_round_trip initial_state (derived1_cast_to_base1 heap_base) 0x4000 0x4010
      (by decide) (by decide) (by decide)).1⟩

/-- C8: `base1_get_public_data` into a record that lies apart from the object changes no
cell of the object, and whatever values the caller then writes into that first copy, a
second get returns the same `val1` and `val2` as the first one did. -/
theorem C8_get_copy_semantics (s : State) (base1_h out1 out2 v1 v2 : Nat)
    (hh : base1_h ≠ 0) (hout1 : out1 ≠ 0) (hout2 : out2 ≠ 0)
    (hsep : separate out1 8 base1_h sizeof_base1_st) :
    (base1_get_public_data s base1_h out1).1 = MY_RC_E_SUCCESS ∧
    (∀ x, base1_h ≤ x → x < base1_h + sizeof_base1_st →
      (base1_get_public_data s base1_h out1).2.mem x = s.mem x) ∧
    (base1_get_public_data
      (((base1_get_public_data s base1_h out1).2.store (out1 + off_pd_val1) v1).store
        (out1 + off_pd_val2) v2) base1_h out2).1 = MY_RC_E_SUCCESS ∧
    (base1_get_public_data
      (((base1_get_public_data s base1_h out1).2.store (out1 + off_pd_val1) v1).store
        (out1 + off_pd_val2) v2) base1_h out2).2.mem (out2 + off_pd_val1)
      = (base1_get_public_data s base1_h out1).2.mem (out1 + off_pd_val1) ∧
    (base1_get_public_data
      (((base1_get_public_data s base1_h out1).2.store (out1 + off_pd_val1) v1).store
        (out1 + off_pd_val2) v2) base1_h out2).2.mem (out2 + off_pd_val2)
      = (base1_get_public_data s base1_h out1).2.mem (out1 + off_pd_val2) := by
  simp only [separate, sizeof_base1_st] at hsep
  have a1 : ¬ (base1_h + 8 = out1) := by omega
  have a2 : ¬ (base1_h + 8 = out1 + 4) := by omega
  have a3 : ¬ (base1_h + 8 + 4 = out1) := by omega
  have a4 : ¬ (base1_h + 8 + 4 = out1 + 4) := by omega
  refine ⟨?_, ?_, ?_, ?_, ?_⟩
  · simp [base1_get_public_data, hh, hout1]
  · intro x hx1 hx2
    simp only [sizeof_base1_st] at hx2
    have b1 : ¬ (x = out1) := by omega
    have b2 : ¬ (x = out1 + 4) := by omega
    simp [base1_get_public_data, memcpy_public_data, hh, hout1, b1, b2]
  · simp [base1_get_public_data, hh, hout2]
  · simp [base1_get_public_data, memcpy_public_data, hh, hout1, hout2, a1, a2]
  · simp [base1_get_public_data, memcpy_public_data, hh, hout1, hout2, a3, a4]

/-- C8 on an object at the first heap address, the copies at `0x4000` and `0x4010`, the
first copy overwritten with 53 and 0 as the test driver does. -/
theorem C8_get_copy_semantics_witness :
    separate 0x4000 8 heap_base sizeof_base1_st ∧
    (base1_get_public_data initial_state heap_base 0x4000).1 = MY_RC_E_SUCCESS :=
  ⟨by decide,
    (C8_get_copy_semantics initial_state heap_base 0x4000 0x4010 53 0 (by decide) (by decide)
      (by decide) (by decide)).1⟩

theorem base1_init_ok (s : State) (h : Nat) (hrc : (base1_init s h).1 = MY_RC_E_SUCCESS) :
    h ≠ 0 ∧ s.brk ≠ 0 ∧ (base1_init s h).2.brk = s.brk + 8 ∧
      ∀ x, (base1_init s h).2.mem x =
        if x = h + 16 then 42 else if x = h + 12 then 2 else if x = h + 8 then 1
        else if x = s.brk then base1_vtable
        else if x = h then s.brk
        else if s.brk ≤ x ∧ x < s.brk + 8 then 0 else s.mem x := by
  unfold base1_init at hrc ⊢
  by_cases h0 : h = 0
  · simp [h0] at hrc
  by_cases hr : (calloc s sizeof_private_st).1 = 0
  · simp [h0, hr] at hrc
  obtain ⟨h1, h2, h3⟩ := calloc_ok s sizeof_private_st hr
  rw [h1] at hr
  refine ⟨h0, hr, ?_, ?_⟩
  · simp [h0, h1, hr, State.store, h2]
  · intro x
    simp [h0, h1, hr, h3, Nat.add_assoc]
    rfl

theorem base1_new1_ok (s : State) (hrc : (base1_new1 s).1 ≠ 0) :
    (calloc s sizeof_base1_st).1 = (base1_new1 s).1 ∧
      (base1_init (calloc s sizeof_base1_st).2 (base1_new1 s).1).1 = MY_RC_E_SUCCESS ∧
      (base1_new1 s).2 = (base1_init (calloc s sizeof_base1_st).2 (base1_new1 s).1).2 := by
  unfold base1_new1 at hrc ⊢
  by_cases hr : (calloc s sizeof_base1_st).1 = 0
  · simp [hr] at hrc
  by_cases hi : (base1_init (calloc s sizeof_base1_st).2 (calloc s sizeof_base1_st).1).1
      = MY_RC_E_SUCCESS
  · simp [hr, hi, my_rc_e_is_notok]
  · simp [hr, hi, my_rc_e_is_notok] at hrc

/-- C9: an object returned by a successful `base1_new1` has `val1 = 1`, `val2 = 2` and
`val3 = 42`, and a base2 sub-object on which `base2_init` succeeded has `val1 = 7`. -/
theorem C9_default_values (s : State) :
    ((base1_new1 s).1 ≠ 0 →
      load8 (base1_new1 s).2 ((base1_new1 s).1 + off_public_data + off_pd_val1) = 1 ∧
      load32 (base1_new1 s).2 ((base1_new1 s).1 + off_public_data + off_pd_val2) = 2 ∧
      load32 (base1_new1 s).2 ((base1_new1 s).1 + off_val3) = 42) ∧
    (∀ base2_h, (base2_init s base2_h).1 = MY_RC_E_SUCCESS →
      load32 (base2_init s base2_h).2 (base2_h + off_b2_val1) = 7) := by
  constructor
  · intro hrc
    obtain ⟨_, hi, he⟩ := base1_new1_ok s hrc
    obtain ⟨_, _, _, hmem⟩ := base1_init_ok _ _ hi
    rw [he]
    simp only [load8, load32, off_public_data, off_pd_val1, off_pd_val2, off_val3, hmem]
    refine ⟨?_, ?_, ?_⟩ <;> simp
  · intro base2_h hi
    obtain ⟨_, _, _, hmem⟩ := base2_init_ok _ _ hi
    simp [load32, hmem]

/-- C9 at program start: the first `base1_new1` succeeds and the object has the default
`val3`. -/
theorem C9_default_values_witness :
    (base1_new1 initial_state).1 ≠ 0 ∧
    load32 (base1_new1 initial_state).2 ((base1_new1 initial_state).1 + off_val3) = 42 :=
  ⟨by decide, ((C9_default_values initial_state).1 (by decide)).2.2⟩

theorem fill5_other (s : State) (p c x : Nat) (hx : ∀ i, i < 5 → x ≠ c + 8 * i) :
    (fill5 s p c).mem x = s.mem x := by
  have h0 := hx 0 (by norm_num)
  have h1 := hx 1 (by norm_num)
  have h2 := hx 2 (by norm_num)
  have h3 := hx 3 (by norm_num)
  have h4 := hx 4 (by norm_num)
  have step : ∀ (t : State) (fn : Nat), x ≠ c + fn → (fill_slot t p c fn).mem x = t.mem x := by
    intro t fn hne
    rw [fill_slot_mem, if_neg]
    intro hc
    exact hne hc.1
  unfold fill5
  rw [step _ 32 (by omega), step _ 24 (by omega), step _ 16 (by omega), step _ 8 (by omega),
    step _ 0 (by omega)]

theorem my_rc_e_is_notok_iff (rc : my_rc_e) :
    my_rc_e_is_notok rc = true ↔ rc ≠ MY_RC_E_SUCCESS := by
  cases rc <;> simp [my_rc_e_is_notok]

theorem base1_set_vtable_ok (s : State) (h vt : Nat) (h0 : h ≠ 0) (hvt : vt ≠ 0)
    (hp : s.mem h ≠ 0) (hsep : tables_ok base1_vtable vt)
    (hnn : ¬ ∃ i, i < 5 ∧ s.mem (vt + 8 * i) = 0 ∧ s.mem (base1_vtable + 8 * i) = 0)
    (hh : ∀ i, i < 5 → h ≠ vt + 8 * i) :
    base1_set_vtable s h vt =
      (MY_RC_E_SUCCESS, (fill5 s base1_vtable vt).store (s.mem h) vt) := by
  have e := (base1_inherit_vtable_strict s base1_vtable vt (by decide) hvt hsep).2 hnn
  unfold base1_set_vtable
  simp only [off_private_h, off_vtable, Nat.add_zero, e, fill5_other s base1_vtable vt h hh]
  simp [h0, hvt, hp, my_rc_e_is_notok]

theorem base2_set_vtable_ok (s : State) (h vt : Nat) (h0 : h ≠ 0) (hvt : vt ≠ 0)
    (hp : s.mem h ≠ 0) (hsep : tables_ok base2_vtable vt)
    (hnn : ¬ ∃ i, i < 5 ∧ s.mem (vt + 8 * i) = 0 ∧ s.mem (base2_vtable + 8 * i) = 0)
    (hh : ∀ i, i < 5 → h ≠ vt + 8 * i) :
    base2_set_vtable s h vt =
      (MY_RC_E_SUCCESS, (fill5 s base2_vtable vt).store (s.mem h) vt) := by
  have e := (base1_inherit_vtable_strict s base2_vtable vt (by decide) hvt hsep).2 hnn
  unfold base2_set_vtable
  simp only [off_private_h, off_vtable, Nat.add_zero, base2_inherit_vtable_eq, e,
    fill5_other s base2_vtable vt h hh]
  simp [h0, hvt, hp, my_rc_e_is_notok]

theorem statics_ok_frame (s t : State) (hs : statics_ok s) (hbrk : heap_base ≤ t.brk)
    (hf : ∀ x, x < heap_base → t.mem x = s.mem x) : statics_ok t := by
  obtain ⟨_, a1, a2, a3, a4, a5, a6, a7, a8, a9, a10, a11, a12, a13, a14, a15, a16, a17, a18,
    a19, a20, a21, a22, a23, a24, a25, a26, a27, a28, a29, a30, a31, a32, a33, a34, a35, a36,
    a37, a38⟩ := hs
  constructor <;> first
    | exact hbrk
    | (simp only [slot_is] at *
       rw [hf _ (by norm_num)]
       assumption)

theorem statics_ok_step (s t : State) (hs : statics_ok s) (hbrk : heap_base ≤ t.brk)
    (hf : ∀ x, x < heap_base →
      t.mem x = s.mem x ∨ (s.mem x = 0 ∧ resolved x ≠ 0 ∧ t.mem x = resolved x)) :
    statics_ok t := by
  obtain ⟨_, a1, a2, a3, a4, a5, a6, a7, a8, a9, a10, a11, a12, a13, a14, a15, a16, a17, a18,
    a19, a20, a21, a22, a23, a24, a25, a26, a27, a28, a29, a30, a31, a32, a33, a34, a35, a36,
    a37, a38⟩ := hs
  have key : ∀ x v, x < heap_base → s.mem x = v → (v ≠ 0 ∨ resolved x = 0) → t.mem x = v := by
    intro x v hx hv hne
    rcases hf x hx with h | ⟨h0, hr, _⟩
    · rw [h, hv]
    · rcases hne with hne | hne
      · exact absurd (hv.symm.trans h0) hne
      · exact absurd hne hr
  have key2 : ∀ x v, x < heap_base → slot_is s x 0 v → resolved x = v → slot_is t x 0 v := by
    intro x v hx hv hr
    rcases hf x hx with h | ⟨_, _, h⟩
    · unfold slot_is at hv ⊢
      rw [h]
      exact hv
    · right
      rw [h, hr]
  constructor <;> first
    | exact hbrk
    | exact key _ _ (by norm_num) (by assumption) (by decide)
    | exact key2 _ _ (by norm_num) (by assumption) (by decide)

theorem fill5_mem (s : State) (p c x : Nat) (h : tables_ok p c) :
    (fill5 s p c).mem x =
      if x = c then merge_slot (s.mem c) (s.mem p)
      else if x = c + 8 then merge_slot (s.mem (c + 8)) (s.mem (p + 8))
      else if x = c + 16 then merge_slot (s.mem (c + 16)) (s.mem (p + 16))
      else if x = c + 24 then merge_slot (s.mem (c + 24)) (s.mem (p + 24))
      else if x = c + 32 then merge_slot (s.mem (c + 32)) (s.mem (p + 32))
      else s.mem x := by
  have h0 := fill5_child s p c 0 h (by norm_num)
  have h1 := fill5_child s p c 1 h (by norm_num)
  have h2 := fill5_child s p c 2 h (by norm_num)
  have h3 := fill5_child s p c 3 h (by norm_num)
  have h4 := fill5_child s p c 4 h (by norm_num)
  simp only [Nat.mul_zero, Nat.add_zero, Nat.mul_one, Nat.reduceMul] at h0 h1 h2 h3 h4
  split_ifs with e0 e1 e2 e3 e4
  · rw [e0, h0]
  · rw [e1, h1]
  · rw [e2, h2]
  · rw [e3, h3]
  · rw [e4, h4]
  · apply fill5_other
    intro i hi
    interval_cases i <;> omega

theorem fill5_brk (s : State) (p c : Nat) : (fill5 s p c).brk = s.brk := by
  unfold fill5 fill_slot
  split_ifs <;> rfl

theorem fill5_noop (s : State) (p c : Nat) (h0 : s.mem c ≠ 0) (h1 : s.mem (c + 8) ≠ 0)
    (h2 : s.mem (c + 16) ≠ 0) (h3 : s.mem (c + 24) ≠ 0) (h4 : s.mem (c + 32) ≠ 0) :
    fill5 s p c = s := by
  unfold fill5 fill_slot
  simp [h0, h1, h2, h3, h4]

attribute [irreducible] fill_slot fill5

theorem fill5_d1b1 (s : State) (hs : statics_ok s) :
    statics_ok (fill5 s base1_vtable derived1_base1_vtable) ∧
    ∀ x, (fill5 s base1_vtable derived1_base1_vtable).mem x =
      if x = derived1_base1_vtable + 32 then addr_base1_increase_val3_internal
      else s.mem x := by
  have heq : ∀ x, (fill5 s base1_vtable derived1_base1_vtable).mem x =
      if x = derived1_base1_vtable + 32 then addr_base1_increase_val3_internal
      else s.mem x := by
    intro x
    rw [fill5_mem _ _ _ _ (by decide)]
    have a0 := hs.d1b1_delete
    have a1 := hs.d1b1_type_string
    have a2 := hs.d1b1_string
    have a3 := hs.d1b1_string_size
    have a4 := hs.d1b1_increase
    have b4 := hs.b1_increase
    simp only [off_delete_fn, off_type_string_fn, off_string_fn, off_string_size_fn,
      off_increase_val3_fn, Nat.add_zero, slot_is] at a0 a1 a2 a3 a4 b4
    simp only [merge_slot, a0, a1, a2, a3, b4]
    rcases a4 with e | e <;> simp only [e] <;> split_ifs <;> first | rfl | omega | simp_all
  refine ⟨?_, heq⟩
  apply statics_ok_step s _ hs
  · rw [fill5_brk]
    exact hs.heap
  · intro x _
    rw [heq]
    split_ifs with e
    · subst e
      rcases hs.d1b1_increase with e | e
      · right
        exact ⟨e, by decide, by decide⟩
      · left
        exact e.symm
    · left
      rfl

theorem derived1_init_steps (s : State) (d : Nat)
    (hrc : (derived1_init s d).1 = MY_RC_E_SUCCESS) :
    d ≠ 0 ∧ ∃ s1 s2 s3 s4 s5 p,
      base1_init s (d + 8) = (MY_RC_E_SUCCESS, s1) ∧
      base1_set_vtable s1 (d + 8) derived1_base1_vtable = (MY_RC_E_SUCCESS, s2) ∧
      base2_init s2 (d + 32) = (MY_RC_E_SUCCESS, s3) ∧
      base2_set_vtable s3 (d + 32) derived1_base2_vtable = (MY_RC_E_SUCCESS, s4) ∧
      calloc s4 8 = (p, s5) ∧ p ≠ 0 ∧
      (derived1_init s d).2 = ((s5.store d p).store p derived1_vtable).store (d + 48) 500 := by
  unfold derived1_init at hrc ⊢
  simp only [off_d1_base1, off_d1_base2, off_private_h, off_vtable, off_d1_val4,
    sizeof_private_st, Nat.add_zero, store_mem, if_true, my_rc_e_is_notok_iff] at hrc ⊢
  by_cases c0 : d = 0
  · rw [if_pos c0] at hrc
    cases hrc
  rw [if_neg c0] at hrc ⊢
  refine ⟨c0, ?_⟩
  generalize base1_init s (d + 8) = r1 at hrc ⊢
  obtain ⟨rc1, s1⟩ := r1
  dsimp only at hrc ⊢
  by_cases c1 : rc1 = MY_RC_E_SUCCESS
  swap
  · rw [if_pos c1] at hrc
    exact absurd hrc c1
  subst c1
  rw [if_neg (by simp)] at hrc ⊢
  refine ⟨s1, ?_⟩
  generalize base1_set_vtable s1 (d + 8) derived1_base1_vtable = r2 at hrc ⊢
  obtain ⟨rc2, s2⟩ := r2
  dsimp only at hrc ⊢
  by_cases c2 : rc2 = MY_RC_E_SUCCESS
  swap
  · rw [if_pos c2] at hrc
    exact absurd hrc c2
  subst c2
  rw [if_neg (by simp)] at hrc ⊢
  refine ⟨s2, ?_⟩
  generalize base2_init s2 (d + 32) = r3 at hrc ⊢
  obtain ⟨rc3, s3⟩ := r3
  dsimp only at hrc ⊢
  by_cases c3 : rc3 = MY_RC_E_SUCCESS
  swap
  · rw [if_pos c3] at hrc
    exact absurd hrc c3
  subst c3
  rw [if_neg (by simp)] at hrc ⊢
  refine ⟨s3, ?_⟩
  generalize base2_set_vtable s3 (d + 32) derived1_base2_vtable = r4 at hrc ⊢
  obtain ⟨rc4, s4⟩ := r4
  dsimp only at hrc ⊢
  by_cases c4 : rc4 = MY_RC_E_SUCCESS
  swap
  · rw [if_pos c4] at hrc
    exact absurd hrc c4
  subst c4
  rw [if_neg (by simp)] at hrc ⊢
  refine ⟨s4, ?_⟩
  generalize calloc s4 8 = r5 at hrc ⊢
  obtain ⟨p, s5⟩ := r5
  dsimp only at hrc ⊢
  by_cases c5 : p = 0
  · rw [if_pos c5] at hrc
    cases hrc
  rw [if_neg c5]
  exact ⟨s5, p, rfl, rfl, rfl, rfl, rfl, c5, rfl⟩

theorem derived1_init_chain (s s1 s2 s3 s4 s5 : State) (d x : Nat) (hd : 65536 ≤ d)
    (hd2 : d + 56 ≤ s.brk)
    (m1 : ∀ x, s1.mem x =
      if x = d + 8 + 16 then 42 else if x = d + 8 + 12 then 2 else if x = d + 8 + 8 then 1
      else if x = s.brk then base1_vtable
      else if x = d + 8 then s.brk
      else if s.brk ≤ x ∧ x < s.brk + 8 then 0 else s.mem x)
    (m2 : ∀ x, s2.mem x =
      if x = s.brk then derived1_base1_vtable
      else if x = derived1_base1_vtable + 32 then addr_base1_increase_val3_internal
      else s1.mem x)
    (m3 : ∀ x, s3.mem x =
      if x = d + 32 + 8 then 7 else if x = s.brk + 8 then base2_vtable
      else if x = d + 32 then s.brk + 8
      else if s.brk + 8 ≤ x ∧ x < s.brk + 8 + 8 then 0 else s2.mem x)
    (m4 : ∀ x, s4.mem x = if x = s.brk + 8 then derived1_base2_vtable else s3.mem x)
    (k3 : ∀ x, s5.mem x = if s.brk + 16 ≤ x ∧ x < s.brk + 16 + 8 then 0 else s4.mem x) :
    (((s5.store d (s.brk + 16)).store (s.brk + 16) derived1_vtable).store (d + 48) 500).mem x =
      if x = d + 48 then 500
      else if x = s.brk + 16 then derived1_vtable
      else if x = d then s.brk + 16
      else if x = s.brk + 8 then derived1_base2_vtable
      else if x = d + 40 then 7
      else if x = d + 32 then s.brk + 8
      else if x = s.brk then derived1_base1_vtable
      else if x = derived1_base1_vtable + 32 then addr_base1_increase_val3_internal
      else if x = d + 24 then 42
      else if x = d + 20 then 2
      else if x = d + 16 then 1
      else if x = d + 8 then s.brk
      else if s.brk ≤ x ∧ x < s.brk + 24 then 0
      else s.mem x := by
  simp only [store_mem, k3, m4, m3, m2, m1, derived1_base1_vtable]
  by_cases h1 : x = d + 48
  · simp (disch := omega) only [if_pos, if_neg]
  by_cases h2 : x = s.brk + 16
  · simp (disch := omega) only [if_pos, if_neg]
  by_cases h3 : x = d
  · simp (disch := omega) only [if_pos, if_neg]
  by_cases h4 : x = s.brk + 8
  · simp (disch := omega) only [if_pos, if_neg]
  by_cases h5 : x = d + 40
  · simp (disch := omega) only [if_pos, if_neg]
  by_cases h6 : x = d + 32
  · simp (disch := omega) only [if_pos, if_neg]
  by_cases h7 : x = s.brk
  · simp (disch := omega) only [if_pos, if_neg]
  by_cases h8 : x = 8320 + 32
  · simp (disch := omega) only [if_pos, if_neg]
  by_cases h9 : x = d + 24
  · simp (disch := omega) only [if_pos, if_neg]
  by_cases h10 : x = d + 20
  · simp (disch := omega) only [if_pos, if_neg]
  by_cases h11 : x = d + 16
  · simp (disch := omega) only [if_pos, if_neg]
  by_cases h12 : x = d + 8
  · simp (disch := omega) only [if_pos, if_neg]
  by_cases h13 : s.brk ≤ x ∧ x < s.brk + 24
  · simp (disch := omega) only [if_pos, if_neg]
    split_ifs <;> rfl
  · simp (disch := omega) only [if_pos, if_neg]

theorem derived1_init_ok (s : State) (d : Nat) (hs : statics_ok s) (hd : heap_base ≤ d)
    (hd2 : d + sizeof_derived1_st ≤ s.brk)
    (hrc : (derived1_init s d).1 = MY_RC_E_SUCCESS) :
    statics_ok (derived1_init s d).2 ∧ (derived1_init s d).2.brk = s.brk + 24 ∧
    ∀ x, (derived1_init s d).2.mem x =
      if x = d + 48 then 500
      else if x = s.brk + 16 then derived1_vtable
      else if x = d then s.brk + 16
      else if x = s.brk + 8 then derived1_base2_vtable
      else if x = d + 40 then 7
      else if x = d + 32 then s.brk + 8
      else if x = s.brk then derived1_base1_vtable
      else if x = derived1_base1_vtable + 32 then addr_base1_increase_val3_internal
      else if x = d + 24 then 42
      else if x = d + 20 then 2
      else if x = d + 16 then 1
      else if x = d + 8 then s.brk
      else if s.brk ≤ x ∧ x < s.brk + 24 then 0
      else s.mem x := by
  obtain ⟨hd0, s1, s2, s3, s4, s5, p, e1, e2, e3, e4, e5, hp, hfin⟩ :=
    derived1_init_steps s d hrc
  have hb := hs.heap
  simp only [heap_base, sizeof_derived1_st] at hb hd hd2
  -- base1_init
  obtain ⟨_, _, b1, m1⟩ := base1_init_ok s (d + 8) (by rw [e1])
  simp only [e1] at b1 m1
  have s1ok : statics_ok s1 := by
    apply statics_ok_frame s _ hs
    · rw [b1]; simp only [heap_base]; omega
    · intro x hx
      simp only [heap_base] at hx
      rw [m1]
      split_ifs <;> first | rfl | omega
  -- base1_set_vtable
  have p1 : s1.mem (d + 8) = s.brk := by
    rw [m1]; split_ifs <;> first | rfl | omega
  have v2 := base1_set_vtable_ok s1 (d + 8) derived1_base1_vtable
    (by omega) (by decide) (by rw [p1]; omega) (by decide)
    (by
      rw [exists_lt_five]
      have a0 := s1ok.b1_delete
      have a1 := s1ok.b1_type_string
      have a2 := s1ok.b1_string
      have a3 := s1ok.b1_string_size
      have a4 := s1ok.b1_increase
      simp only [off_delete_fn, off_type_string_fn, off_string_fn, off_string_size_fn,
        off_increase_val3_fn] at a0 a1 a2 a3 a4
      simp [a0, a1, a2, a3, a4])
    (by intro i hi; simp only [derived1_base1_vtable]; omega)
  rw [p1, e2] at v2
  have v2' : s2 = (fill5 s1 base1_vtable derived1_base1_vtable).store s.brk
      derived1_base1_vtable := (Prod.ext_iff.mp v2).2
  obtain ⟨f2ok, f2⟩ := fill5_d1b1 _ s1ok
  have b2 : s2.brk = s.brk + 8 := by
    rw [v2', store_brk, fill5_brk, b1]
  have m2 : ∀ x, s2.mem x =
      if x = s.brk then derived1_base1_vtable
      else if x = derived1_base1_vtable + 32 then addr_base1_increase_val3_internal
      else s1.mem x := by
    intro x
    rw [v2']
    simp only [store_mem, f2]
  have s2ok : statics_ok s2 := by
    apply statics_ok_frame _ _ f2ok
    · rw [b2]; simp only [heap_base]; omega
    · intro x hx
      simp only [heap_base] at hx
      rw [m2, f2, if_neg (by omega)]
  -- base2_init
  obtain ⟨_, _, b3, m3⟩ := base2_init_ok s2 (d + 32) (by rw [e3])
  simp only [e3] at b3 m3
  rw [b2] at b3 m3
  have s3ok : statics_ok s3 := by
    apply statics_ok_frame _ _ s2ok
    · rw [b3]; simp only [heap_base]; omega
    · intro x hx
      simp only [heap_base] at hx
      rw [m3]
      split_ifs <;> first | rfl | omega
  -- base2_set_vtable
  have p3 : s3.mem (d + 32) = s.brk + 8 := by
    rw [m3]; split_ifs <;> first | rfl | omega
  have c0 := s3ok.d1b2_delete
  have c1 := s3ok.d1b2_type_string
  have c2 := s3ok.d1b2_string
  have c3 := s3ok.d1b2_string_size
  have c4 := s3ok.d1b2_increase
  simp only [off_delete_fn, off_type_string_fn, off_string_fn, off_string_size_fn,
    off_increase_val1_fn, Nat.add_zero] at c0 c1 c2 c3 c4
  have v4 := base2_set_vtable_ok s3 (d + 32) derived1_base2_vtable
    (by omega) (by decide) (by rw [p3]; omega) (by decide)
    (by
      rw [exists_lt_five]
      simp [c0, c1, c2, c3, c4])
    (by intro i hi; simp only [derived1_base2_vtable]; omega)
  rw [p3, fill5_noop _ _ _ (by rw [c0]; decide) (by rw [c1]; decide) (by rw [c2]; decide)
    (by rw [c3]; decide) (by rw [c4]; decide), e4] at v4
  have v4' : s4 = s3.store (s.brk + 8) derived1_base2_vtable := (Prod.ext_iff.mp v4).2
  have b4 : s4.brk = s.brk + 16 := by rw [v4', store_brk, b3]
  have m4 : ∀ x, s4.mem x = if x = s.brk + 8 then derived1_base2_vtable else s3.mem x := by
    intro x
    rw [v4']
    rfl
  -- calloc
  obtain ⟨k1, k2, k3⟩ := calloc_ok s4 8 (by rw [e5]; exact hp)
  simp only [e5] at k1 k2 k3
  rw [b4] at k1 k2 k3
  subst k1
  have mfin : ∀ x, (derived1_init s d).2.mem x =
      if x = d + 48 then 500
      else if x = s.brk + 16 then derived1_vtable
      else if x = d then s.brk + 16
      else if x = s.brk + 8 then derived1_base2_vtable
      else if x = d + 40 then 7
      else if x = d + 32 then s.brk + 8
      else if x = s.brk then derived1_base1_vtable
      else if x = derived1_base1_vtable + 32 then addr_base1_increase_val3_internal
      else if x = d + 24 then 42
      else if x = d + 20 then 2
      else if x = d + 16 then 1
      else if x = d + 8 then s.brk
      else if s.brk ≤ x ∧ x < s.brk + 24 then 0
      else s.mem x := by
    intro x
    rw [hfin]
    exact derived1_init_chain s s1 s2 s3 s4 s5 d x hd hd2 m1 m2 m3 m4 k3
  refine ⟨?_, ?_, mfin⟩
  · have s4ok : statics_ok s4 := by
      apply statics_ok_frame _ _ s3ok
      · rw [b4]; simp only [heap_base]; omega
      · intro x hx
        simp only [heap_base] at hx
        rw [m4, if_neg (by omega)]
    apply statics_ok_frame _ _ s4ok
    · rw [hfin]
      simp only [store_brk, k2, heap_base]
      omega
    · intro x hx
      simp only [heap_base] at hx
      rw [hfin]
      simp only [store_mem, k3]
      split_ifs <;> first | rfl | omega
  · rw [hfin]
    simp only [store_brk, k2]

theorem calloc_statics (s : State) (n : Nat) (hs : statics_ok s) (h : (calloc s n).1 ≠ 0) :
    statics_ok (calloc s n).2 := by
  obtain ⟨_, k2, k3⟩ := calloc_ok s n h
  have hb := hs.heap
  simp only [heap_base] at hb
  apply statics_ok_frame s _ hs
  · rw [k2]; simp only [heap_base]; omega
  · intro x hx
    simp only [heap_base] at hx
    rw [k3, if_neg (by omega)]

theorem derived1_new1_steps (s : State) (h : Nat) (t : State)
    (hnew : derived1_new1 s = some (h, t)) (hh : h ≠ 0) :
    (calloc s sizeof_derived1_st).1 = h ∧
      derived1_init (calloc s sizeof_derived1_st).2 h = (MY_RC_E_SUCCESS, t) := by
  unfold derived1_new1 at hnew
  by_cases hr : (calloc s sizeof_derived1_st).1 = 0
  · simp [hr] at hnew
    exact absurd hnew.1.symm hh
  by_cases hi : (derived1_init (calloc s sizeof_derived1_st).2
      (calloc s sizeof_derived1_st).1).1 = MY_RC_E_SUCCESS
  · simp [hr, hi, my_rc_e_is_notok] at hnew
    obtain ⟨e1, e2⟩ := hnew
    subst e1
    exact ⟨rfl, Prod.ext hi e2⟩
  · simp [hr, hi, my_rc_e_is_notok] at hnew
    exact absurd hnew.2.symm hh

theorem derived1_new1_chain (s : State) (x : Nat) (hb : 65536 ≤ s.brk) :
    (if x = s.brk + 48 then 500
      else if x = s.brk + 56 + 16 then derived1_vtable
      else if x = s.brk then s.brk + 56 + 16
      else if x = s.brk + 56 + 8 then derived1_base2_vtable
      else if x = s.brk + 40 then 7
      else if x = s.brk + 32 then s.brk + 56 + 8
      else if x = s.brk + 56 then derived1_base1_vtable
      else if x = derived1_base1_vtable + 32 then addr_base1_increase_val3_internal
      else if x = s.brk + 24 then 42
      else if x = s.brk + 20 then 2
      else if x = s.brk + 16 then 1
      else if x = s.brk + 8 then s.brk + 56
      else if s.brk + 56 ≤ x ∧ x < s.brk + 56 + 24 then 0
      else if s.brk ≤ x ∧ x < s.brk + 56 then 0 else s.mem x) =
      if x = s.brk + 48 then 500
      else if x = s.brk + 72 then derived1_vtable
      else if x = s.brk then s.brk + 72
      else if x = s.brk + 64 then derived1_base2_vtable
      else if x = s.brk + 40 then 7
      else if x = s.brk + 32 then s.brk + 64
      else if x = s.brk + 56 then derived1_base1_vtable
      else if x = derived1_base1_vtable + 32 then addr_base1_increase_val3_internal
      else if x = s.brk + 24 then 42
      else if x = s.brk + 20 then 2
      else if x = s.brk + 16 then 1
      else if x = s.brk + 8 then s.brk + 56
      else if s.brk ≤ x ∧ x < s.brk + 80 then 0
      else s.mem x := by
  simp only [derived1_base1_vtable]
  by_cases h1 : x = s.brk + 48
  · simp (disch := omega) only [if_pos, if_neg]
  by_cases h2 : x = s.brk + 72
  · simp (disch := omega) only [if_pos, if_neg]
  by_cases h3 : x = s.brk
  · simp (disch := omega) only [if_pos, if_neg]
  by_cases h4 : x = s.brk + 64
  · simp (disch := omega) only [if_pos, if_neg]
  by_cases h5 : x = s.brk + 40
  · simp (disch := omega) only [if_pos, if_neg]
  by_cases h6 : x = s.brk + 32
  · simp (disch := omega) only [if_pos, if_neg]
  by_cases h7 : x = s.brk + 56
  · simp (disch := omega) only [if_pos, if_neg]
  by_cases h8 : x = 8320 + 32
  · simp (disch := omega) only [if_pos, if_neg]
  by_cases h9 : x = s.brk + 24
  · simp (disch := omega) only [if_pos, if_neg]
  by_cases h10 : x = s.brk + 20
  · simp (disch := omega) only [if_pos, if_neg]
  by_cases h11 : x = s.brk + 16
  · simp (disch := omega) only [if_pos, if_neg]
  by_cases h12 : x = s.brk + 8
  · simp (disch := omega) only [if_pos, if_neg]
  by_cases h13 : s.brk ≤ x ∧ x < s.brk + 80
  · simp (disch := omega) only [if_pos, if_neg]
    split_ifs <;> rfl
  · simp (disch := omega) only [if_pos, if_neg]

theorem derived1_new1_ok (s : State) (h : Nat) (t : State) (hs : statics_ok s)
    (hnew : derived1_new1 s = some (h, t)) (hh : h ≠ 0) :
    h = s.brk ∧ statics_ok t ∧ t.brk = s.brk + 80 ∧
    ∀ x, t.mem x =
      if x = h + 48 then 500
      else if x = h + 72 then derived1_vtable
      else if x = h then h + 72
      else if x = h + 64 then derived1_base2_vtable
      else if x = h + 40 then 7
      else if x = h + 32 then h + 64
      else if x = h + 56 then derived1_base1_vtable
      else if x = derived1_base1_vtable + 32 then addr_base1_increase_val3_internal
      else if x = h + 24 then 42
      else if x = h + 20 then 2
      else if x = h + 16 then 1
      else if x = h + 8 then h + 56
      else if h ≤ x ∧ x < h + 80 then 0
      else s.mem x := by
  obtain ⟨e1, e2⟩ := derived1_new1_steps s h t hnew hh
  obtain ⟨k1, k2, k3⟩ := calloc_ok s sizeof_derived1_st (by rw [e1]; exact hh)
  have cs := calloc_statics s sizeof_derived1_st hs (by rw [e1]; exact hh)
  rw [e1] at k1
  subst k1
  have hb := hs.heap
  simp only [sizeof_derived1_st] at k2 k3 cs e2
  obtain ⟨tok, tb, tm⟩ := derived1_init_ok _ s.brk cs hb (by rw [k2])
    (by rw [e2])
  simp only [e2, k2, k3] at tok tb tm
  simp only [heap_base] at hb
  refine ⟨rfl, tok, by rw [tb], ?_⟩
  intro x
  rw [tm]
  exact derived1_new1_chain s x hb

theorem fill5_d2b1 (s : State) (hs : statics_ok s)
    (hinc : s.mem (derived1_base1_vtable + 32) = addr_base1_increase_val3_internal) :
    statics_ok (fill5 s derived1_base1_vtable derived2_base1_vtable) ∧
    ∀ x, (fill5 s derived1_base1_vtable derived2_base1_vtable).mem x =
      if x = derived2_base1_vtable + 16 then addr_derived1_base1_string
      else if x = derived2_base1_vtable + 24 then addr_derived1_base1_string_size
      else if x = derived2_base1_vtable + 32 then addr_base1_increase_val3_internal
      else s.mem x := by
  have heq : ∀ x, (fill5 s derived1_base1_vtable derived2_base1_vtable).mem x =
      if x = derived2_base1_vtable + 16 then addr_derived1_base1_string
      else if x = derived2_base1_vtable + 24 then addr_derived1_base1_string_size
      else if x = derived2_base1_vtable + 32 then addr_base1_increase_val3_internal
      else s.mem x := by
    intro x
    rw [fill5_mem _ _ _ _ (by decide)]
    have a0 := hs.d2b1_delete
    have a1 := hs.d2b1_type_string
    have a2 := hs.d2b1_string
    have a3 := hs.d2b1_string_size
    have a4 := hs.d2b1_increase
    have b2 := hs.d1b1_string
    have b3 := hs.d1b1_string_size
    simp only [off_delete_fn, off_type_string_fn, off_string_fn, off_string_size_fn,
      off_increase_val3_fn, Nat.add_zero, slot_is] at a0 a1 a2 a3 a4 b2 b3
    simp only [merge_slot, a0, a1, b2, b3, hinc]
    rcases a2 with e2 | e2 <;> rcases a3 with e3 | e3 <;> rcases a4 with e4 | e4 <;>
      simp only [e2, e3, e4] <;> split_ifs <;> first | rfl | omega | simp_all
  refine ⟨?_, heq⟩
  apply statics_ok_step s _ hs
  · rw [fill5_brk]
    exact hs.heap
  · intro x _
    rw [heq]
    split_ifs with e1 e2 e3
    · subst e1
      rcases hs.d2b1_string with e | e
      · right
        exact ⟨e, by decide, by decide⟩
      · left
        exact e.symm
    · subst e2
      rcases hs.d2b1_string_size with e | e
      · right
        exact ⟨e, by decide, by decide⟩
      · left
        exact e.symm
    · subst e3
      rcases hs.d2b1_increase with e | e
      · right
        exact ⟨e, by decide, by decide⟩
      · left
        exact e.symm
    · left
      rfl

theorem fill5_d2b2 (s : State) (hs : statics_ok s) :
    statics_ok (fill5 s derived1_base2_vtable derived2_base2_vtable) ∧
    ∀ x, (fill5 s derived1_base2_vtable derived2_base2_vtable).mem x =
      if x = derived2_base2_vtable + 16 then addr_derived1_base2_string
      else if x = derived2_base2_vtable + 24 then addr_derived1_base2_string_size
      else if x = derived2_base2_vtable + 32 then addr_derived1_base2_increase_val1
      else s.mem x := by
  have heq : ∀ x, (fill5 s derived1_base2_vtable derived2_base2_vtable).mem x =
      if x = derived2_base2_vtable + 16 then addr_derived1_base2_string
      else if x = derived2_base2_vtable + 24 then addr_derived1_base2_string_size
      else if x = derived2_base2_vtable + 32 then addr_derived1_base2_increase_val1
      else s.mem x := by
    intro x
    rw [fill5_mem _ _ _ _ (by decide)]
    have a0 := hs.d2b2_delete
    have a1 := hs.d2b2_type_string
    have a2 := hs.d2b2_string
    have a3 := hs.d2b2_string_size
    have a4 := hs.d2b2_increase
    have b2 := hs.d1b2_string
    have b3 := hs.d1b2_string_size
    have b4 := hs.d1b2_increase
    simp only [off_delete_fn, off_type_string_fn, off_string_fn, off_string_size_fn,
      off_increase_val1_fn, Nat.add_zero, slot_is] at a0 a1 a2 a3 a4 b2 b3 b4
    simp only [merge_slot, a0, a1, b2, b3, b4]
    rcases a2 with e2 | e2 <;> rcases a3 with e3 | e3 <;> rcases a4 with e4 | e4 <;>
      simp only [e2, e3, e4] <;> split_ifs <;> first | rfl | omega | simp_all
  refine ⟨?_, heq⟩
  apply statics_ok_step s _ hs
  · rw [fill5_brk]
    exact hs.heap
  · intro x _
    rw [heq]
    split_ifs with e1 e2 e3
    · subst e1
      rcases hs.d2b2_string with e | e
      · right
        exact ⟨e, by decide, by decide⟩
      · left
        exact e.symm
    · subst e2
      rcases hs.d2b2_string_size with e | e
      · right
        exact ⟨e, by decide, by decide⟩
      · left
        exact e.symm
    · subst e3
      rcases hs.d2b2_increase with e | e
      · right
        exact ⟨e, by decide, by decide⟩
      · left
        exact e.symm
    · left
      rfl

theorem fill_slot_noop (s : State) (p c fn : Nat) (h : s.mem (c + fn) ≠ 0) :
    fill_slot s p c fn = s := by
  unfold fill_slot
  rw [if_neg h]

theorem INHERIT_VTABLE_FN_noop (s : State) (p c fn : Nat) (dnc : Bool)
    (h : s.mem (c + fn) ≠ 0) : INHERIT_VTABLE_FN s p c fn dnc = (s, none) := by
  unfold INHERIT_VTABLE_FN
  rw [if_neg h]

theorem my_rc_e_is_notok_success : my_rc_e_is_notok MY_RC_E_SUCCESS = false := rfl

theorem derived1_inherit_vtable_eq (s t1 t2 : State) (parent child : Nat) (dnc : Bool)
    (hp : parent ≠ 0) (hc : child ≠ 0)
    (h1 : base1_inherit_vtable s derived1_base1_vtable (s.mem child) false
      = (MY_RC_E_SUCCESS, t1))
    (h2 : base2_inherit_vtable t1 derived1_base2_vtable (t1.mem (child + 8)) false
      = (MY_RC_E_SUCCESS, t2))
    (h3 : t2.mem (child + 16) ≠ 0) (h4 : t2.mem (child + 24) ≠ 0) :
    derived1_inherit_vtable s parent child dnc = (MY_RC_E_SUCCESS, t2) := by
  unfold derived1_inherit_vtable
  simp only [off_d1vt_base1_vtable, off_d1vt_base2_vtable, off_d1vt_delete_fn,
    off_d1vt_increase_val4_fn, Nat.add_zero, h1, h2, my_rc_e_is_notok_success,
    INHERIT_VTABLE_FN_noop t2 parent child 16 dnc h3,
    INHERIT_VTABLE_FN_noop t2 parent child 24 dnc h4]
  simp [hp, hc]

theorem derived1_set_vtable_eq (s t u v : State) (g vt : Nat) (h0 : g ≠ 0) (hv : vt ≠ 0)
    (hp : s.mem g ≠ 0)
    (h1 : derived1_inherit_vtable s derived1_vtable vt true = (MY_RC_E_SUCCESS, t))
    (h2 : base1_set_vtable t (g + 8) (t.mem vt) = (MY_RC_E_SUCCESS, u))
    (h3 : base2_set_vtable u (g + 32) (u.mem (vt + 8)) = (MY_RC_E_SUCCESS, v)) :
    derived1_set_vtable s g vt = (MY_RC_E_SUCCESS, v.store (v.mem g) vt) := by
  unfold derived1_set_vtable
  simp only [off_d1vt_base1_vtable, off_d1vt_base2_vtable, off_private_h, off_vtable,
    off_d1_base1, off_d1_base2, Nat.add_zero, h1, h2, h3, my_rc_e_is_notok_success]
  simp [h0, hv, hp]

theorem derived2_init_steps (s : State) (g : Nat)
    (hrc : (derived2_init s g).1 = MY_RC_E_SUCCESS) :
    g ≠ 0 ∧ ∃ t u,
      derived1_init s g = (MY_RC_E_SUCCESS, t) ∧
      derived1_set_vtable t g derived2_derived1_vtable = (MY_RC_E_SUCCESS, u) ∧
      (derived2_init s g).2 = (u.store (g + 32 + 8) 999).store (g + 48) 700 := by
  unfold derived2_init at hrc ⊢
  simp only [off_d2_derived1, off_d1_base2, off_b2_val1, off_d1_val4, Nat.add_zero,
    my_rc_e_is_notok_iff] at hrc ⊢
  by_cases c0 : g = 0
  · rw [if_pos c0] at hrc
    cases hrc
  rw [if_neg c0] at hrc ⊢
  refine ⟨c0, ?_⟩
  generalize derived1_init s g = r1 at hrc ⊢
  obtain ⟨rc1, t⟩ := r1
  dsimp only at hrc ⊢
  by_cases c1 : rc1 = MY_RC_E_SUCCESS
  swap
  · rw [if_pos c1] at hrc
    exact absurd hrc c1
  subst c1
  rw [if_neg (by simp)] at hrc ⊢
  refine ⟨t, ?_⟩
  generalize derived1_set_vtable t g derived2_derived1_vtable = r2 at hrc ⊢
  obtain ⟨rc2, u⟩ := r2
  dsimp only at hrc ⊢
  by_cases c2 : rc2 = MY_RC_E_SUCCESS
  swap
  · rw [if_pos c2] at hrc
    exact absurd hrc c2
  subst c2
  rw [if_neg (by simp)]
  exact ⟨u, rfl, rfl, rfl⟩

theorem derived1_set_vtable_d2 (t : State) (g p1 p2 p3 : Nat) (tok : statics_ok t)
    (hinc : t.mem (derived1_base1_vtable + 32) = addr_base1_increase_val3_internal)
    (hg : heap_base ≤ g) (e1 : t.mem (g + 8) = p1) (e2 : t.mem (g + 32) = p2)
    (e3 : t.mem g = p3) (hp1 : heap_base ≤ p1) (hp2 : heap_base ≤ p2) (hp3 : heap_base ≤ p3)
    (n1 : p1 ≠ g + 32) (n2 : p1 ≠ g) (n3 : p2 ≠ g) :
    statics_ok (fill5 (fill5 t derived1_base1_vtable derived2_base1_vtable)
      derived1_base2_vtable derived2_base2_vtable) ∧
    derived1_set_vtable t g derived2_derived1_vtable =
      (MY_RC_E_SUCCESS,
        ((((fill5 (fill5 t derived1_base1_vtable derived2_base1_vtable) derived1_base2_vtable
          derived2_base2_vtable).store p1 derived2_base1_vtable).store p2
            derived2_base2_vtable).store p3 derived2_derived1_vtable)) := by
  obtain ⟨F1ok, f1⟩ := fill5_d2b1 t tok hinc
  obtain ⟨F2ok, f2⟩ := fill5_d2b2 _ F1ok
  simp only [heap_base] at hg hp1 hp2 hp3
  simp only [derived2_base1_vtable, derived2_base2_vtable] at f1 f2
  -- reads of the object through the two fills
  have r1 : (fill5 (fill5 t derived1_base1_vtable derived2_base1_vtable) derived1_base2_vtable
      derived2_base2_vtable).mem (g + 8) = p1 := by
    rw [f2, f1]
    simp (disch := omega) only [if_neg]
    exact e1
  have r2 : (fill5 (fill5 t derived1_base1_vtable derived2_base1_vtable) derived1_base2_vtable
      derived2_base2_vtable).mem (g + 32) = p2 := by
    rw [f2, f1]
    simp (disch := omega) only [if_neg]
    exact e2
  have r3 : (fill5 (fill5 t derived1_base1_vtable derived2_base1_vtable) derived1_base2_vtable
      derived2_base2_vtable).mem g = p3 := by
    rw [f2, f1]
    simp (disch := omega) only [if_neg]
    exact e3
  -- derived1_inherit_vtable
  have a0 : t.mem derived2_derived1_vtable = derived2_base1_vtable := tok.d2d1_base1_vtable
  have a1 : (fill5 t derived1_base1_vtable derived2_base1_vtable).mem
      (derived2_derived1_vtable + 8) = derived2_base2_vtable := F1ok.d2d1_base2_vtable
  have a2 := F2ok.d2d1_delete
  have a3 := F2ok.d2d1_increase
  simp only [off_d1vt_delete_fn, off_d1vt_increase_val4_fn] at a2 a3
  have i1 := derived1_inherit_vtable_eq t _ _ derived1_vtable derived2_derived1_vtable true
    (by decide) (by decide)
    (by rw [a0]; exact base1_inherit_vtable_lenient t _ _ (by decide) (by decide))
    (by rw [a1, base2_inherit_vtable_eq]
        exact base1_inherit_vtable_lenient _ _ _ (by decide) (by decide))
    (by rw [a2]; decide) (by rw [a3]; decide)
  -- the tables of derived2.c are fully resolved after the two fills
  have c0 : (fill5 (fill5 t derived1_base1_vtable derived2_base1_vtable) derived1_base2_vtable
      derived2_base2_vtable).mem derived2_base1_vtable = addr_derived2_base1_delete :=
    F2ok.d2b1_delete
  have c1 := F2ok.d2b1_type_string
  have c2 : (fill5 (fill5 t derived1_base1_vtable derived2_base1_vtable) derived1_base2_vtable
      derived2_base2_vtable).mem (derived2_base1_vtable + 16) = addr_derived1_base1_string := by
    have h := f2 (8512 + 16)
    simp (disch := omega) only [if_neg, if_pos, f1] at h
    exact h
  have c3 : (fill5 (fill5 t derived1_base1_vtable derived2_base1_vtable) derived1_base2_vtable
      derived2_base2_vtable).mem (derived2_base1_vtable + 24) = addr_derived1_base1_string_size := by
    have h := f2 (8512 + 24)
    simp (disch := omega) only [if_neg, if_pos, f1] at h
    exact h
  have c4 : (fill5 (fill5 t derived1_base1_vtable derived2_base1_vtable) derived1_base2_vtable
      derived2_base2_vtable).mem (derived2_base1_vtable + 32) = addr_base1_increase_val3_internal := by
    have h := f2 (8512 + 32)
    simp (disch := omega) only [if_neg, if_pos, f1] at h
    exact h
  have d0 : (fill5 (fill5 t derived1_base1_vtable derived2_base1_vtable) derived1_base2_vtable
      derived2_base2_vtable).mem derived2_base2_vtable = addr_derived2_base2_delete :=
    F2ok.d2b2_delete
  have d1 := F2ok.d2b2_type_string
  have d2 : (fill5 (fill5 t derived1_base1_vtable derived2_base1_vtable) derived1_base2_vtable
      derived2_base2_vtable).mem (derived2_base2_vtable + 16) = addr_derived1_base2_string := by
    have h := f2 (8576 + 16)
    simp (disch := omega) only [if_neg, if_pos] at h
    exact h
  have d3 : (fill5 (fill5 t derived1_base1_vtable derived2_base1_vtable) derived1_base2_vtable
      derived2_base2_vtable).mem (derived2_base2_vtable + 24) = addr_derived1_base2_string_size := by
    have h := f2 (8576 + 24)
    simp (disch := omega) only [if_neg, if_pos] at h
    exact h
  have d4 : (fill5 (fill5 t derived1_base1_vtable derived2_base1_vtable) derived1_base2_vtable
      derived2_base2_vtable).mem (derived2_base2_vtable + 32) = addr_derived1_base2_increase_val1 := by
    have h := f2 (8576 + 32)
    simp (disch := omega) only [if_neg, if_pos] at h
    exact h
  simp only [off_type_string_fn] at c1 d1
  -- base1_set_vtable
  have b0 : (fill5 (fill5 t derived1_base1_vtable derived2_base1_vtable) derived1_base2_vtable
      derived2_base2_vtable).mem derived2_derived1_vtable = derived2_base1_vtable :=
    F2ok.d2d1_base1_vtable
  have b1 : (fill5 (fill5 t derived1_base1_vtable derived2_base1_vtable) derived1_base2_vtable
      derived2_base2_vtable).mem (derived2_derived1_vtable + 8) = derived2_base2_vtable :=
    F2ok.d2d1_base2_vtable
  refine ⟨F2ok, ?_⟩
  clear f1 f2 a0 a1 a2 a3 F1ok F2ok
  generalize fill5 (fill5 t derived1_base1_vtable derived2_base1_vtable) derived1_base2_vtable
      derived2_base2_vtable = F2 at *
  have v1 := base1_set_vtable_ok F2 (g + 8) derived2_base1_vtable (by omega) (by decide)
    (by rw [r1]; omega) (by decide)
    (by rw [exists_lt_five]; simp [c0, c1, c2, c3, c4])
    (by intro i hi; simp only [derived2_base1_vtable]; omega)
  rw [r1, fill5_noop F2 base1_vtable derived2_base1_vtable (by rw [c0]; decide)
    (by rw [c1]; decide) (by rw [c2]; decide) (by rw [c3]; decide) (by rw [c4]; decide)] at v1
  -- base2_set_vtable
  have hst : ∀ (a v x : Nat), x < 65536 → 65536 ≤ a → (F2.store a v).mem x = F2.mem x := by
    intro a v x hx ha
    rw [store_mem, if_neg (by omega)]
  have d0' := (hst p1 derived2_base1_vtable _ (by norm_num) hp1).trans d0
  have d1' := (hst p1 derived2_base1_vtable _ (by norm_num) hp1).trans d1
  have d2' := (hst p1 derived2_base1_vtable _ (by norm_num) hp1).trans d2
  have d3' := (hst p1 derived2_base1_vtable _ (by norm_num) hp1).trans d3
  have d4' := (hst p1 derived2_base1_vtable _ (by norm_num) hp1).trans d4
  have b1' := (hst p1 derived2_base1_vtable _ (by norm_num) hp1).trans b1
  have r2' : (F2.store p1 derived2_base1_vtable).mem (g + 32) = p2 := by
    rw [store_mem, if_neg (by omega), r2]
  have v2 := base2_set_vtable_ok (F2.store p1 derived2_base1_vtable) (g + 32)
    derived2_base2_vtable (by omega) (by decide) (by rw [r2']; omega) (by decide)
    (by
      rw [exists_lt_five]
      simp only [Nat.mul_zero, Nat.add_zero, Nat.mul_one, Nat.reduceMul, d0', d1', d2', d3', d4']
      simp)
    (by intro i hi; simp only [derived2_base2_vtable]; omega)
  rw [r2', fill5_noop (F2.store p1 derived2_base1_vtable) base2_vtable derived2_base2_vtable
    (by rw [d0']; decide) (by rw [d1']; decide) (by rw [d2']; decide) (by rw [d3']; decide)
    (by rw [d4']; decide)] at v2
  have fin := derived1_set_vtable_eq t F2 (F2.store p1 derived2_base1_vtable)
    ((F2.store p1 derived2_base1_vtable).store p2 derived2_base2_vtable) g
    derived2_derived1_vtable (by omega) (by decide) (by rw [e3]; omega) i1
    (by rw [b0]; exact v1) (by rw [b1']; exact v2)
  rw [fin]
  have r3' : ((F2.store p1 derived2_base1_vtable).store p2 derived2_base2_vtable).mem g = p3 := by
    simp only [store_mem]
    rw [if_neg (by omega), if_neg (by omega), r3]
  rw [r3']

set_option maxHeartbeats 4000000 in
theorem derived2_init_chain (s t F1 F2 : State) (g x : Nat) (hg : 65536 ≤ g)
    (hg2 : g + 56 ≤ s.brk)
    (tm : ∀ x, t.mem x =
      if x = g + 48 then 500
      else if x = s.brk + 16 then derived1_vtable
      else if x = g then s.brk + 16
      else if x = s.brk + 8 then derived1_base2_vtable
      else if x = g + 40 then 7
      else if x = g + 32 then s.brk + 8
      else if x = s.brk then derived1_base1_vtable
      else if x = derived1_base1_vtable + 32 then addr_base1_increase_val3_internal
      else if x = g + 24 then 42
      else if x = g + 20 then 2
      else if x = g + 16 then 1
      else if x = g + 8 then s.brk
      else if s.brk ≤ x ∧ x < s.brk + 24 then 0
      else s.mem x)
    (f1 : ∀ x, F1.mem x =
      if x = derived2_base1_vtable + 16 then addr_derived1_base1_string
      else if x = derived2_base1_vtable + 24 then addr_derived1_base1_string_size
      else if x = derived2_base1_vtable + 32 then addr_base1_increase_val3_internal
      else t.mem x)
    (f2 : ∀ x, F2.mem x =
      if x = derived2_base2_vtable + 16 then addr_derived1_base2_string
      else if x = derived2_base2_vtable + 24 then addr_derived1_base2_string_size
      else if x = derived2_base2_vtable + 32 then addr_derived1_base2_increase_val1
      else F1.mem x) :
    (((((F2.store s.brk derived2_base1_vtable).store (s.brk + 8) derived2_base2_vtable).store
      (s.brk + 16) derived2_derived1_vtable).store (g + 32 + 8) 999).store (g + 48) 700).mem x =
      if x = g + 48 then 700
      else if x = g + 40 then 999
      else if x = s.brk + 16 then derived2_derived1_vtable
      else if x = s.brk + 8 then derived2_base2_vtable
      else if x = s.brk then derived2_base1_vtable
      else if x = derived2_base2_vtable + 16 then addr_derived1_base2_string
      else if x = derived2_base2_vtable + 24 then addr_derived1_base2_string_size
      else if x = derived2_base2_vtable + 32 then addr_derived1_base2_increase_val1
      else if x = derived2_base1_vtable + 16 then addr_derived1_base1_string
      else if x = derived2_base1_vtable + 24 then addr_derived1_base1_string_size
      else if x = derived2_base1_vtable + 32 then addr_base1_increase_val3_internal
      else if x = g then s.brk + 16
      else if x = g + 32 then s.brk + 8
      else if x = derived1_base1_vtable + 32 then addr_base1_increase_val3_internal
      else if x = g + 24 then 42
      else if x = g + 20 then 2
      else if x = g + 16 then 1
      else if x = g + 8 then s.brk
      else if s.brk ≤ x ∧ x < s.brk + 24 then 0
      else s.mem x := by
  simp only [store_mem, f2, f1, tm, derived1_base1_vtable, derived2_base1_vtable, derived2_base2_vtable]
  by_cases h1 : x = g + 48
  · simp (disch := omega) only [if_neg]
    try simp (disch := omega) only [if_pos]
  by_cases h2 : x = g + 40
  · simp (disch := omega) only [if_neg]
    try simp (disch := omega) only [if_pos]
  by_cases h3 : x = s.brk + 16
  · simp (disch := omega) only [if_neg]
    try simp (disch := omega) only [if_pos]
  by_cases h4 : x = s.brk + 8
  · simp (disch := omega) only [if_neg]
    try simp (disch := omega) only [if_pos]
  by_cases h5 : x = s.brk
  · simp (disch := omega) only [if_neg]
    try simp (disch := omega) only [if_pos]
  by_cases h6 : x = 8576 + 16
  · simp (disch := omega) only [if_neg]
    try simp (disch := omega) only [if_pos]
  by_cases h7 : x = 8576 + 24
  · simp (disch := omega) only [if_neg]
    try simp (disch := omega) only [if_pos]
  by_cases h8 : x = 8576 + 32
  · simp (disch := omega) only [if_neg]
    try simp (disch := omega) only [if_pos]
  by_cases h9 : x = 8512 + 16
  · simp (disch := omega) only [if_neg]
    try simp (disch := omega) only [if_pos]
  by_cases h10 : x = 8512 + 24
  · simp (disch := omega) only [if_neg]
    try simp (disch := omega) only [if_pos]
  by_cases h11 : x = 8512 + 32
  · simp (disch := omega) only [if_neg]
    try simp (disch := omega) only [if_pos]
  by_cases h12 : x = g
  · simp (disch := omega) only [if_neg]
    try simp (disch := omega) only [if_pos]
  by_cases h13 : x = g + 32
  · simp (disch := omega) only [if_neg]
    try simp (disch := omega) only [if_pos]
  by_cases h14 : x = 8320 + 32
  · simp (disch := omega) only [if_neg]
    try simp (disch := omega) only [if_pos]
  by_cases h15 : x = g + 24
  · simp (disch := omega) only [if_neg]
    try simp (disch := omega) only [if_pos]
  by_cases h16 : x = g + 20
  · simp (disch := omega) only [if_neg]
    try simp (disch := omega) only [if_pos]
  by_cases h17 : x = g + 16
  · simp (disch := omega) only [if_neg]
    try simp (disch := omega) only [if_pos]
  by_cases h18 : x = g + 8
  · simp (disch := omega) only [if_neg]
    try simp (disch := omega) only [if_pos]
  by_cases h19 : s.brk ≤ x ∧ x < s.brk + 24
  · simp (disch := omega) only [if_neg]
    try simp (disch := omega) only [if_pos]
  · simp (disch := omega) only [if_neg]
    try simp (disch := omega) only [if_pos]

set_option maxHeartbeats 4000000 in
theorem derived2_new1_chain (s : State) (x : Nat) (hb : 65536 ≤ s.brk) :
    (
      if x = s.brk + 48 then 700
      else if x = s.brk + 40 then 999
      else if x = s.brk + 56 + 16 then derived2_derived1_vtable
      else if x = s.brk + 56 + 8 then derived2_base2_vtable
      else if x = s.brk + 56 then derived2_base1_vtable
      else if x = derived2_base2_vtable + 16 then addr_derived1_base2_string
      else if x = derived2_base2_vtable + 24 then addr_derived1_base2_string_size
      else if x = derived2_base2_vtable + 32 then addr_derived1_base2_increase_val1
      else if x = derived2_base1_vtable + 16 then addr_derived1_base1_string
      else if x = derived2_base1_vtable + 24 then addr_derived1_base1_string_size
      else if x = derived2_base1_vtable + 32 then addr_base1_increase_val3_internal
      else if x = s.brk then s.brk + 56 + 16
      else if x = s.brk + 32 then s.brk + 56 + 8
      else if x = derived1_base1_vtable + 32 then addr_base1_increase_val3_internal
      else if x = s.brk + 24 then 42
      else if x = s.brk + 20 then 2
      else if x = s.brk + 16 then 1
      else if x = s.brk + 8 then s.brk + 56
      else if s.brk + 56 ≤ x ∧ x < s.brk + 56 + 24 then 0
      else if s.brk ≤ x ∧ x < s.brk + 56 then 0 else s.mem x) =
      if x = s.brk + 48 then 700
      else if x = s.brk + 40 then 999
      else if x = s.brk + 72 then derived2_derived1_vtable
      else if x = s.brk + 64 then derived2_base2_vtable
      else if x = s.brk + 56 then derived2_base1_vtable
      else if x = derived2_base2_vtable + 16 then addr_derived1_base2_string
      else if x = derived2_base2_vtable + 24 then addr_derived1_base2_string_size
      else if x = derived2_base2_vtable + 32 then addr_derived1_base2_increase_val1
      else if x = derived2_base1_vtable + 16 then addr_derived1_base1_string
      else if x = derived2_base1_vtable + 24 then addr_derived1_base1_string_size
      else if x = derived2_base1_vtable + 32 then addr_base1_increase_val3_internal
      else if x = s.brk then s.brk + 72
      else if x = s.brk + 32 then s.brk + 64
      else if x = derived1_base1_vtable + 32 then addr_base1_increase_val3_internal
      else if x = s.brk + 24 then 42
      else if x = s.brk + 20 then 2
      else if x = s.brk + 16 then 1
      else if x = s.brk + 8 then s.brk + 56
      else if s.brk ≤ x ∧ x < s.brk + 80 then 0
      else s.mem x := by
  simp only [derived1_base1_vtable, derived2_base1_vtable, derived2_base2_vtable]
  by_cases h1 : x = s.brk + 48
  · simp (disch := omega) only [if_neg]
    try simp (disch := omega) only [if_pos]
  by_cases h2 : x = s.brk + 40
  · simp (disch := omega) only [if_neg]
    try simp (disch := omega) only [if_pos]
  by_cases h3 : x = s.brk + 72
  · simp (disch := omega) only [if_neg]
    try simp (disch := omega) only [if_pos]
  by_cases h4 : x = s.brk + 64
  · simp (disch := omega) only [if_neg]
    try simp (disch := omega) only [if_pos]
  by_cases h5 : x = s.brk + 56
  · simp (disch := omega) only [if_neg]
    try simp (disch := omega) only [if_pos]
  by_cases h6 : x = 8576 + 16
  · simp (disch := omega) only [if_neg]
    try simp (disch := omega) only [if_pos]
  by_cases h7 : x = 8576 + 24
  · simp (disch := omega) only [if_neg]
    try simp (disch := omega) only [if_pos]
  by_cases h8 : x = 8576 + 32
  · simp (disch := omega) only [if_neg]
    try simp (disch := omega) only [if_pos]
  by_cases h9 : x = 8512 + 16
  · simp (disch := omega) only [if_neg]
    try simp (disch := omega) only [if_pos]
  by_cases h10 : x = 8512 + 24
  · simp (disch := omega) only [if_neg]
    try simp (disch := omega) only [if_pos]
  by_cases h11 : x = 8512 + 32
  · simp (disch := omega) only [if_neg]
    try simp (disch := omega) only [if_pos]
  by_cases h12 : x = s.brk
  · simp (disch := omega) only [if_neg]
    try simp (disch := omega) only [if_pos]
  by_cases h13 : x = s.brk + 32
  · simp (disch := omega) only [if_neg]
    try simp (disch := omega) only [if_pos]
  by_cases h14 : x = 8320 + 32
  · simp (disch := omega) only [if_neg]
    try simp (disch := omega) only [if_pos]
  by_cases h15 : x = s.brk + 24
  · simp (disch := omega) only [if_neg]
    try simp (disch := omega) only [if_pos]
  by_cases h16 : x = s.brk + 20
  · simp (disch := omega) only [if_neg]
    try simp (disch := omega) only [if_pos]
  by_cases h17 : x = s.brk + 16
  · simp (disch := omega) only [if_neg]
    try simp (disch := omega) only [if_pos]
  by_cases h18 : x = s.brk + 8
  · simp (disch := omega) only [if_neg]
    try simp (disch := omega) only [if_pos]
  by_cases h19 : s.brk ≤ x ∧ x < s.brk + 80
  · simp (disch := omega) only [if_neg]
    try simp (disch := omega) only [if_pos]
    split_ifs <;> rfl
  · simp (disch := omega) only [if_neg]
    try simp (disch := omega) only [if_pos]

theorem derived2_init_ok (s : State) (g : Nat) (hs : statics_ok s) (hg : heap_base ≤ g)
    (hg2 : g + sizeof_derived1_st ≤ s.brk)
    (hrc : (derived2_init s g).1 = MY_RC_E_SUCCESS) :
    statics_ok (derived2_init s g).2 ∧ (derived2_init s g).2.brk = s.brk + 24 ∧
    ∀ x, (derived2_init s g).2.mem x =
      if x = g + 48 then 700
      else if x = g + 40 then 999
      else if x = s.brk + 16 then derived2_derived1_vtable
      else if x = s.brk + 8 then derived2_base2_vtable
      else if x = s.brk then derived2_base1_vtable
      else if x = derived2_base2_vtable + 16 then addr_derived1_base2_string
      else if x = derived2_base2_vtable + 24 then addr_derived1_base2_string_size
      else if x = derived2_base2_vtable + 32 then addr_derived1_base2_increase_val1
      else if x = derived2_base1_vtable + 16 then addr_derived1_base1_string
      else if x = derived2_base1_vtable + 24 then addr_derived1_base1_string_size
      else if x = derived2_base1_vtable + 32 then addr_base1_increase_val3_internal
      else if x = g then s.brk + 16
      else if x = g + 32 then s.brk + 8
      else if x = derived1_base1_vtable + 32 then addr_base1_increase_val3_internal
      else if x = g + 24 then 42
      else if x = g + 20 then 2
      else if x = g + 16 then 1
      else if x = g + 8 then s.brk
      else if s.brk ≤ x ∧ x < s.brk + 24 then 0
      else s.mem x := by
  obtain ⟨_, t, u, e1, e2, hfin⟩ := derived2_init_steps s g hrc
  obtain ⟨tok, tb, tm⟩ := derived1_init_ok s g hs hg hg2 (by rw [e1])
  simp only [e1] at tok tb tm
  have hb := hs.heap
  have hg' := hg
  simp only [heap_base, sizeof_derived1_st] at hb hg' hg2
  have tm' := tm
  simp only [derived1_base1_vtable] at tm'
  have hinc : t.mem (derived1_base1_vtable + 32) = addr_base1_increase_val3_internal := by
    have h := tm' (8320 + 32)
    simp (disch := omega) only [if_neg, if_pos] at h
    exact h
  have q1 : t.mem (g + 8) = s.brk := by
    have h := tm' (g + 8)
    simp (disch := omega) only [if_neg, if_pos] at h
    exact h
  have q2 : t.mem (g + 32) = s.brk + 8 := by
    have h := tm' (g + 32)
    simp (disch := omega) only [if_neg, if_pos] at h
    exact h
  have q3 : t.mem g = s.brk + 16 := by
    have h := tm' g
    simp (disch := omega) only [if_neg, if_pos] at h
    exact h
  clear tm'
  obtain ⟨F2ok, sv⟩ := derived1_set_vtable_d2 t g s.brk (s.brk + 8) (s.brk + 16) tok hinc hg
    q1 q2 q3 (by simp only [heap_base]; omega) (by simp only [heap_base]; omega)
    (by simp only [heap_base]; omega) (by omega) (by omega) (by omega)
  obtain ⟨F1ok, f1⟩ := fill5_d2b1 t tok hinc
  obtain ⟨_, f2⟩ := fill5_d2b2 _ F1ok
  rw [e2] at sv
  have hu := (Prod.ext_iff.mp sv).2
  simp only at hu
  rw [hu] at hfin
  have mfin := fun x => derived2_init_chain s t _ _ g x hg' hg2 tm f1 f2
  refine ⟨?_, ?_, ?_⟩
  · apply statics_ok_frame _ _ F2ok
    · rw [hfin]
      simp only [store_brk, fill5_brk, tb, heap_base]
      omega
    · intro x hx
      simp only [heap_base] at hx
      rw [hfin]
      simp only [store_mem]
      rw [if_neg (by omega), if_neg (by omega), if_neg (by omega), if_neg (by omega),
        if_neg (by omega)]
  · rw [hfin]
    simp only [store_brk, fill5_brk, tb]
  · intro x
    rw [hfin]
    exact mfin x

theorem derived2_new1_steps (s : State) (hh : (derived2_new1 s).1 ≠ 0) :
    (calloc s sizeof_derived2_st).1 = (derived2_new1 s).1 ∧
      derived2_init (calloc s sizeof_derived2_st).2 (derived2_new1 s).1 =
        (MY_RC_E_SUCCESS, (derived2_new1 s).2) := by
  unfold derived2_new1 at hh ⊢
  by_cases hr : (calloc s sizeof_derived2_st).1 = 0
  · simp [hr] at hh
  by_cases hi : (derived2_init (calloc s sizeof_derived2_st).2
      (calloc s sizeof_derived2_st).1).1 = MY_RC_E_SUCCESS
  · simp only [ne_eq, hr, not_false_eq_true, if_true, hi, my_rc_e_is_notok_success,
      Bool.false_eq_true, if_false]
    exact ⟨trivial, Prod.ext hi rfl⟩
  · simp [hr, hi, my_rc_e_is_notok] at hh

theorem derived2_new1_ok (s : State) (h : Nat) (t : State) (hs : statics_ok s)
    (hnew : derived2_new1 s = (h, t)) (hh : h ≠ 0) :
    h = s.brk ∧ statics_ok t ∧ t.brk = s.brk + 80 ∧
    ∀ x, t.mem x =
      if x = h + 48 then 700
      else if x = h + 40 then 999
      else if x = h + 72 then derived2_derived1_vtable
      else if x = h + 64 then derived2_base2_vtable
      else if x = h + 56 then derived2_base1_vtable
      else if x = derived2_base2_vtable + 16 then addr_derived1_base2_string
      else if x = derived2_base2_vtable + 24 then addr_derived1_base2_string_size
      else if x = derived2_base2_vtable + 32 then addr_derived1_base2_increase_val1
      else if x = derived2_base1_vtable + 16 then addr_derived1_base1_string
      else if x = derived2_base1_vtable + 24 then addr_derived1_base1_string_size
      else if x = derived2_base1_vtable + 32 then addr_base1_increase_val3_internal
      else if x = h then h + 72
      else if x = h + 32 then h + 64
      else if x = derived1_base1_vtable + 32 then addr_base1_increase_val3_internal
      else if x = h + 24 then 42
      else if x = h + 20 then 2
      else if x = h + 16 then 1
      else if x = h + 8 then h + 56
      else if h ≤ x ∧ x < h + 80 then 0
      else s.mem x := by
  have hh' : (derived2_new1 s).1 ≠ 0 := by rw [hnew]; exact hh
  obtain ⟨e1, e2⟩ := derived2_new1_steps s hh'
  rw [hnew] at e1 e2
  simp only at e1 e2
  obtain ⟨k1, k2, k3⟩ := calloc_ok s sizeof_derived2_st (by rw [e1]; exact hh)
  have cs := calloc_statics s sizeof_derived2_st hs (by rw [e1]; exact hh)
  rw [e1] at k1
  subst k1
  have hb := hs.heap
  simp only [sizeof_derived2_st] at k2 k3 cs e2
  obtain ⟨tok, tb, tm⟩ := derived2_init_ok _ s.brk cs hb (by rw [k2])
    (by rw [e2])
  simp only [e2, k2, k3] at tok tb tm
  simp only [heap_base] at hb
  refine ⟨rfl, tok, by rw [tb], ?_⟩
  intro x
  rw [tm]
  exact derived2_new1_chain s x hb

theorem base1_new1_eq (s : State) (hs : statics_ok s) (hh : (base1_new1 s).1 ≠ 0) :
    (base1_new1 s).1 = s.brk ∧ statics_ok (base1_new1 s).2 ∧
    (base1_new1 s).2.brk = s.brk + 32 ∧
    ∀ x, (base1_new1 s).2.mem x =
      if x = s.brk + 16 then 42 else if x = s.brk + 12 then 2 else if x = s.brk + 8 then 1
      else if x = s.brk + 24 then base1_vtable
      else if x = s.brk then s.brk + 24
      else if s.brk + 24 ≤ x ∧ x < s.brk + 24 + 8 then 0
      else if s.brk ≤ x ∧ x < s.brk + 24 then 0 else s.mem x := by
  obtain ⟨e1, hi, he⟩ := base1_new1_ok s hh
  obtain ⟨k1, k2, k3⟩ := calloc_ok s sizeof_base1_st (by rw [e1]; exact hh)
  have cs := calloc_statics s sizeof_base1_st hs (by rw [e1]; exact hh)
  rw [e1] at k1
  obtain ⟨_, _, b1, m1⟩ := base1_init_ok _ _ hi
  have hb := hs.heap
  simp only [heap_base] at hb
  simp only [sizeof_base1_st] at k2 k3 cs b1 m1
  rw [k2] at b1 m1
  rw [k1] at m1 b1 he
  refine ⟨k1, ?_, ?_, ?_⟩
  · rw [he]
    simp only [sizeof_base1_st]
    apply statics_ok_frame _ _ cs
    · rw [b1]; simp only [heap_base]; omega
    · intro x hx
      simp only [heap_base] at hx
      rw [m1]
      simp (disch := omega) only [if_neg]
  · rw [he]
    simp only [sizeof_base1_st]
    exact b1
  · intro x
    rw [he]
    simp only [sizeof_base1_st]
    rw [m1, k3]

theorem base1_new1_object (s : State) (hs : statics_ok s) (hh : (base1_new1 s).1 ≠ 0) :
    base1_object (base1_new1 s).2 (base1_new1 s).1 := by
  obtain ⟨e, tok, _, tm⟩ := base1_new1_eq s hs hh
  have hb := hs.heap
  simp only [heap_base] at hb
  have r1 := tm s.brk
  have r2 := tm (s.brk + 24)
  simp (disch := omega) only [if_neg, if_pos, if_true] at r1 r2
  refine ⟨tok, ⟨?_, ?_, ?_⟩, ?_⟩
  · simp only [heap_base, e]; omega
  · simp only [off_private_h, Nat.add_zero, e, r1, heap_base]
    omega
  · simp only [off_private_h, off_vtable, Nat.add_zero, e, r1, r2]
  · simp only [off_private_h, Nat.add_zero, e, r1, separate, sizeof_private_st,
      sizeof_base1_st]
    omega

theorem derived1_new1_object (s : State) (h : Nat) (t : State) (hs : statics_ok s)
    (hnew : derived1_new1 s = some (h, t)) (hh : h ≠ 0) : derived1_object t h := by
  obtain ⟨e, tok, _, tm⟩ := derived1_new1_ok s h t hs hnew hh
  have hb := hs.heap
  simp only [heap_base] at hb
  subst e
  simp only [derived1_base1_vtable] at tm
  have r1 := tm (s.brk + 8)
  have r2 := tm (s.brk + 56)
  have r3 := tm (s.brk + 32)
  have r4 := tm (s.brk + 64)
  have r5 := tm s.brk
  have r6 := tm (s.brk + 72)
  have r7 := tm (8320 + 32)
  simp (disch := omega) only [if_neg, if_pos, if_true] at r1 r2 r3 r4 r5 r6 r7
  simp only [derived1_object, installed, separate, heap_base, off_d1_base1, off_d1_base2,
    off_private_h, off_vtable, off_increase_val3_fn, sizeof_private_st, sizeof_derived1_st,
    derived1_base1_vtable, Nat.add_zero, r1, r2, r3, r4, r5, r6, r7]
  refine ⟨tok, ⟨?_, ?_, trivial⟩, ⟨?_, ?_, trivial⟩, ⟨?_, ?_, trivial⟩, ?_, ?_, ?_, trivial⟩ <;>
    omega

theorem derived2_new1_object (s : State) (h : Nat) (t : State) (hs : statics_ok s)
    (hnew : derived2_new1 s = (h, t)) (hh : h ≠ 0) : derived2_object t h := by
  obtain ⟨e, tok, _, tm⟩ := derived2_new1_ok s h t hs hnew hh
  have hb := hs.heap
  simp only [heap_base] at hb
  subst e
  simp only [derived1_base1_vtable, derived2_base1_vtable, derived2_base2_vtable] at tm
  have r1 := tm (s.brk + 8)
  have r2 := tm (s.brk + 56)
  have r3 := tm (s.brk + 32)
  have r4 := tm (s.brk + 64)
  have r5 := tm s.brk
  have r6 := tm (s.brk + 72)
  have c2 := tm (8512 + 16)
  have c3 := tm (8512 + 24)
  have c4 := tm (8512 + 32)
  have d2 := tm (8576 + 16)
  have d3 := tm (8576 + 24)
  have d4 := tm (8576 + 32)
  simp (disch := omega) only [if_neg, if_pos, if_true] at r1 r2 r3 r4 r5 r6 c2 c3 c4 d2 d3 d4
  simp only [derived2_object, installed, separate, heap_base, off_d2_derived1, off_d1_base1,
    off_d1_base2, off_private_h, off_vtable, off_string_fn, off_string_size_fn,
    off_increase_val3_fn, off_increase_val1_fn, sizeof_private_st, sizeof_derived2_st,
    derived2_base1_vtable, derived2_base2_vtable, Nat.add_zero, r1, r2, r3, r4, r5, r6, c2, c3,
    c4, d2, d3, d4]
  refine ⟨tok, ⟨?_, ?_, trivial⟩, ⟨?_, ?_, trivial⟩, ⟨?_, ?_, trivial⟩, ?_, ?_, ?_, trivial,
    trivial, trivial, trivial, trivial, trivial⟩ <;> omega
theorem dispatch_valid (s : State) (obj vt fn f : Nat) (hi : installed s obj vt)
    (hvt : vt ≠ 0) (hf : s.mem (vt + fn) = f) (hf0 : f ≠ 0) :
    VALIDATE_VTABLE_FN s obj fn MY_RC_E_SUCCESS = MY_RC_E_SUCCESS ∧ vtable_fn s obj fn = f := by
  obtain ⟨h0, h1, h2⟩ := hi
  simp only [heap_base] at h0 h1
  unfold VALIDATE_VTABLE_FN vtable_fn
  rw [h2, hf, if_neg (by omega), if_neg (by omega), if_neg hvt, if_neg hf0]
  exact ⟨rfl, rfl⟩

theorem base1_type_string_at (s : State) (obj vt f : Nat) (hi : installed s obj vt)
    (hvt : vt ≠ 0) (hf : s.mem (vt + off_type_string_fn) = f) (hf0 : f ≠ 0) :
    base1_type_string s obj = call_base1_type_string_fn f s obj := by
  obtain ⟨v1, v2⟩ := dispatch_valid s obj vt _ f hi hvt hf hf0
  simp only [base1_type_string, v1, v2, my_rc_e_is_notok_success]
  rfl

theorem base2_type_string_at (s : State) (obj vt f : Nat) (hi : installed s obj vt)
    (hvt : vt ≠ 0) (hf : s.mem (vt + off_type_string_fn) = f) (hf0 : f ≠ 0) :
    base2_type_string s obj = call_base2_type_string_fn f s obj := by
  obtain ⟨v1, v2⟩ := dispatch_valid s obj vt _ f hi hvt hf hf0
  simp only [base2_type_string, v1, v2, my_rc_e_is_notok_success]
  rfl

theorem base1_string_size_at (s : State) (obj vt f out : Nat) (hi : installed s obj vt)
    (hvt : vt ≠ 0) (hf : s.mem (vt + off_string_size_fn) = f) (hf0 : f ≠ 0) :
    base1_string_size s obj out = call_base1_string_size_fn f s obj out := by
  obtain ⟨v1, v2⟩ := dispatch_valid s obj vt _ f hi hvt hf hf0
  simp only [base1_string_size, v1, v2, my_rc_e_is_notok_success]
  rfl

theorem base2_string_size_at (s : State) (obj vt f out : Nat) (hi : installed s obj vt)
    (hvt : vt ≠ 0) (hf : s.mem (vt + off_string_size_fn) = f) (hf0 : f ≠ 0) :
    base2_string_size s obj out = call_base2_string_size_fn f s obj out := by
  obtain ⟨v1, v2⟩ := dispatch_valid s obj vt _ f hi hvt hf hf0
  simp only [base2_string_size, v1, v2, my_rc_e_is_notok_success]
  rfl

theorem base1_string_at (s : State) (obj vt f buffer size : Nat) (hi : installed s obj vt)
    (hvt : vt ≠ 0) (hf : s.mem (vt + off_string_fn) = f) (hf0 : f ≠ 0) :
    base1_string s obj buffer size = call_base1_string_fn f s obj buffer size := by
  obtain ⟨v1, v2⟩ := dispatch_valid s obj vt _ f hi hvt hf hf0
  simp only [base1_string, v1, v2, my_rc_e_is_notok_success]
  rfl

theorem base2_string_at (s : State) (obj vt f buffer size : Nat) (hi : installed s obj vt)
    (hvt : vt ≠ 0) (hf : s.mem (vt + off_string_fn) = f) (hf0 : f ≠ 0) :
    base2_string s obj buffer size = call_base2_string_fn f s obj buffer size := by
  obtain ⟨v1, v2⟩ := dispatch_valid s obj vt _ f hi hvt hf hf0
  simp only [base2_string, v1, v2, my_rc_e_is_notok_success]
  rfl

theorem base1_delete_at (s : State) (obj vt f : Nat) (hi : installed s obj vt)
    (hvt : vt ≠ 0) (hf : s.mem (vt + off_delete_fn) = f) (hf0 : f ≠ 0) :
    base1_delete s obj = call_base1_delete_fn f s obj := by
  obtain ⟨v1, v2⟩ := dispatch_valid s obj vt _ f hi hvt hf hf0
  simp only [base1_delete, v1, v2, my_rc_e_is_notok_success]
  rfl

theorem base2_delete_at (s : State) (obj vt f : Nat) (hi : installed s obj vt)
    (hvt : vt ≠ 0) (hf : s.mem (vt + off_delete_fn) = f) (hf0 : f ≠ 0) :
    base2_delete s obj = call_base2_delete_fn f s obj := by
  obtain ⟨v1, v2⟩ := dispatch_valid s obj vt _ f hi hvt hf hf0
  simp only [base2_delete, v1, v2, my_rc_e_is_notok_success]
  rfl

theorem base1_increase_val3_at (s : State) (obj vt f : Nat) (hi : installed s obj vt)
    (hvt : vt ≠ 0) (hf : s.mem (vt + off_increase_val3_fn) = f) (hf0 : f ≠ 0) :
    base1_increase_val3 s obj = call_base1_increase_val3_fn f s obj := by
  obtain ⟨v1, v2⟩ := dispatch_valid s obj vt _ f hi hvt hf hf0
  simp only [base1_increase_val3, v1, v2, my_rc_e_is_notok_success]
  rfl

theorem base2_increase_val1_at (s : State) (obj vt f : Nat) (hi : installed s obj vt)
    (hvt : vt ≠ 0) (hf : s.mem (vt + off_increase_val1_fn) = f) (hf0 : f ≠ 0) :
    base2_increase_val1 s obj = call_base2_increase_val1_fn f s obj := by
  obtain ⟨v1, v2⟩ := dispatch_valid s obj vt _ f hi hvt hf hf0
  simp only [base2_increase_val1, v1, v2, my_rc_e_is_notok_success]
  rfl

theorem derived1_increase_val4_at (s : State) (obj vt f : Nat) (hi : installed s obj vt)
    (hvt : vt ≠ 0) (hf : s.mem (vt + off_d1vt_increase_val4_fn) = f) (hf0 : f ≠ 0) :
    derived1_increase_val4 s obj = call_derived1_increase_val4_fn f s obj := by
  obtain ⟨v1, v2⟩ := dispatch_valid s obj vt _ f hi hvt hf hf0
  simp only [derived1_increase_val4, v1, v2, my_rc_e_is_notok_success]
  rfl

theorem derived1_delete_at (s : State) (obj vt f : Nat) (hi : installed s obj vt)
    (hvt : vt ≠ 0) (hf : s.mem (vt + off_d1vt_delete_fn) = f) (hf0 : f ≠ 0) :
    derived1_delete s obj = call_derived1_delete_fn f s obj := by
  obtain ⟨v1, v2⟩ := dispatch_valid s obj vt _ f hi hvt hf hf0
  simp only [derived1_delete, v1, v2, my_rc_e_is_notok_success]
  rfl

theorem cast_d1_base1 (h : Nat) (hh : h ≠ 0) : derived1_cast_to_base1 h = h + off_d1_base1 := by
  simp [derived1_cast_to_base1, hh]

theorem cast_d1_base2 (h : Nat) (hh : h ≠ 0) : derived1_cast_to_base2 h = h + off_d1_base2 := by
  simp [derived1_cast_to_base2, hh]

theorem cast_d2_d1 (h : Nat) (hh : h ≠ 0) : derived2_cast_to_derived1 h = h + off_d2_derived1 := by
  simp [derived2_cast_to_derived1, hh]

theorem cast_d2_base1 (h : Nat) (hh : h ≠ 0) :
    derived1_cast_to_base1 (derived2_cast_to_derived1 h) = h + off_d2_derived1 + off_d1_base1 := by
  simp [derived1_cast_to_base1, derived2_cast_to_derived1, hh]

theorem cast_d2_base2 (h : Nat) (hh : h ≠ 0) :
    derived1_cast_to_base2 (derived2_cast_to_derived1 h) = h + off_d2_derived1 + off_d1_base2 := by
  simp [derived1_cast_to_base2, derived2_cast_to_derived1, hh]

/-- C4: through the up-cast base1 and base2 handles of an object produced by a successful
`derived1_new1` the type name is "derived1"; through the base1 and base2 handles reached
from an object produced by a successful `derived2_new1` via `derived2_cast_to_derived1`
it is "derived2"; for an object produced by a successful `base1_new1` it is "base1". -/
theorem C4_type_string_override (s : State) (hs : statics_ok s) :
    (∀ h t, derived1_new1 s = some (h, t) → h ≠ 0 →
      base1_type_string t (derived1_cast_to_base1 h) = some "derived1" ∧
      base2_type_string t (derived1_cast_to_base2 h) = some "derived1") ∧
    (∀ h t, derived2_new1 s = (h, t) → h ≠ 0 →
      base1_type_string t (derived1_cast_to_base1 (derived2_cast_to_derived1 h))
        = some "derived2" ∧
      base2_type_string t (derived1_cast_to_base2 (derived2_cast_to_derived1 h))
        = some "derived2") ∧
    ((base1_new1 s).1 ≠ 0 →
      base1_type_string (base1_new1 s).2 (base1_new1 s).1 = some "base1") := by
  refine ⟨?_, ?_, ?_⟩
  · intro h t hnew hh
    obtain ⟨tok, i1, i2, _⟩ := derived1_new1_object s h t hs hnew hh
    rw [cast_d1_base1 h hh, cast_d1_base2 h hh,
      base1_type_string_at t _ _ _ i1 (by decide) tok.d1b1_type_string (by decide),
      base2_type_string_at t _ _ _ i2 (by decide) tok.d1b2_type_string (by decide)]
    exact ⟨rfl, rfl⟩
  · intro h t hnew hh
    obtain ⟨tok, i1, i2, _⟩ := derived2_new1_object s h t hs hnew hh
    rw [cast_d2_base1 h hh, cast_d2_base2 h hh,
      base1_type_string_at t _ _ _ i1 (by decide) tok.d2b1_type_string (by decide),
      base2_type_string_at t _ _ _ i2 (by decide) tok.d2b2_type_string (by decide)]
    exact ⟨rfl, rfl⟩
  · intro hh
    obtain ⟨tok, i1, _⟩ := base1_new1_object s hs hh
    rw [base1_type_string_at _ _ _ _ i1 (by decide) tok.b1_type_string (by decide)]
    rfl

/-- C4 at program start: the first `derived1_new1` succeeds and the type name seen through
the up-cast base1 handle of its object is "derived1". -/
theorem C4_type_string_override_witness :
    statics_ok initial_state ∧
    base1_type_string (derived1_init (calloc initial_state sizeof_derived1_st).2 heap_base).2
      (derived1_cast_to_base1 heap_base) = some "derived1" :=
  ⟨statics_ok_initial_state,
    ((C4_type_string_override initial_state statics_ok_initial_state).1 heap_base
      (derived1_init (calloc initial_state sizeof_derived1_st).2 heap_base).2 rfl
      (by decide)).1⟩
theorem statics_ok_tables (s t : State) (hs : statics_ok s) (hbrk : heap_base ≤ t.brk)
    (hf : ∀ x, x < addr_min_size → t.mem x = s.mem x) : statics_ok t := by
  obtain ⟨_, a1, a2, a3, a4, a5, a6, a7, a8, a9, a10, a11, a12, a13, a14, a15, a16, a17, a18,
    a19, a20, a21, a22, a23, a24, a25, a26, a27, a28, a29, a30, a31, a32, a33, a34, a35, a36,
    a37, a38⟩ := hs
  constructor <;> first
    | exact hbrk
    | (simp only [slot_is] at *
       rw [hf _ (by norm_num)]
       assumption)

theorem base1_object_frame (s t : State) (h : Nat) (ho : base1_object s h)
    (hb : heap_base ≤ t.brk)
    (hf : ∀ x, (x < addr_min_size ∨ x = h ∨ x = s.mem h) → t.mem x = s.mem x) :
    base1_object t h := by
  obtain ⟨sok, ⟨i1, i2, i3⟩, sep⟩ := ho
  simp only [off_private_h, off_vtable, Nat.add_zero] at i2 i3 sep
  have e1 := hf h (Or.inr (Or.inl rfl))
  have e2 := hf (s.mem h) (Or.inr (Or.inr rfl))
  refine ⟨statics_ok_tables s t sok hb (fun x hx => hf x (Or.inl hx)), ⟨i1, ?_, ?_⟩, ?_⟩
  · simp only [off_private_h, Nat.add_zero, e1]; exact i2
  · simp only [off_private_h, off_vtable, Nat.add_zero, e1, e2]; exact i3
  · simp only [off_private_h, Nat.add_zero, e1]; exact sep

theorem derived1_object_frame (s t : State) (d : Nat) (ho : derived1_object s d)
    (hb : heap_base ≤ t.brk)
    (hf : ∀ x, (x < addr_min_size ∨ x = d ∨ x = d + 8 ∨ x = d + 32 ∨ x = s.mem d ∨
      x = s.mem (d + 8) ∨ x = s.mem (d + 32)) → t.mem x = s.mem x) :
    derived1_object t d := by
  obtain ⟨sok, ⟨i1, i2, i3⟩, ⟨j1, j2, j3⟩, ⟨k1, k2, k3⟩, sep1, sep2, sep3, r⟩ := ho
  simp only [off_private_h, off_vtable, off_d1_base1, off_d1_base2, Nat.add_zero] at *
  have e1 := hf d (by simp)
  have e2 := hf (d + 8) (by simp)
  have e3 := hf (d + 32) (by simp)
  have e4 := hf (s.mem d) (by simp)
  have e5 := hf (s.mem (d + 8)) (by simp)
  have e6 := hf (s.mem (d + 32)) (by simp)
  have e7 := hf (derived1_base1_vtable + off_increase_val3_fn) (Or.inl (by decide))
  simp only [derived1_object, installed, off_private_h, off_vtable, off_d1_base1, off_d1_base2,
    Nat.add_zero, e1, e2, e3, e4, e5, e6, e7]
  exact ⟨statics_ok_tables s t sok hb (fun x hx => hf x (Or.inl hx)), ⟨i1, i2, i3⟩,
    ⟨j1, j2, j3⟩, ⟨k1, k2, k3⟩, sep1, sep2, sep3, r⟩

theorem derived2_object_frame (s t : State) (d : Nat) (ho : derived2_object s d)
    (hb : heap_base ≤ t.brk)
    (hf : ∀ x, (x < addr_min_size ∨ x = d ∨ x = d + 8 ∨ x = d + 32 ∨ x = s.mem d ∨
      x = s.mem (d + 8) ∨ x = s.mem (d + 32)) → t.mem x = s.mem x) :
    derived2_object t d := by
  obtain ⟨sok, ⟨i1, i2, i3⟩, ⟨j1, j2, j3⟩, ⟨k1, k2, k3⟩, sep1, sep2, sep3, r1, r2, r3, r4, r5,
    r6⟩ := ho
  simp only [off_private_h, off_vtable, off_d1_base1, off_d1_base2, off_d2_derived1,
    Nat.add_zero] at *
  have e1 := hf d (by simp)
  have e2 := hf (d + 8) (by simp)
  have e3 := hf (d + 32) (by simp)
  have e4 := hf (s.mem d) (by simp)
  have e5 := hf (s.mem (d + 8)) (by simp)
  have e6 := hf (s.mem (d + 32)) (by simp)
  have f1 := hf (derived2_base1_vtable + off_string_fn) (Or.inl (by decide))
  have f2 := hf (derived2_base1_vtable + off_string_size_fn) (Or.inl (by decide))
  have f3 := hf (derived2_base1_vtable + off_increase_val3_fn) (Or.inl (by decide))
  have f4 := hf (derived2_base2_vtable + off_string_fn) (Or.inl (by decide))
  have f5 := hf (derived2_base2_vtable + off_string_size_fn) (Or.inl (by decide))
  have f6 := hf (derived2_base2_vtable + off_increase_val1_fn) (Or.inl (by decide))
  simp only [derived2_object, installed, off_private_h, off_vtable, off_d1_base1, off_d1_base2,
    off_d2_derived1, Nat.add_zero, e1, e2, e3, e4, e5, e6, f1, f2, f3, f4, f5, f6]
  exact ⟨statics_ok_tables s t sok hb (fun x hx => hf x (Or.inl hx)), ⟨i1, i2, i3⟩,
    ⟨j1, j2, j3⟩, ⟨k1, k2, k3⟩, sep1, sep2, sep3, r1, r2, r3, r4, r5, r6⟩

theorem base1_object_data (s : State) (h k v : Nat) (ho : base1_object s h) (hk0 : 0 < k)
    (hk : k < 24) : base1_object (s.store (h + k) v) h := by
  have ho2 := ho
  obtain ⟨sok, ⟨i1, i2, i3⟩, sep⟩ := ho2
  simp only [off_private_h, Nat.add_zero, separate, sizeof_private_st, sizeof_base1_st,
    heap_base] at i1 i2 sep
  refine base1_object_frame s (s.store (h + k) v) h ho sok.heap ?_
  intro x hx
  simp only [addr_min_size] at hx
  rw [store_mem, if_neg (by omega)]

theorem derived1_object_data (s : State) (d k v : Nat) (ho : derived1_object s d)
    (hk0 : 0 < k) (hk8 : k ≠ 8) (hk32 : k ≠ 32) (hk : k < 56) :
    derived1_object (s.store (d + k) v) d := by
  have ho2 := ho
  obtain ⟨sok, ⟨i1, i2, i3⟩, ⟨j1, j2, j3⟩, ⟨k1, k2, k3⟩, sep1, sep2, sep3, r⟩ := ho2
  simp only [off_private_h, off_d1_base1, off_d1_base2, Nat.add_zero, separate,
    sizeof_private_st, sizeof_derived1_st, heap_base] at i1 i2 j1 j2 k1 k2 sep1 sep2 sep3
  refine derived1_object_frame s (s.store (d + k) v) d ho sok.heap ?_
  intro x hx
  simp only [addr_min_size] at hx
  rw [store_mem, if_neg (by omega)]

theorem derived2_object_data (s : State) (d k v : Nat) (ho : derived2_object s d)
    (hk0 : 0 < k) (hk8 : k ≠ 8) (hk32 : k ≠ 32) (hk : k < 56) :
    derived2_object (s.store (d + k) v) d := by
  have ho2 := ho
  obtain ⟨sok, ⟨i1, i2, i3⟩, ⟨j1, j2, j3⟩, ⟨k1, k2, k3⟩, sep1, sep2, sep3, r⟩ := ho2
  simp only [off_private_h, off_d1_base1, off_d1_base2, off_d2_derived1, Nat.add_zero, separate,
    sizeof_private_st, sizeof_derived2_st, heap_base] at i1 i2 j1 j2 k1 k2 sep1 sep2 sep3
  refine derived2_object_frame s (s.store (d + k) v) d ho sok.heap ?_
  intro x hx
  simp only [addr_min_size] at hx
  rw [store_mem, if_neg (by omega)]

theorem base1_increase_val3_obj (s : State) (obj vt : Nat) (hi : installed s obj vt)
    (hvt : vt ≠ 0)
    (hf : s.mem (vt + off_increase_val3_fn) = addr_base1_increase_val3_internal) :
    base1_increase_val3 s obj = some (MY_RC_E_SUCCESS,
      s.store (obj + off_val3) (load32 s (obj + off_val3) * 2 % 2 ^ 32)) := by
  have h0 : obj ≠ 0 := by
    have := hi.1
    simp only [heap_base] at this
    omega
  rw [base1_increase_val3_at s obj vt _ hi hvt hf (by decide)]
  simp [call_base1_increase_val3_fn, base1_increase_val3_internal, h0]

theorem base2_increase_val1_obj (s : State) (obj vt : Nat) (hi : installed s obj vt)
    (hvt : vt ≠ 0)
    (hf : s.mem (vt + off_increase_val1_fn) = addr_derived1_base2_increase_val1) :
    base2_increase_val1 s obj = some (MY_RC_E_SUCCESS,
      s.store (obj + off_b2_val1) ((load32 s (obj + off_b2_val1) + 5) % 2 ^ 32)) := by
  have h0 : obj ≠ 0 := by
    have := hi.1
    simp only [heap_base] at this
    omega
  rw [base2_increase_val1_at s obj vt _ hi hvt hf (by decide)]
  simp [call_base2_increase_val1_fn, derived1_base2_increase_val1, h0]

theorem derived1_increase_val4_obj1 (s : State) (obj vt : Nat) (hi : installed s obj vt)
    (hvt : vt ≠ 0)
    (hf : s.mem (vt + off_d1vt_increase_val4_fn) = addr_derived1_increase_val4_internal) :
    derived1_increase_val4 s obj = some (MY_RC_E_SUCCESS,
      s.store (obj + off_d1_val4) (load32 s (obj + off_d1_val4) * 3 % 2 ^ 32)) := by
  have h0 : obj ≠ 0 := by
    have := hi.1
    simp only [heap_base] at this
    omega
  rw [derived1_increase_val4_at s obj vt _ hi hvt hf (by decide)]
  simp [call_derived1_increase_val4_fn, derived1_increase_val4_internal, h0]

theorem derived1_increase_val4_obj2 (s : State) (obj vt : Nat) (hi : installed s obj vt)
    (hvt : vt ≠ 0)
    (hf : s.mem (vt + off_d1vt_increase_val4_fn) = addr_derived2_derived1_increase_val4) :
    derived1_increase_val4 s obj = some (MY_RC_E_SUCCESS,
      s.store (obj + off_d1_val4) ((load32 s (obj + off_d1_val4) + 20) % 2 ^ 32)) := by
  have h0 : obj ≠ 0 := by
    have := hi.1
    simp only [heap_base] at this
    omega
  rw [derived1_increase_val4_at s obj vt _ hi hvt hf (by decide)]
  simp [call_derived1_increase_val4_fn, derived2_derived1_increase_val4, h0]

theorem derived1_object_ne (s : State) (d : Nat) (ho : derived1_object s d) : d ≠ 0 := by
  have := ho.2.2.2.1.1
  simp only [heap_base] at this
  omega

theorem derived2_object_ne (s : State) (d : Nat) (ho : derived2_object s d) : d ≠ 0 := by
  have := ho.2.2.2.1.1
  simp only [heap_base, off_d2_derived1] at this
  omega
/-- C11: on a fully constructed base1 object, and on the up-cast base1 handle of a fully
constructed derived1 or derived2 object, `base1_increase_val3` returns `MY_RC_E_SUCCESS`
and the resulting state is the old one with the single cell `val3` replaced by
`(2 * val3) mod 2^32`; the object is again fully constructed with the same tables. -/
theorem C11_doubling_rule (s : State) (h : Nat) :
    (base1_object s h →
      base1_increase_val3 s h = some (MY_RC_E_SUCCESS,
        s.store (h + off_val3) (load32 s (h + off_val3) * 2 % 2 ^ 32)) ∧
      base1_object (s.store (h + off_val3) (load32 s (h + off_val3) * 2 % 2 ^ 32)) h) ∧
    (derived1_object s h →
      base1_increase_val3 s (derived1_cast_to_base1 h) = some (MY_RC_E_SUCCESS,
        s.store (derived1_cast_to_base1 h + off_val3)
          (load32 s (derived1_cast_to_base1 h + off_val3) * 2 % 2 ^ 32)) ∧
      derived1_object (s.store (derived1_cast_to_base1 h + off_val3)
          (load32 s (derived1_cast_to_base1 h + off_val3) * 2 % 2 ^ 32)) h) ∧
    (derived2_object s h →
      base1_increase_val3 s (derived1_cast_to_base1 (derived2_cast_to_derived1 h))
        = some (MY_RC_E_SUCCESS,
          s.store (derived1_cast_to_base1 (derived2_cast_to_derived1 h) + off_val3)
            (load32 s (derived1_cast_to_base1 (derived2_cast_to_derived1 h) + off_val3) * 2
              % 2 ^ 32)) ∧
      derived2_object (s.store (derived1_cast_to_base1 (derived2_cast_to_derived1 h) + off_val3)
        (load32 s (derived1_cast_to_base1 (derived2_cast_to_derived1 h) + off_val3) * 2
          % 2 ^ 32)) h) := by
  refine ⟨?_, ?_, ?_⟩
  · intro ho
    exact ⟨base1_increase_val3_obj s h _ ho.2.1 (by decide) ho.1.b1_increase,
      base1_object_data s h 16 _ ho (by decide) (by decide)⟩
  · intro ho
    rw [cast_d1_base1 h (derived1_object_ne s h ho)]
    exact ⟨base1_increase_val3_obj s _ _ ho.2.1 (by decide) ho.2.2.2.2.2.2.2,
      derived1_object_data s h 24 _ ho (by decide) (by decide) (by decide) (by decide)⟩
  · intro ho
    rw [cast_d2_base1 h (derived2_object_ne s h ho)]
    exact ⟨base1_increase_val3_obj s _ _ ho.2.1 (by decide) ho.2.2.2.2.2.2.2.2.2.1,
      derived2_object_data s h 24 _ ho (by decide) (by decide) (by decide) (by decide)⟩

/-- C11 on the first object `base1_new1` makes at program start: the call succeeds. -/
theorem C11_doubling_rule_witness :
    base1_object (base1_new1 initial_state).2 (base1_new1 initial_state).1 ∧
    base1_increase_val3 (base1_new1 initial_state).2 (base1_new1 initial_state).1
      = some (MY_RC_E_SUCCESS,
        (base1_new1 initial_state).2.store ((base1_new1 initial_state).1 + off_val3)
          (load32 (base1_new1 initial_state).2 ((base1_new1 initial_state).1 + off_val3) * 2
            % 2 ^ 32)) :=
  ⟨base1_new1_object initial_state statics_ok_initial_state (by decide),
    ((C11_doubling_rule (base1_new1 initial_state).2 (base1_new1 initial_state).1).1
      (base1_new1_object initial_state statics_ok_initial_state (by decide))).1⟩

theorem derived1_new1_fresh (s : State) (h : Nat) (t : State) (hs : statics_ok s)
    (hnew : derived1_new1 s = some (h, t)) (hh : h ≠ 0) :
    t.mem (h + 40) = 7 ∧ t.mem (h + 48) = 500 ∧ t.mem (h + 16) = 1 ∧ t.mem (h + 20) = 2 ∧
      t.mem (h + 24) = 42 := by
  obtain ⟨e, _, _, tm⟩ := derived1_new1_ok s h t hs hnew hh
  have hb := hs.heap
  simp only [heap_base] at hb
  subst e
  simp only [derived1_base1_vtable] at tm
  have r1 := tm (s.brk + 40)
  have r2 := tm (s.brk + 48)
  have r3 := tm (s.brk + 16)
  have r4 := tm (s.brk + 20)
  have r5 := tm (s.brk + 24)
  simp (disch := omega) only [if_neg, if_pos, if_true] at r1 r2 r3 r4 r5
  exact ⟨r1, r2, r3, r4, r5⟩

theorem derived2_new1_fresh (s : State) (h : Nat) (t : State) (hs : statics_ok s)
    (hnew : derived2_new1 s = (h, t)) (hh : h ≠ 0) :
    t.mem (h + 40) = 999 ∧ t.mem (h + 48) = 700 ∧ t.mem (h + 16) = 1 ∧ t.mem (h + 20) = 2 ∧
      t.mem (h + 24) = 42 := by
  obtain ⟨e, _, _, tm⟩ := derived2_new1_ok s h t hs hnew hh
  have hb := hs.heap
  simp only [heap_base] at hb
  subst e
  simp only [derived1_base1_vtable, derived2_base1_vtable, derived2_base2_vtable] at tm
  have r1 := tm (s.brk + 40)
  have r2 := tm (s.brk + 48)
  have r3 := tm (s.brk + 16)
  have r4 := tm (s.brk + 20)
  have r5 := tm (s.brk + 24)
  simp (disch := omega) only [if_neg, if_pos, if_true] at r1 r2 r3 r4 r5
  exact ⟨r1, r2, r3, r4, r5⟩

/-- C12: on every fully constructed derived1 or derived2 object, `base2_increase_val1` on
the up-cast base2 handle returns `MY_RC_E_SUCCESS` and the resulting state is the old one
with the single cell `val1` of the embedded base2 replaced by `(val1 + 5) mod 2^32`; on the
object just produced by a successful `derived1_new1` that is 7 becoming 12, on the one just
produced by a successful `derived2_new1` 999 becoming 1004. -/
theorem C12_increase_val1_override (s : State) (hs : statics_ok s) :
    (∀ d, derived1_object s d →
      base2_increase_val1 s (derived1_cast_to_base2 d) = some (MY_RC_E_SUCCESS,
        s.store (derived1_cast_to_base2 d + off_b2_val1)
          ((load32 s (derived1_cast_to_base2 d + off_b2_val1) + 5) % 2 ^ 32))) ∧
    (∀ d, derived2_object s d →
      base2_increase_val1 s (derived1_cast_to_base2 (derived2_cast_to_derived1 d))
        = some (MY_RC_E_SUCCESS,
          s.store (derived1_cast_to_base2 (derived2_cast_to_derived1 d) + off_b2_val1)
            ((load32 s (derived1_cast_to_base2 (derived2_cast_to_derived1 d) + off_b2_val1) + 5)
              % 2 ^ 32))) ∧
    (∀ h t, derived1_new1 s = some (h, t) → h ≠ 0 →
      load32 t (derived1_cast_to_base2 h + off_b2_val1) = 7 ∧
      base2_increase_val1 t (derived1_cast_to_base2 h) = some (MY_RC_E_SUCCESS,
        t.store (derived1_cast_to_base2 h + off_b2_val1) 12)) ∧
    (∀ h t, derived2_new1 s = (h, t) → h ≠ 0 →
      load32 t (derived1_cast_to_base2 (derived2_cast_to_derived1 h) + off_b2_val1) = 999 ∧
      base2_increase_val1 t (derived1_cast_to_base2 (derived2_cast_to_derived1 h))
        = some (MY_RC_E_SUCCESS,
          t.store (derived1_cast_to_base2 (derived2_cast_to_derived1 h) + off_b2_val1) 1004))
    := by
  have g1 : ∀ (u : State) d, derived1_object u d →
      base2_increase_val1 u (derived1_cast_to_base2 d) = some (MY_RC_E_SUCCESS,
        u.store (derived1_cast_to_base2 d + off_b2_val1)
          ((load32 u (derived1_cast_to_base2 d + off_b2_val1) + 5) % 2 ^ 32)) := by
    intro u d ho
    rw [cast_d1_base2 d (derived1_object_ne u d ho)]
    exact base2_increase_val1_obj u _ _ ho.2.2.1 (by decide) ho.1.d1b2_increase
  have g2 : ∀ (u : State) d, derived2_object u d →
      base2_increase_val1 u (derived1_cast_to_base2 (derived2_cast_to_derived1 d))
        = some (MY_RC_E_SUCCESS,
          u.store (derived1_cast_to_base2 (derived2_cast_to_derived1 d) + off_b2_val1)
            ((load32 u (derived1_cast_to_base2 (derived2_cast_to_derived1 d) + off_b2_val1) + 5)
              % 2 ^ 32)) := by
    intro u d ho
    rw [cast_d2_base2 d (derived2_object_ne u d ho)]
    exact base2_increase_val1_obj u _ _ ho.2.2.1 (by decide) ho.2.2.2.2.2.2.2.2.2.2.2.2
  refine ⟨g1 s, g2 s, ?_, ?_⟩
  · intro h t hnew hh
    have ho := derived1_new1_object s h t hs hnew hh
    have hf := (derived1_new1_fresh s h t hs hnew hh).1
    have hv : load32 t (derived1_cast_to_base2 h + off_b2_val1) = 7 := by
      rw [cast_d1_base2 h hh]
      simp only [load32, off_d1_base2, off_b2_val1, Nat.add_assoc, Nat.reduceAdd, hf]
      rfl
    refine ⟨hv, ?_⟩
    rw [g1 t h ho, hv]
    rfl
  · intro h t hnew hh
    have ho := derived2_new1_object s h t hs hnew hh
    have hf := (derived2_new1_fresh s h t hs hnew hh).1
    have hv : load32 t (derived1_cast_to_base2 (derived2_cast_to_derived1 h) + off_b2_val1)
        = 999 := by
      rw [cast_d2_base2 h hh]
      simp only [load32, off_d2_derived1, off_d1_base2, off_b2_val1, Nat.add_zero, Nat.add_assoc,
        Nat.reduceAdd, hf]
      rfl
    refine ⟨hv, ?_⟩
    rw [g2 t h ho, hv]
    rfl

/-- C12 at program start: on the first derived1 object the embedded base2's `val1` is 7
before the call. -/
theorem C12_increase_val1_override_witness :
    statics_ok initial_state ∧
    load32 (derived1_init (calloc initial_state sizeof_derived1_st).2 heap_base).2
      (derived1_cast_to_base2 heap_base + off_b2_val1) = 7 :=
  ⟨statics_ok_initial_state,
    ((C12_increase_val1_override initial_state statics_ok_initial_state).2.2.1 heap_base
      (derived1_init (calloc initial_state sizeof_derived1_st).2 heap_base).2 rfl
      (by decide)).1⟩

/-- C13: on a fully constructed derived1 object `derived1_increase_val4` returns
`MY_RC_E_SUCCESS` and the resulting state is the old one with the single cell `val4`
replaced by `(3 * val4) mod 2^32` (500 becoming 1500 on the object just produced by
`derived1_new1`); on the derived1 handle of a fully constructed derived2 object the cell
is replaced by `(val4 + 20) mod 2^32` instead (700 becoming 720 on the object just
produced by `derived2_new1`). -/
theorem C13_increase_val4 (s : State) (hs : statics_ok s) :
    (∀ d, derived1_object s d →
      derived1_increase_val4 s d = some (MY_RC_E_SUCCESS,
        s.store (d + off_d1_val4) (load32 s (d + off_d1_val4) * 3 % 2 ^ 32))) ∧
    (∀ d, derived2_object s d →
      derived1_increase_val4 s (derived2_cast_to_derived1 d) = some (MY_RC_E_SUCCESS,
        s.store (derived2_cast_to_derived1 d + off_d1_val4)
          ((load32 s (derived2_cast_to_derived1 d + off_d1_val4) + 20) % 2 ^ 32))) ∧
    (∀ h t, derived1_new1 s = some (h, t) → h ≠ 0 →
      load32 t (h + off_d1_val4) = 500 ∧
      derived1_increase_val4 t h = some (MY_RC_E_SUCCESS, t.store (h + off_d1_val4) 1500)) ∧
    (∀ h t, derived2_new1 s = (h, t) → h ≠ 0 →
      load32 t (derived2_cast_to_derived1 h + off_d1_val4) = 700 ∧
      derived1_increase_val4 t (derived2_cast_to_derived1 h) = some (MY_RC_E_SUCCESS,
        t.store (derived2_cast_to_derived1 h + off_d1_val4) 720)) := by
  have g1 : ∀ (u : State) d, derived1_object u d →
      derived1_increase_val4 u d = some (MY_RC_E_SUCCESS,
        u.store (d + off_d1_val4) (load32 u (d + off_d1_val4) * 3 % 2 ^ 32)) := by
    intro u d ho
    exact derived1_increase_val4_obj1 u _ _ ho.2.2.2.1 (by decide) ho.1.d1_increase
  have g2 : ∀ (u : State) d, derived2_object u d →
      derived1_increase_val4 u (derived2_cast_to_derived1 d) = some (MY_RC_E_SUCCESS,
        u.store (derived2_cast_to_derived1 d + off_d1_val4)
          ((load32 u (derived2_cast_to_derived1 d + off_d1_val4) + 20) % 2 ^ 32)) := by
    intro u d ho
    rw [cast_d2_d1 d (derived2_object_ne u d ho)]
    exact derived1_increase_val4_obj2 u _ _ ho.2.2.2.1 (by decide) ho.1.d2d1_increase
  refine ⟨g1 s, g2 s, ?_, ?_⟩
  · intro h t hnew hh
    have ho := derived1_new1_object s h t hs hnew hh
    have hf := (derived1_new1_fresh s h t hs hnew hh).2.1
    have hv : load32 t (h + off_d1_val4) = 500 := by
      simp only [load32, off_d1_val4, hf]
      rfl
    refine ⟨hv, ?_⟩
    rw [g1 t h ho, hv]
    rfl
  · intro h t hnew hh
    have ho := derived2_new1_object s h t hs hnew hh
    have hf := (derived2_new1_fresh s h t hs hnew hh).2.1
    have hv : load32 t (derived2_cast_to_derived1 h + off_d1_val4) = 700 := by
      rw [cast_d2_d1 h hh]
      simp only [load32, off_d2_derived1, off_d1_val4, Nat.add_zero, hf]
      rfl
    refine ⟨hv, ?_⟩
    rw [g2 t h ho, hv]
    rfl

/-- C13 at program start: on the first derived2 object `val4` is 700 before the call. -/
theorem C13_increase_val4_witness :
    statics_ok initial_state ∧
    load32 (derived2_new1 initial_state).2
      (derived2_cast_to_derived1 (derived2_new1 initial_state).1 + off_d1_val4) = 700 :=
  ⟨statics_ok_initial_state,
    ((C13_increase_val4 initial_state statics_ok_initial_state).2.2.2
      (derived2_new1 initial_state).1 (derived2_new1 initial_state).2 rfl (by decide)).1⟩

/-- C20: after a successful `derived2_new1` the table reached from the embedded base1 has
the slots [derived2's delete, derived2's type_string, derived1's string, derived1's
string_size, base1's increase_val3], the table reached from the embedded base2 has the
slots [derived2's delete, derived2's type_string, derived1's string, derived1's
string_size, derived1's increase_val1], and the table reached from the embedded derived1
has derived2's delete and derived2's increase_val4. -/
theorem C20_derived2_inheritance_fill (s : State) (h : Nat) (t : State) (hs : statics_ok s)
    (hnew : derived2_new1 s = (h, t)) (hh : h ≠ 0) :
    (vtable_fn t (derived1_cast_to_base1 (derived2_cast_to_derived1 h)) off_delete_fn
        = addr_derived2_base1_delete ∧
      vtable_fn t (derived1_cast_to_base1 (derived2_cast_to_derived1 h)) off_type_string_fn
        = addr_derived2_base1_type_string ∧
      vtable_fn t (derived1_cast_to_base1 (derived2_cast_to_derived1 h)) off_string_fn
        = addr_derived1_base1_string ∧
      vtable_fn t (derived1_cast_to_base1 (derived2_cast_to_derived1 h)) off_string_size_fn
        = addr_derived1_base1_string_size ∧
      vtable_fn t (derived1_cast_to_base1 (derived2_cast_to_derived1 h)) off_increase_val3_fn
        = addr_base1_increase_val3_internal) ∧
    (vtable_fn t (derived1_cast_to_base2 (derived2_cast_to_derived1 h)) off_delete_fn
        = addr_derived2_base2_delete ∧
      vtable_fn t (derived1_cast_to_base2 (derived2_cast_to_derived1 h)) off_type_string_fn
        = addr_derived2_base2_type_string ∧
      vtable_fn t (derived1_cast_to_base2 (derived2_cast_to_derived1 h)) off_string_fn
        = addr_derived1_base2_string ∧
      vtable_fn t (derived1_cast_to_base2 (derived2_cast_to_derived1 h)) off_string_size_fn
        = addr_derived1_base2_string_size ∧
      vtable_fn t (derived1_cast_to_base2 (derived2_cast_to_derived1 h)) off_increase_val1_fn
        = addr_derived1_base2_increase_val1) ∧
    (vtable_fn t (derived2_cast_to_derived1 h) off_d1vt_delete_fn
        = addr_derived2_derived1_delete ∧
      vtable_fn t (derived2_cast_to_derived1 h) off_d1vt_increase_val4_fn
        = addr_derived2_derived1_increase_val4) := by
  obtain ⟨tok, ⟨_, _, i3⟩, ⟨_, _, j3⟩, ⟨_, _, k3⟩, _, _, _, r1, r2, r3, r4, r5, r6⟩ :=
    derived2_new1_object s h t hs hnew hh
  rw [cast_d2_base1 h hh, cast_d2_base2 h hh, cast_d2_d1 h hh]
  unfold vtable_fn
  rw [i3, j3, k3]
  exact ⟨⟨tok.d2b1_delete, tok.d2b1_type_string, r1, r2, r3⟩,
    ⟨tok.d2b2_delete, tok.d2b2_type_string, r4, r5, r6⟩, tok.d2d1_delete, tok.d2d1_increase⟩

/-- C20 at program start: the `string` slot reached from the embedded base1 of the first
derived2 object is derived1's. -/
theorem C20_derived2_inheritance_fill_witness :
    statics_ok initial_state ∧ (derived2_new1 initial_state).1 ≠ 0 ∧
    vtable_fn (derived2_new1 initial_state).2
      (derived1_cast_to_base1 (derived2_cast_to_derived1 (derived2_new1 initial_state).1))
      off_string_fn = addr_derived1_base1_string :=
  ⟨statics_ok_initial_state, by decide,
    (C20_derived2_inheritance_fill initial_state (derived2_new1 initial_state).1
      (derived2_new1 initial_state).2 statics_ok_initial_state rfl (by decide)).1.2.2.1⟩
/-- C23: `base1_type_string` and `base2_type_string` return the empty string when the
handle is null, or its private block is null, or the block's vtable reference is null, or
the `type_string` slot is null; in every other case they return what the indirect call
through the slot's value returns. -/
theorem C23_type_string_sentinel (s : State) (h : Nat) :
    (dispatch_invalid s h off_type_string_fn →
      base1_type_string s h = some "" ∧ base2_type_string s h = some "") ∧
    (¬ dispatch_invalid s h off_type_string_fn →
      base1_type_string s h
        = call_base1_type_string_fn (vtable_fn s h off_type_string_fn) s h ∧
      base2_type_string s h
        = call_base2_type_string_fn (vtable_fn s h off_type_string_fn) s h) := by
  constructor <;> intro hd
  · refine ⟨?_, ?_⟩ <;>
      simp only [base1_type_string, base2_type_string, VALIDATE_VTABLE_FN_invalid _ _ _ _ hd]
        <;> rfl
  · refine ⟨?_, ?_⟩ <;>
      simp only [base1_type_string, base2_type_string, VALIDATE_VTABLE_FN_valid _ _ _ _ hd]
        <;> rfl

/-- C23 on the null handle at program start. -/
theorem C23_type_string_sentinel_witness :
    dispatch_invalid initial_state 0 off_type_string_fn ∧
    base1_type_string initial_state 0 = some "" :=
  ⟨Or.inl rfl, ((C23_type_string_sentinel initial_state 0).1 (Or.inl rfl)).1⟩

/-- C24: with a null handle or a null record/output pointer, `base1_get_public_data`,
`base1_set_public_data` and `base2_get_val1` return `MY_RC_E_EINVAL` and leave the whole
state unchanged; with both arguments non-null they return `MY_RC_E_SUCCESS`. -/
theorem C24_null_arguments (s : State) (h p : Nat) :
    (h = 0 ∨ p = 0 →
      base1_get_public_data s h p = (MY_RC_E_EINVAL, s) ∧
      base1_set_public_data s h p = (MY_RC_E_EINVAL, s) ∧
      base2_get_val1 s h p = (MY_RC_E_EINVAL, s)) ∧
    (h ≠ 0 → p ≠ 0 →
      (base1_get_public_data s h p).1 = MY_RC_E_SUCCESS ∧
      (base1_set_public_data s h p).1 = MY_RC_E_SUCCESS ∧
      (base2_get_val1 s h p).1 = MY_RC_E_SUCCESS) := by
  constructor
  · intro hn
    refine ⟨?_, ?_, ?_⟩ <;>
      simp only [base1_get_public_data, base1_set_public_data, base2_get_val1, if_pos hn]
  · intro h0 p0
    have hn : ¬ (h = 0 ∨ p = 0) := by
      rintro (e | e)
      · exact h0 e
      · exact p0 e
    refine ⟨?_, ?_, ?_⟩ <;>
      simp only [base1_get_public_data, base1_set_public_data, base2_get_val1, if_neg hn]

/-- C24 at program start, with a null record pointer. -/
theorem C24_null_arguments_witness :
    base1_get_public_data initial_state heap_base 0 = (MY_RC_E_EINVAL, initial_state) :=
  ((C24_null_arguments initial_state heap_base 0).1 (Or.inr rfl)).1

/-- C26: a successful `base1_set_public_data` leaves the allocator untouched, puts the
record's `val1` and `val2` into the object's public data and changes no other cell: not
`val3`, not the private reference, no table, no other field of an enclosing object; the
caller's record, lying apart from the object's public data, is unchanged too. -/
theorem C26_set_frame (s : State) (base1_h public_data : Nat)
    (hset : (base1_set_public_data s base1_h public_data).1 = MY_RC_E_SUCCESS) :
    (base1_set_public_data s base1_h public_data).2.mem
        (base1_h + off_public_data + off_pd_val1) = s.mem (public_data + off_pd_val1) ∧
    (base1_set_public_data s base1_h public_data).2.mem
        (base1_h + off_public_data + off_pd_val2) = s.mem (public_data + off_pd_val2) ∧
    (∀ x, x ≠ base1_h + off_public_data + off_pd_val1 →
      x ≠ base1_h + off_public_data + off_pd_val2 →
      (base1_set_public_data s base1_h public_data).2.mem x = s.mem x) ∧
    (separate public_data 8 (base1_h + off_public_data) 8 →
      (base1_set_public_data s base1_h public_data).2.mem (public_data + off_pd_val1)
        = s.mem (public_data + off_pd_val1) ∧
      (base1_set_public_data s base1_h public_data).2.mem (public_data + off_pd_val2)
        = s.mem (public_data + off_pd_val2)) ∧
    (base1_set_public_data s base1_h public_data).2.brk = s.brk ∧
    (base1_set_public_data s base1_h public_data).2.allocated = s.allocated ∧
    (base1_set_public_data s base1_h public_data).2.freed = s.freed := by
  have hn : ¬ (base1_h = 0 ∨ public_data = 0) := by
    intro hn
    simp [base1_set_public_data, hn] at hset
  simp only [base1_set_public_data, if_neg hn, memcpy_public_data, off_public_data,
    off_pd_val1, off_pd_val2, Nat.add_zero, separate]
  refine ⟨?_, ?_, ?_, ?_, rfl, rfl, rfl⟩
  · simp
  · simp
  · intro x h1 h2
    simp [h1, h2]
  · intro hsep
    have a1 : ¬ (public_data = base1_h + 8 + 4) := by omega
    have a2 : ¬ (public_data = base1_h + 8) := by omega
    have a3 : ¬ (public_data + 4 = base1_h + 8 + 4) := by omega
    have a4 : ¬ (public_data + 4 = base1_h + 8) := by omega
    simp only [store_mem, if_neg a1, if_neg a2, if_neg a3, if_neg a4]
    exact ⟨trivial, trivial⟩

/-- C26 on the base1 embedded in a derived1 object at the first heap address, the record
at `0x4000`. -/
theorem C26_set_frame_witness :
    (base1_set_public_data initial_state (derived1_cast_to_base1 heap_base) 0x4000).1
      = MY_RC_E_SUCCESS ∧
    (base1_set_public_data initial_state (derived1_cast_to_base1 heap_base) 0x4000).2.brk
      = initial_state.brk :=
  ⟨by decide,
    (C26_set_frame initial_state (derived1_cast_to_base1 heap_base) 0x4000
      (by decide)).2.2.2.2.1⟩

/-- C27: with a null parent table or a null child table, `base1_inherit_vtable`,
`base2_inherit_vtable` and `derived1_inherit_vtable` return `MY_RC_E_EINVAL` in strict and
in lenient mode and leave the whole state, hence both tables, unchanged. -/
theorem C27_absent_table (s : State) (parent child : Nat) (do_null_check : Bool)
    (h : parent = 0 ∨ child = 0) :
    base1_inherit_vtable s parent child do_null_check = (MY_RC_E_EINVAL, s) ∧
    base2_inherit_vtable s parent child do_null_check = (MY_RC_E_EINVAL, s) ∧
    derived1_inherit_vtable s parent child do_null_check = (MY_RC_E_EINVAL, s) := by
  refine ⟨?_, ?_, ?_⟩ <;>
    simp only [base1_inherit_vtable, base2_inherit_vtable, derived1_inherit_vtable, if_pos h]

/-- C27 at program start with a null child table, in strict mode. -/
theorem C27_absent_table_witness :
    derived1_inherit_vtable initial_state derived1_vtable 0 true
      = (MY_RC_E_EINVAL, initial_state) :=
  (C27_absent_table initial_state derived1_vtable 0 true (Or.inr rfl)).2.2

/-- C28: for a non-null base1 (base2) handle whose one-level down-cast is non-null, the
two-level down-cast to derived2 equals the derived1-to-derived2 down-cast of the one-level
down-cast. -/
theorem C28_two_level_down_cast (b : Nat) (hb : b ≠ 0) :
    (base1_cast_to_derived1 b ≠ 0 →
      base1_cast_to_derived2 b = derived1_cast_to_derived2 (base1_cast_to_derived1 b)) ∧
    (base2_cast_to_derived1 b ≠ 0 →
      base2_cast_to_derived2 b = derived1_cast_to_derived2 (base2_cast_to_derived1 b)) := by
  constructor <;> intro h1
  · simp only [base1_cast_to_derived2, derived1_cast_to_derived2, if_pos hb, if_pos h1]
    simp only [base1_cast_to_derived1, if_pos hb, off_d2_derived1, off_d1_base1]
    omega
  · simp only [base2_cast_to_derived2, derived1_cast_to_derived2, if_pos hb, if_pos h1]
    simp only [base2_cast_to_derived1, if_pos hb, off_d2_derived1, off_d1_base2]
    omega

/-- C28 on the base2 embedded in an object at the first heap address. -/
theorem C28_two_level_down_cast_witness :
    base2_cast_to_derived1 (heap_base + 32) ≠ 0 ∧
    base2_cast_to_derived2 (heap_base + 32)
      = derived1_cast_to_derived2 (base2_cast_to_derived1 (heap_base + 32)) :=
  ⟨by decide, (C28_two_level_down_cast (heap_base + 32) (by decide)).2 (by decide)⟩

/-- C29: `my_rc_e_get_string` never reads outside the five-entry table; it returns
"__Invalid__" exactly when `my_rc_e_is_valid` is false, which is exactly when the code is
below `MY_RC_E_INVALID` or above `MY_RC_E_MAX`; for a valid code it returns the table
entry at that index, the five entries being "Invalid RC", "Success", "Invalid input",
"No memory" and "Max RC". -/
theorem C29_get_string_total (rc : Int) :
    (my_rc_e_is_valid rc = false ↔
      (rc < my_rc_e.code MY_RC_E_INVALID ∨ my_rc_e.code MY_RC_E_MAX < rc)) ∧
    (my_rc_e_get_string rc = some "__Invalid__" ↔ my_rc_e_is_valid rc = false) ∧
    (my_rc_e_is_valid rc = true →
      rc.toNat < my_rc_e_string.length ∧
      my_rc_e_get_string rc = some (my_rc_e_string.getD rc.toNat "")) ∧
    my_rc_e_get_string (my_rc_e.code MY_RC_E_INVALID) = some "Invalid RC" ∧
    my_rc_e_get_string (my_rc_e.code MY_RC_E_SUCCESS) = some "Success" ∧
    my_rc_e_get_string (my_rc_e.code MY_RC_E_EINVAL) = some "Invalid input" ∧
    my_rc_e_get_string (my_rc_e.code MY_RC_E_ENOMEM) = some "No memory" ∧
    my_rc_e_get_string (my_rc_e.code MY_RC_E_MAX) = some "Max RC" := by
  have hv : my_rc_e_is_valid rc = true ↔ (0 ≤ rc ∧ rc ≤ 4) := by
    simp [my_rc_e_is_valid, my_rc_e.code]
  refine ⟨?_, ?_, ?_, by decide, by decide, by decide, by decide, by decide⟩
  · simp only [my_rc_e.code]
    rw [← Bool.not_eq_true, hv]
    omega
  · by_cases h : my_rc_e_is_valid rc = true
    · obtain ⟨h0, h4⟩ := hv.mp h
      interval_cases rc <;> simp +decide [my_rc_e_get_string, h]
    · simp [my_rc_e_get_string, h]
  · intro h
    obtain ⟨h0, h4⟩ := hv.mp h
    interval_cases rc <;> simp +decide [my_rc_e_get_string, h]
theorem base1_inherit_vtable_inv (P : State → Prop) (s : State) (p c : Nat) (dnc : Bool)
    (h0 : P s)
    (hstep : ∀ (t : State) (fn : Nat),
      (fn = 0 ∨ fn = 8 ∨ fn = 16 ∨ fn = 24 ∨ fn = 32) → P t → P (fill_slot t p c fn)) :
    P (base1_inherit_vtable s p c dnc).2 := by
  have p0 := hstep s 0 (by simp) h0
  have p1 := hstep _ 8 (by simp) p0
  have p2 := hstep _ 16 (by simp) p1
  have p3 := hstep _ 24 (by simp) p2
  have p4 := hstep _ 32 (by simp) p3
  unfold base1_inherit_vtable
  simp only [INHERIT_VTABLE_FN_eq, off_delete_fn, off_type_string_fn, off_string_fn,
    off_string_size_fn, off_increase_val3_fn]
  by_cases hpc : p = 0 ∨ c = 0
  · rw [if_pos hpc]; exact h0
  rw [if_neg hpc]
  by_cases c0 : dnc = true ∧ s.mem (c + 0) = 0 ∧ s.mem (p + 0) = 0
  · simp only [if_pos c0]; exact p0
  simp only [if_neg c0]
  by_cases c1 : dnc = true ∧ (fill_slot s p c 0).mem (c + 8) = 0 ∧
      (fill_slot s p c 0).mem (p + 8) = 0
  · simp only [if_pos c1]; exact p1
  simp only [if_neg c1]
  by_cases c2 : dnc = true ∧ (fill_slot (fill_slot s p c 0) p c 8).mem (c + 16) = 0 ∧
      (fill_slot (fill_slot s p c 0) p c 8).mem (p + 16) = 0
  · simp only [if_pos c2]; exact p2
  simp only [if_neg c2]
  by_cases c3 : dnc = true ∧
      (fill_slot (fill_slot (fill_slot s p c 0) p c 8) p c 16).mem (c + 24) = 0 ∧
      (fill_slot (fill_slot (fill_slot s p c 0) p c 8) p c 16).mem (p + 24) = 0
  · simp only [if_pos c3]; exact p3
  simp only [if_neg c3]
  by_cases c4 : dnc = true ∧
      (fill_slot (fill_slot (fill_slot (fill_slot s p c 0) p c 8) p c 16) p c 24).mem (c + 32)
        = 0 ∧
      (fill_slot (fill_slot (fill_slot (fill_slot s p c 0) p c 8) p c 16) p c 24).mem (p + 32)
        = 0
  · simp only [if_pos c4]; exact p4
  simp only [if_neg c4]; exact p4

theorem base1_inherit_vtable_other (s : State) (p c x : Nat) (dnc : Bool)
    (hx : ∀ i, i < 5 → x ≠ c + 8 * i) :
    (base1_inherit_vtable s p c dnc).2.mem x = s.mem x := by
  apply base1_inherit_vtable_inv (fun t => t.mem x = s.mem x) s p c dnc rfl
  intro t fn hfn ht
  have hne : x ≠ c + fn := by
    rcases hfn with h | h | h | h | h <;> subst h
    · exact hx 0 (by norm_num)
    · exact hx 1 (by norm_num)
    · exact hx 2 (by norm_num)
    · exact hx 3 (by norm_num)
    · exact hx 4 (by norm_num)
  show (fill_slot t p c fn).mem x = s.mem x
  rw [fill_slot_mem, if_neg (fun h => hne h.1)]
  exact ht

theorem base1_inherit_vtable_alloc (s : State) (p c : Nat) (dnc : Bool) :
    (base1_inherit_vtable s p c dnc).2.brk = s.brk ∧
    (base1_inherit_vtable s p c dnc).2.calloc_fails = s.calloc_fails ∧
    (base1_inherit_vtable s p c dnc).2.allocated = s.allocated ∧
    (base1_inherit_vtable s p c dnc).2.freed = s.freed := by
  apply base1_inherit_vtable_inv (fun t => t.brk = s.brk ∧ t.calloc_fails = s.calloc_fails ∧
    t.allocated = s.allocated ∧ t.freed = s.freed) s p c dnc ⟨rfl, rfl, rfl, rfl⟩
  intro t fn _ ht
  have e : (fill_slot t p c fn).brk = t.brk ∧
      (fill_slot t p c fn).calloc_fails = t.calloc_fails ∧
      (fill_slot t p c fn).allocated = t.allocated ∧ (fill_slot t p c fn).freed = t.freed := by
    unfold fill_slot
    split_ifs <;> exact ⟨rfl, rfl, rfl, rfl⟩
  obtain ⟨e1, e2, e3, e4⟩ := e
  obtain ⟨t1, t2, t3, t4⟩ := ht
  exact ⟨e1.trans t1, e2.trans t2, e3.trans t3, e4.trans t4⟩

theorem base1_inherit_vtable_rc (s : State) (p c : Nat) (dnc : Bool) :
    (base1_inherit_vtable s p c dnc).1 = MY_RC_E_SUCCESS ∨
    (base1_inherit_vtable s p c dnc).1 = MY_RC_E_EINVAL := by
  unfold base1_inherit_vtable
  simp only [INHERIT_VTABLE_FN_eq, off_delete_fn, off_type_string_fn, off_string_fn,
    off_string_size_fn, off_increase_val3_fn]
  by_cases hpc : p = 0 ∨ c = 0
  · rw [if_pos hpc]; exact Or.inr rfl
  rw [if_neg hpc]
  by_cases c0 : dnc = true ∧ s.mem (c + 0) = 0 ∧ s.mem (p + 0) = 0
  · simp only [if_pos c0]; exact Or.inr trivial
  simp only [if_neg c0]
  by_cases c1 : dnc = true ∧ (fill_slot s p c 0).mem (c + 8) = 0 ∧
      (fill_slot s p c 0).mem (p + 8) = 0
  · simp only [if_pos c1]; exact Or.inr trivial
  simp only [if_neg c1]
  by_cases c2 : dnc = true ∧ (fill_slot (fill_slot s p c 0) p c 8).mem (c + 16) = 0 ∧
      (fill_slot (fill_slot s p c 0) p c 8).mem (p + 16) = 0
  · simp only [if_pos c2]; exact Or.inr trivial
  simp only [if_neg c2]
  by_cases c3 : dnc = true ∧
      (fill_slot (fill_slot (fill_slot s p c 0) p c 8) p c 16).mem (c + 24) = 0 ∧
      (fill_slot (fill_slot (fill_slot s p c 0) p c 8) p c 16).mem (p + 24) = 0
  · simp only [if_pos c3]; exact Or.inr trivial
  simp only [if_neg c3]
  by_cases c4 : dnc = true ∧
      (fill_slot (fill_slot (fill_slot (fill_slot s p c 0) p c 8) p c 16) p c 24).mem (c + 32)
        = 0 ∧
      (fill_slot (fill_slot (fill_slot (fill_slot s p c 0) p c 8) p c 16) p c 24).mem (p + 32)
        = 0
  · simp only [if_pos c4]; exact Or.inr trivial
  simp only [if_neg c4]; exact Or.inl trivial
/-- C21: on an initialised base2 object (non-null handle, non-null private block lying
apart from the handle's cell), for a table that is base2.c's own or does not overlap it
and that contains neither the handle's cell nor the private block: if the table's
`increase_val1` slot is null, `base2_set_vtable` returns `MY_RC_E_EINVAL` and the
object's private reference and installed vtable reference are unchanged; if the slot is
non-null it returns `MY_RC_E_SUCCESS`, the object then refers to that table, and every
slot of the table is non-null. -/
theorem C21_pure_virtual_slot_required (s : State) (base2_h vtable : Nat)
    (hs : statics_ok s) (h0 : base2_h ≠ 0) (hp : s.mem (base2_h + off_private_h) ≠ 0)
    (hpp : s.mem (base2_h + off_private_h) ≠ base2_h)
    (hvt : vtable ≠ 0) (hsep : tables_ok base2_vtable vtable)
    (hh : ∀ i, i < 5 → base2_h ≠ vtable + 8 * i)
    (hb : ∀ i, i < 5 → s.mem (base2_h + off_private_h) ≠ vtable + 8 * i) :
    (s.mem (vtable + off_increase_val1_fn) = 0 →
      (base2_set_vtable s base2_h vtable).1 = MY_RC_E_EINVAL ∧
      (base2_set_vtable s base2_h vtable).2.mem (base2_h + off_private_h)
        = s.mem (base2_h + off_private_h) ∧
      (base2_set_vtable s base2_h vtable).2.mem
          (s.mem (base2_h + off_private_h) + off_vtable)
        = s.mem (s.mem (base2_h + off_private_h) + off_vtable)) ∧
    (s.mem (vtable + off_increase_val1_fn) ≠ 0 →
      (base2_set_vtable s base2_h vtable).1 = MY_RC_E_SUCCESS ∧
      (base2_set_vtable s base2_h vtable).2.mem (base2_h + off_private_h)
        = s.mem (base2_h + off_private_h) ∧
      (base2_set_vtable s base2_h vtable).2.mem
          (s.mem (base2_h + off_private_h) + off_vtable) = vtable ∧
      ∀ i, i < 5 → (base2_set_vtable s base2_h vtable).2.mem (vtable + 8 * i) ≠ 0) := by
  simp only [off_private_h, off_vtable, off_increase_val1_fn, Nat.add_zero] at *
  have a0 := hs.b2_delete
  have a1 := hs.b2_type_string
  have a2 := hs.b2_string
  have a3 := hs.b2_string_size
  have a4 := hs.b2_increase
  simp only [off_delete_fn, off_type_string_fn, off_string_fn, off_string_size_fn,
    off_increase_val1_fn, Nat.add_zero] at a0 a1 a2 a3 a4
  have hn : ¬ (base2_h = 0 ∨ vtable = 0) := by
    rintro (e | e)
    · exact h0 e
    · exact hvt e
  constructor
  · intro hnull
    have e := (base1_inherit_vtable_strict s base2_vtable vtable (by decide) hvt hsep).1
      ⟨4, by norm_num, hnull, a4⟩
    have m1 := base1_inherit_vtable_other s base2_vtable vtable base2_h true hh
    have m2 := base1_inherit_vtable_other s base2_vtable vtable (s.mem base2_h) true hb
    unfold base2_set_vtable
    simp only [off_private_h, off_vtable, Nat.add_zero, if_neg hn, if_neg hp,
      base2_inherit_vtable_eq, e]
    exact ⟨rfl, m1, m2⟩
  · intro hnn
    have hnn5 : ¬ ∃ i, i < 5 ∧ s.mem (vtable + 8 * i) = 0 ∧ s.mem (base2_vtable + 8 * i) = 0 := by
      rw [exists_lt_five]
      simp [a0, a1, a2, a3, hnn]
    have e := base2_set_vtable_ok s base2_h vtable h0 hvt hp hsep hnn5 hh
    rw [e]
    refine ⟨rfl, ?_, ?_, ?_⟩
    · rw [store_mem, if_neg (Ne.symm hpp), fill5_other s base2_vtable vtable base2_h hh]
    · rw [store_mem, if_pos rfl]
    · intro i hi
      rw [store_mem, if_neg (Ne.symm (hb i hi)), fill5_child s base2_vtable vtable i hsep hi]
      unfold merge_slot
      have hpar : s.mem (vtable + 8 * i) = 0 → s.mem (base2_vtable + 8 * i) ≠ 0 := by
        intro hz
        interval_cases i
        · rw [a0]; decide
        · rw [a1]; decide
        · rw [a2]; decide
        · rw [a3]; decide
        · exact absurd hz hnn
      split_ifs with hz
      · exact hpar hz
      · exact hz

theorem statics_ok_base2_init (s : State) (h : Nat) (hs : statics_ok s) (hh : heap_base ≤ h)
    (hrc : (base2_init s h).1 = MY_RC_E_SUCCESS) : statics_ok (base2_init s h).2 := by
  obtain ⟨_, _, b, m⟩ := base2_init_ok s h hrc
  have hb := hs.heap
  simp only [heap_base] at hb hh
  apply statics_ok_frame s _ hs
  · rw [b]; simp only [heap_base]; omega
  · intro x hx
    simp only [heap_base] at hx
    rw [m]
    simp (disch := omega) only [if_neg]

/-- C21 on a base2 object at the first heap address after its own 16 bytes have been
allocated and `base2_init` has run, with derived1.c's base2 table: the call succeeds. -/
theorem C21_pure_virtual_slot_required_witness :
    statics_ok (base2_init (calloc initial_state sizeof_base2_st).2 heap_base).2 ∧
    (base2_set_vtable (base2_init (calloc initial_state sizeof_base2_st).2 heap_base).2
      heap_base derived1_base2_vtable).1 = MY_RC_E_SUCCESS :=
  ⟨statics_ok_base2_init _ _ (calloc_statics initial_state sizeof_base2_st
      statics_ok_initial_state (by decide)) (by decide) (by decide),
    ((C21_pure_virtual_slot_required
      (base2_init (calloc initial_state sizeof_base2_st).2 heap_base).2 heap_base
      derived1_base2_vtable
      (statics_ok_base2_init _ _ (calloc_statics initial_state sizeof_base2_st
        statics_ok_initial_state (by decide)) (by decide) (by decide))
      (by decide) (by decide) (by decide) (by decide) (by decide) (by decide) (by decide)).2
      (by decide)).1⟩
/-- C25: `base1_new2` with a null record returns NULL and leaves the state, allocator
included, untouched.  When the allocations of `base1_new1` succeed, `base1_new2` with a
record lying apart from the fresh object returns that object with the record's `val1` and
`val2` and with `val3 = 42`, and `base1_new3` returns it with the given `val1` and `val3`
and with `val2 = 2`; in both cases base1.c's fully populated table is installed. -/
theorem C25_seeded_constructors (s : State) (hs : statics_ok s) :
    base1_new2 s 0 = (0, s) ∧
    (∀ pd, pd ≠ 0 → separate pd 8 s.brk (sizeof_base1_st + sizeof_private_st) →
      (base1_new1 s).1 ≠ 0 →
      (base1_new2 s pd).1 = (base1_new1 s).1 ∧
      (base1_new2 s pd).2.mem ((base1_new2 s pd).1 + off_public_data + off_pd_val1)
        = s.mem (pd + off_pd_val1) ∧
      (base1_new2 s pd).2.mem ((base1_new2 s pd).1 + off_public_data + off_pd_val2)
        = s.mem (pd + off_pd_val2) ∧
      load32 (base1_new2 s pd).2 ((base1_new2 s pd).1 + off_val3) = 42 ∧
      base1_object (base1_new2 s pd).2 (base1_new2 s pd).1) ∧
    (∀ v1 v3, (base1_new1 s).1 ≠ 0 →
      (base1_new3 s v1 v3).1 = (base1_new1 s).1 ∧
      load8 (base1_new3 s v1 v3).2 ((base1_new3 s v1 v3).1 + off_public_data + off_pd_val1)
        = v1 % 2 ^ 8 ∧
      load32 (base1_new3 s v1 v3).2 ((base1_new3 s v1 v3).1 + off_public_data + off_pd_val2)
        = 2 ∧
      load32 (base1_new3 s v1 v3).2 ((base1_new3 s v1 v3).1 + off_val3) = v3 % 2 ^ 32 ∧
      base1_object (base1_new3 s v1 v3).2 (base1_new3 s v1 v3).1) := by
  have hb := hs.heap
  simp only [heap_base] at hb
  have hb0 : ¬ (s.brk = 0) := by omega
  refine ⟨rfl, ?_, ?_⟩
  · intro pd hpd hsep hnew
    obtain ⟨e, _, _, tm⟩ := base1_new1_eq s hs hnew
    have ho := base1_new1_object s hs hnew
    have r1 := tm (pd + 0)
    have r2 := tm (pd + 4)
    have r3 := tm (s.brk + 16)
    simp only [separate, sizeof_base1_st, sizeof_private_st] at hsep
    simp (disch := omega) only [if_neg, if_pos, if_true] at r1 r2 r3
    have hst : base1_new2 s pd = ((base1_new1 s).1,
        ((base1_new1 s).2.store (s.brk + 8) (s.mem (pd + 0))).store (s.brk + 12)
          (s.mem (pd + 4))) := by
      unfold base1_new2
      rw [if_neg hpd]
      simp only [ne_eq, hnew, not_false_eq_true, if_true, memcpy_public_data, off_public_data,
        off_pd_val1, off_pd_val2, r1, r2, e, Nat.add_assoc, Nat.reduceAdd, hb0, if_false]
    rw [hst]
    dsimp only
    rw [e] at ho ⊢
    simp only [off_public_data, off_pd_val1, off_pd_val2, off_val3, Nat.add_zero, Nat.add_assoc,
      Nat.reduceAdd, store_mem, load32]
    refine ⟨trivial, ?_, ?_, ?_, ?_⟩
    · simp (disch := omega) only [if_neg, if_pos, if_true, if_false, r3, Nat.mod_mod]
    · rfl
    · simp (disch := omega) only [if_neg, if_pos, if_true, if_false, r3, Nat.mod_mod]
      rfl
    · exact base1_object_data _ _ 12 _ (base1_object_data _ _ 8 _ ho (by decide) (by decide))
        (by decide) (by decide)
  · intro v1 v3 hnew
    obtain ⟨e, _, _, tm⟩ := base1_new1_eq s hs hnew
    have ho := base1_new1_object s hs hnew
    have r3 := tm (s.brk + 12)
    simp (disch := omega) only [if_neg, if_pos, if_true] at r3
    have hst : base1_new3 s v1 v3 = ((base1_new1 s).1,
        ((base1_new1 s).2.store (s.brk + 8) (v1 % 2 ^ 8)).store (s.brk + 16) (v3 % 2 ^ 32)) := by
      unfold base1_new3
      simp only [ne_eq, hnew, not_false_eq_true, if_true, off_public_data,
        off_pd_val1, off_val3, e, Nat.add_zero, hb0, if_false]
    rw [hst]
    dsimp only
    rw [e] at ho ⊢
    simp only [off_public_data, off_pd_val1, off_pd_val2, off_val3, Nat.add_zero, Nat.add_assoc,
      Nat.reduceAdd, store_mem, load32, load8]
    refine ⟨trivial, ?_, ?_, ?_, ?_⟩
    · simp (disch := omega) only [if_neg, if_pos, if_true, if_false, r3, Nat.mod_mod]
    · simp (disch := omega) only [if_neg, if_pos, if_true, if_false, r3, Nat.mod_mod]
      rfl
    · simp (disch := omega) only [if_neg, if_pos, if_true, if_false, r3, Nat.mod_mod]
    · exact base1_object_data _ _ 16 _ (base1_object_data _ _ 8 _ ho (by decide) (by decide))
        (by decide) (by decide)

/-- C25 at program start: `base1_new3 (53, 100)` returns an object whose `val3` is 100. -/
theorem C25_seeded_constructors_witness :
    statics_ok initial_state ∧ (base1_new1 initial_state).1 ≠ 0 ∧
    load32 (base1_new3 initial_state 53 100).2
      ((base1_new3 initial_state 53 100).1 + off_val3) = 100 % 2 ^ 32 :=
  ⟨statics_ok_initial_state, by decide,
    ((C25_seeded_constructors initial_state statics_ok_initial_state).2.2 53 100
      (by decide)).2.2.2.1⟩
theorem store_bytes_other (bs : List Nat) (s : State) (a x : Nat)
    (hx : x < a ∨ a + bs.length ≤ x) : (store_bytes s a bs).mem x = s.mem x := by
  induction bs generalizing s a with
  | nil => rfl
  | cons b bs ih =>
    simp only [List.length_cons] at hx
    unfold store_bytes
    rw [ih (s.store a b) (a + 1) (by omega), store_mem, if_neg (by omega)]

theorem store_bytes_at (bs : List Nat) (s : State) (a i : Nat) (hi : i < bs.length) :
    (store_bytes s a bs).mem (a + i) = bs.getD i 0 := by
  induction bs generalizing s a i with
  | nil => simp at hi
  | cons b bs ih =>
    unfold store_bytes
    cases i with
    | zero =>
      rw [store_bytes_other bs _ _ _ (Or.inl (by omega)), store_mem]
      simp
    | succ j =>
      simp only [List.length_cons] at hi
      have := ih (s.store a b) (a + 1) j (by omega)
      rw [show a + (j + 1) = a + 1 + j by omega, this]
      simp

theorem store_bytes_alloc (bs : List Nat) (s : State) (a : Nat) :
    (store_bytes s a bs).brk = s.brk ∧ (store_bytes s a bs).calloc_fails = s.calloc_fails ∧
    (store_bytes s a bs).allocated = s.allocated ∧ (store_bytes s a bs).freed = s.freed := by
  induction bs generalizing s a with
  | nil => exact ⟨rfl, rfl, rfl, rfl⟩
  | cons b bs ih =>
    unfold store_bytes
    exact ih (s.store a b) (a + 1)

theorem snprintf_nul (s : State) (buffer size : Nat) (text : List Char) (hsz : 0 < size) :
    ∃ k, k < size ∧ (snprintf s buffer size text).mem (buffer + k) = 0 ∧
      ∀ x, (x < buffer ∨ buffer + k < x) → (snprintf s buffer size text).mem x = s.mem x := by
  have hlen : (snprintf_bytes size text).length = min (size - 1) text.length + 1 := by
    simp [snprintf_bytes]
  refine ⟨min (size - 1) text.length, by omega, ?_, ?_⟩
  · unfold snprintf
    rw [if_neg (by omega), store_bytes_at _ _ _ _ (by omega)]
    simp [snprintf_bytes, List.getD_eq_getElem?_getD, List.getElem?_append_right]
  · intro x hx
    unfold snprintf
    rw [if_neg (by omega), store_bytes_other _ _ _ _ (by omega)]

theorem snprintf_alloc (s : State) (buffer size : Nat) (text : List Char) :
    (snprintf s buffer size text).brk = s.brk ∧
    (snprintf s buffer size text).calloc_fails = s.calloc_fails ∧
    (snprintf s buffer size text).allocated = s.allocated ∧
    (snprintf s buffer size text).freed = s.freed := by
  unfold snprintf
  split_ifs
  · exact ⟨rfl, rfl, rfl, rfl⟩
  · exact store_bytes_alloc _ _ _

theorem snprintf_other (s : State) (buffer size : Nat) (text : List Char) (x : Nat)
    (hx : x < buffer ∨ buffer + size ≤ x) : (snprintf s buffer size text).mem x = s.mem x := by
  unfold snprintf
  split_ifs with h0
  · rfl
  · apply store_bytes_other
    have : (snprintf_bytes size text).length = min (size - 1) text.length + 1 := by
      simp [snprintf_bytes]
    omega

theorem derived1_string_internal_eq (s : State) (d buffer size : Nat) (hd : d ≠ 0)
    (hb : buffer ≠ 0) :
    derived1_string_internal s d buffer size =
      if size < DERIVED1_STR_SIZE then (MY_RC_E_EINVAL, s.store addr_min_size DERIVED1_STR_SIZE)
      else (MY_RC_E_SUCCESS,
        snprintf (s.store addr_min_size DERIVED1_STR_SIZE) buffer size
          (derived1_text (s.store addr_min_size DERIVED1_STR_SIZE) d)) := by
  have hn : ¬ (d = 0 ∨ buffer = 0) := by
    rintro (e | e)
    · exact hd e
    · exact hb e
  have hn2 : ¬ (d = 0 ∨ addr_min_size = 0) := by
    rintro (e | e)
    · exact hd e
    · exact absurd e (by decide)
  unfold derived1_string_internal derived1_string_size_internal
  simp only [if_neg hn, if_neg hn2, my_rc_e_is_notok_success, store_mem, if_true]
  rfl

theorem base1_string_internal_eq (s : State) (obj vt buffer size : Nat)
    (hi : installed s obj vt) (hvt : vt ≠ 0)
    (hf : s.mem (vt + off_string_size_fn) = addr_base1_string_size_internal)
    (hb : buffer ≠ 0) :
    base1_string_internal s obj buffer size = some (
      if size < BASE1_STR_SIZE then (MY_RC_E_EINVAL, s.store addr_min_size BASE1_STR_SIZE)
      else (MY_RC_E_SUCCESS,
        snprintf (s.store addr_min_size BASE1_STR_SIZE) buffer size
          (base1_text (s.store addr_min_size BASE1_STR_SIZE) obj))) := by
  have h0 : obj ≠ 0 := by
    have := hi.1
    simp only [heap_base] at this
    omega
  have hn : ¬ (obj = 0 ∨ buffer = 0) := by
    rintro (e | e)
    · exact h0 e
    · exact hb e
  have hn2 : ¬ (obj = 0 ∨ addr_min_size = 0) := by
    rintro (e | e)
    · exact h0 e
    · exact absurd e (by decide)
  obtain ⟨v1, v2⟩ := dispatch_valid s obj vt _ _ hi hvt hf (by decide)
  unfold base1_string_internal
  simp only [if_neg hn, v1, v2, my_rc_e_is_notok_success, call_base1_string_size_fn,
    base1_string_size_internal, if_neg hn2, if_true, store_mem]
  split_ifs <;> first | rfl | contradiction
theorem derived1_string_contract (s : State) (d buffer size : Nat) (hd : d ≠ 0)
    (hb : buffer ≠ 0) :
    (size < DERIVED1_STR_SIZE → (derived1_string_internal s d buffer size).1 = MY_RC_E_EINVAL) ∧
    (DERIVED1_STR_SIZE ≤ size →
      (derived1_string_internal s d buffer size).1 = MY_RC_E_SUCCESS ∧
      ∃ k, k < size ∧ (derived1_string_internal s d buffer size).2.mem (buffer + k) = 0 ∧
        ∀ x, (x < buffer ∨ buffer + k < x) → x ≠ addr_min_size →
          (derived1_string_internal s d buffer size).2.mem x = s.mem x) := by
  rw [derived1_string_internal_eq s d buffer size hd hb]
  constructor
  · intro hlt
    rw [if_pos hlt]
  · intro hge
    rw [if_neg (by omega)]
    refine ⟨rfl, ?_⟩
    simp only [DERIVED1_STR_SIZE] at hge
    obtain ⟨k, hk, hz, hfr⟩ := snprintf_nul (s.store addr_min_size DERIVED1_STR_SIZE) buffer size
      (derived1_text (s.store addr_min_size DERIVED1_STR_SIZE) d) (by omega)
    refine ⟨k, hk, hz, ?_⟩
    intro x hx hne
    show (snprintf _ _ _ _).mem x = s.mem x
    rw [hfr x hx, store_mem, if_neg hne]

theorem base1_string_contract (s : State) (obj vt buffer size : Nat)
    (hi : installed s obj vt) (hvt : vt ≠ 0)
    (hf : s.mem (vt + off_string_size_fn) = addr_base1_string_size_internal)
    (hb : buffer ≠ 0) :
    ∃ r, base1_string_internal s obj buffer size = some r ∧
      (size < BASE1_STR_SIZE → r.1 = MY_RC_E_EINVAL) ∧
      (BASE1_STR_SIZE ≤ size → r.1 = MY_RC_E_SUCCESS ∧
        ∃ k, k < size ∧ r.2.mem (buffer + k) = 0 ∧
          ∀ x, (x < buffer ∨ buffer + k < x) → x ≠ addr_min_size → r.2.mem x = s.mem x) := by
  refine ⟨_, base1_string_internal_eq s obj vt buffer size hi hvt hf hb, ?_, ?_⟩
  · intro hlt
    rw [if_pos hlt]
  · intro hge
    rw [if_neg (by omega)]
    refine ⟨rfl, ?_⟩
    simp only [BASE1_STR_SIZE] at hge
    obtain ⟨k, hk, hz, hfr⟩ := snprintf_nul (s.store addr_min_size BASE1_STR_SIZE) buffer size
      (base1_text (s.store addr_min_size BASE1_STR_SIZE) obj) (by omega)
    refine ⟨k, hk, hz, ?_⟩
    intro x hx hne
    show (snprintf _ _ _ _).mem x = s.mem x
    rw [hfr x hx, store_mem, if_neg hne]

theorem base1_string_via_d1 (s : State) (obj vt buffer size : Nat) (hi : installed s obj vt)
    (hvt : vt ≠ 0) (hf : s.mem (vt + off_string_fn) = addr_derived1_base1_string) :
    base1_string s obj buffer size
      = some (derived1_string_internal s (obj - off_d1_base1) buffer size) := by
  have h0 : obj ≠ 0 := by
    have := hi.1
    simp only [heap_base] at this
    omega
  rw [base1_string_at s obj vt _ buffer size hi hvt hf (by decide)]
  simp [call_base1_string_fn, derived1_base1_string, base1_cast_to_derived1, h0]

theorem base2_string_via_d1 (s : State) (obj vt buffer size : Nat) (hi : installed s obj vt)
    (hvt : vt ≠ 0) (hf : s.mem (vt + off_string_fn) = addr_derived1_base2_string) :
    base2_string s obj buffer size
      = some (derived1_string_internal s (obj - off_d1_base2) buffer size) := by
  have h0 : obj ≠ 0 := by
    have := hi.1
    simp only [heap_base] at this
    omega
  rw [base2_string_at s obj vt _ buffer size hi hvt hf (by decide)]
  simp [call_base2_string_fn, derived1_base2_string, base2_cast_to_derived1, h0]

theorem base1_string_via_b1 (s : State) (obj vt buffer size : Nat) (hi : installed s obj vt)
    (hvt : vt ≠ 0) (hf : s.mem (vt + off_string_fn) = addr_base1_string_internal) :
    base1_string s obj buffer size = base1_string_internal s obj buffer size := by
  rw [base1_string_at s obj vt _ buffer size hi hvt hf (by decide)]
  simp [call_base1_string_fn]

theorem base1_string_size_via_b1 (s : State) (obj vt out : Nat) (hi : installed s obj vt)
    (hvt : vt ≠ 0) (hf : s.mem (vt + off_string_size_fn) = addr_base1_string_size_internal)
    (hout : out ≠ 0) :
    base1_string_size s obj out = some (MY_RC_E_SUCCESS, s.store out BASE1_STR_SIZE) := by
  have h0 : obj ≠ 0 := by
    have := hi.1
    simp only [heap_base] at this
    omega
  rw [base1_string_size_at s obj vt _ out hi hvt hf (by decide)]
  simp [call_base1_string_size_fn, base1_string_size_internal, h0, hout]

theorem base1_string_size_via_d1 (s : State) (obj vt out : Nat) (hi : installed s obj vt)
    (hvt : vt ≠ 0) (hf : s.mem (vt + off_string_size_fn) = addr_derived1_base1_string_size)
    (hout : out ≠ 0) :
    base1_string_size s obj out = some (MY_RC_E_SUCCESS, s.store out DERIVED1_STR_SIZE) := by
  have h0 := hi.1
  simp only [heap_base] at h0
  have h1 : ¬ (obj = 0) := by omega
  have h2 : ¬ (obj - 8 = 0) := by omega
  rw [base1_string_size_at s obj vt _ out hi hvt hf (by decide)]
  simp [call_base1_string_size_fn, derived1_base1_string_size, derived1_string_size_internal,
    base1_cast_to_derived1, h1, h2, hout]

theorem base2_string_size_via_d1 (s : State) (obj vt out : Nat) (hi : installed s obj vt)
    (hvt : vt ≠ 0) (hf : s.mem (vt + off_string_size_fn) = addr_derived1_base2_string_size)
    (hout : out ≠ 0) :
    base2_string_size s obj out = some (MY_RC_E_SUCCESS, s.store out DERIVED1_STR_SIZE) := by
  have h0 := hi.1
  simp only [heap_base] at h0
  have h1 : ¬ (obj = 0) := by omega
  have h2 : ¬ (obj - 32 = 0) := by omega
  rw [base2_string_size_at s obj vt _ out hi hvt hf (by decide)]
  simp [call_base2_string_size_fn, derived1_base2_string_size, derived1_string_size_internal,
    base2_cast_to_derived1, h1, h2, hout]
theorem derived1_object_strings (s : State) (d buffer size : Nat) (ho : derived1_object s d) :
    base1_string s (derived1_cast_to_base1 d) buffer size
      = some (derived1_string_internal s d buffer size) ∧
    base2_string s (derived1_cast_to_base2 d) buffer size
      = some (derived1_string_internal s d buffer size) := by
  have hd := derived1_object_ne s d ho
  rw [cast_d1_base1 d hd, cast_d1_base2 d hd,
    base1_string_via_d1 s _ _ buffer size ho.2.1 (by decide) ho.1.d1b1_string,
    base2_string_via_d1 s _ _ buffer size ho.2.2.1 (by decide) ho.1.d1b2_string,
    Nat.add_sub_cancel, Nat.add_sub_cancel]
  exact ⟨rfl, rfl⟩

theorem derived2_object_strings (s : State) (d buffer size : Nat) (ho : derived2_object s d) :
    base1_string s (derived1_cast_to_base1 (derived2_cast_to_derived1 d)) buffer size
      = some (derived1_string_internal s d buffer size) ∧
    base2_string s (derived1_cast_to_base2 (derived2_cast_to_derived1 d)) buffer size
      = some (derived1_string_internal s d buffer size) := by
  have hd := derived2_object_ne s d ho
  rw [cast_d2_base1 d hd, cast_d2_base2 d hd,
    base1_string_via_d1 s _ _ buffer size ho.2.1 (by decide) ho.2.2.2.2.2.2.2.1,
    base2_string_via_d1 s _ _ buffer size ho.2.2.1 (by decide) ho.2.2.2.2.2.2.2.2.2.2.1,
    Nat.add_sub_cancel, Nat.add_sub_cancel]
  exact ⟨rfl, rfl⟩

theorem derived1_object_string_sizes (s : State) (d out : Nat) (ho : derived1_object s d)
    (hout : out ≠ 0) :
    base1_string_size s (derived1_cast_to_base1 d) out
      = some (MY_RC_E_SUCCESS, s.store out DERIVED1_STR_SIZE) ∧
    base2_string_size s (derived1_cast_to_base2 d) out
      = some (MY_RC_E_SUCCESS, s.store out DERIVED1_STR_SIZE) := by
  have hd := derived1_object_ne s d ho
  rw [cast_d1_base1 d hd, cast_d1_base2 d hd]
  exact ⟨base1_string_size_via_d1 s _ _ out ho.2.1 (by decide) ho.1.d1b1_string_size hout,
    base2_string_size_via_d1 s _ _ out ho.2.2.1 (by decide) ho.1.d1b2_string_size hout⟩

theorem derived2_object_string_sizes (s : State) (d out : Nat) (ho : derived2_object s d)
    (hout : out ≠ 0) :
    base1_string_size s (derived1_cast_to_base1 (derived2_cast_to_derived1 d)) out
      = some (MY_RC_E_SUCCESS, s.store out DERIVED1_STR_SIZE) ∧
    base2_string_size s (derived1_cast_to_base2 (derived2_cast_to_derived1 d)) out
      = some (MY_RC_E_SUCCESS, s.store out DERIVED1_STR_SIZE) := by
  have hd := derived2_object_ne s d ho
  rw [cast_d2_base1 d hd, cast_d2_base2 d hd]
  exact ⟨base1_string_size_via_d1 s _ _ out ho.2.1 (by decide) ho.2.2.2.2.2.2.2.2.1 hout,
    base2_string_size_via_d1 s _ _ out ho.2.2.1 (by decide) ho.2.2.2.2.2.2.2.2.2.2.2.1 hout⟩

/-- C10: for a non-null buffer, on a fully constructed base1 object (threshold 128), and on
the up-cast base1 and base2 handles of a fully constructed derived1 or derived2 object
(threshold 256): the size query on the handle reports the threshold; `base1_string` /
`base2_string` returns a result; with a size below the threshold the result code is
`MY_RC_E_EINVAL`; otherwise it is `MY_RC_E_SUCCESS`, some cell of the buffer at an offset
below the given size holds NUL, and no cell before the buffer or after that NUL is changed
(apart from the callee's local `min_size`). -/
theorem C10_buffer_size_contract (s : State) (h buffer size out : Nat) (hbuf : buffer ≠ 0)
    (hout : out ≠ 0) :
    (base1_object s h →
      base1_string_size s h out = some (MY_RC_E_SUCCESS, s.store out BASE1_STR_SIZE) ∧
      ∃ r, base1_string s h buffer size = some r ∧
        (size < BASE1_STR_SIZE → r.1 = MY_RC_E_EINVAL) ∧
        (BASE1_STR_SIZE ≤ size → r.1 = MY_RC_E_SUCCESS ∧
          ∃ k, k < size ∧ r.2.mem (buffer + k) = 0 ∧
            ∀ x, (x < buffer ∨ buffer + k < x) → x ≠ addr_min_size → r.2.mem x = s.mem x)) ∧
    (derived1_object s h →
      (base1_string_size s (derived1_cast_to_base1 h) out
          = some (MY_RC_E_SUCCESS, s.store out DERIVED1_STR_SIZE) ∧
        ∃ r, base1_string s (derived1_cast_to_base1 h) buffer size = some r ∧
          (size < DERIVED1_STR_SIZE → r.1 = MY_RC_E_EINVAL) ∧
          (DERIVED1_STR_SIZE ≤ size → r.1 = MY_RC_E_SUCCESS ∧
            ∃ k, k < size ∧ r.2.mem (buffer + k) = 0 ∧
              ∀ x, (x < buffer ∨ buffer + k < x) → x ≠ addr_min_size →
                r.2.mem x = s.mem x)) ∧
      (base2_string_size s (derived1_cast_to_base2 h) out
          = some (MY_RC_E_SUCCESS, s.store out DERIVED1_STR_SIZE) ∧
        ∃ r, base2_string s (derived1_cast_to_base2 h) buffer size = some r ∧
          (size < DERIVED1_STR_SIZE → r.1 = MY_RC_E_EINVAL) ∧
          (DERIVED1_STR_SIZE ≤ size → r.1 = MY_RC_E_SUCCESS ∧
            ∃ k, k < size ∧ r.2.mem (buffer + k) = 0 ∧
              ∀ x, (x < buffer ∨ buffer + k < x) → x ≠ addr_min_size →
                r.2.mem x = s.mem x))) ∧
    (derived2_object s h →
      (base1_string_size s (derived1_cast_to_base1 (derived2_cast_to_derived1 h)) out
          = some (MY_RC_E_SUCCESS, s.store out DERIVED1_STR_SIZE) ∧
        ∃ r, base1_string s (derived1_cast_to_base1 (derived2_cast_to_derived1 h)) buffer size
            = some r ∧
          (size < DERIVED1_STR_SIZE → r.1 = MY_RC_E_EINVAL) ∧
          (DERIVED1_STR_SIZE ≤ size → r.1 = MY_RC_E_SUCCESS ∧
            ∃ k, k < size ∧ r.2.mem (buffer + k) = 0 ∧
              ∀ x, (x < buffer ∨ buffer + k < x) → x ≠ addr_min_size →
                r.2.mem x = s.mem x)) ∧
      (base2_string_size s (derived1_cast_to_base2 (derived2_cast_to_derived1 h)) out
          = some (MY_RC_E_SUCCESS, s.store out DERIVED1_STR_SIZE) ∧
        ∃ r, base2_string s (derived1_cast_to_base2 (derived2_cast_to_derived1 h)) buffer size
            = some r ∧
          (size < DERIVED1_STR_SIZE → r.1 = MY_RC_E_EINVAL) ∧
          (DERIVED1_STR_SIZE ≤ size → r.1 = MY_RC_E_SUCCESS ∧
            ∃ k, k < size ∧ r.2.mem (buffer + k) = 0 ∧
              ∀ x, (x < buffer ∨ buffer + k < x) → x ≠ addr_min_size →
                r.2.mem x = s.mem x))) := by
  refine ⟨?_, ?_, ?_⟩
  · intro ho
    refine ⟨base1_string_size_via_b1 s h _ out ho.2.1 (by decide) ho.1.b1_string_size hout, ?_⟩
    rw [base1_string_via_b1 s h _ buffer size ho.2.1 (by decide) ho.1.b1_string]
    exact base1_string_contract s h _ buffer size ho.2.1 (by decide) ho.1.b1_string_size hbuf
  · intro ho
    have hd := derived1_object_ne s h ho
    obtain ⟨z1, z2⟩ := derived1_object_string_sizes s h out ho hout
    obtain ⟨e1, e2⟩ := derived1_object_strings s h buffer size ho
    obtain ⟨c1, c2⟩ := derived1_string_contract s h buffer size hd hbuf
    exact ⟨⟨z1, _, e1, c1, c2⟩, ⟨z2, _, e2, c1, c2⟩⟩
  · intro ho
    have hd := derived2_object_ne s h ho
    obtain ⟨z1, z2⟩ := derived2_object_string_sizes s h out ho hout
    obtain ⟨e1, e2⟩ := derived2_object_strings s h buffer size ho
    obtain ⟨c1, c2⟩ := derived1_string_contract s h buffer size hd hbuf
    exact ⟨⟨z1, _, e1, c1, c2⟩, ⟨z2, _, e2, c1, c2⟩⟩

/-- C10 on the first object `base1_new1` makes at program start, with a buffer at `0x5000`
and the output of the size query at `0x4000`: the size query reports 128. -/
theorem C10_buffer_size_contract_witness :
    base1_object (base1_new1 initial_state).2 (base1_new1 initial_state).1 ∧
    base1_string_size (base1_new1 initial_state).2 (base1_new1 initial_state).1 0x4000
      = some (MY_RC_E_SUCCESS, (base1_new1 initial_state).2.store 0x4000 BASE1_STR_SIZE) :=
  ⟨base1_new1_object initial_state statics_ok_initial_state (by decide),
    ((C10_buffer_size_contract (base1_new1 initial_state).2 (base1_new1 initial_state).1
      0x5000 200 0x4000 (by decide) (by decide)).1
      (base1_new1_object initial_state statics_ok_initial_state (by decide))).1⟩

/-- C30: on a fully constructed derived1 object, for every buffer and size, `base1_string`
on the up-cast base1 handle and `base2_string` on the up-cast base2 handle return the same
result code and leave the same state, hence the same string; `base1_string_size` and
`base2_string_size` on those handles both report 256; and after `base2_increase_val1`
through the base2 handle, the text `base1_string` formats through the base1 handle has
`b2_val1` increased by 5 (modulo 2^32) and every other field as before. -/
theorem C30_same_view_through_either_base (s : State) (d : Nat) (ho : derived1_object s d) :
    (∀ buffer size,
      base1_string s (derived1_cast_to_base1 d) buffer size
        = base2_string s (derived1_cast_to_base2 d) buffer size ∧
      ∃ r, base1_string s (derived1_cast_to_base1 d) buffer size = some r) ∧
    (∀ out, out ≠ 0 →
      base1_string_size s (derived1_cast_to_base1 d) out
        = some (MY_RC_E_SUCCESS, s.store out 256) ∧
      base2_string_size s (derived1_cast_to_base2 d) out
        = some (MY_RC_E_SUCCESS, s.store out 256)) ∧
    (∃ t, base2_increase_val1 s (derived1_cast_to_base2 d) = some (MY_RC_E_SUCCESS, t) ∧
      ∀ buffer size, buffer ≠ 0 → 256 ≤ size →
        base1_string t (derived1_cast_to_base1 d) buffer size = some (MY_RC_E_SUCCESS,
          snprintf (t.store addr_min_size 256) buffer size
            ("b1_val1(".toList
              ++ fmt_u (load8 s (d + off_d1_base1 + off_public_data + off_pd_val1))
              ++ ") b1_val2(".toList
              ++ fmt_u (load32 s (d + off_d1_base1 + off_public_data + off_pd_val2))
              ++ ") b1_val3(".toList ++ fmt_u (load32 s (d + off_d1_base1 + off_val3))
              ++ ") b2_val1(".toList
              ++ fmt_u ((load32 s (d + off_d1_base2 + off_b2_val1) + 5) % 2 ^ 32)
              ++ ") d1_val4(".toList ++ fmt_u (load32 s (d + off_d1_val4)) ++ ")".toList))) := by
  have hd := derived1_object_ne s d ho
  refine ⟨?_, ?_, ?_⟩
  · intro buffer size
    obtain ⟨e1, e2⟩ := derived1_object_strings s d buffer size ho
    exact ⟨e1.trans e2.symm, _, e1⟩
  · intro out hout
    exact derived1_object_string_sizes s d out ho hout
  · have hinc := base2_increase_val1_obj s _ _ ho.2.2.1 (by decide) ho.1.d1b2_increase
    rw [cast_d1_base2 d hd]
    refine ⟨_, hinc, ?_⟩
    intro buffer size hbuf hsz
    have ho2 : derived1_object (s.store (d + 40)
        ((load32 s (d + off_d1_base2 + off_b2_val1) + 5) % 2 ^ 32)) d :=
      derived1_object_data s d 40 _ ho (by decide) (by decide) (by decide) (by decide)
    have hk1 := ho.2.2.2.1.1
    simp only [heap_base] at hk1
    simp only [off_d1_base2, off_b2_val1, Nat.add_assoc, Nat.reduceAdd] at ho2 ⊢
    rw [(derived1_object_strings _ d buffer size ho2).1,
      derived1_string_internal_eq _ d buffer size hd hbuf, if_neg (by simpa using hsz)]
    simp only [derived1_text, load8, load32, store_mem, off_d1_base1, off_d1_base2,
      off_public_data, off_pd_val1, off_pd_val2, off_val3, off_b2_val1, off_d1_val4,
      addr_min_size, DERIVED1_STR_SIZE, Nat.add_assoc, Nat.reduceAdd, Nat.add_zero]
    simp (disch := omega) only [if_neg, if_pos, if_true, Nat.mod_mod]

/-- C30 on the first derived1 object made at program start: both size queries report
256. -/
theorem C30_same_view_through_either_base_witness :
    derived1_object (derived1_init (calloc initial_state sizeof_derived1_st).2 heap_base).2
      heap_base ∧
    base1_string_size (derived1_init (calloc initial_state sizeof_derived1_st).2 heap_base).2
      (derived1_cast_to_base1 heap_base) 0x4000
      = some (MY_RC_E_SUCCESS,
        (derived1_init (calloc initial_state sizeof_derived1_st).2 heap_base).2.store
          0x4000 256) :=
  ⟨derived1_new1_object initial_state heap_base _ statics_ok_initial_state rfl (by decide),
    ((C30_same_view_through_either_base _ heap_base
      (derived1_new1_object initial_state heap_base _ statics_ok_initial_state rfl
        (by decide))).2.1 0x4000 (by decide)).1⟩

theorem base1_delete_internal_eq (s : State) (h : Nat) (b : Bool) (h0 : h ≠ 0)
    (hp : s.mem h ≠ 0) :
    base1_delete_internal s h b =
      if b then free ((free s (s.mem h)).store h 0) h else (free s (s.mem h)).store h 0 := by
  unfold base1_delete_internal
  simp only [off_private_h, Nat.add_zero, if_neg h0, ne_eq, hp, not_false_eq_true, if_true]

theorem base2_delete_internal_eq (s : State) (h : Nat) (b : Bool) (h0 : h ≠ 0)
    (hp : s.mem h ≠ 0) :
    base2_delete_internal s h b =
      if b then free ((free s (s.mem h)).store h 0) h else (free s (s.mem h)).store h 0 := by
  unfold base2_delete_internal
  simp only [off_private_h, Nat.add_zero, if_neg h0, ne_eq, hp, not_false_eq_true, if_true]

theorem base1_delete_internal_noop (s : State) (h : Nat) (hn : h = 0 ∨ s.mem h = 0) :
    base1_delete_internal s h false = s := by
  unfold base1_delete_internal
  rcases hn with e | e
  · rw [if_pos e]
  · by_cases h0 : h = 0
    · rw [if_pos h0]
    · simp [h0, off_private_h, e]

theorem base2_delete_internal_noop (s : State) (h : Nat) (hn : h = 0 ∨ s.mem h = 0) :
    base2_delete_internal s h false = s := by
  unfold base2_delete_internal
  rcases hn with e | e
  · rw [if_pos e]
  · by_cases h0 : h = 0
    · rw [if_pos h0]
    · simp [h0, off_private_h, e]

theorem derived1_delete_internal_eq (s : State) (d : Nat) (b : Bool) (h0 : d ≠ 0)
    (hp1 : s.mem (d + 8) ≠ 0) (hp2 : s.mem (d + 32) ≠ 0) (hp3 : s.mem d ≠ 0) :
    derived1_delete_internal s d b =
      if b then
        free ((free ((free ((free s (s.mem (d + 8))).store (d + 8) 0)
          (s.mem (d + 32))).store (d + 32) 0) (s.mem d)).store d 0) d
      else
        (free ((free ((free s (s.mem (d + 8))).store (d + 8) 0)
          (s.mem (d + 32))).store (d + 32) 0) (s.mem d)).store d 0 := by
  have e1 : base1_friend_delete s (d + 8) = (free s (s.mem (d + 8))).store (d + 8) 0 := by
    unfold base1_friend_delete
    rw [base1_delete_internal_eq s (d + 8) false (by omega) hp1]
    rfl
  have m1 : ((free s (s.mem (d + 8))).store (d + 8) 0).mem (d + 32) = s.mem (d + 32) := by
    rw [store_mem, if_neg (by omega)]
    rfl
  have e2 : base2_friend_delete ((free s (s.mem (d + 8))).store (d + 8) 0) (d + 32) =
      (free ((free s (s.mem (d + 8))).store (d + 8) 0) (s.mem (d + 32))).store (d + 32) 0 := by
    unfold base2_friend_delete
    rw [base2_delete_internal_eq _ (d + 32) false (by omega) (by rw [m1]; exact hp2), m1]
    rfl
  have m2 : ((free ((free s (s.mem (d + 8))).store (d + 8) 0) (s.mem (d + 32))).store
      (d + 32) 0).mem d = s.mem d := by
    rw [store_mem, if_neg (by omega)]
    show ((free s (s.mem (d + 8))).store (d + 8) 0).mem d = s.mem d
    rw [store_mem, if_neg (by omega)]
    rfl
  unfold derived1_delete_internal
  simp only [off_d1_base1, off_d1_base2, off_private_h, Nat.add_zero, if_neg h0, e1, e2, m2,
    ne_eq, hp3, not_false_eq_true, if_true]

theorem base1_friend_delete_post (s : State) (h : Nat) (h0 : h ≠ 0) :
    (base1_friend_delete s h).mem h = 0 ∧
    ∀ x, x ≠ h → (base1_friend_delete s h).mem x = s.mem x := by
  unfold base1_friend_delete
  by_cases hp : s.mem h = 0
  · rw [base1_delete_internal_noop s h (Or.inr hp)]
    exact ⟨hp, fun _ _ => rfl⟩
  · rw [base1_delete_internal_eq s h false h0 hp]
    refine ⟨by simp, ?_⟩
    intro x hx
    simp only [Bool.false_eq_true, if_false, store_mem, if_neg hx]
    rfl

theorem base2_friend_delete_post (s : State) (h : Nat) (h0 : h ≠ 0) :
    (base2_friend_delete s h).mem h = 0 ∧
    ∀ x, x ≠ h → (base2_friend_delete s h).mem x = s.mem x := by
  unfold base2_friend_delete
  by_cases hp : s.mem h = 0
  · rw [base2_delete_internal_noop s h (Or.inr hp)]
    exact ⟨hp, fun _ _ => rfl⟩
  · rw [base2_delete_internal_eq s h false h0 hp]
    refine ⟨by simp, ?_⟩
    intro x hx
    simp only [Bool.false_eq_true, if_false, store_mem, if_neg hx]
    rfl

theorem derived1_friend_delete_post (s : State) (d : Nat) (h0 : d ≠ 0) :
    (derived1_friend_delete s d).mem (d + 8) = 0 ∧
    (derived1_friend_delete s d).mem (d + 32) = 0 ∧
    (derived1_friend_delete s d).mem d = 0 ∧
    ∀ x, x ≠ d + 8 → x ≠ d + 32 → x ≠ d → (derived1_friend_delete s d).mem x = s.mem x := by
  obtain ⟨a1, a2⟩ := base1_friend_delete_post s (d + 8) (by omega)
  obtain ⟨b1, b2⟩ := base2_friend_delete_post (base1_friend_delete s (d + 8)) (d + 32)
    (by omega)
  unfold derived1_friend_delete derived1_delete_internal
  simp only [off_d1_base1, off_d1_base2, off_private_h, Nat.add_zero, if_neg h0,
    Bool.false_eq_true, if_false]
  generalize base2_friend_delete (base1_friend_delete s (d + 8)) (d + 32) = t2 at b1 b2 ⊢
  generalize base1_friend_delete s (d + 8) = t1 at a1 a2 b2
  have c1 : t2.mem (d + 8) = 0 := by rw [b2 _ (by omega), a1]
  by_cases hp : t2.mem d = 0
  · simp only [ne_eq, hp, not_true_eq_false, if_false]
    refine ⟨c1, b1, trivial, ?_⟩
    intro x x1 x2 x3
    rw [b2 x x2, a2 x x1]
  · simp only [ne_eq, hp, not_false_eq_true, if_true, store_mem]
    refine ⟨?_, ?_, ?_, ?_⟩
    · rw [if_neg (by omega)]; exact c1
    · rw [if_neg (by omega)]; exact b1
    · trivial
    · intro x x1 x2 x3
      rw [if_neg x3]
      show t2.mem x = s.mem x
      rw [b2 x x2, a2 x x1]

theorem derived1_friend_delete_idem (s : State) (d : Nat) :
    derived1_friend_delete (derived1_friend_delete s d) d = derived1_friend_delete s d := by
  by_cases h0 : d = 0
  · subst h0
    rfl
  obtain ⟨a1, a2, a3, _⟩ := derived1_friend_delete_post s d h0
  generalize derived1_friend_delete s d = t at a1 a2 a3 ⊢
  unfold derived1_friend_delete derived1_delete_internal base1_friend_delete
    base2_friend_delete
  simp only [off_d1_base1, off_d1_base2, off_private_h, Nat.add_zero, if_neg h0,
    base1_delete_internal_noop t (d + 8) (Or.inr a1),
    base2_delete_internal_noop t (d + 32) (Or.inr a2), a3, ne_eq, not_true_eq_false,
    if_false, Bool.false_eq_true]
/-- C18: the three friend deletions do nothing on a null handle.  On a non-null handle
whose private reference is non-null, `base1_friend_delete` / `base2_friend_delete` makes
exactly one `free` call, on the private block, sets the private reference to null and
changes no other cell; on a derived1 object with its three private references non-null,
`derived1_friend_delete` makes exactly three `free` calls, on base1's, base2's and its own
private block, sets the three references to null and changes no other cell; the object
itself is never passed to `free`.  A second call on the same handle leaves the state of
the first call unchanged, so frees nothing again. -/
theorem C18_friend_teardown (s : State) (h : Nat) :
    (base1_friend_delete s 0 = s ∧ base2_friend_delete s 0 = s ∧
      derived1_friend_delete s 0 = s) ∧
    (h ≠ 0 → s.mem (h + off_private_h) ≠ 0 →
      ((base1_friend_delete s h).freed = s.mem (h + off_private_h) :: s.freed ∧
        (base1_friend_delete s h).mem (h + off_private_h) = 0 ∧
        ∀ x, x ≠ h + off_private_h → (base1_friend_delete s h).mem x = s.mem x) ∧
      ((base2_friend_delete s h).freed = s.mem (h + off_private_h) :: s.freed ∧
        (base2_friend_delete s h).mem (h + off_private_h) = 0 ∧
        ∀ x, x ≠ h + off_private_h → (base2_friend_delete s h).mem x = s.mem x)) ∧
    (h ≠ 0 → s.mem (h + off_d1_base1 + off_private_h) ≠ 0 →
      s.mem (h + off_d1_base2 + off_private_h) ≠ 0 → s.mem (h + off_private_h) ≠ 0 →
      (derived1_friend_delete s h).freed =
        s.mem (h + off_private_h) :: s.mem (h + off_d1_base2 + off_private_h) ::
          s.mem (h + off_d1_base1 + off_private_h) :: s.freed ∧
      (derived1_friend_delete s h).mem (h + off_d1_base1 + off_private_h) = 0 ∧
      (derived1_friend_delete s h).mem (h + off_d1_base2 + off_private_h) = 0 ∧
      (derived1_friend_delete s h).mem (h + off_private_h) = 0 ∧
      ∀ x, x ≠ h + off_d1_base1 + off_private_h → x ≠ h + off_d1_base2 + off_private_h →
        x ≠ h + off_private_h → (derived1_friend_delete s h).mem x = s.mem x) ∧
    (base1_friend_delete (base1_friend_delete s h) h = base1_friend_delete s h ∧
      base2_friend_delete (base2_friend_delete s h) h = base2_friend_delete s h ∧
      derived1_friend_delete (derived1_friend_delete s h) h = derived1_friend_delete s h) := by
  simp only [off_private_h, off_d1_base1, off_d1_base2, Nat.add_zero]
  refine ⟨⟨rfl, rfl, rfl⟩, ?_, ?_, ?_, ?_, derived1_friend_delete_idem s h⟩
  · intro h0 hp
    obtain ⟨a1, a2⟩ := base1_friend_delete_post s h h0
    obtain ⟨b1, b2⟩ := base2_friend_delete_post s h h0
    refine ⟨⟨?_, a1, a2⟩, ?_, b1, b2⟩
    · unfold base1_friend_delete
      rw [base1_delete_internal_eq s h false h0 hp]
      rfl
    · unfold base2_friend_delete
      rw [base2_delete_internal_eq s h false h0 hp]
      rfl
  · intro h0 hp1 hp2 hp3
    obtain ⟨a1, a2, a3, a4⟩ := derived1_friend_delete_post s h h0
    refine ⟨?_, a1, a2, a3, a4⟩
    unfold derived1_friend_delete
    rw [derived1_delete_internal_eq s h false h0 hp1 hp2 hp3]
    rfl
  · by_cases h0 : h = 0
    · subst h0
      rfl
    obtain ⟨a1, _⟩ := base1_friend_delete_post s h h0
    unfold base1_friend_delete at a1 ⊢
    exact base1_delete_internal_noop _ h (Or.inr a1)
  · by_cases h0 : h = 0
    · subst h0
      rfl
    obtain ⟨a1, _⟩ := base2_friend_delete_post s h h0
    unfold base2_friend_delete at a1 ⊢
    exact base2_delete_internal_noop _ h (Or.inr a1)

/-- C18 on the first derived1 object made at program start: the friend deletion sets the
object's own private reference to null. -/
theorem C18_friend_teardown_witness :
    (derived1_friend_delete
      (derived1_init (calloc initial_state sizeof_derived1_st).2 heap_base).2 heap_base).mem
      (heap_base + off_private_h) = 0 :=
  ((C18_friend_teardown (derived1_init (calloc initial_state sizeof_derived1_st).2 heap_base).2
    heap_base).2.2.1 (by decide) (by decide) (by decide) (by decide)).2.2.2.1

/-- C17: `base1_delete` on a null handle changes nothing.  On a fully constructed plain
base1 object it makes exactly two `free` calls: the private block, then the object.  On
the up-cast base1 handle of a fully constructed derived1 object, and likewise of a fully
constructed derived2 object, it makes exactly four `free` calls: base1's private block,
base2's private block, derived1's private block, then the outermost object; the freed
addresses are pairwise distinct, so each block is freed once. -/
theorem C17_delete_through_base (s : State) (d : Nat) :
    base1_delete s 0 = some s ∧
    (base1_object s d →
      ∃ t, base1_delete s d = some t ∧
        t.freed = d :: s.mem (d + off_private_h) :: s.freed ∧
        [d, s.mem (d + off_private_h)].Nodup) ∧
    (derived1_object s d →
      ∃ t, base1_delete s (derived1_cast_to_base1 d) = some t ∧
        t.freed = d :: s.mem (d + off_private_h) :: s.mem (d + off_d1_base2 + off_private_h) ::
          s.mem (d + off_d1_base1 + off_private_h) :: s.freed ∧
        [d, s.mem (d + off_private_h), s.mem (d + off_d1_base2 + off_private_h),
          s.mem (d + off_d1_base1 + off_private_h)].Nodup) ∧
    (derived2_object s d →
      ∃ t, base1_delete s (derived1_cast_to_base1 (derived2_cast_to_derived1 d)) = some t ∧
        t.freed = d :: s.mem (d + off_d2_derived1 + off_private_h) ::
          s.mem (d + off_d2_derived1 + off_d1_base2 + off_private_h) ::
          s.mem (d + off_d2_derived1 + off_d1_base1 + off_private_h) :: s.freed ∧
        [d, s.mem (d + off_d2_derived1 + off_private_h),
          s.mem (d + off_d2_derived1 + off_d1_base2 + off_private_h),
          s.mem (d + off_d2_derived1 + off_d1_base1 + off_private_h)].Nodup) := by
  refine ⟨rfl, ?_, ?_, ?_⟩
  · intro ho
    obtain ⟨sok, ⟨i1, i2, i3⟩, sep⟩ := ho
    have hd : base1_delete s d = some (base1_private_delete s d) := by
      rw [base1_delete_at s d _ _ ⟨i1, i2, i3⟩ (by decide) sok.b1_delete (by decide)]
      rfl
    simp only [off_private_h, Nat.add_zero, heap_base, separate, sizeof_private_st,
      sizeof_base1_st] at i1 i2 sep ⊢
    refine ⟨_, hd, ?_, ?_⟩
    · unfold base1_private_delete
      rw [base1_delete_internal_eq s d true (by omega) (by omega)]
      rfl
    · simp only [List.nodup_cons, List.mem_singleton, List.not_mem_nil, not_false_eq_true,
        List.nodup_nil, and_true]
      omega
  · intro ho
    have hd0 := derived1_object_ne s d ho
    obtain ⟨sok, i, j, k, sep1, sep2, ⟨sep3, n1, n2, n3⟩, _⟩ := ho
    have hd : base1_delete s (derived1_cast_to_base1 d) = some (derived1_private_delete s d) := by
      rw [cast_d1_base1 d hd0,
        base1_delete_at s _ _ _ i (by decide) sok.d1b1_delete (by decide)]
      have e : call_base1_delete_fn addr_derived1_base1_delete s (d + off_d1_base1)
          = derived1_delete s d := by
        simp [call_base1_delete_fn, derived1_base1_delete, base1_cast_to_derived1]
      rw [e, derived1_delete_at s d _ _ k (by decide) sok.d1_delete (by decide)]
      rfl
    obtain ⟨_, i2, _⟩ := i
    obtain ⟨_, j2, _⟩ := j
    obtain ⟨_, k2, _⟩ := k
    simp only [off_private_h, off_d1_base1, off_d1_base2, Nat.add_zero, heap_base, separate,
      sizeof_private_st, sizeof_derived1_st] at i2 j2 k2 sep1 sep2 sep3 n1 n2 n3 ⊢
    refine ⟨_, hd, ?_, ?_⟩
    · unfold derived1_private_delete
      rw [derived1_delete_internal_eq s d true hd0 (by omega) (by omega) (by omega)]
      rfl
    · simp only [List.nodup_cons, List.mem_cons, List.mem_singleton, List.not_mem_nil,
        not_false_eq_true, List.nodup_nil, and_true, not_or, or_false]
      refine ⟨⟨?_, ?_, ?_⟩, ⟨?_, ?_⟩, ?_⟩ <;> omega
  · intro ho
    have hd0 := derived2_object_ne s d ho
    obtain ⟨sok, i, j, k, sep1, sep2, ⟨sep3, n1, n2, n3⟩, _⟩ := ho
    have hd : base1_delete s (derived1_cast_to_base1 (derived2_cast_to_derived1 d))
        = some (derived2_delete s d) := by
      rw [cast_d2_base1 d hd0,
        base1_delete_at s _ _ _ i (by decide) sok.d2b1_delete (by decide)]
      simp [call_base1_delete_fn, derived2_base1_delete, base1_cast_to_derived2,
        off_d2_derived1, off_d1_base1]
    obtain ⟨_, i2, _⟩ := i
    obtain ⟨_, j2, _⟩ := j
    obtain ⟨_, k2, _⟩ := k
    simp only [off_private_h, off_d1_base1, off_d1_base2, off_d2_derived1, Nat.add_zero,
      heap_base, separate, sizeof_private_st, sizeof_derived2_st] at i2 j2 k2 sep1 sep2 sep3 ⊢
    simp only [off_private_h, off_d1_base1, off_d1_base2, off_d2_derived1, Nat.add_zero]
      at n1 n2 n3
    refine ⟨_, hd, ?_, ?_⟩
    · unfold derived2_delete derived1_friend_delete
      simp only [off_d2_derived1, Nat.add_zero, if_neg hd0]
      rw [derived1_delete_internal_eq s d false hd0 (by omega) (by omega) (by omega)]
      rfl
    · simp only [List.nodup_cons, List.mem_cons, List.mem_singleton, List.not_mem_nil,
        not_false_eq_true, List.nodup_nil, and_true, not_or, or_false]
      refine ⟨⟨?_, ?_, ?_⟩, ⟨?_, ?_⟩, ?_⟩ <;> omega

/-- C17 on the first derived2 object made at program start: the deletion through the
base1 handle returns. -/
theorem C17_delete_through_base_witness :
    derived2_object (derived2_new1 initial_state).2 (derived2_new1 initial_state).1 ∧
    ∃ t, base1_delete (derived2_new1 initial_state).2
      (derived1_cast_to_base1 (derived2_cast_to_derived1 (derived2_new1 initial_state).1))
        = some t :=
  ⟨derived2_new1_object initial_state _ _ statics_ok_initial_state rfl (by decide),
    let ⟨t, ht, _⟩ := (C17_delete_through_base (derived2_new1 initial_state).2
      (derived2_new1 initial_state).1).2.2.2
      (derived2_new1_object initial_state _ _ statics_ok_initial_state rfl (by decide))
    ⟨t, ht⟩⟩
theorem base1_ops_frame_b1 (s : State) (h vt : Nat) (op : base1_op) (hi : installed s h vt)
    (hvt : vt ≠ 0)
    (hts : s.mem (vt + off_type_string_fn) = addr_base1_type_string_internal)
    (hst : s.mem (vt + off_string_fn) = addr_base1_string_internal)
    (hss : s.mem (vt + off_string_size_fn) = addr_base1_string_size_internal)
    (hinc : s.mem (vt + off_increase_val3_fn) = addr_base1_increase_val3_internal) :
    ∃ t, op.run s h = some t ∧ t.brk = s.brk ∧
      ∀ x, ¬ op.output x → x ≠ addr_min_size → ¬ (h + 8 ≤ x ∧ x < h + 24) →
        t.mem x = s.mem x := by
  have h0 : h ≠ 0 := by
    have := hi.1
    simp only [heap_base] at this
    omega
  cases op with
  | get_public_data out =>
    refine ⟨_, rfl, ?_, ?_⟩
    · unfold base1_get_public_data
      split_ifs <;> rfl
    · intro x hx _ _
      simp only [base1_op.output] at hx
      unfold base1_get_public_data
      split_ifs
      · rfl
      · simp only [memcpy_public_data, off_pd_val1, off_pd_val2, Nat.add_zero, store_mem]
        rw [if_neg (by omega), if_neg (by omega)]
  | set_public_data pd =>
    refine ⟨_, rfl, ?_, ?_⟩
    · unfold base1_set_public_data
      split_ifs <;> rfl
    · intro x _ _ hx
      unfold base1_set_public_data
      split_ifs
      · rfl
      · simp only [memcpy_public_data, off_public_data, off_pd_val1, off_pd_val2, Nat.add_zero,
          store_mem]
        rw [if_neg (by omega), if_neg (by omega)]
  | type_string =>
    refine ⟨s, ?_, rfl, fun _ _ _ _ => rfl⟩
    simp only [base1_op.run, base1_type_string_at s h vt _ hi hvt hts (by decide)]
    rfl
  | string_size out =>
    simp only [base1_op.run, base1_string_size_at s h vt _ out hi hvt hss (by decide)]
    refine ⟨_, rfl, ?_, ?_⟩
    · simp only [call_base1_string_size_fn, if_true, base1_string_size_internal]
      split_ifs <;> rfl
    · intro x hx _ _
      simp only [base1_op.output] at hx
      simp only [call_base1_string_size_fn, if_true, base1_string_size_internal]
      split_ifs
      · rfl
      · simp only [store_mem]
        rw [if_neg (by omega)]
  | string buf n =>
    simp only [base1_op.run, base1_string_via_b1 s h vt buf n hi hvt hst]
    by_cases hb : buf = 0
    · refine ⟨s, ?_, rfl, fun _ _ _ _ => rfl⟩
      unfold base1_string_internal
      rw [if_pos (Or.inr hb)]
      rfl
    · rw [base1_string_internal_eq s h vt buf n hi hvt hss hb]
      refine ⟨_, rfl, ?_, ?_⟩
      · split_ifs
        · rfl
        · exact (snprintf_alloc _ _ _ _).1
      · intro x hx hm _
        simp only [base1_op.output] at hx
        split_ifs
        · simp only [store_mem]
          rw [if_neg hm]
        · show (snprintf _ _ _ _).mem x = s.mem x
          rw [snprintf_other _ _ _ _ _ (by omega), store_mem, if_neg hm]
  | increase_val3 =>
    simp only [base1_op.run, base1_increase_val3_obj s h vt hi hvt hinc]
    refine ⟨_, rfl, rfl, ?_⟩
    intro x _ _ hx
    simp only [Option.map_some', store_mem, off_val3]
    rw [if_neg (by omega)]
theorem derived1_string_internal_frame (s : State) (d buf n : Nat) (hd : d ≠ 0) :
    (derived1_string_internal s d buf n).2.brk = s.brk ∧
    ∀ x, ¬ (buf ≤ x ∧ x < buf + n) → x ≠ addr_min_size →
      (derived1_string_internal s d buf n).2.mem x = s.mem x := by
  by_cases hb : buf = 0
  · unfold derived1_string_internal
    rw [if_pos (Or.inr hb)]
    exact ⟨rfl, fun _ _ _ => rfl⟩
  · rw [derived1_string_internal_eq s d buf n hd hb]
    constructor
    · split_ifs
      · rfl
      · exact (snprintf_alloc _ _ _ _).1
    · intro x hx hm
      split_ifs
      · simp only [store_mem]
        rw [if_neg hm]
      · show (snprintf _ _ _ _).mem x = s.mem x
        rw [snprintf_other _ _ _ _ _ (by omega), store_mem, if_neg hm]

theorem base1_ops_frame_d1 (s : State) (h vt : Nat) (op : base1_op) (hi : installed s h vt)
    (hvt : vt ≠ 0)
    (hts : s.mem (vt + off_type_string_fn) = addr_derived1_base1_type_string ∨
      s.mem (vt + off_type_string_fn) = addr_derived2_base1_type_string)
    (hst : s.mem (vt + off_string_fn) = addr_derived1_base1_string)
    (hss : s.mem (vt + off_string_size_fn) = addr_derived1_base1_string_size)
    (hinc : s.mem (vt + off_increase_val3_fn) = addr_base1_increase_val3_internal) :
    ∃ t, op.run s h = some t ∧ t.brk = s.brk ∧
      ∀ x, ¬ op.output x → x ≠ addr_min_size → ¬ (h + 8 ≤ x ∧ x < h + 24) →
        t.mem x = s.mem x := by
  have h1 := hi.1
  simp only [heap_base] at h1
  have h0 : h ≠ 0 := by omega
  cases op with
  | get_public_data out =>
    refine ⟨_, rfl, ?_, ?_⟩
    · unfold base1_get_public_data
      split_ifs <;> rfl
    · intro x hx _ _
      simp only [base1_op.output] at hx
      unfold base1_get_public_data
      split_ifs
      · rfl
      · simp only [memcpy_public_data, off_pd_val1, off_pd_val2, Nat.add_zero, store_mem]
        rw [if_neg (by omega), if_neg (by omega)]
  | set_public_data pd =>
    refine ⟨_, rfl, ?_, ?_⟩
    · unfold base1_set_public_data
      split_ifs <;> rfl
    · intro x _ _ hx
      unfold base1_set_public_data
      split_ifs
      · rfl
      · simp only [memcpy_public_data, off_public_data, off_pd_val1, off_pd_val2, Nat.add_zero,
          store_mem]
        rw [if_neg (by omega), if_neg (by omega)]
  | type_string =>
    refine ⟨s, ?_, rfl, fun _ _ _ _ => rfl⟩
    rcases hts with hts | hts
    · simp only [base1_op.run, base1_type_string_at s h vt _ hi hvt hts (by decide)]
      rfl
    · simp only [base1_op.run, base1_type_string_at s h vt _ hi hvt hts (by decide)]
      rfl
  | string_size out =>
    simp only [base1_op.run, base1_string_size_at s h vt _ out hi hvt hss (by decide)]
    refine ⟨_, rfl, ?_, ?_⟩
    · simp only [call_base1_string_size_fn, derived1_base1_string_size,
        derived1_string_size_internal]
      split_ifs <;> rfl
    · intro x hx _ _
      simp only [base1_op.output] at hx
      simp only [call_base1_string_size_fn, derived1_base1_string_size,
        derived1_string_size_internal]
      split_ifs
      all_goals first
        | rfl
        | contradiction
        | (simp only [Option.map_some', store_mem]
           rw [if_neg (by omega)])
  | string buf n =>
    simp only [base1_op.run, base1_string_via_d1 s h vt buf n hi hvt hst]
    obtain ⟨f1, f2⟩ := derived1_string_internal_frame s (h - off_d1_base1) buf n
      (by simp only [off_d1_base1]; omega)
    refine ⟨_, rfl, f1, ?_⟩
    intro x hx hm _
    simp only [base1_op.output] at hx
    exact f2 x hx hm
  | increase_val3 =>
    simp only [base1_op.run, base1_increase_val3_obj s h vt hi hvt hinc]
    refine ⟨_, rfl, rfl, ?_⟩
    intro x _ _ hx
    simp only [Option.map_some', store_mem, off_val3]
    rw [if_neg (by omega)]

theorem base2_ops_frame_d1 (s : State) (h vt : Nat) (op : base2_op) (hi : installed s h vt)
    (hvt : vt ≠ 0)
    (hts : s.mem (vt + off_type_string_fn) = addr_derived1_base2_type_string ∨
      s.mem (vt + off_type_string_fn) = addr_derived2_base2_type_string)
    (hst : s.mem (vt + off_string_fn) = addr_derived1_base2_string)
    (hss : s.mem (vt + off_string_size_fn) = addr_derived1_base2_string_size)
    (hinc : s.mem (vt + off_increase_val1_fn) = addr_derived1_base2_increase_val1) :
    ∃ t, op.run s h = some t ∧ t.brk = s.brk ∧
      ∀ x, ¬ op.output x → x ≠ addr_min_size → ¬ (h + 8 ≤ x ∧ x < h + 16) →
        t.mem x = s.mem x := by
  have h1 := hi.1
  simp only [heap_base] at h1
  have h0 : h ≠ 0 := by omega
  cases op with
  | get_val1 out =>
    refine ⟨_, rfl, ?_, ?_⟩
    · unfold base2_get_val1
      split_ifs <;> rfl
    · intro x hx _ _
      simp only [base2_op.output] at hx
      unfold base2_get_val1
      split_ifs
      · rfl
      · simp only [store_mem]
        rw [if_neg (by omega)]
  | type_string =>
    refine ⟨s, ?_, rfl, fun _ _ _ _ => rfl⟩
    rcases hts with hts | hts
    · simp only [base2_op.run, base2_type_string_at s h vt _ hi hvt hts (by decide)]
      rfl
    · simp only [base2_op.run, base2_type_string_at s h vt _ hi hvt hts (by decide)]
      rfl
  | string_size out =>
    simp only [base2_op.run, base2_string_size_at s h vt _ out hi hvt hss (by decide)]
    refine ⟨_, rfl, ?_, ?_⟩
    · simp only [call_base2_string_size_fn, derived1_base2_string_size,
        derived1_string_size_internal]
      split_ifs <;> rfl
    · intro x hx _ _
      simp only [base2_op.output] at hx
      simp only [call_base2_string_size_fn, derived1_base2_string_size,
        derived1_string_size_internal]
      split_ifs
      all_goals first
        | rfl
        | contradiction
        | (simp only [Option.map_some', store_mem]
           rw [if_neg (by omega)])
  | string buf n =>
    simp only [base2_op.run, base2_string_via_d1 s h vt buf n hi hvt hst]
    obtain ⟨f1, f2⟩ := derived1_string_internal_frame s (h - off_d1_base2) buf n
      (by simp only [off_d1_base2]; omega)
    refine ⟨_, rfl, f1, ?_⟩
    intro x hx hm _
    simp only [base2_op.output] at hx
    exact f2 x hx hm
  | increase_val1 =>
    simp only [base2_op.run, base2_increase_val1_obj s h vt hi hvt hinc]
    refine ⟨_, rfl, rfl, ?_⟩
    intro x _ _ hx
    simp only [Option.map_some', store_mem, off_b2_val1]
    rw [if_neg (by omega)]
theorem base1_new2_object (s : State) (pd : Nat) (hs : statics_ok s)
    (hh : (base1_new2 s pd).1 ≠ 0) : base1_object (base1_new2 s pd).2 (base1_new2 s pd).1 := by
  unfold base1_new2 at hh ⊢
  by_cases hpd : pd = 0
  · rw [if_pos hpd] at hh
    exact absurd rfl hh
  rw [if_neg hpd] at hh ⊢
  by_cases hnew : (base1_new1 s).1 = 0
  · simp [hnew] at hh
  have ho := base1_new1_object s hs hnew
  simp only [ne_eq, hnew, not_false_eq_true, if_true, memcpy_public_data, off_public_data,
    off_pd_val1, off_pd_val2, Nat.add_zero]
  exact base1_object_data _ _ 12 _ (base1_object_data _ _ 8 _ ho (by decide) (by decide))
    (by decide) (by decide)

theorem base1_new3_object (s : State) (v1 v3 : Nat) (hs : statics_ok s)
    (hh : (base1_new3 s v1 v3).1 ≠ 0) :
    base1_object (base1_new3 s v1 v3).2 (base1_new3 s v1 v3).1 := by
  unfold base1_new3 at hh ⊢
  by_cases hnew : (base1_new1 s).1 = 0
  · simp [hnew] at hh
  have ho := base1_new1_object s hs hnew
  simp only [ne_eq, hnew, not_false_eq_true, if_true, off_public_data, off_pd_val1, off_val3,
    Nat.add_zero]
  exact base1_object_data _ _ 16 _ (base1_object_data _ _ 8 _ ho (by decide) (by decide))
    (by decide) (by decide)

theorem installed_resolved (s : State) (obj vt fn : Nat) (hi : installed s obj vt)
    (hvt : vt ≠ 0) (hf : s.mem (vt + fn) ≠ 0) : ¬ dispatch_invalid s obj fn := by
  obtain ⟨h0, h1, h2⟩ := hi
  simp only [heap_base] at h0 h1
  unfold dispatch_invalid vtable_fn
  rw [h2]
  rintro (e | e | e | e)
  · omega
  · omega
  · exact hvt e
  · exact hf e

theorem base1_object_ops (s : State) (h : Nat) (op : base1_op) (ho : base1_object s h)
    (hout : ∀ x, op.output x → ¬ base1_dispatch_cells s h x) :
    ∃ t, op.run s h = some t ∧ base1_object t h ∧
      ∀ x, base1_dispatch_cells s h x → t.mem x = s.mem x := by
  have ho2 := ho
  obtain ⟨sok, hi, sep⟩ := ho2
  obtain ⟨t, hrun, hbrk, hfr⟩ := base1_ops_frame_b1 s h _ op hi (by decide) sok.b1_type_string
    sok.b1_string sok.b1_string_size sok.b1_increase
  obtain ⟨i1, i2, _⟩ := hi
  simp only [off_private_h, off_vtable, Nat.add_zero, separate, sizeof_private_st,
    sizeof_base1_st, heap_base] at i1 i2 sep
  have key : ∀ x, base1_dispatch_cells s h x → t.mem x = s.mem x := by
    intro x hx
    have hx2 := hx
    simp only [base1_dispatch_cells, off_private_h, off_vtable, Nat.add_zero, addr_min_size]
      at hx2
    apply hfr x (fun ho => hout x ho hx)
    · simp only [addr_min_size]; omega
    · omega
  refine ⟨t, hrun, ?_, key⟩
  apply base1_object_frame s t h ho (by rw [hbrk]; exact sok.heap)
  intro x hx
  apply key
  simpa only [base1_dispatch_cells, off_private_h, off_vtable, Nat.add_zero] using hx

theorem derived1_cells_frame (s t : State) (d : Nat) (k1 k2 : Nat)
    (hsep : separate (s.mem (d + 8)) 8 d 56 ∧ separate (s.mem (d + 32)) 8 d 56 ∧
      separate (s.mem d) 8 d 56)
    (hheap : 65536 ≤ d ∧ 65536 ≤ s.mem d ∧ 65536 ≤ s.mem (d + 8) ∧ 65536 ≤ s.mem (d + 32))
    (hk : (k1 = 16 ∧ k2 = 32) ∨ (k1 = 40 ∧ k2 = 48) ∨ (k1 = 48 ∧ k2 = 56))
    (out : Nat → Prop) (hout : ∀ x, out x → ¬ derived1_dispatch_cells s d x)
    (hfr : ∀ x, ¬ out x → x ≠ addr_min_size → ¬ (d + k1 ≤ x ∧ x < d + k2) →
      t.mem x = s.mem x) :
    ∀ x, derived1_dispatch_cells s d x → t.mem x = s.mem x := by
  intro x hx
  have hx2 := hx
  simp only [derived1_dispatch_cells, off_private_h, off_vtable, off_d1_base1, off_d1_base2,
    Nat.add_zero, addr_min_size] at hx2
  simp only [separate] at hsep
  apply hfr x (fun ho => hout x ho hx)
  · simp only [addr_min_size]; omega
  · omega
theorem derived1_object_layout (s : State) (d : Nat) (ho : derived1_object s d) :
    (separate (s.mem (d + 8)) 8 d 56 ∧ separate (s.mem (d + 32)) 8 d 56 ∧
      separate (s.mem d) 8 d 56) ∧
    (65536 ≤ d ∧ 65536 ≤ s.mem d ∧ 65536 ≤ s.mem (d + 8) ∧ 65536 ≤ s.mem (d + 32)) := by
  obtain ⟨_, ⟨_, i2, _⟩, ⟨_, j2, _⟩, ⟨k1, k2, _⟩, sep1, sep2, ⟨sep3, _⟩, _⟩ := ho
  simp only [off_private_h, off_d1_base1, off_d1_base2, Nat.add_zero, sizeof_private_st,
    sizeof_derived1_st, heap_base] at i2 j2 k1 k2 sep1 sep2 sep3
  exact ⟨⟨sep1, sep2, sep3⟩, k1, k2, i2, j2⟩

theorem derived2_object_layout (s : State) (d : Nat) (ho : derived2_object s d) :
    (separate (s.mem (d + 8)) 8 d 56 ∧ separate (s.mem (d + 32)) 8 d 56 ∧
      separate (s.mem d) 8 d 56) ∧
    (65536 ≤ d ∧ 65536 ≤ s.mem d ∧ 65536 ≤ s.mem (d + 8) ∧ 65536 ≤ s.mem (d + 32)) := by
  obtain ⟨_, ⟨_, i2, _⟩, ⟨_, j2, _⟩, ⟨k1, k2, _⟩, sep1, sep2, ⟨sep3, _⟩, _⟩ := ho
  simp only [off_private_h, off_d1_base1, off_d1_base2, off_d2_derived1, Nat.add_zero,
    sizeof_private_st, sizeof_derived2_st, heap_base] at i2 j2 k1 k2 sep1 sep2 sep3
  exact ⟨⟨sep1, sep2, sep3⟩, k1, k2, i2, j2⟩

theorem derived1_object_cells (s t : State) (d : Nat) (ho : derived1_object s d)
    (hbrk : t.brk = s.brk) (key : ∀ x, derived1_dispatch_cells s d x → t.mem x = s.mem x) :
    derived1_object t d := by
  apply derived1_object_frame s t d ho (by rw [hbrk]; exact ho.1.heap)
  intro x hx
  apply key
  simpa only [derived1_dispatch_cells, off_private_h, off_vtable, off_d1_base1, off_d1_base2,
    Nat.add_zero] using (by tauto : x < addr_min_size ∨ x = d ∨ x = d + 8 ∨ x = d + 32 ∨
      x = s.mem d ∨ x = s.mem (d + 8) ∨ x = s.mem (d + 32))

theorem derived2_object_cells (s t : State) (d : Nat) (ho : derived2_object s d)
    (hbrk : t.brk = s.brk) (key : ∀ x, derived1_dispatch_cells s d x → t.mem x = s.mem x) :
    derived2_object t d := by
  apply derived2_object_frame s t d ho (by rw [hbrk]; exact ho.1.heap)
  intro x hx
  apply key
  simpa only [derived1_dispatch_cells, off_private_h, off_vtable, off_d1_base1, off_d1_base2,
    Nat.add_zero] using (by tauto : x < addr_min_size ∨ x = d ∨ x = d + 8 ∨ x = d + 32 ∨
      x = s.mem d ∨ x = s.mem (d + 8) ∨ x = s.mem (d + 32))

theorem derived1_object_ops (s : State) (d : Nat) (ho : derived1_object s d) :
    (∀ op : base1_op, (∀ x, op.output x → ¬ derived1_dispatch_cells s d x) →
      ∃ t, op.run s (derived1_cast_to_base1 d) = some t ∧ derived1_object t d ∧
        ∀ x, derived1_dispatch_cells s d x → t.mem x = s.mem x) ∧
    (∀ op : base2_op, (∀ x, op.output x → ¬ derived1_dispatch_cells s d x) →
      ∃ t, op.run s (derived1_cast_to_base2 d) = some t ∧ derived1_object t d ∧
        ∀ x, derived1_dispatch_cells s d x → t.mem x = s.mem x) ∧
    (∃ t, derived1_increase_val4 s d = some (MY_RC_E_SUCCESS, t) ∧ derived1_object t d ∧
        ∀ x, derived1_dispatch_cells s d x → t.mem x = s.mem x) := by
  have hd := derived1_object_ne s d ho
  obtain ⟨hsep, hheap⟩ := derived1_object_layout s d ho
  refine ⟨?_, ?_, ?_⟩
  · intro op hout
    rw [cast_d1_base1 d hd]
    obtain ⟨t, hrun, hbrk, hfr⟩ := base1_ops_frame_d1 s _ _ op ho.2.1 (by decide)
      (Or.inl ho.1.d1b1_type_string) ho.1.d1b1_string ho.1.d1b1_string_size ho.2.2.2.2.2.2.2
    have key := derived1_cells_frame s t d 16 32 hsep hheap (by simp) op.output hout
      (by simpa only [off_d1_base1, Nat.add_assoc, Nat.reduceAdd] using hfr)
    exact ⟨t, hrun, derived1_object_cells s t d ho hbrk key, key⟩
  · intro op hout
    rw [cast_d1_base2 d hd]
    obtain ⟨t, hrun, hbrk, hfr⟩ := base2_ops_frame_d1 s _ _ op ho.2.2.1 (by decide)
      (Or.inl ho.1.d1b2_type_string) ho.1.d1b2_string ho.1.d1b2_string_size ho.1.d1b2_increase
    have key := derived1_cells_frame s t d 40 48 hsep hheap (by simp) op.output hout
      (by simpa only [off_d1_base2, Nat.add_assoc, Nat.reduceAdd] using hfr)
    exact ⟨t, hrun, derived1_object_cells s t d ho hbrk key, key⟩
  · have hrun := derived1_increase_val4_obj1 s d _ ho.2.2.2.1 (by decide) ho.1.d1_increase
    generalize load32 s (d + off_d1_val4) * 3 % 2 ^ 32 = v at hrun
    have key := derived1_cells_frame s (s.store (d + off_d1_val4) v) d 48 56 hsep hheap
      (by simp) (fun _ => False) (fun _ hf => hf.elim) (by
        intro x _ _ hx
        rw [store_mem, if_neg (by simp only [off_d1_val4]; omega)])
    exact ⟨_, hrun, derived1_object_cells s _ d ho rfl key, key⟩

theorem derived2_object_ops (s : State) (d : Nat) (ho : derived2_object s d) :
    (∀ op : base1_op, (∀ x, op.output x → ¬ derived1_dispatch_cells s d x) →
      ∃ t, op.run s (derived1_cast_to_base1 (derived2_cast_to_derived1 d)) = some t ∧
        derived2_object t d ∧ ∀ x, derived1_dispatch_cells s d x → t.mem x = s.mem x) ∧
    (∀ op : base2_op, (∀ x, op.output x → ¬ derived1_dispatch_cells s d x) →
      ∃ t, op.run s (derived1_cast_to_base2 (derived2_cast_to_derived1 d)) = some t ∧
        derived2_object t d ∧ ∀ x, derived1_dispatch_cells s d x → t.mem x = s.mem x) ∧
    (∃ t, derived1_increase_val4 s (derived2_cast_to_derived1 d) = some (MY_RC_E_SUCCESS, t) ∧
        derived2_object t d ∧ ∀ x, derived1_dispatch_cells s d x → t.mem x = s.mem x) := by
  have hd := derived2_object_ne s d ho
  obtain ⟨hsep, hheap⟩ := derived2_object_layout s d ho
  have ho2 := ho
  obtain ⟨sok, i, j, k, _, _, _, r1, r2, r3, r4, r5, r6⟩ := ho2
  refine ⟨?_, ?_, ?_⟩
  · intro op hout
    rw [cast_d2_base1 d hd]
    obtain ⟨t, hrun, hbrk, hfr⟩ := base1_ops_frame_d1 s _ _ op i (by decide)
      (Or.inr sok.d2b1_type_string) r1 r2 r3
    have key := derived1_cells_frame s t d 16 32 hsep hheap (by simp) op.output hout
      (by simpa only [off_d2_derived1, off_d1_base1, Nat.add_zero, Nat.add_assoc,
        Nat.reduceAdd] using hfr)
    exact ⟨t, hrun, derived2_object_cells s t d ho hbrk key, key⟩
  · intro op hout
    rw [cast_d2_base2 d hd]
    obtain ⟨t, hrun, hbrk, hfr⟩ := base2_ops_frame_d1 s _ _ op j (by decide)
      (Or.inr sok.d2b2_type_string) r4 r5 r6
    have key := derived1_cells_frame s t d 40 48 hsep hheap (by simp) op.output hout
      (by simpa only [off_d2_derived1, off_d1_base2, Nat.add_zero, Nat.add_assoc,
        Nat.reduceAdd] using hfr)
    exact ⟨t, hrun, derived2_object_cells s t d ho hbrk key, key⟩
  · rw [cast_d2_d1 d hd]
    have hrun := derived1_increase_val4_obj2 s _ _ k (by decide) sok.d2d1_increase
    simp only [off_d2_derived1, Nat.add_zero] at hrun ⊢
    generalize (load32 s (d + off_d1_val4) + 20) % 2 ^ 32 = v at hrun
    have key := derived1_cells_frame s (s.store (d + off_d1_val4) v) d 48 56 hsep hheap
      (by simp) (fun _ => False) (fun _ hf => hf.elim) (by
        intro x _ _ hx
        rw [store_mem, if_neg (by simp only [off_d1_val4]; omega)])
    exact ⟨_, hrun, derived2_object_cells s _ d ho rfl key, key⟩
theorem five_slots (s : State) (obj vt : Nat) (hi : installed s obj vt) (hvt : vt ≠ 0)
    (h0 : s.mem (vt + 0) ≠ 0) (h1 : s.mem (vt + 8) ≠ 0) (h2 : s.mem (vt + 16) ≠ 0)
    (h3 : s.mem (vt + 24) ≠ 0) (h4 : s.mem (vt + 32) ≠ 0) :
    ∀ i, i < 5 → ¬ dispatch_invalid s obj (8 * i) := by
  intro i hi5
  apply installed_resolved s obj vt _ hi hvt
  interval_cases i <;> assumption

theorem four_slots (s : State) (obj vt : Nat) (hi : installed s obj vt) (hvt : vt ≠ 0)
    (h0 : s.mem (vt + 0) ≠ 0) (h1 : s.mem (vt + 8) ≠ 0) (h2 : s.mem (vt + 16) ≠ 0)
    (h3 : s.mem (vt + 24) ≠ 0) :
    ∀ i, i < 4 → ¬ dispatch_invalid s obj (8 * i) := by
  intro i hi4
  apply installed_resolved s obj vt _ hi hvt
  interval_cases i <;> assumption

theorem base1_object_resolved (s : State) (h : Nat) (ho : base1_object s h) :
    ∀ i, i < 5 → ¬ dispatch_invalid s h (8 * i) := by
  obtain ⟨sok, hi, _⟩ := ho
  exact five_slots s h _ hi (by decide) (by rw [sok.b1_delete]; decide)
    (by rw [sok.b1_type_string]; decide) (by rw [sok.b1_string]; decide)
    (by rw [sok.b1_string_size]; decide) (by rw [sok.b1_increase]; decide)

theorem derived1_object_resolved (s : State) (d : Nat) (ho : derived1_object s d) :
    (∀ i, i < 5 → ¬ dispatch_invalid s (derived1_cast_to_base1 d) (8 * i)) ∧
    (∀ i, i < 5 → ¬ dispatch_invalid s (derived1_cast_to_base2 d) (8 * i)) ∧
    (∀ i, i < 4 → ¬ dispatch_invalid s d (8 * i)) := by
  have hd := derived1_object_ne s d ho
  obtain ⟨sok, i, j, k, _, _, _, r⟩ := ho
  rw [cast_d1_base1 d hd, cast_d1_base2 d hd]
  exact ⟨five_slots s _ _ i (by decide) (by rw [sok.d1b1_delete]; decide)
      (by rw [sok.d1b1_type_string]; decide) (by rw [sok.d1b1_string]; decide)
      (by rw [sok.d1b1_string_size]; decide) (by rw [r]; decide),
    five_slots s _ _ j (by decide) (by rw [sok.d1b2_delete]; decide)
      (by rw [sok.d1b2_type_string]; decide) (by rw [sok.d1b2_string]; decide)
      (by rw [sok.d1b2_string_size]; decide) (by rw [sok.d1b2_increase]; decide),
    four_slots s _ _ k (by decide) (by rw [sok.d1_base1_vtable]; decide)
      (by rw [sok.d1_base2_vtable]; decide) (by rw [sok.d1_delete]; decide)
      (by rw [sok.d1_increase]; decide)⟩

theorem derived2_object_resolved (s : State) (d : Nat) (ho : derived2_object s d) :
    (∀ i, i < 5 →
      ¬ dispatch_invalid s (derived1_cast_to_base1 (derived2_cast_to_derived1 d)) (8 * i)) ∧
    (∀ i, i < 5 →
      ¬ dispatch_invalid s (derived1_cast_to_base2 (derived2_cast_to_derived1 d)) (8 * i)) ∧
    (∀ i, i < 4 → ¬ dispatch_invalid s (derived2_cast_to_derived1 d) (8 * i)) := by
  have hd := derived2_object_ne s d ho
  obtain ⟨sok, i, j, k, _, _, _, r1, r2, r3, r4, r5, r6⟩ := ho
  rw [cast_d2_base1 d hd, cast_d2_base2 d hd, cast_d2_d1 d hd]
  exact ⟨five_slots s _ _ i (by decide) (by rw [sok.d2b1_delete]; decide)
      (by rw [sok.d2b1_type_string]; decide) (by rw [r1]; decide)
      (by rw [r2]; decide) (by rw [r3]; decide),
    five_slots s _ _ j (by decide) (by rw [sok.d2b2_delete]; decide)
      (by rw [sok.d2b2_type_string]; decide) (by rw [r4]; decide)
      (by rw [r5]; decide) (by rw [r6]; decide),
    four_slots s _ _ k (by decide) (by rw [sok.d2d1_base1_vtable]; decide)
      (by rw [sok.d2d1_base2_vtable]; decide) (by rw [sok.d2d1_delete]; decide)
      (by rw [sok.d2d1_increase]; decide)⟩

/-- C19: (1) from a state whose static tables are intact, every successful `base1_new1`,
`base1_new2`, `base1_new3`, `derived1_new1` and `derived2_new1` returns a fully constructed
object; (2) in a fully constructed object every dispatch validation passes for every slot
of every table it refers to, that is, the handle of the object and of each embedded
sub-object has a non-null private reference, a non-null vtable reference and only non-null
slots; (3) every public non-deleting operation (get/set of the public data, get of val1,
`type_string`, `string_size`, `string`, the three increase operations) whose output object
is none of the cells the dispatch reads returns, leaves every such cell unchanged, and
leaves the object fully constructed; the casts change no state at all. -/
theorem C19_fully_resolved_invariant (s : State) (hs : statics_ok s) :
    (((base1_new1 s).1 ≠ 0 → base1_object (base1_new1 s).2 (base1_new1 s).1) ∧
      (∀ pd, (base1_new2 s pd).1 ≠ 0 → base1_object (base1_new2 s pd).2 (base1_new2 s pd).1) ∧
      (∀ v1 v3, (base1_new3 s v1 v3).1 ≠ 0 →
        base1_object (base1_new3 s v1 v3).2 (base1_new3 s v1 v3).1) ∧
      (∀ h t, derived1_new1 s = some (h, t) → h ≠ 0 → derived1_object t h) ∧
      (∀ h t, derived2_new1 s = (h, t) → h ≠ 0 → derived2_object t h)) ∧
    ((∀ h, base1_object s h → ∀ i, i < 5 → ¬ dispatch_invalid s h (8 * i)) ∧
      (∀ d, derived1_object s d →
        (∀ i, i < 5 → ¬ dispatch_invalid s (derived1_cast_to_base1 d) (8 * i)) ∧
        (∀ i, i < 5 → ¬ dispatch_invalid s (derived1_cast_to_base2 d) (8 * i)) ∧
        (∀ i, i < 4 → ¬ dispatch_invalid s d (8 * i))) ∧
      (∀ d, derived2_object s d →
        (∀ i, i < 5 →
          ¬ dispatch_invalid s (derived1_cast_to_base1 (derived2_cast_to_derived1 d))
            (8 * i)) ∧
        (∀ i, i < 5 →
          ¬ dispatch_invalid s (derived1_cast_to_base2 (derived2_cast_to_derived1 d))
            (8 * i)) ∧
        (∀ i, i < 4 → ¬ dispatch_invalid s (derived2_cast_to_derived1 d) (8 * i)))) ∧
    ((∀ h (op : base1_op), base1_object s h →
        (∀ x, op.output x → ¬ base1_dispatch_cells s h x) →
        ∃ t, op.run s h = some t ∧ base1_object t h ∧
          ∀ x, base1_dispatch_cells s h x → t.mem x = s.mem x) ∧
      (∀ d, derived1_object s d →
        (∀ op : base1_op, (∀ x, op.output x → ¬ derived1_dispatch_cells s d x) →
          ∃ t, op.run s (derived1_cast_to_base1 d) = some t ∧ derived1_object t d ∧
            ∀ x, derived1_dispatch_cells s d x → t.mem x = s.mem x) ∧
        (∀ op : base2_op, (∀ x, op.output x → ¬ derived1_dispatch_cells s d x) →
          ∃ t, op.run s (derived1_cast_to_base2 d) = some t ∧ derived1_object t d ∧
            ∀ x, derived1_dispatch_cells s d x → t.mem x = s.mem x) ∧
        (∃ t, derived1_increase_val4 s d = some (MY_RC_E_SUCCESS, t) ∧ derived1_object t d ∧
          ∀ x, derived1_dispatch_cells s d x → t.mem x = s.mem x)) ∧
      (∀ d, derived2_object s d →
        (∀ op : base1_op, (∀ x, op.output x → ¬ derived1_dispatch_cells s d x) →
          ∃ t, op.run s (derived1_cast_to_base1 (derived2_cast_to_derived1 d)) = some t ∧
            derived2_object t d ∧ ∀ x, derived1_dispatch_cells s d x → t.mem x = s.mem x) ∧
        (∀ op : base2_op, (∀ x, op.output x → ¬ derived1_dispatch_cells s d x) →
          ∃ t, op.run s (derived1_cast_to_base2 (derived2_cast_to_derived1 d)) = some t ∧
            derived2_object t d ∧ ∀ x, derived1_dispatch_cells s d x → t.mem x = s.mem x) ∧
        (∃ t, derived1_increase_val4 s (derived2_cast_to_derived1 d)
            = some (MY_RC_E_SUCCESS, t) ∧
          derived2_object t d ∧ ∀ x, derived1_dispatch_cells s d x → t.mem x = s.mem x))) :=
  ⟨⟨base1_new1_object s hs, fun pd => base1_new2_object s pd hs,
      fun v1 v3 => base1_new3_object s v1 v3 hs,
      fun h t => derived1_new1_object s h t hs, fun h t => derived2_new1_object s h t hs⟩,
    ⟨base1_object_resolved s, derived1_object_resolved s, derived2_object_resolved s⟩,
    ⟨fun h op ho => base1_object_ops s h op ho, derived1_object_ops s, derived2_object_ops s⟩⟩

/-- C19 at program start: the first derived2 object is fully constructed. -/
theorem C19_fully_resolved_invariant_witness :
    statics_ok initial_state ∧
    derived2_object (derived2_new1 initial_state).2 (derived2_new1 initial_state).1 :=
  ⟨statics_ok_initial_state,
    (C19_fully_resolved_invariant initial_state statics_ok_initial_state).1.2.2.2.2
      (derived2_new1 initial_state).1 (derived2_new1 initial_state).2 rfl (by decide)⟩
theorem calloc_fail_iff (s : State) (n : Nat) (hb : s.brk ≠ 0) :
    (calloc s n).1 = 0 ↔ s.calloc_fails.head? = some true := by
  unfold calloc
  rcases hc : s.calloc_fails with _ | ⟨b, rest⟩
  · simp [hb]
  · cases b <;> simp [hb]

theorem calloc_cf (s : State) (n : Nat) :
    (calloc s n).2.calloc_fails = s.calloc_fails.tail := by
  unfold calloc
  rcases hc : s.calloc_fails with _ | ⟨b, rest⟩
  · simp [hc]
  · cases b <;> simp [hc]

theorem calloc_fail_state (s : State) (n : Nat) (hb : s.brk ≠ 0) (h : (calloc s n).1 = 0) :
    (calloc s n).2.mem = s.mem ∧ (calloc s n).2.brk = s.brk ∧
    (calloc s n).2.allocated = s.allocated ∧ (calloc s n).2.freed = s.freed := by
  unfold calloc at h ⊢
  rcases hc : s.calloc_fails with _ | ⟨b, rest⟩
  · simp [hc, hb] at h
  · cases b
    · simp [hc, hb] at h
    · simp

theorem calloc_ok_lists (s : State) (n : Nat) (h : (calloc s n).1 ≠ 0) :
    (calloc s n).2.allocated = s.brk :: s.allocated ∧ (calloc s n).2.freed = s.freed := by
  unfold calloc at h ⊢
  rcases hc : s.calloc_fails with _ | ⟨b, rest⟩
  · simp
  · cases b
    · simp
    · simp [hc] at h

theorem base1_init_fail (s : State) (h : Nat) (h0 : h ≠ 0)
    (hc : (calloc s sizeof_private_st).1 = 0) :
    base1_init s h = (MY_RC_E_ENOMEM, (calloc s sizeof_private_st).2.store h 0) := by
  unfold base1_init
  simp only [if_neg h0, off_private_h, Nat.add_zero, store_mem, if_true, hc, ne_eq,
    not_true_eq_false, if_false]

theorem base2_init_fail (s : State) (h : Nat) (h0 : h ≠ 0)
    (hc : (calloc s sizeof_private_st).1 = 0) :
    base2_init s h = (MY_RC_E_ENOMEM, (calloc s sizeof_private_st).2.store h 0) := by
  unfold base2_init
  simp only [if_neg h0, off_private_h, Nat.add_zero, store_mem, if_true, hc, ne_eq,
    not_true_eq_false, if_false]

theorem base1_init_succ (s : State) (h : Nat) (h0 : h ≠ 0)
    (hc : (calloc s sizeof_private_st).1 ≠ 0) :
    (base1_init s h).1 = MY_RC_E_SUCCESS ∧
    (base1_init s h).2.calloc_fails = s.calloc_fails.tail ∧
    (base1_init s h).2.allocated = s.brk :: s.allocated ∧
    (base1_init s h).2.freed = s.freed := by
  obtain ⟨l1, l2⟩ := calloc_ok_lists s sizeof_private_st hc
  have l3 := calloc_cf s sizeof_private_st
  refine ⟨?_, ?_, ?_, ?_⟩ <;>
    (unfold base1_init
     simp only [if_neg h0, off_private_h, Nat.add_zero, store_mem, if_true, if_neg hc]) <;>
    first | exact l3 | exact l1 | exact l2

theorem base2_init_succ (s : State) (h : Nat) (h0 : h ≠ 0)
    (hc : (calloc s sizeof_private_st).1 ≠ 0) :
    (base2_init s h).1 = MY_RC_E_SUCCESS ∧
    (base2_init s h).2.calloc_fails = s.calloc_fails.tail ∧
    (base2_init s h).2.allocated = s.brk :: s.allocated ∧
    (base2_init s h).2.freed = s.freed := by
  obtain ⟨l1, l2⟩ := calloc_ok_lists s sizeof_private_st hc
  have l3 := calloc_cf s sizeof_private_st
  refine ⟨?_, ?_, ?_, ?_⟩ <;>
    (unfold base2_init
     simp only [if_neg h0, off_private_h, Nat.add_zero, store_mem, if_true, if_neg hc]) <;>
    first | exact l3 | exact l1 | exact l2

theorem base1_set_vtable_alloc (s : State) (h vt : Nat) :
    (base1_set_vtable s h vt).2.brk = s.brk ∧
    (base1_set_vtable s h vt).2.calloc_fails = s.calloc_fails ∧
    (base1_set_vtable s h vt).2.allocated = s.allocated ∧
    (base1_set_vtable s h vt).2.freed = s.freed := by
  have a := base1_inherit_vtable_alloc s base1_vtable vt true
  unfold base1_set_vtable
  dsimp only
  split_ifs
  · exact ⟨rfl, rfl, rfl, rfl⟩
  · exact ⟨rfl, rfl, rfl, rfl⟩
  · exact a
  · exact a

theorem base2_set_vtable_alloc (s : State) (h vt : Nat) :
    (base2_set_vtable s h vt).2.brk = s.brk ∧
    (base2_set_vtable s h vt).2.calloc_fails = s.calloc_fails ∧
    (base2_set_vtable s h vt).2.allocated = s.allocated ∧
    (base2_set_vtable s h vt).2.freed = s.freed := by
  have a := base1_inherit_vtable_alloc s base2_vtable vt true
  unfold base2_set_vtable
  rw [base2_inherit_vtable_eq]
  dsimp only
  split_ifs
  · exact ⟨rfl, rfl, rfl, rfl⟩
  · exact ⟨rfl, rfl, rfl, rfl⟩
  · exact a
  · exact a

theorem base1_set_vtable_d1 (u : State) (h : Nat) (uok : statics_ok u) (hh : heap_base ≤ h)
    (hp : heap_base ≤ u.mem h) :
    base1_set_vtable u h derived1_base1_vtable = (MY_RC_E_SUCCESS,
      (fill5 u base1_vtable derived1_base1_vtable).store (u.mem h) derived1_base1_vtable) := by
  simp only [heap_base] at hh hp
  apply base1_set_vtable_ok u h derived1_base1_vtable (by omega) (by decide) (by omega)
    (by decide)
  · rw [exists_lt_five]
    have a0 := uok.b1_delete
    have a1 := uok.b1_type_string
    have a2 := uok.b1_string
    have a3 := uok.b1_string_size
    have a4 := uok.b1_increase
    simp only [off_delete_fn, off_type_string_fn, off_string_fn, off_string_size_fn,
      off_increase_val3_fn] at a0 a1 a2 a3 a4
    simp [a0, a1, a2, a3, a4]
  · intro i hi
    simp only [derived1_base1_vtable]
    omega

theorem base2_set_vtable_d1 (u : State) (h : Nat) (uok : statics_ok u) (hh : heap_base ≤ h)
    (hp : heap_base ≤ u.mem h) :
    base2_set_vtable u h derived1_base2_vtable = (MY_RC_E_SUCCESS,
      u.store (u.mem h) derived1_base2_vtable) := by
  simp only [heap_base] at hh hp
  have c0 := uok.d1b2_delete
  have c1 := uok.d1b2_type_string
  have c2 := uok.d1b2_string
  have c3 := uok.d1b2_string_size
  have c4 := uok.d1b2_increase
  simp only [off_delete_fn, off_type_string_fn, off_string_fn, off_string_size_fn,
    off_increase_val1_fn, Nat.add_zero] at c0 c1 c2 c3 c4
  have v := base2_set_vtable_ok u h derived1_base2_vtable (by omega) (by decide) (by omega)
    (by decide)
    (by
      rw [exists_lt_five]
      simp [c0, c1, c2, c3, c4])
    (by intro i hi; simp only [derived1_base2_vtable]; omega)
  rw [fill5_noop u base2_vtable derived1_base2_vtable (by rw [c0]; decide)
    (by rw [c1]; decide) (by rw [c2]; decide) (by rw [c3]; decide) (by rw [c4]; decide)] at v
  exact v
theorem derived1_init_step12 (s : State) (d : Nat) (hs : statics_ok s) (hd : heap_base ≤ d)
    (hd2 : d + sizeof_derived1_st ≤ s.brk) (c1 : (calloc s sizeof_private_st).1 ≠ 0) :
    ∃ s1 s2, base1_init s (d + 8) = (MY_RC_E_SUCCESS, s1) ∧
      base1_set_vtable s1 (d + 8) derived1_base1_vtable = (MY_RC_E_SUCCESS, s2) ∧
      statics_ok s2 ∧ s2.brk = s.brk + 8 ∧ s2.calloc_fails = s.calloc_fails.tail ∧
      s2.allocated = s.brk :: s.allocated ∧ s2.freed = s.freed ∧
      s2.mem d = s.mem d ∧ s2.mem (d + 8) = s.brk ∧ s2.mem (d + 32) = s.mem (d + 32) := by
  have hb := hs.heap
  simp only [heap_base, sizeof_derived1_st] at hb hd hd2
  obtain ⟨r1, r2, r3, r4⟩ := base1_init_succ s (d + 8) (by omega) c1
  obtain ⟨_, _, b1, m1⟩ := base1_init_ok s (d + 8) r1
  generalize base1_init s (d + 8) = i1 at r1 r2 r3 r4 b1 m1 ⊢
  obtain ⟨rc1, s1⟩ := i1
  dsimp only at r1 r2 r3 r4 b1 m1
  subst r1
  have s1ok : statics_ok s1 := by
    apply statics_ok_frame s _ hs
    · rw [b1]; simp only [heap_base]; omega
    · intro x hx
      simp only [heap_base] at hx
      rw [m1]
      simp (disch := omega) only [if_neg]
  have p1 : s1.mem (d + 8) = s.brk := by
    have := m1 (d + 8)
    simp (disch := omega) only [if_neg, if_pos, if_true] at this
    exact this
  have v2 := base1_set_vtable_d1 s1 (d + 8) s1ok (by simp only [heap_base]; omega)
    (by rw [p1]; simp only [heap_base]; omega)
  rw [p1] at v2
  obtain ⟨a1, a2, a3, a4⟩ := base1_set_vtable_alloc s1 (d + 8) derived1_base1_vtable
  obtain ⟨f2ok, f2⟩ := fill5_d1b1 _ s1ok
  refine ⟨s1, _, rfl, v2, ?_, ?_, ?_, ?_, ?_, ?_, ?_, ?_⟩
  · apply statics_ok_frame _ _ f2ok
    · rw [store_brk, fill5_brk, b1]; simp only [heap_base]; omega
    · intro x hx
      simp only [heap_base] at hx
      rw [store_mem, if_neg (by omega)]
  · rw [store_brk, fill5_brk, b1]
  · rw [v2] at a2; exact a2.trans r2
  · rw [v2] at a3; exact a3.trans r3
  · rw [v2] at a4; exact a4.trans r4
  · rw [store_mem, if_neg (by omega), f2, if_neg (by simp only [derived1_base1_vtable]; omega),
      m1]
    simp (disch := omega) only [if_neg]
  · rw [store_mem, if_neg (by omega), f2, if_neg (by simp only [derived1_base1_vtable]; omega),
      p1]
  · rw [store_mem, if_neg (by omega), f2, if_neg (by simp only [derived1_base1_vtable]; omega),
      m1]
    simp (disch := omega) only [if_neg]

theorem derived1_init_step34 (u : State) (d b : Nat) (uok : statics_ok u) (hd : heap_base ≤ d)
    (hub : u.brk = b + 8) (hd2 : d + sizeof_derived1_st ≤ b)
    (c2 : (calloc u sizeof_private_st).1 ≠ 0) :
    ∃ s3 s4, base2_init u (d + 32) = (MY_RC_E_SUCCESS, s3) ∧
      base2_set_vtable s3 (d + 32) derived1_base2_vtable = (MY_RC_E_SUCCESS, s4) ∧
      statics_ok s4 ∧ s4.brk = u.brk + 8 ∧ s4.calloc_fails = u.calloc_fails.tail ∧
      s4.allocated = u.brk :: u.allocated ∧ s4.freed = u.freed ∧
      s4.mem d = u.mem d ∧ s4.mem (d + 8) = u.mem (d + 8) ∧ s4.mem (d + 32) = u.brk := by
  have hb := uok.heap
  simp only [heap_base, sizeof_derived1_st] at hb hd hd2
  obtain ⟨r1, r2, r3, r4⟩ := base2_init_succ u (d + 32) (by omega) c2
  obtain ⟨_, _, b1, m1⟩ := base2_init_ok u (d + 32) r1
  generalize base2_init u (d + 32) = i1 at r1 r2 r3 r4 b1 m1 ⊢
  obtain ⟨rc1, s3⟩ := i1
  dsimp only at r1 r2 r3 r4 b1 m1
  subst r1
  have s3ok : statics_ok s3 := by
    apply statics_ok_frame u _ uok
    · rw [b1]; simp only [heap_base]; omega
    · intro x hx
      simp only [heap_base] at hx
      rw [m1]
      simp (disch := omega) only [if_neg]
  have p1 : s3.mem (d + 32) = u.brk := by
    have := m1 (d + 32)
    simp (disch := omega) only [if_neg, if_pos, if_true] at this
    exact this
  have v2 := base2_set_vtable_d1 s3 (d + 32) s3ok (by simp only [heap_base]; omega)
    (by rw [p1]; simp only [heap_base]; omega)
  rw [p1] at v2
  refine ⟨s3, _, rfl, v2, ?_, ?_, r2, r3, r4, ?_, ?_, ?_⟩
  · apply statics_ok_frame _ _ s3ok
    · rw [store_brk, b1]; simp only [heap_base]; omega
    · intro x hx
      simp only [heap_base] at hx
      rw [store_mem, if_neg (by omega)]
  · rw [store_brk, b1]
  · rw [store_mem, if_neg (by omega), m1]
    simp (disch := omega) only [if_neg]
  · rw [store_mem, if_neg (by omega), m1]
    simp (disch := omega) only [if_neg]
  · rw [store_mem, if_neg (by omega), p1]
theorem derived1_init_fail1 (s : State) (d : Nat) (hd0 : d ≠ 0)
    (c1 : (calloc s sizeof_private_st).1 = 0) :
    derived1_init s d = (MY_RC_E_ENOMEM, (calloc s sizeof_private_st).2.store (d + 8) 0) := by
  unfold derived1_init
  simp only [if_neg hd0, off_d1_base1, base1_init_fail s (d + 8) (by omega) c1]
  rfl

theorem derived1_init_fail2 (s s1 s2 : State) (d : Nat) (hd0 : d ≠ 0)
    (e1 : base1_init s (d + 8) = (MY_RC_E_SUCCESS, s1))
    (e2 : base1_set_vtable s1 (d + 8) derived1_base1_vtable = (MY_RC_E_SUCCESS, s2))
    (c2 : (calloc s2 sizeof_private_st).1 = 0) :
    derived1_init s d = (MY_RC_E_ENOMEM, (calloc s2 sizeof_private_st).2.store (d + 32) 0) := by
  unfold derived1_init
  simp only [if_neg hd0, off_d1_base1, off_d1_base2, e1, e2, my_rc_e_is_notok_success,
    base2_init_fail s2 (d + 32) (by omega) c2]
  rfl

theorem derived1_init_tail (s s1 s2 s3 s4 : State) (d : Nat) (hd0 : d ≠ 0)
    (e1 : base1_init s (d + 8) = (MY_RC_E_SUCCESS, s1))
    (e2 : base1_set_vtable s1 (d + 8) derived1_base1_vtable = (MY_RC_E_SUCCESS, s2))
    (e3 : base2_init s2 (d + 32) = (MY_RC_E_SUCCESS, s3))
    (e4 : base2_set_vtable s3 (d + 32) derived1_base2_vtable = (MY_RC_E_SUCCESS, s4)) :
    ((calloc s4 sizeof_private_st).1 = 0 →
      derived1_init s d = (MY_RC_E_ENOMEM,
        base1_friend_delete
          (base2_friend_delete ((calloc s4 sizeof_private_st).2.store d 0) (d + 32)) (d + 8))) ∧
    ((calloc s4 sizeof_private_st).1 ≠ 0 → (derived1_init s d).1 = MY_RC_E_SUCCESS) := by
  unfold derived1_init
  simp only [if_neg hd0, off_d1_base1, off_d1_base2, off_private_h, Nat.add_zero, e1, e2, e3,
    e4, my_rc_e_is_notok_success, store_mem, if_true]
  constructor
  · intro c
    simp only [c, if_true, ne_eq, not_true_eq_false, if_false]
    rfl
  · intro c
    rw [if_neg c]
    rfl

theorem derived1_init_run (s : State) (d : Nat) (hs : statics_ok s) (hd : heap_base ≤ d)
    (hd2 : d + sizeof_derived1_st ≤ s.brk) :
    (s.calloc_fails.head? = some true →
      (derived1_init s d).1 = MY_RC_E_ENOMEM ∧
      (derived1_init s d).2.mem d = s.mem d ∧ (derived1_init s d).2.mem (d + 8) = 0 ∧
      (derived1_init s d).2.allocated = s.allocated ∧
      (derived1_init s d).2.freed = s.freed) ∧
    (s.calloc_fails.head? ≠ some true → s.calloc_fails.tail.head? = some true →
      (derived1_init s d).1 = MY_RC_E_ENOMEM ∧
      (derived1_init s d).2.mem d = s.mem d ∧ (derived1_init s d).2.mem (d + 8) = s.brk ∧
      (derived1_init s d).2.allocated = s.brk :: s.allocated ∧
      (derived1_init s d).2.freed = s.freed) ∧
    (s.calloc_fails.head? ≠ some true → s.calloc_fails.tail.head? ≠ some true →
      s.calloc_fails.tail.tail.head? = some true →
      (derived1_init s d).1 = MY_RC_E_ENOMEM ∧
      (derived1_init s d).2.mem d = 0 ∧ (derived1_init s d).2.mem (d + 8) = 0 ∧
      (derived1_init s d).2.mem (d + 32) = 0 ∧
      (derived1_init s d).2.allocated = (s.brk + 8) :: s.brk :: s.allocated ∧
      (derived1_init s d).2.freed = s.brk :: (s.brk + 8) :: s.freed) ∧
    (s.calloc_fails.head? ≠ some true → s.calloc_fails.tail.head? ≠ some true →
      s.calloc_fails.tail.tail.head? ≠ some true →
      (derived1_init s d).1 = MY_RC_E_SUCCESS) := by
  have hb := hs.heap
  have hd' := hd
  have hd2' := hd2
  simp only [heap_base, sizeof_derived1_st] at hb hd' hd2'
  have hd0 : d ≠ 0 := by omega
  have hb0 : s.brk ≠ 0 := by omega
  have k1 := calloc_fail_iff s sizeof_private_st hb0
  by_cases c1 : (calloc s sizeof_private_st).1 = 0
  · have hf := k1.mp c1
    refine ⟨fun _ => ?_, fun h => absurd hf h, fun h => absurd hf h, fun h => absurd hf h⟩
    obtain ⟨m, _, al, fr⟩ := calloc_fail_state s sizeof_private_st hb0 c1
    rw [derived1_init_fail1 s d hd0 c1]
    refine ⟨rfl, ?_, ?_, al, fr⟩
    · rw [store_mem, if_neg (by omega), m]
    · rw [store_mem, if_pos rfl]
  have hf1 : s.calloc_fails.head? ≠ some true := fun h => c1 (k1.mpr h)
  obtain ⟨s1, s2, e1, e2, s2ok, b2, cf2, al2, fr2, m2d, m2b1, m2b2⟩ :=
    derived1_init_step12 s d hs hd hd2 c1
  have k2 := calloc_fail_iff s2 sizeof_private_st (by rw [b2]; omega)
  rw [cf2] at k2
  by_cases c2 : (calloc s2 sizeof_private_st).1 = 0
  · have hf := k2.mp c2
    refine ⟨fun h => absurd h hf1, fun _ _ => ?_, fun _ h => absurd hf h,
      fun _ h => absurd hf h⟩
    obtain ⟨m, _, al, fr⟩ := calloc_fail_state s2 sizeof_private_st (by rw [b2]; omega) c2
    rw [derived1_init_fail2 s s1 s2 d hd0 e1 e2 c2]
    refine ⟨rfl, ?_, ?_, al.trans al2, fr.trans fr2⟩
    · rw [store_mem, if_neg (by omega), m, m2d]
    · rw [store_mem, if_neg (by omega), m, m2b1]
  have hf2 : s.calloc_fails.tail.head? ≠ some true := fun h => c2 (k2.mpr h)
  obtain ⟨s3, s4, e3, e4, s4ok, b4, cf4, al4, fr4, m4d, m4b1, m4b2⟩ :=
    derived1_init_step34 s2 d s.brk s2ok hd b2 hd2 c2
  rw [b2] at b4 al4 m4b2
  rw [m2d] at m4d
  rw [m2b1] at m4b1
  rw [cf2] at cf4
  rw [al2] at al4
  rw [fr2] at fr4
  have k3 := calloc_fail_iff s4 sizeof_private_st (by rw [b4]; omega)
  rw [cf4] at k3
  obtain ⟨t1, t2⟩ := derived1_init_tail s s1 s2 s3 s4 d hd0 e1 e2 e3 e4
  by_cases c3 : (calloc s4 sizeof_private_st).1 = 0
  · have hf := k3.mp c3
    refine ⟨fun h => absurd h hf1, fun _ h => absurd h hf2, fun _ _ _ => ?_,
      fun _ _ h => absurd hf h⟩
    obtain ⟨m, _, al, fr⟩ := calloc_fail_state s4 sizeof_private_st (by rw [b4]; omega) c3
    rw [t1 c3]
    generalize hu : (calloc s4 sizeof_private_st).2.store d 0 = u
    have u1 : u.mem (d + 32) = s.brk + 8 := by
      rw [← hu, store_mem, if_neg (by omega), m, m4b2]
    have u2 : u.mem (d + 8) = s.brk := by
      rw [← hu, store_mem, if_neg (by omega), m, m4b1]
    have u3 : u.mem d = 0 := by
      rw [← hu, store_mem, if_pos rfl]
    have u4 : u.allocated = (s.brk + 8) :: s.brk :: s.allocated := by
      rw [← hu]
      exact al.trans al4
    have u5 : u.freed = s.freed := by
      rw [← hu]
      exact fr.trans fr4
    unfold base1_friend_delete base2_friend_delete
    rw [base2_delete_internal_eq u (d + 32) false (by omega) (by rw [u1]; omega)]
    simp only [Bool.false_eq_true, if_false]
    have w1 : ((free u (u.mem (d + 32))).store (d + 32) 0).mem (d + 8) = s.brk := by
      rw [store_mem, if_neg (by omega)]
      exact u2
    rw [base1_delete_internal_eq _ (d + 8) false (by omega) (by rw [w1]; omega), w1]
    simp only [Bool.false_eq_true, if_false]
    refine ⟨trivial, ?_, ?_, ?_, ?_, ?_⟩
    · rw [store_mem, if_neg (by omega)]
      show ((free u (u.mem (d + 32))).store (d + 32) 0).mem d = 0
      rw [store_mem, if_neg (by omega)]
      exact u3
    · rw [store_mem, if_pos rfl]
    · rw [store_mem, if_neg (by omega)]
      show ((free u (u.mem (d + 32))).store (d + 32) 0).mem (d + 32) = 0
      rw [store_mem, if_pos rfl]
    · exact u4
    · show s.brk :: u.mem (d + 32) :: u.freed = _
      rw [u1, u5]
  · have hf3 : s.calloc_fails.tail.tail.head? ≠ some true := fun h => c3 (k3.mpr h)
    exact ⟨fun h => absurd h hf1, fun _ h => absurd h hf2, fun _ _ h => absurd h hf3,
      fun _ _ _ => t2 c3⟩
theorem not_mem_take_two (l : List Bool) :
    true ∉ l.take 2 ↔ (l.head? ≠ some true ∧ l.tail.head? ≠ some true) := by
  rcases l with _ | ⟨a, _ | ⟨b, l⟩⟩ <;> simp

theorem not_mem_take_four (l : List Bool) :
    true ∉ l.take 4 ↔ (l.head? ≠ some true ∧
      (l.tail.head? ≠ some true ∧ l.tail.tail.head? ≠ some true ∧
        l.tail.tail.tail.head? ≠ some true)) := by
  rcases l with _ | ⟨a, _ | ⟨b, _ | ⟨c, _ | ⟨e, l⟩⟩⟩⟩ <;> simp

theorem base1_new1_iff (s : State) (hs : statics_ok s) :
    (base1_new1 s).1 ≠ 0 ↔ true ∉ s.calloc_fails.take 2 := by
  have hb := hs.heap
  simp only [heap_base] at hb
  rw [not_mem_take_two]
  have k1 := calloc_fail_iff s sizeof_base1_st (by omega)
  unfold base1_new1
  by_cases c0 : (calloc s sizeof_base1_st).1 = 0
  · have hf := k1.mp c0
    simp only [ne_eq, c0, not_true_eq_false, if_false]
    constructor
    · intro h; exact h.elim
    · intro h; exact absurd hf h.1
  have hf0 : s.calloc_fails.head? ≠ some true := fun h => c0 (k1.mpr h)
  obtain ⟨e1, e2, _⟩ := calloc_ok s sizeof_base1_st c0
  have k2 := calloc_fail_iff (calloc s sizeof_base1_st).2 sizeof_private_st
    (by rw [e2]; omega)
  rw [calloc_cf] at k2
  simp only [ne_eq, c0, not_false_eq_true, if_true]
  by_cases c1 : (calloc (calloc s sizeof_base1_st).2 sizeof_private_st).1 = 0
  · have hf := k2.mp c1
    rw [base1_init_fail _ _ c0 c1]
    simp only [my_rc_e_is_notok, bne_iff_ne, ne_eq, reduceCtorEq, not_false_eq_true, if_true,
      not_true_eq_false, false_iff, not_and, not_not]
    intro _
    exact hf
  · have hf1 : s.calloc_fails.tail.head? ≠ some true := fun h => c1 (k2.mpr h)
    obtain ⟨r, _⟩ := base1_init_succ _ _ c0 c1
    simp only [r, my_rc_e_is_notok_success, Bool.false_eq_true, if_false]
    exact ⟨fun _ => ⟨hf0, hf1⟩, fun _ => c0⟩

theorem derived2_init_rc (s : State) (g : Nat) (hs : statics_ok s) (hg : heap_base ≤ g)
    (hg2 : g + sizeof_derived1_st ≤ s.brk) :
    ((derived1_init s g).1 = MY_RC_E_SUCCESS → (derived2_init s g).1 = MY_RC_E_SUCCESS) ∧
    ((derived1_init s g).1 ≠ MY_RC_E_SUCCESS → derived2_init s g = derived1_init s g) := by
  have hb := hs.heap
  have hg' := hg
  have hg2' := hg2
  simp only [heap_base, sizeof_derived1_st] at hb hg' hg2'
  have hg0 : g ≠ 0 := by omega
  constructor
  · intro hrc
    obtain ⟨tok, tb, tm⟩ := derived1_init_ok s g hs hg hg2 hrc
    simp only [derived1_base1_vtable] at tm
    have hinc := tm (8320 + 32)
    have q1 := tm (g + 8)
    have q2 := tm (g + 32)
    have q3 := tm g
    simp (disch := omega) only [if_neg, if_pos, if_true] at hinc q1 q2 q3
    obtain ⟨_, sv⟩ := derived1_set_vtable_d2 _ g s.brk (s.brk + 8) (s.brk + 16) tok hinc hg
      q1 q2 q3 (by simp only [heap_base]; omega) (by simp only [heap_base]; omega)
      (by simp only [heap_base]; omega) (by omega) (by omega) (by omega)
    unfold derived2_init
    simp only [if_neg hg0, off_d2_derived1, Nat.add_zero, hrc, my_rc_e_is_notok_success, sv,
      Bool.false_eq_true, if_false]
  · intro hrc
    unfold derived2_init
    have hn : my_rc_e_is_notok (derived1_init s g).1 = true := (my_rc_e_is_notok_iff _).mpr hrc
    simp only [if_neg hg0, off_d2_derived1, Nat.add_zero, hn, if_true]
theorem derived1_new1_of_fail (s : State) (c0 : (calloc s sizeof_derived1_st).1 ≠ 0)
    (hrc : (derived1_init (calloc s sizeof_derived1_st).2 (calloc s sizeof_derived1_st).1).1
      ≠ MY_RC_E_SUCCESS)
    (hm : (derived1_init (calloc s sizeof_derived1_st).2
      (calloc s sizeof_derived1_st).1).2.mem ((calloc s sizeof_derived1_st).1 + off_private_h)
        = 0) :
    derived1_new1 s = some (0,
      (derived1_init (calloc s sizeof_derived1_st).2 (calloc s sizeof_derived1_st).1).2) := by
  have hn := (my_rc_e_is_notok_iff _).mpr hrc
  unfold derived1_new1
  simp only [ne_eq, c0, not_false_eq_true, if_true, hn]
  unfold derived1_delete
  rw [VALIDATE_VTABLE_FN_invalid _ _ _ _ (Or.inr (Or.inl hm))]
  rfl

theorem derived1_new1_of_succ (s : State) (c0 : (calloc s sizeof_derived1_st).1 ≠ 0)
    (hrc : (derived1_init (calloc s sizeof_derived1_st).2 (calloc s sizeof_derived1_st).1).1
      = MY_RC_E_SUCCESS) :
    derived1_new1 s = some ((calloc s sizeof_derived1_st).1,
      (derived1_init (calloc s sizeof_derived1_st).2 (calloc s sizeof_derived1_st).1).2) := by
  unfold derived1_new1
  simp only [ne_eq, c0, not_false_eq_true, if_true, hrc, my_rc_e_is_notok_success,
    Bool.false_eq_true, if_false]

theorem derived1_new1_run (s : State) (hs : statics_ok s) :
    (s.calloc_fails.head? = some true →
      derived1_new1 s = some (0, (calloc s sizeof_derived1_st).2) ∧
      (calloc s sizeof_derived1_st).2.allocated = s.allocated ∧
      (calloc s sizeof_derived1_st).2.freed = s.freed) ∧
    (s.calloc_fails.head? ≠ some true → true ∈ s.calloc_fails.tail.take 3 →
      ∃ t, derived1_new1 s = some (0, t) ∧ s.brk ∈ t.allocated ∧
        ∃ l, t.freed = l ++ s.freed ∧ s.brk ∉ l) ∧
    (s.calloc_fails.head? ≠ some true → true ∉ s.calloc_fails.tail.take 3 →
      ∃ t, derived1_new1 s = some (s.brk, t)) := by
  have hb := hs.heap
  simp only [heap_base] at hb
  have k0 := calloc_fail_iff s sizeof_derived1_st (by omega)
  refine ⟨?_, ?_, ?_⟩
  · intro hf
    have c0 := k0.mpr hf
    obtain ⟨_, _, al, fr⟩ := calloc_fail_state s sizeof_derived1_st (by omega) c0
    refine ⟨?_, al, fr⟩
    unfold derived1_new1
    simp only [ne_eq, c0, not_true_eq_false, if_false]
  all_goals
    intro hf0 hf
    have c0 : (calloc s sizeof_derived1_st).1 ≠ 0 := fun h => hf0 (k0.mp h)
    obtain ⟨e1, e2, e3⟩ := calloc_ok s sizeof_derived1_st c0
    obtain ⟨l1, l2⟩ := calloc_ok_lists s sizeof_derived1_st c0
    have l3 := calloc_cf s sizeof_derived1_st
    have uok := calloc_statics s sizeof_derived1_st hs c0
    have run := derived1_init_run (calloc s sizeof_derived1_st).2 s.brk uok
      (by simp only [heap_base]; omega) (by rw [e2])
    have hz : (calloc s sizeof_derived1_st).2.mem s.brk = 0 := by
      rw [e3, if_pos (by simp only [sizeof_derived1_st]; omega)]
    rw [l3, e2, l1, l2, hz] at run
    obtain ⟨rA, rB, rC, rD⟩ := run
  · by_cases h1 : s.calloc_fails.tail.head? = some true
    · obtain ⟨rc, m, _, al, fr⟩ := rA h1
      refine ⟨_, derived1_new1_of_fail s c0 (by rw [e1, rc]; decide)
        (by rw [e1]; exact m), ?_, [], ?_, List.not_mem_nil _⟩
      · rw [e1, al]; exact List.mem_cons_self _ _
      · rw [e1, fr]; rfl
    by_cases h2 : s.calloc_fails.tail.tail.head? = some true
    · obtain ⟨rc, m, _, al, fr⟩ := rB h1 h2
      refine ⟨_, derived1_new1_of_fail s c0 (by rw [e1, rc]; decide)
        (by rw [e1]; exact m), ?_, [], ?_, List.not_mem_nil _⟩
      · rw [e1, al]; simp
      · rw [e1, fr]; rfl
    by_cases h3 : s.calloc_fails.tail.tail.tail.head? = some true
    · obtain ⟨rc, m, _, _, al, fr⟩ := rC h1 h2 h3
      refine ⟨_, derived1_new1_of_fail s c0 (by rw [e1, rc]; decide)
        (by rw [e1]; exact m), ?_,
        [s.brk + sizeof_derived1_st, s.brk + sizeof_derived1_st + 8], ?_, ?_⟩
      · rw [e1, al]; simp
      · rw [e1, fr]; rfl
      · simp only [sizeof_derived1_st, List.mem_cons, List.mem_singleton, List.not_mem_nil,
          or_false, not_or]
        omega
    · exfalso
      rcases hl : s.calloc_fails.tail with _ | ⟨a, _ | ⟨b, _ | ⟨c, l⟩⟩⟩ <;>
        simp_all
  · have h1 : s.calloc_fails.tail.head? ≠ some true := by
      intro h
      rcases hl : s.calloc_fails.tail with _ | ⟨a, l⟩ <;> simp_all
    have h2 : s.calloc_fails.tail.tail.head? ≠ some true := by
      intro h
      rcases hl : s.calloc_fails.tail with _ | ⟨a, _ | ⟨b, l⟩⟩ <;> simp_all
    have h3 : s.calloc_fails.tail.tail.tail.head? ≠ some true := by
      intro h
      rcases hl : s.calloc_fails.tail with _ | ⟨a, _ | ⟨b, _ | ⟨c, l⟩⟩⟩ <;> simp_all
    have rc := rD h1 h2 h3
    have := derived1_new1_of_succ s c0 (by rw [e1]; exact rc)
    rw [e1] at this
    exact ⟨_, this⟩
theorem derived2_new1_iff (s : State) (hs : statics_ok s) :
    (derived2_new1 s).1 ≠ 0 ↔ true ∉ s.calloc_fails.take 4 := by
  have hb := hs.heap
  simp only [heap_base] at hb
  rw [not_mem_take_four]
  have k0 := calloc_fail_iff s sizeof_derived2_st (by omega)
  unfold derived2_new1
  by_cases c0 : (calloc s sizeof_derived2_st).1 = 0
  · have hf := k0.mp c0
    simp only [ne_eq, c0, not_true_eq_false, if_false]
    constructor
    · intro h; exact h.elim
    · intro h; exact absurd hf h.1
  have hf0 : s.calloc_fails.head? ≠ some true := fun h => c0 (k0.mpr h)
  obtain ⟨e1, e2, e3⟩ := calloc_ok s sizeof_derived2_st c0
  have l3 := calloc_cf s sizeof_derived2_st
  have uok := calloc_statics s sizeof_derived2_st hs c0
  have run := derived1_init_run (calloc s sizeof_derived2_st).2 s.brk uok
    (by simp only [heap_base]; omega) (by rw [e2])
  obtain ⟨i1, i2⟩ := derived2_init_rc (calloc s sizeof_derived2_st).2 s.brk uok
    (by simp only [heap_base]; omega) (by rw [e2])
  rw [l3] at run
  obtain ⟨rA, rB, rC, rD⟩ := run
  have hb0 : ¬ (s.brk = 0) := by omega
  simp only [ne_eq, e1, hb0, not_false_eq_true, if_true]
  by_cases hrc : (derived1_init (calloc s sizeof_derived2_st).2 s.brk).1 = MY_RC_E_SUCCESS
  · have h2 := i1 hrc
    simp only [h2, my_rc_e_is_notok_success, Bool.false_eq_true, if_false]
    refine ⟨fun _ => ⟨hf0, ?_, ?_, ?_⟩, fun _ => hb0⟩
    · intro h
      rw [(rA h).1] at hrc
      cases hrc
    · intro h
      by_cases h1 : s.calloc_fails.tail.head? = some true
      · rw [(rA h1).1] at hrc
        cases hrc
      · rw [(rB h1 h).1] at hrc
        cases hrc
    · intro h
      by_cases h1 : s.calloc_fails.tail.head? = some true
      · rw [(rA h1).1] at hrc
        cases hrc
      · by_cases h2 : s.calloc_fails.tail.tail.head? = some true
        · rw [(rB h1 h2).1] at hrc
          cases hrc
        · rw [(rC h1 h2 h).1] at hrc
          cases hrc
  · have h2 := i2 hrc
    have hn := (my_rc_e_is_notok_iff _).mpr hrc
    simp only [h2, hn, if_true, not_true_eq_false, false_iff, not_and]
    intro _ a b c
    exact hrc (rD a b c)

theorem not_mem_take_succ (l : List Bool) :
    true ∉ l.take 4 ↔ (l.head? ≠ some true ∧ true ∉ l.tail.take 3) := by
  rcases l with _ | ⟨a, l⟩ <;> simp

/-- C14: from a state whose static tables are intact, with the outcomes of the coming
`calloc` calls given by the state's list (`true`: returns NULL): `base1_new1` returns a
non-null handle exactly when none of the two allocations it can make (the object, then the
private block) fails; `derived1_new1` returns, and `derived2_new1` returns, a non-null
handle exactly when none of the four allocations it can make (the object, then the private
blocks of base1, base2 and derived1) fails.  Each allocation is attempted only if the
earlier ones succeeded, so a `true` among the first two (four) outcomes is a failed
allocation of the call. -/
theorem C14_construction_failure_returns_null (s : State) (hs : statics_ok s) :
    ((base1_new1 s).1 ≠ 0 ↔ true ∉ s.calloc_fails.take 2) ∧
    (∃ r, derived1_new1 s = some r ∧ (r.1 ≠ 0 ↔ true ∉ s.calloc_fails.take 4)) ∧
    ((derived2_new1 s).1 ≠ 0 ↔ true ∉ s.calloc_fails.take 4) := by
  refine ⟨base1_new1_iff s hs, ?_, derived2_new1_iff s hs⟩
  have hb := hs.heap
  simp only [heap_base] at hb
  obtain ⟨rA, rB, rC⟩ := derived1_new1_run s hs
  rw [not_mem_take_succ]
  by_cases h0 : s.calloc_fails.head? = some true
  · refine ⟨_, (rA h0).1, ?_⟩
    constructor
    · intro h; exact absurd rfl h
    · intro h; exact absurd h0 h.1
  by_cases h1 : true ∈ s.calloc_fails.tail.take 3
  · obtain ⟨t, ht, _⟩ := rB h0 h1
    refine ⟨_, ht, ?_⟩
    constructor
    · intro h; exact absurd rfl h
    · intro h; exact absurd h1 h.2
  · obtain ⟨t, ht⟩ := rC h0 h1
    refine ⟨_, ht, ?_⟩
    constructor
    · intro _; exact ⟨h0, h1⟩
    · intro _
      show s.brk ≠ 0
      omega

/-- C14 at program start, every allocation succeeding: `derived2_new1` returns a non-null
handle. -/
theorem C14_construction_failure_returns_null_witness :
    statics_ok initial_state ∧ true ∉ initial_state.calloc_fails.take 4 ∧
    (derived2_new1 initial_state).1 ≠ 0 :=
  ⟨statics_ok_initial_state, by decide,
    (C14_construction_failure_returns_null initial_state statics_ok_initial_state).2.2.mpr
      (by decide)⟩

/-- C15: `derived1_init` on an object on the heap, below the break, from a state whose
static tables are intact.  If the allocation of base1's private block fails, it returns
`MY_RC_E_ENOMEM`, base1's private reference is null and nothing is allocated.  If the
allocations of base1's and base2's private blocks succeed and that of derived1's own fails,
it returns `MY_RC_E_ENOMEM` with the three private references null and both blocks freed.
But if base1's block is allocated and the allocation of base2's fails, it returns
`MY_RC_E_ENOMEM` with base1's private reference still non-null, its block allocated and
nothing freed: in this case nothing is rolled back. -/
theorem C15_derived1_init_rollback (s : State) (d : Nat) (hs : statics_ok s)
    (hd : heap_base ≤ d) (hd2 : d + sizeof_derived1_st ≤ s.brk) :
    (s.calloc_fails.head? = some true →
      (derived1_init s d).1 = MY_RC_E_ENOMEM ∧
      (derived1_init s d).2.mem (d + off_d1_base1 + off_private_h) = 0 ∧
      (derived1_init s d).2.allocated = s.allocated ∧
      (derived1_init s d).2.freed = s.freed) ∧
    (s.calloc_fails.head? ≠ some true → s.calloc_fails.tail.head? = some true →
      (derived1_init s d).1 = MY_RC_E_ENOMEM ∧
      (derived1_init s d).2.mem (d + off_d1_base1 + off_private_h) = s.brk ∧ s.brk ≠ 0 ∧
      (derived1_init s d).2.allocated = s.brk :: s.allocated ∧
      (derived1_init s d).2.freed = s.freed) ∧
    (s.calloc_fails.head? ≠ some true → s.calloc_fails.tail.head? ≠ some true →
      s.calloc_fails.tail.tail.head? = some true →
      (derived1_init s d).1 = MY_RC_E_ENOMEM ∧
      (derived1_init s d).2.mem (d + off_private_h) = 0 ∧
      (derived1_init s d).2.mem (d + off_d1_base1 + off_private_h) = 0 ∧
      (derived1_init s d).2.mem (d + off_d1_base2 + off_private_h) = 0 ∧
      (derived1_init s d).2.allocated = (s.brk + 8) :: s.brk :: s.allocated ∧
      (derived1_init s d).2.freed = s.brk :: (s.brk + 8) :: s.freed) := by
  have hb := hs.heap
  simp only [heap_base] at hb
  obtain ⟨rA, rB, rC, _⟩ := derived1_init_run s d hs hd hd2
  refine ⟨?_, ?_, ?_⟩
  · intro h
    obtain ⟨a1, _, a3, a4, a5⟩ := rA h
    exact ⟨a1, a3, a4, a5⟩
  · intro h1 h2
    obtain ⟨a1, _, a3, a4, a5⟩ := rB h1 h2
    exact ⟨a1, a3, by omega, a4, a5⟩
  · intro h1 h2 h3
    exact rC h1 h2 h3

/-- C15 at program start with the outcomes [success, success, failure], on the object the
first allocation returns: after `derived1_init` has failed, base1's private reference is
the block at the address after the object and that block is not in the free log. -/
theorem C15_derived1_init_rollback_witness :
    (derived1_init (calloc (initial_state_failing [false, false, true])
        sizeof_derived1_st).2 heap_base).1 = MY_RC_E_ENOMEM ∧
    (derived1_init (calloc (initial_state_failing [false, false, true])
        sizeof_derived1_st).2 heap_base).2.mem (heap_base + off_d1_base1 + off_private_h)
      = heap_base + sizeof_derived1_st ∧
    (derived1_init (calloc (initial_state_failing [false, false, true])
        sizeof_derived1_st).2 heap_base).2.freed = [] :=
  have h := (C15_derived1_init_rollback
    (calloc (initial_state_failing [false, false, true]) sizeof_derived1_st).2 heap_base
    (calloc_statics _ _ (statics_ok_frame initial_state _ statics_ok_initial_state
      (by decide) (fun _ _ => rfl)) (by decide)) (by decide) (by decide)).2.1
    (by decide) (by decide)
  ⟨h.1, h.2.1, h.2.2.2.2⟩

/-- C16: from a state whose static tables are intact, when the allocation of the derived1
object succeeds and one of the three allocations of `derived1_init` fails, `derived1_new1`
returns NULL, but the object is in the allocation log and `free` has not been called on it
during the call: the object is not cleaned up. -/
theorem C16_derived1_new1_leaks_object (s : State) (hs : statics_ok s)
    (h0 : s.calloc_fails.head? ≠ some true) (h1 : true ∈ s.calloc_fails.tail.take 3) :
    ∃ t, derived1_new1 s = some (0, t) ∧ s.brk ∈ t.allocated ∧
      ∃ l, t.freed = l ++ s.freed ∧ s.brk ∉ l :=
  (derived1_new1_run s hs).2.1 h0 h1

/-- C16 at program start with the outcomes [success, failure]: `derived1_new1` returns
NULL and leaves the object allocated. -/
theorem C16_derived1_new1_leaks_object_witness :
    ∃ t, derived1_new1 (initial_state_failing [false, true]) = some (0, t) ∧
      heap_base ∈ t.allocated ∧ ∃ l, t.freed = l ++ [] ∧ heap_base ∉ l :=
  C16_derived1_new1_leaks_object (initial_state_failing [false, true])
    (statics_ok_frame initial_state _ statics_ok_initial_state (by decide) (fun _ _ => rfl))
    (by decide) (by decide)
theorem VALIDATE_VTABLE_FN_cases (s : State) (h fn : Nat) :
    VALIDATE_VTABLE_FN s h fn MY_RC_E_SUCCESS = MY_RC_E_SUCCESS ∨
    VALIDATE_VTABLE_FN s h fn MY_RC_E_SUCCESS = MY_RC_E_EINVAL := by
  unfold VALIDATE_VTABLE_FN
  split_ifs <;> simp

theorem string_size_internal_rc (s : State) (h out : Nat) :
    success_or_einval (base1_string_size_internal s h out).1 ∧
    success_or_einval (base2_string_size_internal s h out).1 ∧
    success_or_einval (derived1_string_size_internal s h out).1 := by
  unfold base1_string_size_internal base2_string_size_internal derived1_string_size_internal
  refine ⟨?_, ?_, ?_⟩ <;> split_ifs <;> simp [success_or_einval]

theorem derived1_string_internal_rc (s : State) (d buf n : Nat) :
    success_or_einval (derived1_string_internal s d buf n).1 := by
  unfold derived1_string_internal
  have h := (string_size_internal_rc s d addr_min_size).2.2
  dsimp only
  split_ifs
  · right; rfl
  · exact h
  · right; rfl
  · left; rfl

theorem base1_string_size_rc (s : State) (h out : Nat) (r : my_rc_e × State)
    (hr : base1_string_size s h out = some r) : success_or_einval r.1 := by
  unfold base1_string_size at hr
  rcases VALIDATE_VTABLE_FN_cases s h off_string_size_fn with v | v
  · simp only [v, my_rc_e_is_notok_success, Bool.false_eq_true, if_false,
      call_base1_string_size_fn, derived1_base1_string_size] at hr
    split_ifs at hr
    · cases hr
      exact (string_size_internal_rc s h out).1
    · cases hr
      exact (string_size_internal_rc s _ out).2.2
  · simp only [v, my_rc_e_is_notok, bne_iff_ne, ne_eq, reduceCtorEq, not_false_eq_true,
      if_true] at hr
    cases hr
    right; rfl

theorem base2_string_size_rc (s : State) (h out : Nat) (r : my_rc_e × State)
    (hr : base2_string_size s h out = some r) : success_or_einval r.1 := by
  unfold base2_string_size at hr
  rcases VALIDATE_VTABLE_FN_cases s h off_string_size_fn with v | v
  · simp only [v, my_rc_e_is_notok_success, Bool.false_eq_true, if_false,
      call_base2_string_size_fn, derived1_base2_string_size] at hr
    split_ifs at hr
    · cases hr
      exact (string_size_internal_rc s h out).2.1
    · cases hr
      exact (string_size_internal_rc s _ out).2.2
  · simp only [v, my_rc_e_is_notok, bne_iff_ne, ne_eq, reduceCtorEq, not_false_eq_true,
      if_true] at hr
    cases hr
    right; rfl

theorem base1_string_internal_rc (s : State) (h buf n : Nat) (r : my_rc_e × State)
    (hr : base1_string_internal s h buf n = some r) : success_or_einval r.1 := by
  unfold base1_string_internal at hr
  by_cases hn : h = 0 ∨ buf = 0
  · rw [if_pos hn] at hr
    cases hr
    right; rfl
  rw [if_neg hn] at hr
  rcases VALIDATE_VTABLE_FN_cases s h off_string_size_fn with v | v
  · simp only [v, my_rc_e_is_notok_success, Bool.false_eq_true, if_false] at hr
    have hq := fun q => base1_string_size_rc s h addr_min_size q
    unfold base1_string_size at hq
    simp only [v, my_rc_e_is_notok_success, Bool.false_eq_true, if_false] at hq
    generalize call_base1_string_size_fn (vtable_fn s h off_string_size_fn) s h addr_min_size
      = o at hr hq
    cases o with
    | none => cases hr
    | some q =>
      have hq2 := hq q rfl
      dsimp only at hr
      split_ifs at hr
      · cases hr
        exact hq2
      · cases hr
        right; rfl
      · cases hr
        left; rfl
  · simp only [v, my_rc_e_is_notok, bne_iff_ne, ne_eq, reduceCtorEq, not_false_eq_true,
      if_true] at hr
    cases hr
    right; rfl

theorem base2_string_internal_rc (s : State) (h buf n : Nat) (r : my_rc_e × State)
    (hr : base2_string_internal s h buf n = some r) : success_or_einval r.1 := by
  unfold base2_string_internal at hr
  by_cases hn : h = 0 ∨ buf = 0
  · rw [if_pos hn] at hr
    cases hr
    right; rfl
  rw [if_neg hn] at hr
  rcases VALIDATE_VTABLE_FN_cases s h off_string_size_fn with v | v
  · simp only [v, my_rc_e_is_notok_success, Bool.false_eq_true, if_false] at hr
    have hq := fun q => base2_string_size_rc s h addr_min_size q
    unfold base2_string_size at hq
    simp only [v, my_rc_e_is_notok_success, Bool.false_eq_true, if_false] at hq
    generalize call_base2_string_size_fn (vtable_fn s h off_string_size_fn) s h addr_min_size
      = o at hr hq
    cases o with
    | none => cases hr
    | some q =>
      have hq2 := hq q rfl
      dsimp only at hr
      split_ifs at hr
      · cases hr
        exact hq2
      · cases hr
        right; rfl
      · cases hr
        left; rfl
  · simp only [v, my_rc_e_is_notok, bne_iff_ne, ne_eq, reduceCtorEq, not_false_eq_true,
      if_true] at hr
    cases hr
    right; rfl

theorem base1_string_rc (s : State) (h buf n : Nat) (r : my_rc_e × State)
    (hr : base1_string s h buf n = some r) : success_or_einval r.1 := by
  unfold base1_string at hr
  rcases VALIDATE_VTABLE_FN_cases s h off_string_fn with v | v
  · simp only [v, my_rc_e_is_notok_success, Bool.false_eq_true, if_false,
      call_base1_string_fn, derived1_base1_string] at hr
    split_ifs at hr
    · exact base1_string_internal_rc s h buf n r hr
    · cases hr
      exact derived1_string_internal_rc s _ buf n
  · simp only [v, my_rc_e_is_notok, bne_iff_ne, ne_eq, reduceCtorEq, not_false_eq_true,
      if_true] at hr
    cases hr
    right; rfl

theorem base2_string_rc (s : State) (h buf n : Nat) (r : my_rc_e × State)
    (hr : base2_string s h buf n = some r) : success_or_einval r.1 := by
  unfold base2_string at hr
  rcases VALIDATE_VTABLE_FN_cases s h off_string_fn with v | v
  · simp only [v, my_rc_e_is_notok_success, Bool.false_eq_true, if_false,
      call_base2_string_fn, derived1_base2_string] at hr
    split_ifs at hr
    · exact base2_string_internal_rc s h buf n r hr
    · cases hr
      exact derived1_string_internal_rc s _ buf n
  · simp only [v, my_rc_e_is_notok, bne_iff_ne, ne_eq, reduceCtorEq, not_false_eq_true,
      if_true] at hr
    cases hr
    right; rfl

theorem increase_rc (s : State) (h : Nat) (r : my_rc_e × State) :
    (base1_increase_val3 s h = some r → success_or_einval r.1) ∧
    (base2_increase_val1 s h = some r → success_or_einval r.1) ∧
    (derived1_increase_val4 s h = some r → success_or_einval r.1) := by
  refine ⟨?_, ?_, ?_⟩
  · intro hr
    unfold base1_increase_val3 at hr
    rcases VALIDATE_VTABLE_FN_cases s h off_increase_val3_fn with v | v
    · simp only [v, my_rc_e_is_notok_success, Bool.false_eq_true, if_false,
        call_base1_increase_val3_fn, base1_increase_val3_internal] at hr
      split_ifs at hr <;> cases hr <;> simp [success_or_einval]
    · simp only [v, my_rc_e_is_notok, bne_iff_ne, ne_eq, reduceCtorEq, not_false_eq_true,
        if_true] at hr
      cases hr
      right; rfl
  · intro hr
    unfold base2_increase_val1 at hr
    rcases VALIDATE_VTABLE_FN_cases s h off_increase_val1_fn with v | v
    · simp only [v, my_rc_e_is_notok_success, Bool.false_eq_true, if_false,
        call_base2_increase_val1_fn, derived1_base2_increase_val1] at hr
      split_ifs at hr <;> cases hr <;> simp [success_or_einval]
    · simp only [v, my_rc_e_is_notok, bne_iff_ne, ne_eq, reduceCtorEq, not_false_eq_true,
        if_true] at hr
      cases hr
      right; rfl
  · intro hr
    unfold derived1_increase_val4 at hr
    rcases VALIDATE_VTABLE_FN_cases s h off_d1vt_increase_val4_fn with v | v
    · simp only [v, my_rc_e_is_notok_success, Bool.false_eq_true, if_false,
        call_derived1_increase_val4_fn, derived1_increase_val4_internal,
        derived2_derived1_increase_val4] at hr
      split_ifs at hr <;> cases hr <;> simp [success_or_einval]
    · simp only [v, my_rc_e_is_notok, bne_iff_ne, ne_eq, reduceCtorEq, not_false_eq_true,
        if_true] at hr
      cases hr
      right; rfl

theorem derived1_inherit_vtable_rc (s : State) (p c : Nat) (dnc : Bool) :
    success_or_einval (derived1_inherit_vtable s p c dnc).1 := by
  unfold derived1_inherit_vtable
  by_cases hpc : p = 0 ∨ c = 0
  · rw [if_pos hpc]
    right; rfl
  rw [if_neg hpc]
  dsimp only
  have h1 := base1_inherit_vtable_rc s derived1_base1_vtable
    (s.mem (c + off_d1vt_base1_vtable)) false
  generalize base1_inherit_vtable s derived1_base1_vtable
    (s.mem (c + off_d1vt_base1_vtable)) false = r1 at h1 ⊢
  by_cases n1 : my_rc_e_is_notok r1.1 = true
  · rw [if_pos n1]
    exact h1
  rw [if_neg n1]
  have h2 := base1_inherit_vtable_rc r1.2 derived1_base2_vtable
    (r1.2.mem (c + off_d1vt_base2_vtable)) false
  rw [base2_inherit_vtable_eq]
  generalize base1_inherit_vtable r1.2 derived1_base2_vtable
    (r1.2.mem (c + off_d1vt_base2_vtable)) false = r2 at h2 ⊢
  by_cases n2 : my_rc_e_is_notok r2.1 = true
  · rw [if_pos n2]
    exact h2
  rw [if_neg n2]
  simp only [INHERIT_VTABLE_FN_eq]
  by_cases k1 : dnc = true ∧ r2.2.mem (c + off_d1vt_delete_fn) = 0 ∧
      r2.2.mem (p + off_d1vt_delete_fn) = 0
  · simp only [if_pos k1]
    exact Or.inr rfl
  simp only [if_neg k1]
  by_cases k2 : dnc = true ∧
      (fill_slot r2.2 p c off_d1vt_delete_fn).mem (c + off_d1vt_increase_val4_fn) = 0 ∧
      (fill_slot r2.2 p c off_d1vt_delete_fn).mem (p + off_d1vt_increase_val4_fn) = 0
  · simp only [if_pos k2]
    exact Or.inr rfl
  · simp only [if_neg k2]
    exact Or.inl rfl

theorem base1_set_vtable_rc (s : State) (h vt : Nat) :
    success_or_einval (base1_set_vtable s h vt).1 ∧
    success_or_einval (base2_set_vtable s h vt).1 := by
  have h1 := base1_inherit_vtable_rc s base1_vtable vt true
  have h2 := base1_inherit_vtable_rc s base2_vtable vt true
  unfold base1_set_vtable base2_set_vtable
  rw [base2_inherit_vtable_eq]
  dsimp only
  constructor
  · split_ifs
    · right; rfl
    · right; rfl
    · exact h1
    · left; rfl
  · split_ifs
    · right; rfl
    · right; rfl
    · exact h2
    · left; rfl

theorem derived1_set_vtable_rc (s : State) (h vt : Nat) :
    success_or_einval (derived1_set_vtable s h vt).1 := by
  unfold derived1_set_vtable
  dsimp only
  have h0 := derived1_inherit_vtable_rc s derived1_vtable vt true
  generalize derived1_inherit_vtable s derived1_vtable vt true = r at h0 ⊢
  have h1 := (base1_set_vtable_rc r.2 (h + off_d1_base1)
    (r.2.mem (vt + off_d1vt_base1_vtable))).1
  generalize base1_set_vtable r.2 (h + off_d1_base1) (r.2.mem (vt + off_d1vt_base1_vtable))
    = r1 at h1 ⊢
  have h2 := (base1_set_vtable_rc r1.2 (h + off_d1_base2)
    (r1.2.mem (vt + off_d1vt_base2_vtable))).2
  generalize base2_set_vtable r1.2 (h + off_d1_base2) (r1.2.mem (vt + off_d1vt_base2_vtable))
    = r2 at h2 ⊢
  split_ifs
  · right; rfl
  · right; rfl
  · exact h0
  · exact h1
  · exact h2
  · left; rfl

theorem base1_init_rc (s : State) (h : Nat) :
    (success_or_einval (base1_init s h).1 ∨
      ((base1_init s h).1 = MY_RC_E_ENOMEM ∧ (calloc s sizeof_private_st).1 = 0)) ∧
    (success_or_einval (base2_init s h).1 ∨
      ((base2_init s h).1 = MY_RC_E_ENOMEM ∧ (calloc s sizeof_private_st).1 = 0)) := by
  by_cases h0 : h = 0
  · subst h0
    exact ⟨Or.inl (Or.inr rfl), Or.inl (Or.inr rfl)⟩
  by_cases c : (calloc s sizeof_private_st).1 = 0
  · rw [base1_init_fail s h h0 c, base2_init_fail s h h0 c]
    exact ⟨Or.inr ⟨rfl, c⟩, Or.inr ⟨rfl, c⟩⟩
  · exact ⟨Or.inl (Or.inl (base1_init_succ s h h0 c).1),
      Or.inl (Or.inl (base2_init_succ s h h0 c).1)⟩

theorem derived1_init_setfail1 (s s1 : State) (d : Nat) (hd0 : d ≠ 0)
    (e1 : base1_init s (d + 8) = (MY_RC_E_SUCCESS, s1))
    (hrc : (base1_set_vtable s1 (d + 8) derived1_base1_vtable).1 ≠ MY_RC_E_SUCCESS) :
    derived1_init s d = base1_set_vtable s1 (d + 8) derived1_base1_vtable := by
  have hn := (my_rc_e_is_notok_iff _).mpr hrc
  unfold derived1_init
  simp only [if_neg hd0, off_d1_base1, e1, my_rc_e_is_notok_success, Bool.false_eq_true,
    if_false, hn, if_true]

theorem derived1_init_setfail2 (s s1 s2 s3 : State) (d : Nat) (hd0 : d ≠ 0)
    (e1 : base1_init s (d + 8) = (MY_RC_E_SUCCESS, s1))
    (e2 : base1_set_vtable s1 (d + 8) derived1_base1_vtable = (MY_RC_E_SUCCESS, s2))
    (e3 : base2_init s2 (d + 32) = (MY_RC_E_SUCCESS, s3))
    (hrc : (base2_set_vtable s3 (d + 32) derived1_base2_vtable).1 ≠ MY_RC_E_SUCCESS) :
    derived1_init s d = base2_set_vtable s3 (d + 32) derived1_base2_vtable := by
  have hn := (my_rc_e_is_notok_iff _).mpr hrc
  unfold derived1_init
  simp only [if_neg hd0, off_d1_base1, off_d1_base2, e1, e2, e3, my_rc_e_is_notok_success,
    Bool.false_eq_true, if_false, hn, if_true]

theorem mem_take_three (l : List Bool) :
    true ∈ l.take 3 ↔ (l.head? = some true ∨ l.tail.head? = some true ∨
      l.tail.tail.head? = some true) := by
  rcases l with _ | ⟨a, _ | ⟨b, _ | ⟨c, l⟩⟩⟩ <;> simp

theorem derived1_init_rc (s : State) (d : Nat) :
    success_or_einval (derived1_init s d).1 ∨
    ((derived1_init s d).1 = MY_RC_E_ENOMEM ∧ (s.brk ≠ 0 → true ∈ s.calloc_fails.take 3)) := by
  by_cases hd0 : d = 0
  · subst hd0
    exact Or.inl (Or.inr rfl)
  by_cases c1 : (calloc s sizeof_private_st).1 = 0
  · rw [derived1_init_fail1 s d hd0 c1]
    refine Or.inr ⟨rfl, fun hb => ?_⟩
    rw [mem_take_three]
    exact Or.inl ((calloc_fail_iff s _ hb).mp c1)
  obtain ⟨r1, cf1, _, _⟩ := base1_init_succ s (d + 8) (by omega) c1
  obtain ⟨_, _, b1, _⟩ := base1_init_ok s (d + 8) r1
  generalize e1 : base1_init s (d + 8) = i1 at r1 cf1 b1
  obtain ⟨rc1, s1⟩ := i1
  dsimp only at r1 cf1 b1
  subst r1
  have q2 := (base1_set_vtable_rc s1 (d + 8) derived1_base1_vtable).1
  obtain ⟨a1, a2, _, _⟩ := base1_set_vtable_alloc s1 (d + 8) derived1_base1_vtable
  by_cases hrc2 : (base1_set_vtable s1 (d + 8) derived1_base1_vtable).1 = MY_RC_E_SUCCESS
  swap
  · rw [derived1_init_setfail1 s s1 d hd0 e1 hrc2]
    exact Or.inl q2
  generalize e2 : base1_set_vtable s1 (d + 8) derived1_base1_vtable = i2 at hrc2 a1 a2
  obtain ⟨rc2, s2⟩ := i2
  dsimp only at hrc2 a1 a2
  subst hrc2
  by_cases c2 : (calloc s2 sizeof_private_st).1 = 0
  · rw [derived1_init_fail2 s s1 s2 d hd0 e1 e2 c2]
    refine Or.inr ⟨rfl, fun hb => ?_⟩
    rw [mem_take_three]
    have := (calloc_fail_iff s2 _ (by rw [a1, b1]; omega)).mp c2
    rw [a2, cf1] at this
    exact Or.inr (Or.inl this)
  obtain ⟨r3, cf3, _, _⟩ := base2_init_succ s2 (d + 32) (by omega) c2
  obtain ⟨_, _, b3, _⟩ := base2_init_ok s2 (d + 32) r3
  generalize e3 : base2_init s2 (d + 32) = i3 at r3 cf3 b3
  obtain ⟨rc3, s3⟩ := i3
  dsimp only at r3 cf3 b3
  subst r3
  have q4 := (base1_set_vtable_rc s3 (d + 32) derived1_base2_vtable).2
  obtain ⟨a3, a4, _, _⟩ := base2_set_vtable_alloc s3 (d + 32) derived1_base2_vtable
  by_cases hrc4 : (base2_set_vtable s3 (d + 32) derived1_base2_vtable).1 = MY_RC_E_SUCCESS
  swap
  · rw [derived1_init_setfail2 s s1 s2 s3 d hd0 e1 e2 e3 hrc4]
    exact Or.inl q4
  generalize e4 : base2_set_vtable s3 (d + 32) derived1_base2_vtable = i4 at hrc4 a3 a4
  obtain ⟨rc4, s4⟩ := i4
  dsimp only at hrc4 a3 a4
  subst hrc4
  obtain ⟨t1, t2⟩ := derived1_init_tail s s1 s2 s3 s4 d hd0 e1 e2 e3 e4
  by_cases c3 : (calloc s4 sizeof_private_st).1 = 0
  · rw [t1 c3]
    refine Or.inr ⟨rfl, fun hb => ?_⟩
    rw [mem_take_three]
    have := (calloc_fail_iff s4 _ (by rw [a3, b3]; omega)).mp c3
    rw [a4, cf3, a2, cf1] at this
    exact Or.inr (Or.inr this)
  · exact Or.inl (Or.inl (t2 c3))

theorem derived2_init_rc2 (s : State) (g : Nat) :
    success_or_einval (derived2_init s g).1 ∨
    ((derived2_init s g).1 = MY_RC_E_ENOMEM ∧ (s.brk ≠ 0 → true ∈ s.calloc_fails.take 3)) := by
  unfold derived2_init
  by_cases hg0 : g = 0
  · rw [if_pos hg0]
    exact Or.inl (Or.inr rfl)
  rw [if_neg hg0]
  dsimp only
  have h1 := derived1_init_rc s (g + off_d2_derived1)
  generalize derived1_init s (g + off_d2_derived1) = r1 at h1 ⊢
  by_cases n1 : my_rc_e_is_notok r1.1 = true
  · rw [if_pos n1]
    exact h1
  rw [if_neg n1]
  have h2 := derived1_set_vtable_rc r1.2 (g + off_d2_derived1) derived2_derived1_vtable
  generalize derived1_set_vtable r1.2 (g + off_d2_derived1) derived2_derived1_vtable = r2
    at h2 ⊢
  split_ifs
  · exact Or.inl h2
  · exact Or.inl (Or.inl rfl)
/-- C22: a code that is `MY_RC_E_SUCCESS` or `MY_RC_E_EINVAL` is none of
`MY_RC_E_INVALID`, `MY_RC_E_MAX`, `MY_RC_E_ENOMEM`.  The accessors, every virtual operation
that returns (a call through a slot holding no function of the program has no defined
behaviour), the three `inherit_vtable` and the three `set_vtable` functions return
`MY_RC_E_SUCCESS` or `MY_RC_E_EINVAL`.  The four `init` functions return one of these two
or `MY_RC_E_ENOMEM`, the latter only when a private-block allocation failed: for
`base1_init` and `base2_init` their one `calloc` returned NULL; for `derived1_init` and
`derived2_init`, with a non-null break, one of the next three outcomes of `calloc` (those
of base1's, base2's and derived1's private block) is a failure. -/
theorem C22_closed_error_taxonomy (s : State) :
    (∀ rc, success_or_einval rc →
      rc ≠ MY_RC_E_INVALID ∧ rc ≠ MY_RC_E_MAX ∧ rc ≠ MY_RC_E_ENOMEM) ∧
    (∀ h p, success_or_einval (base1_get_public_data s h p).1 ∧
      success_or_einval (base1_set_public_data s h p).1 ∧
      success_or_einval (base2_get_val1 s h p).1) ∧
    (∀ h out buf n r,
      (base1_string_size s h out = some r → success_or_einval r.1) ∧
      (base2_string_size s h out = some r → success_or_einval r.1) ∧
      (base1_string s h buf n = some r → success_or_einval r.1) ∧
      (base2_string s h buf n = some r → success_or_einval r.1) ∧
      (base1_increase_val3 s h = some r → success_or_einval r.1) ∧
      (base2_increase_val1 s h = some r → success_or_einval r.1) ∧
      (derived1_increase_val4 s h = some r → success_or_einval r.1)) ∧
    (∀ p c dnc, success_or_einval (base1_inherit_vtable s p c dnc).1 ∧
      success_or_einval (base2_inherit_vtable s p c dnc).1 ∧
      success_or_einval (derived1_inherit_vtable s p c dnc).1) ∧
    (∀ h vt, success_or_einval (base1_set_vtable s h vt).1 ∧
      success_or_einval (base2_set_vtable s h vt).1 ∧
      success_or_einval (derived1_set_vtable s h vt).1) ∧
    (∀ h,
      (success_or_einval (base1_init s h).1 ∨
        ((base1_init s h).1 = MY_RC_E_ENOMEM ∧ (calloc s sizeof_private_st).1 = 0)) ∧
      (success_or_einval (base2_init s h).1 ∨
        ((base2_init s h).1 = MY_RC_E_ENOMEM ∧ (calloc s sizeof_private_st).1 = 0)) ∧
      (success_or_einval (derived1_init s h).1 ∨
        ((derived1_init s h).1 = MY_RC_E_ENOMEM ∧
          (s.brk ≠ 0 → true ∈ s.calloc_fails.take 3))) ∧
      (success_or_einval (derived2_init s h).1 ∨
        ((derived2_init s h).1 = MY_RC_E_ENOMEM ∧
          (s.brk ≠ 0 → true ∈ s.calloc_fails.take 3)))) := by
  refine ⟨?_, ?_, ?_, ?_, ?_, ?_⟩
  · intro rc hrc
    rcases hrc with e | e <;> subst e <;> decide
  · intro h p
    unfold base1_get_public_data base1_set_public_data base2_get_val1
    refine ⟨?_, ?_, ?_⟩ <;> split_ifs <;> simp [success_or_einval]
  · intro h out buf n r
    exact ⟨base1_string_size_rc s h out r, base2_string_size_rc s h out r,
      base1_string_rc s h buf n r, base2_string_rc s h buf n r, (increase_rc s h r).1,
      (increase_rc s h r).2.1, (increase_rc s h r).2.2⟩
  · intro p c dnc
    exact ⟨base1_inherit_vtable_rc s p c dnc, base1_inherit_vtable_rc s p c dnc,
      derived1_inherit_vtable_rc s p c dnc⟩
  · intro h vt
    exact ⟨(base1_set_vtable_rc s h vt).1, (base1_set_vtable_rc s h vt).2,
      derived1_set_vtable_rc s h vt⟩
  · intro h
    exact ⟨(base1_init_rc s h).1, (base1_init_rc s h).2, derived1_init_rc s h,
      derived2_init_rc2 s h⟩

/-- C35: the object returned by a successful `derived1_new1` has embedded base1 fields
`val1 = 1`, `val2 = 2`, `val3 = 42`, embedded base2 `val1 = 7` and `val4 = 500`; the object
returned by a successful `derived2_new1` has the same embedded base1 fields, embedded base2
`val1 = 999` and `val4 = 700`. -/
theorem C35_composing_defaults (s : State) (hs : statics_ok s) :
    (∀ h t, derived1_new1 s = some (h, t) → h ≠ 0 →
      load8 t (derived1_cast_to_base1 h + off_public_data + off_pd_val1) = 1 ∧
      load32 t (derived1_cast_to_base1 h + off_public_data + off_pd_val2) = 2 ∧
      load32 t (derived1_cast_to_base1 h + off_val3) = 42 ∧
      load32 t (derived1_cast_to_base2 h + off_b2_val1) = 7 ∧
      load32 t (h + off_d1_val4) = 500) ∧
    (∀ h t, derived2_new1 s = (h, t) → h ≠ 0 →
      load8 t (derived1_cast_to_base1 (derived2_cast_to_derived1 h) + off_public_data
        + off_pd_val1) = 1 ∧
      load32 t (derived1_cast_to_base1 (derived2_cast_to_derived1 h) + off_public_data
        + off_pd_val2) = 2 ∧
      load32 t (derived1_cast_to_base1 (derived2_cast_to_derived1 h) + off_val3) = 42 ∧
      load32 t (derived1_cast_to_base2 (derived2_cast_to_derived1 h) + off_b2_val1) = 999 ∧
      load32 t (derived2_cast_to_derived1 h + off_d1_val4) = 700) := by
  constructor
  · intro h t hnew hh
    obtain ⟨f1, f2, f3, f4, f5⟩ := derived1_new1_fresh s h t hs hnew hh
    rw [cast_d1_base1 h hh, cast_d1_base2 h hh]
    simp only [load8, load32, off_d1_base1, off_d1_base2, off_public_data, off_pd_val1,
      off_pd_val2, off_val3, off_b2_val1, off_d1_val4, Nat.add_zero, Nat.add_assoc,
      Nat.reduceAdd, f1, f2, f3, f4, f5]
    decide
  · intro h t hnew hh
    obtain ⟨f1, f2, f3, f4, f5⟩ := derived2_new1_fresh s h t hs hnew hh
    rw [cast_d2_base1 h hh, cast_d2_base2 h hh, cast_d2_d1 h hh]
    simp only [load8, load32, off_d2_derived1, off_d1_base1, off_d1_base2, off_public_data,
      off_pd_val1, off_pd_val2, off_val3, off_b2_val1, off_d1_val4, Nat.add_zero, Nat.add_assoc,
      Nat.reduceAdd, f1, f2, f3, f4, f5]
    decide

/-- C35 at program start: the first derived2 object has embedded base2 `val1 = 999` and
`val4 = 700`. -/
theorem C35_composing_defaults_witness :
    statics_ok initial_state ∧ (derived2_new1 initial_state).1 ≠ 0 ∧
    load32 (derived2_new1 initial_state).2
      (derived1_cast_to_base2 (derived2_cast_to_derived1 (derived2_new1 initial_state).1)
        + off_b2_val1) = 999 ∧
    load32 (derived2_new1 initial_state).2
      (derived2_cast_to_derived1 (derived2_new1 initial_state).1 + off_d1_val4) = 700 :=
  have h := (C35_composing_defaults initial_state statics_ok_initial_state).2
    (derived2_new1 initial_state).1 (derived2_new1 initial_state).2 rfl (by decide)
  ⟨statics_ok_initial_state, by decide, h.2.2.2.1, h.2.2.2.2⟩

theorem derived2_increase_val1_slot (s : State) (h : Nat) (t : State) (hs : statics_ok s)
    (hnew : derived2_new1 s = (h, t)) (hh : h ≠ 0) :
    t.mem (t.mem (derived1_cast_to_base2 (derived2_cast_to_derived1 h) + off_private_h)
      + off_vtable) = derived2_base2_vtable ∧
    vtable_fn t (derived1_cast_to_base2 (derived2_cast_to_derived1 h)) off_increase_val1_fn
      = addr_derived1_base2_increase_val1 ∧
    base2_increase_val1 t (derived1_cast_to_base2 (derived2_cast_to_derived1 h))
      = some (derived1_base2_increase_val1 t
          (derived1_cast_to_base2 (derived2_cast_to_derived1 h))) ∧
    derived1_base2_increase_val1 t (derived1_cast_to_base2 (derived2_cast_to_derived1 h))
      = (MY_RC_E_SUCCESS,
          t.store (derived1_cast_to_base2 (derived2_cast_to_derived1 h) + off_b2_val1) 1004) ∧
    vtable_fn t (derived2_cast_to_derived1 h) off_d1vt_increase_val4_fn
      = addr_derived2_derived1_increase_val4 := by
  have ho := derived2_new1_object s h t hs hnew hh
  obtain ⟨tok, _, ⟨j1, j2, j3⟩, ⟨_, _, k3⟩, _, _, _, _, _, _, _, _, r6⟩ := ho
  have hf := (derived2_new1_fresh s h t hs hnew hh).1
  rw [cast_d2_base2 h hh, cast_d2_d1 h hh]
  have hv : vtable_fn t (h + off_d2_derived1 + off_d1_base2) off_increase_val1_fn
      = addr_derived1_base2_increase_val1 := by
    unfold vtable_fn
    rw [j3]
    exact r6
  have hne : h + off_d2_derived1 + off_d1_base2 ≠ 0 := by
    simp only [off_d1_base2]
    omega
  have hinc : derived1_base2_increase_val1 t (h + off_d2_derived1 + off_d1_base2)
      = (MY_RC_E_SUCCESS, t.store (h + off_d2_derived1 + off_d1_base2 + off_b2_val1) 1004) := by
    unfold derived1_base2_increase_val1
    rw [if_neg hne]
    simp only [load32, off_d2_derived1, off_d1_base2, off_b2_val1, Nat.add_zero, Nat.add_assoc,
      Nat.reduceAdd, hf]
    rfl
  refine ⟨j3, hv, ?_, hinc, ?_⟩
  · rw [base2_increase_val1_at t _ _ _ ⟨j1, j2, j3⟩ (by decide) r6 (by decide)]
    unfold call_base2_increase_val1_fn
    rw [if_pos rfl]
  · unfold vtable_fn
    rw [k3]
    exact tok.d2d1_increase

/-- C31: derived2.c does not override `increase_val1`.  On the object returned by a
successful `derived2_new1`, the table installed on the embedded base2 is derived2.c's Base2
table; its `increase_val1` slot, which derived2.c leaves `NULL`, holds
`derived1_base2_increase_val1` inherited from derived1.c, which is none of the functions of
derived2.c; `base2_increase_val1` through the base2 handle is a call of that function and
applies derived1's rule, `val1` going from 999 to 1004.  The operation derived2.c does
override besides type identification and deletion is derived1's `increase_val4`, whose slot
holds `derived2_derived1_increase_val4`, a function of derived2.c. -/
theorem C31_increase_val1_inherited (s : State) (h : Nat) (t : State) (hs : statics_ok s)
    (hnew : derived2_new1 s = (h, t)) (hh : h ≠ 0) :
    t.mem (t.mem (derived1_cast_to_base2 (derived2_cast_to_derived1 h) + off_private_h)
      + off_vtable) = derived2_base2_vtable ∧
    vtable_fn t (derived1_cast_to_base2 (derived2_cast_to_derived1 h)) off_increase_val1_fn
      = addr_derived1_base2_increase_val1 ∧
    addr_derived1_base2_increase_val1 ∉ derived2_functions ∧
    base2_increase_val1 t (derived1_cast_to_base2 (derived2_cast_to_derived1 h))
      = some (derived1_base2_increase_val1 t
          (derived1_cast_to_base2 (derived2_cast_to_derived1 h))) ∧
    derived1_base2_increase_val1 t (derived1_cast_to_base2 (derived2_cast_to_derived1 h))
      = (MY_RC_E_SUCCESS,
          t.store (derived1_cast_to_base2 (derived2_cast_to_derived1 h) + off_b2_val1) 1004) ∧
    vtable_fn t (derived2_cast_to_derived1 h) off_d1vt_increase_val4_fn
      = addr_derived2_derived1_increase_val4 ∧
    addr_derived2_derived1_increase_val4 ∈ derived2_functions := by
  obtain ⟨a1, a2, a3, a4, a5⟩ := derived2_increase_val1_slot s h t hs hnew hh
  exact ⟨a1, a2, by decide, a3, a4, a5, by decide⟩

/-- C31 at program start: on the first derived2 object the `increase_val1` slot reached
from the embedded base2 is `derived1_base2_increase_val1`. -/
theorem C31_increase_val1_inherited_witness :
    statics_ok initial_state ∧ (derived2_new1 initial_state).1 ≠ 0 ∧
    vtable_fn (derived2_new1 initial_state).2
      (derived1_cast_to_base2 (derived2_cast_to_derived1 (derived2_new1 initial_state).1))
      off_increase_val1_fn = addr_derived1_base2_increase_val1 :=
  ⟨statics_ok_initial_state, by decide,
    (C31_increase_val1_inherited initial_state (derived2_new1 initial_state).1
      (derived2_new1 initial_state).2 statics_ok_initial_state rfl (by decide)).2.1⟩

/-- C31, the claim as stated fails on the first derived2 object made at program start:
the function in the `increase_val1` slot reached from its embedded base2 is not one of
derived2.c's, and `base2_increase_val1` through the base2 handle does apply derived1's rule
`val1 := val1 + 5`, 999 becoming 1004. -/
theorem C31_increase_val1_inherited_counterexample :
    (derived2_new1 initial_state).1 ≠ 0 ∧
    vtable_fn (derived2_new1 initial_state).2
      (derived1_cast_to_base2 (derived2_cast_to_derived1 (derived2_new1 initial_state).1))
      off_increase_val1_fn ∉ derived2_functions ∧
    load32 (derived2_new1 initial_state).2
      (derived1_cast_to_base2 (derived2_cast_to_derived1 (derived2_new1 initial_state).1)
        + off_b2_val1) = 999 ∧
    base2_increase_val1 (derived2_new1 initial_state).2
      (derived1_cast_to_base2 (derived2_cast_to_derived1 (derived2_new1 initial_state).1))
      = some (MY_RC_E_SUCCESS, (derived2_new1 initial_state).2.store
          (derived1_cast_to_base2 (derived2_cast_to_derived1 (derived2_new1 initial_state).1)
            + off_b2_val1) (999 + 5)) := by
  obtain ⟨_, a2, a3, a4, _⟩ := derived2_increase_val1_slot initial_state
    (derived2_new1 initial_state).1 (derived2_new1 initial_state).2 statics_ok_initial_state
    rfl (by decide)
  refine ⟨by decide, ?_, by decide, ?_⟩
  · rw [a2]
    decide
  · rw [a3, a4]

theorem null_private_invalid (s : State) (h fn : Nat) (hp : s.mem (h + off_private_h) = 0) :
    dispatch_invalid s h fn := Or.inr (Or.inl hp)

/-- C32: for a non-null handle whose private block is null, the private block is checked
by the virtual operations only.  Each virtual operation of base1.h, base2.h and derived1.h
fails the dispatch validation: the result-code operations return `MY_RC_E_EINVAL` and leave
the whole state unchanged, `type_string` returns the empty string and `delete` does
nothing; `base1_set_vtable`, `base2_set_vtable` and `derived1_set_vtable` return
`MY_RC_E_EINVAL` with the state unchanged too.  The non-virtual accessors never read the
private block: given a non-null record or output pointer, `base1_get_public_data` returns
`MY_RC_E_SUCCESS` and copies the object's public data into the caller's record,
`base1_set_public_data` returns `MY_RC_E_SUCCESS` and overwrites the object's public data,
and `base2_get_val1` returns `MY_RC_E_SUCCESS` and stores `val1` into the caller's
output. -/
theorem C32_private_block_validation (s : State) (h p buffer buffer_size : Nat)
    (hh : h ≠ 0) (hp : s.mem (h + off_private_h) = 0) :
    (base1_string_size s h p = some (MY_RC_E_EINVAL, s) ∧
      base1_string s h buffer buffer_size = some (MY_RC_E_EINVAL, s) ∧
      base1_increase_val3 s h = some (MY_RC_E_EINVAL, s) ∧
      base1_type_string s h = some "" ∧
      base1_delete s h = some s) ∧
    (base2_string_size s h p = some (MY_RC_E_EINVAL, s) ∧
      base2_string s h buffer buffer_size = some (MY_RC_E_EINVAL, s) ∧
      base2_increase_val1 s h = some (MY_RC_E_EINVAL, s) ∧
      base2_type_string s h = some "" ∧
      base2_delete s h = some s) ∧
    (derived1_increase_val4 s h = some (MY_RC_E_EINVAL, s) ∧
      derived1_delete s h = some s) ∧
    (base1_set_vtable s h p = (MY_RC_E_EINVAL, s) ∧
      base2_set_vtable s h p = (MY_RC_E_EINVAL, s) ∧
      derived1_set_vtable s h p = (MY_RC_E_EINVAL, s)) ∧
    (p ≠ 0 →
      base1_get_public_data s h p
        = (MY_RC_E_SUCCESS, memcpy_public_data s p (h + off_public_data)) ∧
      base1_set_public_data s h p
        = (MY_RC_E_SUCCESS, memcpy_public_data s (h + off_public_data) p) ∧
      base2_get_val1 s h p = (MY_RC_E_SUCCESS, s.store p (load32 s (h + off_b2_val1)))) := by
  have inv : ∀ fn, dispatch_invalid s h fn := fun fn => null_private_invalid s h fn hp
  have v : ∀ fn, VALIDATE_VTABLE_FN s h fn MY_RC_E_SUCCESS = MY_RC_E_EINVAL :=
    fun fn => VALIDATE_VTABLE_FN_invalid s h fn _ (inv fn)
  refine ⟨⟨?_, ?_, ?_, ?_, ?_⟩, ⟨?_, ?_, ?_, ?_, ?_⟩, ⟨?_, ?_⟩, ⟨?_, ?_, ?_⟩, ?_⟩
  · simp only [base1_string_size, v]; rfl
  · simp only [base1_string, v]; rfl
  · simp only [base1_increase_val3, v]; rfl
  · simp only [base1_type_string, v]; rfl
  · simp only [base1_delete, v]; rfl
  · simp only [base2_string_size, v]; rfl
  · simp only [base2_string, v]; rfl
  · simp only [base2_increase_val1, v]; rfl
  · simp only [base2_type_string, v]; rfl
  · simp only [base2_delete, v]; rfl
  · simp only [derived1_increase_val4, v]; rfl
  · simp only [derived1_delete, v]; rfl
  · unfold base1_set_vtable
    split_ifs <;> rfl
  · unfold base2_set_vtable
    split_ifs <;> rfl
  · unfold derived1_set_vtable
    split_ifs <;> rfl
  · intro p0
    have hn : ¬ (h = 0 ∨ p = 0) := by
      rintro (e | e)
      · exact hh e
      · exact p0 e
    refine ⟨?_, ?_, ?_⟩ <;>
      simp only [base1_get_public_data, base1_set_public_data, base2_get_val1, if_neg hn]

/-- C32 on the embedded base1 of the first derived1 object made at program start, after
`derived1_friend_delete` has removed its private block: `base1_increase_val3` returns
`MY_RC_E_EINVAL` and changes nothing. -/
theorem C32_private_block_validation_witness :
    heap_base + off_d1_base1 ≠ 0 ∧
    (derived1_friend_delete
      (derived1_init (calloc initial_state sizeof_derived1_st).2 heap_base).2 heap_base).mem
      (heap_base + off_d1_base1 + off_private_h) = 0 ∧
    base1_increase_val3 (derived1_friend_delete
      (derived1_init (calloc initial_state sizeof_derived1_st).2 heap_base).2 heap_base)
      (heap_base + off_d1_base1)
      = some (MY_RC_E_EINVAL, derived1_friend_delete
          (derived1_init (calloc initial_state sizeof_derived1_st).2 heap_base).2 heap_base) :=
  ⟨by decide, by decide,
    (C32_private_block_validation (derived1_friend_delete
      (derived1_init (calloc initial_state sizeof_derived1_st).2 heap_base).2 heap_base)
      (heap_base + off_d1_base1) 0 0 0 (by decide) (by decide)).1.2.2.1⟩

/-- C32, the claim as stated fails for the accessors.  On the first derived1 object made at
program start, after `derived1_friend_delete` has removed the private blocks of the
embedded base1 and base2, with the caller's record and output at `0x4000` (holding zeros):
`base1_get_public_data` on the base1 handle returns `MY_RC_E_SUCCESS` and writes `val1 = 1`,
`val2 = 2` into the record, `base1_set_public_data` returns `MY_RC_E_SUCCESS` and changes the
object's `val1` from 1 to 0, and `base2_get_val1` on the base2 handle returns
`MY_RC_E_SUCCESS` and writes 7 into the output. -/
theorem C32_private_block_validation_counterexample :
    (derived1_friend_delete
      (derived1_init (calloc initial_state sizeof_derived1_st).2 heap_base).2 heap_base).mem
      (heap_base + off_d1_base1 + off_private_h) = 0 ∧
    (derived1_friend_delete
      (derived1_init (calloc initial_state sizeof_derived1_st).2 heap_base).2 heap_base).mem
      (heap_base + off_d1_base2 + off_private_h) = 0 ∧
    (derived1_friend_delete
      (derived1_init (calloc initial_state sizeof_derived1_st).2 heap_base).2 heap_base).mem
      0x4000 = 0 ∧
    (base1_get_public_data (derived1_friend_delete
      (derived1_init (calloc initial_state sizeof_derived1_st).2 heap_base).2 heap_base)
      (heap_base + off_d1_base1) 0x4000).1 = MY_RC_E_SUCCESS ∧
    (base1_get_public_data (derived1_friend_delete
      (derived1_init (calloc initial_state sizeof_derived1_st).2 heap_base).2 heap_base)
      (heap_base + off_d1_base1) 0x4000).2.mem (0x4000 + off_pd_val1) = 1 ∧
    (base1_get_public_data (derived1_friend_delete
      (derived1_init (calloc initial_state sizeof_derived1_st).2 heap_base).2 heap_base)
      (heap_base + off_d1_base1) 0x4000).2.mem (0x4000 + off_pd_val2) = 2 ∧
    (derived1_friend_delete
      (derived1_init (calloc initial_state sizeof_derived1_st).2 heap_base).2 heap_base).mem
      (heap_base + off_d1_base1 + off_public_data + off_pd_val1) = 1 ∧
    (base1_set_public_data (derived1_friend_delete
      (derived1_init (calloc initial_state sizeof_derived1_st).2 heap_base).2 heap_base)
      (heap_base + off_d1_base1) 0x4000).1 = MY_RC_E_SUCCESS ∧
    (base1_set_public_data (derived1_friend_delete
      (derived1_init (calloc initial_state sizeof_derived1_st).2 heap_base).2 heap_base)
      (heap_base + off_d1_base1) 0x4000).2.mem
      (heap_base + off_d1_base1 + off_public_data + off_pd_val1) = 0 ∧
    (base2_get_val1 (derived1_friend_delete
      (derived1_init (calloc initial_state sizeof_derived1_st).2 heap_base).2 heap_base)
      (heap_base + off_d1_base2) 0x4000).1 = MY_RC_E_SUCCESS ∧
    (base2_get_val1 (derived1_friend_delete
      (derived1_init (calloc initial_state sizeof_derived1_st).2 heap_base).2 heap_base)
      (heap_base + off_d1_base2) 0x4000).2.mem 0x4000 = 7 := by
  refine ⟨?_, ?_, ?_, ?_, ?_, ?_, ?_, ?_, ?_, ?_, ?_⟩ <;> decide

theorem fmt_u_length (n e : Nat) (he : 0 < e) (h : n < 10 ^ e) : (fmt_u n).length ≤ e := by
  unfold fmt_u Nat.toDigits
  exact Nat.toDigitsCore_length 10 (by norm_num) _ n e h he

theorem fmt_u_load8 (s : State) (a : Nat) : (fmt_u (load8 s a)).length ≤ 3 := by
  apply fmt_u_length _ 3 (by norm_num)
  unfold load8
  have := Nat.mod_lt (s.mem a) (show 0 < 2 ^ 8 by norm_num)
  omega

theorem fmt_u_load32 (s : State) (a : Nat) : (fmt_u (load32 s a)).length ≤ 10 := by
  apply fmt_u_length _ 10 (by norm_num)
  unfold load32
  have := Nat.mod_lt (s.mem a) (show 0 < 2 ^ 32 by norm_num)
  omega

theorem base1_text_length (s : State) (h : Nat) : (base1_text s h).length ≤ 43 := by
  unfold base1_text
  have a := fmt_u_load8 s (h + off_public_data + off_pd_val1)
  have b := fmt_u_load32 s (h + off_public_data + off_pd_val2)
  have c := fmt_u_load32 s (h + off_val3)
  simp only [List.length_append]
  have e1 : "val1(".toList.length = 5 := by decide
  have e2 : ") val2(".toList.length = 7 := by decide
  have e3 : ") val3(".toList.length = 7 := by decide
  have e4 : ")".toList.length = 1 := by decide
  omega

theorem base2_text_length (s : State) (h : Nat) : (base2_text s h).length ≤ 16 := by
  unfold base2_text
  have a := fmt_u_load32 s (h + off_b2_val1)
  simp only [List.length_append]
  have e1 : "val1(".toList.length = 5 := by decide
  have e4 : ")".toList.length = 1 := by decide
  omega

theorem derived1_text_length (s : State) (h : Nat) : (derived1_text s h).length ≤ 92 := by
  unfold derived1_text
  have a := fmt_u_load8 s (h + off_d1_base1 + off_public_data + off_pd_val1)
  have b := fmt_u_load32 s (h + off_d1_base1 + off_public_data + off_pd_val2)
  have c := fmt_u_load32 s (h + off_d1_base1 + off_val3)
  have d := fmt_u_load32 s (h + off_d1_base2 + off_b2_val1)
  have e := fmt_u_load32 s (h + off_d1_val4)
  simp only [List.length_append]
  have e1 : "b1_val1(".toList.length = 8 := by decide
  have e2 : ") b1_val2(".toList.length = 10 := by decide
  have e3 : ") b1_val3(".toList.length = 10 := by decide
  have e4 : ") b2_val1(".toList.length = 10 := by decide
  have e5 : ") d1_val4(".toList.length = 10 := by decide
  have e6 : ")".toList.length = 1 := by decide
  omega

theorem snprintf_bytes_whole (size : Nat) (text : List Char) (h : text.length + 1 ≤ size) :
    snprintf_bytes size text = text.map Char.toNat ++ [0] := by
  unfold snprintf_bytes
  rw [List.take_of_length_le (by omega)]

theorem snprintf_whole (s : State) (buffer size : Nat) (text : List Char)
    (h : text.length + 1 ≤ size) :
    snprintf s buffer size text = store_bytes s buffer (text.map Char.toNat ++ [0]) := by
  unfold snprintf
  rw [if_neg (by omega), snprintf_bytes_whole size text h]

theorem string_size_internal_cases (s : State) (h out : Nat) :
    (base1_string_size_internal s h out = (MY_RC_E_EINVAL, s) ∨
      base1_string_size_internal s h out = (MY_RC_E_SUCCESS, s.store out BASE1_STR_SIZE)) ∧
    (base2_string_size_internal s h out = (MY_RC_E_EINVAL, s) ∨
      base2_string_size_internal s h out = (MY_RC_E_SUCCESS, s.store out BASE2_STR_SIZE)) ∧
    (derived1_string_size_internal s h out = (MY_RC_E_EINVAL, s) ∨
      derived1_string_size_internal s h out
        = (MY_RC_E_SUCCESS, s.store out DERIVED1_STR_SIZE)) := by
  unfold base1_string_size_internal base2_string_size_internal derived1_string_size_internal
  by_cases c : h = 0 ∨ out = 0
  · simp only [if_pos c, true_or, and_self]
  · simp only [if_neg c, or_true, and_self]

theorem size_result_cases (s : State) (out K : Nat) (r : my_rc_e × State)
    (hc : r = (MY_RC_E_EINVAL, s) ∨ r = (MY_RC_E_SUCCESS, s.store out K))
    (hs : r.1 = MY_RC_E_SUCCESS) :
    (∀ x, x ≠ out → r.2.mem x = s.mem x) ∧ r.2.mem out = K := by
  rcases hc with e | e
  · rw [e] at hs
    cases hs
  · rw [e]
    exact ⟨fun x hx => by rw [store_mem, if_neg hx], by rw [store_mem, if_pos rfl]⟩

theorem base1_string_internal_whole (s : State) (h buffer size : Nat) (t : State)
    (hr : base1_string_internal s h buffer size = some (MY_RC_E_SUCCESS, t)) :
    ∃ u, (∀ x, x ≠ addr_min_size → u.mem x = s.mem x) ∧
      (base1_text u h).length + 1 ≤ u.mem addr_min_size ∧ u.mem addr_min_size ≤ size ∧
      t = store_bytes u buffer ((base1_text u h).map Char.toNat ++ [0]) := by
  unfold base1_string_internal at hr
  by_cases h1 : h = 0 ∨ buffer = 0
  · rw [if_pos h1] at hr
    cases hr
  rw [if_neg h1] at hr
  dsimp only at hr
  by_cases h2 : my_rc_e_is_notok (VALIDATE_VTABLE_FN s h off_string_size_fn MY_RC_E_SUCCESS)
      = true
  · rw [if_pos h2] at hr
    simp only [Option.some.injEq, Prod.mk.injEq] at hr
    rw [hr.1] at h2
    exact absurd h2 (by decide)
  rw [if_neg h2] at hr
  have key : ∀ r : my_rc_e × State,
      call_base1_string_size_fn (vtable_fn s h off_string_size_fn) s h addr_min_size = some r →
      r.1 = MY_RC_E_SUCCESS →
      (∀ x, x ≠ addr_min_size → r.2.mem x = s.mem x) ∧
        (r.2.mem addr_min_size = 128 ∨ r.2.mem addr_min_size = 256) := by
    intro r hc hs
    unfold call_base1_string_size_fn at hc
    split_ifs at hc
    · simp only [Option.some.injEq] at hc
      obtain ⟨k1, k2⟩ := size_result_cases s addr_min_size _ r
        (hc ▸ (string_size_internal_cases s h addr_min_size).1) hs
      exact ⟨k1, Or.inl k2⟩
    · simp only [Option.some.injEq, derived1_base1_string_size] at hc
      obtain ⟨k1, k2⟩ := size_result_cases s addr_min_size _ r
        (hc ▸ (string_size_internal_cases s (base1_cast_to_derived1 h) addr_min_size).2.2) hs
      exact ⟨k1, Or.inr k2⟩
  generalize hc : call_base1_string_size_fn (vtable_fn s h off_string_size_fn) s h
    addr_min_size = c at hr key
  rcases c with _ | r
  · cases hr
  · dsimp only at hr
    by_cases h3 : my_rc_e_is_notok r.1 = true
    · rw [if_pos h3] at hr
      simp only [Option.some.injEq, Prod.mk.injEq] at hr
      rw [hr.1] at h3
      exact absurd h3 (by decide)
    rw [if_neg h3] at hr
    by_cases h4 : size < r.2.mem addr_min_size
    · rw [if_pos h4] at hr
      cases hr
    rw [if_neg h4] at hr
    have hs : r.1 = MY_RC_E_SUCCESS := by
      simpa [my_rc_e_is_notok] using h3
    obtain ⟨k1, k2⟩ := key r rfl hs
    have hl := base1_text_length r.2 h
    simp only [Option.some.injEq, Prod.mk.injEq, true_and] at hr
    refine ⟨r.2, k1, by omega, by omega, ?_⟩
    rw [← hr, snprintf_whole _ _ _ _ (by omega)]

theorem base2_string_internal_whole (s : State) (h buffer size : Nat) (t : State)
    (hr : base2_string_internal s h buffer size = some (MY_RC_E_SUCCESS, t)) :
    ∃ u, (∀ x, x ≠ addr_min_size → u.mem x = s.mem x) ∧
      (base2_text u h).length + 1 ≤ u.mem addr_min_size ∧ u.mem addr_min_size ≤ size ∧
      t = store_bytes u buffer ((base2_text u h).map Char.toNat ++ [0]) := by
  unfold base2_string_internal at hr
  by_cases h1 : h = 0 ∨ buffer = 0
  · rw [if_pos h1] at hr
    cases hr
  rw [if_neg h1] at hr
  dsimp only at hr
  by_cases h2 : my_rc_e_is_notok (VALIDATE_VTABLE_FN s h off_string_size_fn MY_RC_E_SUCCESS)
      = true
  · rw [if_pos h2] at hr
    simp only [Option.some.injEq, Prod.mk.injEq] at hr
    rw [hr.1] at h2
    exact absurd h2 (by decide)
  rw [if_neg h2] at hr
  have key : ∀ r : my_rc_e × State,
      call_base2_string_size_fn (vtable_fn s h off_string_size_fn) s h addr_min_size = some r →
      r.1 = MY_RC_E_SUCCESS →
      (∀ x, x ≠ addr_min_size → r.2.mem x = s.mem x) ∧
        (r.2.mem addr_min_size = 64 ∨ r.2.mem addr_min_size = 256) := by
    intro r hc hs
    unfold call_base2_string_size_fn at hc
    split_ifs at hc
    · simp only [Option.some.injEq] at hc
      obtain ⟨k1, k2⟩ := size_result_cases s addr_min_size _ r
        (hc ▸ (string_size_internal_cases s h addr_min_size).2.1) hs
      exact ⟨k1, Or.inl k2⟩
    · simp only [Option.some.injEq, derived1_base2_string_size] at hc
      obtain ⟨k1, k2⟩ := size_result_cases s addr_min_size _ r
        (hc ▸ (string_size_internal_cases s (base2_cast_to_derived1 h) addr_min_size).2.2) hs
      exact ⟨k1, Or.inr k2⟩
  generalize hc : call_base2_string_size_fn (vtable_fn s h off_string_size_fn) s h
    addr_min_size = c at hr key
  rcases c with _ | r
  · cases hr
  · dsimp only at hr
    by_cases h3 : my_rc_e_is_notok r.1 = true
    · rw [if_pos h3] at hr
      simp only [Option.some.injEq, Prod.mk.injEq] at hr
      rw [hr.1] at h3
      exact absurd h3 (by decide)
    rw [if_neg h3] at hr
    by_cases h4 : size < r.2.mem addr_min_size
    · rw [if_pos h4] at hr
      cases hr
    rw [if_neg h4] at hr
    have hs : r.1 = MY_RC_E_SUCCESS := by
      simpa [my_rc_e_is_notok] using h3
    obtain ⟨k1, k2⟩ := key r rfl hs
    have hl := base2_text_length r.2 h
    simp only [Option.some.injEq, Prod.mk.injEq, true_and] at hr
    refine ⟨r.2, k1, by omega, by omega, ?_⟩
    rw [← hr, snprintf_whole _ _ _ _ (by omega)]

theorem derived1_string_internal_whole (s : State) (h buffer size : Nat) (t : State)
    (hr : derived1_string_internal s h buffer size = (MY_RC_E_SUCCESS, t)) :
    ∃ u, (∀ x, x ≠ addr_min_size → u.mem x = s.mem x) ∧
      (derived1_text u h).length + 1 ≤ u.mem addr_min_size ∧ u.mem addr_min_size ≤ size ∧
      t = store_bytes u buffer ((derived1_text u h).map Char.toNat ++ [0]) := by
  unfold derived1_string_internal at hr
  by_cases h1 : h = 0 ∨ buffer = 0
  · rw [if_pos h1] at hr
    cases hr
  rw [if_neg h1] at hr
  dsimp only at hr
  have key := (string_size_internal_cases s h addr_min_size).2.2
  generalize derived1_string_size_internal s h addr_min_size = r at hr key
  by_cases h3 : my_rc_e_is_notok r.1 = true
  · rw [if_pos h3] at hr
    simp only [Prod.mk.injEq] at hr
    rw [hr.1] at h3
    exact absurd h3 (by decide)
  rw [if_neg h3] at hr
  by_cases h4 : size < r.2.mem addr_min_size
  · rw [if_pos h4] at hr
    cases hr
  rw [if_neg h4] at hr
  have hs : r.1 = MY_RC_E_SUCCESS := by
    simpa [my_rc_e_is_notok] using h3
  obtain ⟨k1, k2⟩ := size_result_cases s addr_min_size _ r key hs
  have hl := derived1_text_length r.2 h
  simp only [Prod.mk.injEq, true_and] at hr
  simp only [DERIVED1_STR_SIZE] at k2
  refine ⟨r.2, k1, by omega, by omega, ?_⟩
  rw [← hr, snprintf_whole _ _ _ _ (by omega)]

/-- C36: for every value of the fields, the complete formatted state string plus its
terminating NUL fits the size the paired size query reports: at most 44 bytes against
`BASE1_STR_SIZE = 128` for `"val1(%u) val2(%u) val3(%u)"`, at most 17 against
`BASE2_STR_SIZE = 64` for `"val1(%u)"`, at most 93 against `DERIVED1_STR_SIZE = 256` (used
by derived1 and derived2 objects) for the five-field text; the size queries store exactly
these sizes.  Hence whenever `base1_string_internal`, `base2_string_internal` or
`derived1_string_internal` returns `MY_RC_E_SUCCESS`, what it has written to the buffer is
the complete text of the object's fields followed by NUL, nothing cut off; the state the
text is formatted from differs from the initial one only in the callee's local
`min_size`. -/
theorem C36_reported_size_sufficient (s : State) (h out buffer size : Nat) :
    ((base1_text s h).length + 1 ≤ 44 ∧ 44 ≤ BASE1_STR_SIZE ∧
      (base2_text s h).length + 1 ≤ 17 ∧ 17 ≤ BASE2_STR_SIZE ∧
      (derived1_text s h).length + 1 ≤ 93 ∧ 93 ≤ DERIVED1_STR_SIZE) ∧
    (h ≠ 0 → out ≠ 0 →
      base1_string_size_internal s h out = (MY_RC_E_SUCCESS, s.store out BASE1_STR_SIZE) ∧
      base2_string_size_internal s h out = (MY_RC_E_SUCCESS, s.store out BASE2_STR_SIZE) ∧
      derived1_string_size_internal s h out
        = (MY_RC_E_SUCCESS, s.store out DERIVED1_STR_SIZE)) ∧
    (BASE1_STR_SIZE ≤ size →
      snprintf_bytes size (base1_text s h) = (base1_text s h).map Char.toNat ++ [0]) ∧
    (BASE2_STR_SIZE ≤ size →
      snprintf_bytes size (base2_text s h) = (base2_text s h).map Char.toNat ++ [0]) ∧
    (DERIVED1_STR_SIZE ≤ size →
      snprintf_bytes size (derived1_text s h) = (derived1_text s h).map Char.toNat ++ [0]) ∧
    (∀ t, base1_string_internal s h buffer size = some (MY_RC_E_SUCCESS, t) →
      ∃ u, (∀ x, x ≠ addr_min_size → u.mem x = s.mem x) ∧
        (base1_text u h).length + 1 ≤ u.mem addr_min_size ∧ u.mem addr_min_size ≤ size ∧
        t = store_bytes u buffer ((base1_text u h).map Char.toNat ++ [0])) ∧
    (∀ t, base2_string_internal s h buffer size = some (MY_RC_E_SUCCESS, t) →
      ∃ u, (∀ x, x ≠ addr_min_size → u.mem x = s.mem x) ∧
        (base2_text u h).length + 1 ≤ u.mem addr_min_size ∧ u.mem addr_min_size ≤ size ∧
        t = store_bytes u buffer ((base2_text u h).map Char.toNat ++ [0])) ∧
    (∀ t, derived1_string_internal s h buffer size = (MY_RC_E_SUCCESS, t) →
      ∃ u, (∀ x, x ≠ addr_min_size → u.mem x = s.mem x) ∧
        (derived1_text u h).length + 1 ≤ u.mem addr_min_size ∧ u.mem addr_min_size ≤ size ∧
        t = store_bytes u buffer ((derived1_text u h).map Char.toNat ++ [0])) := by
  have l1 := base1_text_length s h
  have l2 := base2_text_length s h
  have l3 := derived1_text_length s h
  refine ⟨⟨by omega, by decide, by omega, by decide, by omega, by decide⟩, ?_, ?_, ?_, ?_,
    base1_string_internal_whole s h buffer size, base2_string_internal_whole s h buffer size,
    derived1_string_internal_whole s h buffer size⟩
  · intro hh ho
    have hn : ¬ (h = 0 ∨ out = 0) := by
      rintro (e | e)
      · exact hh e
      · exact ho e
    simp only [base1_string_size_internal, base2_string_size_internal,
      derived1_string_size_internal, if_neg hn, and_self]
  · intro hsz
    simp only [BASE1_STR_SIZE] at hsz
    exact snprintf_bytes_whole _ _ (by omega)
  · intro hsz
    simp only [BASE2_STR_SIZE] at hsz
    exact snprintf_bytes_whole _ _ (by omega)
  · intro hsz
    simp only [DERIVED1_STR_SIZE] at hsz
    exact snprintf_bytes_whole _ _ (by omega)

/-- C36 on the first derived1 object made at program start, with a buffer at `0x5000` of
256 bytes: `derived1_string_internal` succeeds and what it leaves is the complete text
followed by NUL. -/
theorem C36_reported_size_sufficient_witness :
    (derived1_string_internal
      (derived1_init (calloc initial_state sizeof_derived1_st).2 heap_base).2 heap_base 0x5000
      256).1 = MY_RC_E_SUCCESS ∧
    ∃ u, (derived1_text u heap_base).length + 1 ≤ u.mem addr_min_size ∧
      (derived1_string_internal
        (derived1_init (calloc initial_state sizeof_derived1_st).2 heap_base).2 heap_base
        0x5000 256).2
        = store_bytes u 0x5000 ((derived1_text u heap_base).map Char.toNat ++ [0]) :=
  have h := (C36_reported_size_sufficient
    (derived1_init (calloc initial_state sizeof_derived1_st).2 heap_base).2 heap_base 0x4000
    0x5000 256).2.2.2.2.2.2.2 _ rfl
  ⟨rfl, h.elim (fun u hu => ⟨u, hu.2.1, hu.2.2.2⟩)⟩

theorem base1_inherit_vtable_strict_fail (s : State) (p c : Nat) (hp : p ≠ 0) (hc : c ≠ 0)
    (h : tables_ok p c) :
    (s.mem c = 0 ∧ s.mem p = 0 →
      base1_inherit_vtable s p c true = (MY_RC_E_EINVAL, fill_slot s p c 0)) ∧
    (¬ (s.mem c = 0 ∧ s.mem p = 0) → s.mem (c + 8) = 0 ∧ s.mem (p + 8) = 0 →
      base1_inherit_vtable s p c true
        = (MY_RC_E_EINVAL, fill_slot (fill_slot s p c 0) p c 8)) ∧
    (¬ (s.mem c = 0 ∧ s.mem p = 0) → ¬ (s.mem (c + 8) = 0 ∧ s.mem (p + 8) = 0) →
      s.mem (c + 16) = 0 ∧ s.mem (p + 16) = 0 →
      base1_inherit_vtable s p c true
        = (MY_RC_E_EINVAL, fill_slot (fill_slot (fill_slot s p c 0) p c 8) p c 16)) ∧
    (¬ (s.mem c = 0 ∧ s.mem p = 0) → ¬ (s.mem (c + 8) = 0 ∧ s.mem (p + 8) = 0) →
      ¬ (s.mem (c + 16) = 0 ∧ s.mem (p + 16) = 0) →
      s.mem (c + 24) = 0 ∧ s.mem (p + 24) = 0 →
      base1_inherit_vtable s p c true
        = (MY_RC_E_EINVAL,
            fill_slot (fill_slot (fill_slot (fill_slot s p c 0) p c 8) p c 16) p c 24)) ∧
    (¬ (s.mem c = 0 ∧ s.mem p = 0) → ¬ (s.mem (c + 8) = 0 ∧ s.mem (p + 8) = 0) →
      ¬ (s.mem (c + 16) = 0 ∧ s.mem (p + 16) = 0) →
      ¬ (s.mem (c + 24) = 0 ∧ s.mem (p + 24) = 0) →
      s.mem (c + 32) = 0 ∧ s.mem (p + 32) = 0 →
      base1_inherit_vtable s p c true = (MY_RC_E_EINVAL, fill5 s p c)) := by
  have hpar : ∀ (t : State) (fn g : Nat), fn < 40 → g < 40 →
      (fill_slot t p c fn).mem (p + g) = t.mem (p + g) :=
    fun t fn g h1 h2 => fill_slot_parent t p c fn g h h1 h2
  have hpar0 : ∀ (t : State) (fn : Nat), fn < 40 → (fill_slot t p c fn).mem p = t.mem p :=
    fun t fn h1 => fill_slot_parent0 t p c fn h h1
  unfold base1_inherit_vtable fill5
  simp only [INHERIT_VTABLE_FN_eq, off_delete_fn, off_type_string_fn, off_string_fn,
    off_string_size_fn, off_increase_val3_fn]
  refine ⟨?_, ?_, ?_, ?_, ?_⟩
  · intro h0
    simp [hp, hc, h0]
  · intro h0 h1
    simp [hp, hc, h0, h1, fill_slot_child, hpar]
  · intro h0 h1 h2
    simp [hp, hc, h0, h1, h2, fill_slot_child, hpar]
  · intro h0 h1 h2 h3
    simp [hp, hc, h0, h1, h2, h3, fill_slot_child, hpar]
  · intro h0 h1 h2 h3 h4
    simp [hp, hc, h0, h1, h2, h3, h4, fill_slot_child, hpar]

/-- C37: strict reconciliation (`do_null_check = true`) of two non-null five-slot tables
(the same table or two tables that do not overlap) by `base1_inherit_vtable` or
`base2_inherit_vtable`, when slot `k` (in the order delete, type_string, string,
string_size, increase) is the first slot null in both tables: the call returns
`MY_RC_E_EINVAL`; every slot of the child before `k` has been merged (the child's value if
non-null, else the parent's); slot `k` and every later slot of the child are as the caller
passed them; the parent is unchanged. -/
theorem C37_strict_failure_partial_merge (s : State) (parent child k : Nat)
    (hp : parent ≠ 0) (hc : child ≠ 0) (hsep : tables_ok parent child) (hk : k < 5)
    (hfirst : ∀ i, i < k → ¬ (slot s child i = 0 ∧ slot s parent i = 0))
    (hnull : slot s child k = 0 ∧ slot s parent k = 0) :
    ∀ inherit, (inherit = base1_inherit_vtable ∨ inherit = base2_inherit_vtable) →
      (inherit s parent child true).1 = MY_RC_E_EINVAL ∧
      (∀ i, i < k → slot (inherit s parent child true).2 child i
          = merge_slot (slot s child i) (slot s parent i)) ∧
      (∀ i, k ≤ i → i < 5 → slot (inherit s parent child true).2 child i = slot s child i) ∧
      (∀ i, i < 5 → slot (inherit s parent child true).2 parent i = slot s parent i) := by
  intro inherit hinh
  rw [inherit_cases inherit hinh]
  obtain ⟨f0, f1, f2, f3, f4⟩ := base1_inherit_vtable_strict_fail s parent child hp hc hsep
  have hpar : ∀ (t : State) (fn g : Nat), fn < 40 → g < 40 →
      (fill_slot t parent child fn).mem (parent + g) = t.mem (parent + g) :=
    fun t fn g h1 h2 => fill_slot_parent t parent child fn g hsep h1 h2
  have hpar0 : ∀ (t : State) (fn : Nat), fn < 40 →
      (fill_slot t parent child fn).mem parent = t.mem parent :=
    fun t fn h1 => fill_slot_parent0 t parent child fn hsep h1
  have hch0 : ∀ (t : State) (fn : Nat), (fill_slot t parent child fn).mem child =
      if fn = 0 then (if t.mem child = 0 then t.mem parent else t.mem child)
      else t.mem child := by
    intro t fn
    have := fill_slot_child t parent child fn 0
    simp only [Nat.add_zero] at this
    rw [this]
    by_cases e : fn = 0
    · subst e
      simp
    · have e2 : ¬ (0 = fn) := fun h => e h.symm
      simp [e, e2]
  unfold slot at hfirst hnull ⊢
  have e0 := hfirst 0
  have e1 := hfirst 1
  have e2 := hfirst 2
  have e3 := hfirst 3
  simp only [Nat.mul_zero, Nat.add_zero, Nat.mul_one, Nat.reduceMul] at e0 e1 e2 e3
  interval_cases k
  · simp only [Nat.mul_zero, Nat.add_zero] at hnull
    rw [f0 hnull]
    refine ⟨rfl, ?_, ?_, ?_⟩
    · intro i hi
      omega
    · intro i _ hi
      interval_cases i <;> simp [fill_slot_child, hch0, hnull, hpar, hpar0]
    · intro i hi
      exact hpar _ _ _ (by norm_num) (by omega)
  · simp only [Nat.mul_one] at hnull
    rw [f1 (e0 (by norm_num)) hnull]
    refine ⟨rfl, ?_, ?_, ?_⟩
    · intro i hi
      interval_cases i
      simp [fill_slot_child, hch0, merge_slot, hpar, hpar0]
    · intro i _ hi
      interval_cases i <;> simp [fill_slot_child, hch0, hnull, hpar, hpar0]
    · intro i hi
      rw [hpar _ _ _ (by norm_num) (by omega), hpar _ _ _ (by norm_num) (by omega)]
  · simp only [Nat.reduceMul] at hnull
    rw [f2 (e0 (by norm_num)) (e1 (by norm_num)) hnull]
    refine ⟨rfl, ?_, ?_, ?_⟩
    · intro i hi
      interval_cases i <;> simp [fill_slot_child, hch0, merge_slot, hpar, hpar0]
    · intro i _ hi
      interval_cases i <;> simp [fill_slot_child, hch0, hnull, hpar, hpar0]
    · intro i hi
      rw [hpar _ _ _ (by norm_num) (by omega), hpar _ _ _ (by norm_num) (by omega),
        hpar _ _ _ (by norm_num) (by omega)]
  · simp only [Nat.reduceMul] at hnull
    rw [f3 (e0 (by norm_num)) (e1 (by norm_num)) (e2 (by norm_num)) hnull]
    refine ⟨rfl, ?_, ?_, ?_⟩
    · intro i hi
      interval_cases i <;> simp [fill_slot_child, hch0, merge_slot, hpar, hpar0]
    · intro i _ hi
      interval_cases i <;> simp [fill_slot_child, hch0, hnull, hpar, hpar0]
    · intro i hi
      rw [hpar _ _ _ (by norm_num) (by omega), hpar _ _ _ (by norm_num) (by omega),
        hpar _ _ _ (by norm_num) (by omega), hpar _ _ _ (by norm_num) (by omega)]
  · simp only [Nat.reduceMul] at hnull
    rw [f4 (e0 (by norm_num)) (e1 (by norm_num)) (e2 (by norm_num)) (e3 (by norm_num)) hnull]
    refine ⟨rfl, ?_, ?_, ?_⟩
    · intro i hi
      exact fill5_child s parent child i hsep (by omega)
    · intro i _ hi
      have : i = 4 := by omega
      subst this
      rw [fill5_child s parent child 4 hsep (by norm_num)]
      simp [merge_slot, hnull]
    · intro i hi
      exact fill5_parent s parent child (8 * i) hsep (by omega)

/-- C37 at the tables of the program: Derived2's sparse Base2 table reconciled strictly
against base2.c's table at program start fails at slot 4 (`increase_val1`, pure virtual in
base2.c); by then slot 2 (`string`) of Derived2's table has been filled from base2.c's. -/
theorem C37_strict_failure_partial_merge_witness :
    (base2_inherit_vtable initial_state base2_vtable derived2_base2_vtable true).1
      = MY_RC_E_EINVAL ∧
    slot initial_state derived2_base2_vtable 2 = 0 ∧
    slot (base2_inherit_vtable initial_state base2_vtable derived2_base2_vtable true).2
      derived2_base2_vtable 2 = addr_base2_string_internal ∧
    slot (base2_inherit_vtable initial_state base2_vtable derived2_base2_vtable true).2
      derived2_base2_vtable 4 = 0 :=
  have h := C37_strict_failure_partial_merge initial_state base2_vtable derived2_base2_vtable
    4 (by decide) (by decide) (by decide) (by decide) (by decide) (by decide)
    base2_inherit_vtable (Or.inr rfl)
  ⟨h.1, by decide, (h.2.1 2 (by decide)).trans (by decide),
    (h.2.2.1 4 (by decide) (by decide)).trans (by decide)⟩

theorem fill_slot_id (t : State) (p c fn : Nat)
    (hq : t.mem (c + fn) = 0 → t.mem (p + fn) = 0) (x : Nat) :
    (fill_slot t p c fn).mem x = t.mem x := by
  rw [fill_slot_mem]
  split_ifs with h
  · rw [h.1, hq h.2, h.2]
  · rfl

theorem merge_slot_zero (a b : Nat) (h : merge_slot a b = 0) : a = 0 ∧ b = 0 := by
  unfold merge_slot at h
  split_ifs at h with h1
  · exact ⟨h1, h⟩
  · exact absurd h h1

theorem fill5_settled (s : State) (p c i : Nat) (hsep : tables_ok p c) (hi : i < 5)
    (h : (fill5 s p c).mem (c + 8 * i) = 0) :
    (fill5 s p c).mem (p + 8 * i) = 0 ∧ s.mem (c + 8 * i) = 0 ∧ s.mem (p + 8 * i) = 0 := by
  rw [fill5_child s p c i hsep hi] at h
  obtain ⟨a, b⟩ := merge_slot_zero _ _ h
  rw [fill5_parent s p c (8 * i) hsep (by omega)]
  exact ⟨b, a, b⟩

theorem fill5_idem (s : State) (p c : Nat) (hsep : tables_ok p c) (x : Nat) :
    (fill5 (fill5 s p c) p c).mem x = (fill5 s p c).mem x := by
  generalize ht : fill5 s p c = t
  have q : ∀ i, i < 5 → t.mem (c + 8 * i) = 0 → t.mem (p + 8 * i) = 0 := by
    intro i hi h
    rw [← ht] at h ⊢
    exact (fill5_settled s p c i hsep hi h).1
  have q0 := q 0 (by norm_num)
  have q1 := q 1 (by norm_num)
  have q2 := q 2 (by norm_num)
  have q3 := q 3 (by norm_num)
  have q4 := q 4 (by norm_num)
  simp only [Nat.mul_zero, Nat.mul_one, Nat.reduceMul] at q0 q1 q2 q3 q4
  have i0 : ∀ y, (fill_slot t p c 0).mem y = t.mem y := fill_slot_id t p c 0 q0
  have i1 : ∀ y, (fill_slot (fill_slot t p c 0) p c 8).mem y = t.mem y := by
    intro y
    rw [fill_slot_id _ p c 8 (by rw [i0, i0]; exact q1), i0]
  have i2 : ∀ y, (fill_slot (fill_slot (fill_slot t p c 0) p c 8) p c 16).mem y = t.mem y := by
    intro y
    rw [fill_slot_id _ p c 16 (by rw [i1, i1]; exact q2), i1]
  have i3 : ∀ y, (fill_slot (fill_slot (fill_slot (fill_slot t p c 0) p c 8) p c 16) p c
      24).mem y = t.mem y := by
    intro y
    rw [fill_slot_id _ p c 24 (by rw [i2, i2]; exact q3), i2]
  unfold fill5
  rw [fill_slot_id _ p c 32 (by rw [i3, i3]; exact q4), i3]

theorem base1_inherit_vtable_null (s : State) (p c : Nat) (dnc : Bool)
    (h : (base1_inherit_vtable s p c dnc).1 = MY_RC_E_SUCCESS) : p ≠ 0 ∧ c ≠ 0 := by
  by_contra hn
  have hz : p = 0 ∨ c = 0 := by
    by_cases e : p = 0
    · exact Or.inl e
    · right
      by_contra e2
      exact hn ⟨e, e2⟩
  unfold base1_inherit_vtable at h
  rw [if_pos hz] at h
  cases h

theorem base1_inherit_vtable_idem (s : State) (p c : Nat) (dnc : Bool) (hsep : tables_ok p c)
    (h : (base1_inherit_vtable s p c dnc).1 = MY_RC_E_SUCCESS) :
    base1_inherit_vtable s p c dnc = (MY_RC_E_SUCCESS, fill5 s p c) ∧
    base1_inherit_vtable (fill5 s p c) p c dnc
      = (MY_RC_E_SUCCESS, fill5 (fill5 s p c) p c) := by
  obtain ⟨hp, hc⟩ := base1_inherit_vtable_null s p c dnc h
  cases dnc
  · exact ⟨base1_inherit_vtable_lenient s p c hp hc,
      base1_inherit_vtable_lenient (fill5 s p c) p c hp hc⟩
  · obtain ⟨h1, h2⟩ := base1_inherit_vtable_strict s p c hp hc hsep
    have hex : ¬ ∃ i, i < 5 ∧ s.mem (c + 8 * i) = 0 ∧ s.mem (p + 8 * i) = 0 := by
      intro hex
      rw [h1 hex] at h
      cases h
    refine ⟨h2 hex, ?_⟩
    apply (base1_inherit_vtable_strict (fill5 s p c) p c hp hc hsep).2
    rintro ⟨i, hi, a, _⟩
    obtain ⟨_, b1, b2⟩ := fill5_settled s p c i hsep hi a
    exact hex ⟨i, hi, b1, b2⟩

/-- C38: reconciliation of two five-slot tables (the same table or two tables that do not
overlap) is idempotent in either mode: if `base1_inherit_vtable` / `base2_inherit_vtable`
returns `MY_RC_E_SUCCESS` on (parent, child), which requires both to be non-null, then
applied again to the resulting state with the same parent, child and mode it returns
`MY_RC_E_SUCCESS` and leaves every slot of the child, and every other cell, unchanged. -/
theorem C38_reconciliation_idempotent (s : State) (parent child : Nat) (do_null_check : Bool)
    (hsep : tables_ok parent child) :
    ∀ inherit, (inherit = base1_inherit_vtable ∨ inherit = base2_inherit_vtable) →
      (inherit s parent child do_null_check).1 = MY_RC_E_SUCCESS →
      (parent ≠ 0 ∧ child ≠ 0) ∧
      (inherit (inherit s parent child do_null_check).2 parent child do_null_check).1
        = MY_RC_E_SUCCESS ∧
      (∀ i, i < 5 →
        slot (inherit (inherit s parent child do_null_check).2 parent child do_null_check).2
          child i = slot (inherit s parent child do_null_check).2 child i) ∧
      (∀ x,
        (inherit (inherit s parent child do_null_check).2 parent child do_null_check).2.mem x
          = (inherit s parent child do_null_check).2.mem x) := by
  intro inherit hinh hs
  rw [inherit_cases inherit hinh] at hs ⊢
  obtain ⟨e1, e2⟩ := base1_inherit_vtable_idem s parent child do_null_check hsep hs
  refine ⟨base1_inherit_vtable_null s parent child do_null_check hs, ?_, ?_, ?_⟩
  · rw [e1, e2]
  · intro i _
    unfold slot
    rw [e1, e2]
    exact fill5_idem s parent child hsep _
  · intro x
    rw [e1, e2]
    exact fill5_idem s parent child hsep x

/-- C38 at the tables of the program: Derived2's sparse Base2 table reconciled leniently
against Derived1's Base2 table at program start, then once more. -/
theorem C38_reconciliation_idempotent_witness :
    tables_ok derived1_base2_vtable derived2_base2_vtable ∧
    (base2_inherit_vtable initial_state derived1_base2_vtable derived2_base2_vtable false).1
      = MY_RC_E_SUCCESS ∧
    slot (base2_inherit_vtable
      (base2_inherit_vtable initial_state derived1_base2_vtable derived2_base2_vtable false).2
      derived1_base2_vtable derived2_base2_vtable false).2 derived2_base2_vtable 4
      = slot (base2_inherit_vtable initial_state derived1_base2_vtable derived2_base2_vtable
          false).2 derived2_base2_vtable 4 :=
  ⟨by decide, by decide,
    (C38_reconciliation_idempotent initial_state derived1_base2_vtable derived2_base2_vtable
      false (by decide) base2_inherit_vtable (Or.inr rfl) (by decide)).2.2.1 4 (by decide)⟩

theorem derived1_init_unwind (s : State) (d : Nat) (hs : statics_ok s) (hd : heap_base ≤ d)
    (hd2 : d + sizeof_derived1_st ≤ s.brk) (h1 : s.calloc_fails.head? ≠ some true)
    (h2 : s.calloc_fails.tail.head? ≠ some true)
    (h3 : s.calloc_fails.tail.tail.head? = some true) :
    ∃ s1 s2 s3 s4,
      base1_init s (d + 8) = (MY_RC_E_SUCCESS, s1) ∧
      base1_set_vtable s1 (d + 8) derived1_base1_vtable = (MY_RC_E_SUCCESS, s2) ∧
      base2_init s2 (d + 32) = (MY_RC_E_SUCCESS, s3) ∧
      base2_set_vtable s3 (d + 32) derived1_base2_vtable = (MY_RC_E_SUCCESS, s4) ∧
      (calloc s4 sizeof_private_st).1 = 0 ∧
      derived1_init s d = (MY_RC_E_ENOMEM,
        base1_friend_delete
          (base2_friend_delete ((calloc s4 sizeof_private_st).2.store d 0) (d + 32)) (d + 8)) ∧
      ((calloc s4 sizeof_private_st).2.store d 0).mem (d + 8) = s.brk ∧
      ((calloc s4 sizeof_private_st).2.store d 0).mem (d + 32) = s.brk + 8 ∧
      ((calloc s4 sizeof_private_st).2.store d 0).mem d = 0 ∧
      ((calloc s4 sizeof_private_st).2.store d 0).allocated
        = (s.brk + 8) :: s.brk :: s.allocated ∧
      ((calloc s4 sizeof_private_st).2.store d 0).freed = s.freed := by
  have hb := hs.heap
  have hd' := hd
  have hd2' := hd2
  simp only [heap_base, sizeof_derived1_st] at hb hd' hd2'
  have hd0 : d ≠ 0 := by omega
  have hb0 : s.brk ≠ 0 := by omega
  have k1 := calloc_fail_iff s sizeof_private_st hb0
  have c1 : (calloc s sizeof_private_st).1 ≠ 0 := fun c => h1 (k1.mp c)
  obtain ⟨s1, s2, e1, e2, s2ok, b2, cf2, al2, fr2, m2d, m2b1, m2b2⟩ :=
    derived1_init_step12 s d hs hd hd2 c1
  have k2 := calloc_fail_iff s2 sizeof_private_st (by rw [b2]; omega)
  rw [cf2] at k2
  have c2 : (calloc s2 sizeof_private_st).1 ≠ 0 := fun c => h2 (k2.mp c)
  obtain ⟨s3, s4, e3, e4, s4ok, b4, cf4, al4, fr4, m4d, m4b1, m4b2⟩ :=
    derived1_init_step34 s2 d s.brk s2ok hd b2 hd2 c2
  rw [b2] at b4 al4 m4b2
  rw [m2d] at m4d
  rw [m2b1] at m4b1
  rw [cf2] at cf4
  rw [al2] at al4
  rw [fr2] at fr4
  have k3 := calloc_fail_iff s4 sizeof_private_st (by rw [b4]; omega)
  rw [cf4] at k3
  have c3 : (calloc s4 sizeof_private_st).1 = 0 := k3.mpr h3
  obtain ⟨t1, _⟩ := derived1_init_tail s s1 s2 s3 s4 d hd0 e1 e2 e3 e4
  obtain ⟨m, _, al, fr⟩ := calloc_fail_state s4 sizeof_private_st (by rw [b4]; omega) c3
  refine ⟨s1, s2, s3, s4, e1, e2, e3, e4, c3, t1 c3, ?_, ?_, ?_, al.trans al4, fr.trans fr4⟩
  · rw [store_mem, if_neg (by omega), m, m4b1]
  · rw [store_mem, if_neg (by omega), m, m4b2]
  · rw [store_mem, if_pos rfl]

/-- C33: `derived1_init` on an object on the heap, below the break, from a state whose
static tables are intact, when the allocations of base1's and base2's private blocks succeed
and the allocation of derived1's own private block fails.  Then `base1_init`,
`base1_set_vtable`, `base2_init` and `base2_set_vtable` have all succeeded, base1's private
block being the first block allocated and base2's the second, and `derived1_init` returns
`MY_RC_E_ENOMEM` with the state that `base2_friend_delete` on the embedded base2 followed by
`base1_friend_delete` on the embedded base1 leave: the free log has gained base2's block,
then base1's (most recent first in the log), all three private references are null, and the
object itself is not among the blocks freed. -/
theorem C33_unwind_on_own_block_failure (s : State) (d : Nat) (hs : statics_ok s)
    (hd : heap_base ≤ d) (hd2 : d + sizeof_derived1_st ≤ s.brk)
    (h1 : s.calloc_fails.head? ≠ some true) (h2 : s.calloc_fails.tail.head? ≠ some true)
    (h3 : s.calloc_fails.tail.tail.head? = some true) :
    (∃ s1 s2 s3 s4 u,
      base1_init s (derived1_cast_to_base1 d) = (MY_RC_E_SUCCESS, s1) ∧
      base1_set_vtable s1 (derived1_cast_to_base1 d) derived1_base1_vtable
        = (MY_RC_E_SUCCESS, s2) ∧
      base2_init s2 (derived1_cast_to_base2 d) = (MY_RC_E_SUCCESS, s3) ∧
      base2_set_vtable s3 (derived1_cast_to_base2 d) derived1_base2_vtable
        = (MY_RC_E_SUCCESS, s4) ∧
      (calloc s4 sizeof_private_st).1 = 0 ∧
      u = (calloc s4 sizeof_private_st).2.store (d + off_private_h) 0 ∧
      u.mem (derived1_cast_to_base1 d + off_private_h) = s.brk ∧
      u.mem (derived1_cast_to_base2 d + off_private_h) = s.brk + sizeof_private_st ∧
      u.freed = s.freed ∧
      derived1_init s d = (MY_RC_E_ENOMEM,
        base1_friend_delete (base2_friend_delete u (derived1_cast_to_base2 d))
          (derived1_cast_to_base1 d))) ∧
    (derived1_init s d).1 = MY_RC_E_ENOMEM ∧
    (derived1_init s d).2.freed = s.brk :: (s.brk + sizeof_private_st) :: s.freed ∧
    (derived1_init s d).2.allocated = (s.brk + sizeof_private_st) :: s.brk :: s.allocated ∧
    d ∉ [s.brk, s.brk + sizeof_private_st] ∧
    (derived1_init s d).2.mem (d + off_private_h) = 0 ∧
    (derived1_init s d).2.mem (derived1_cast_to_base1 d + off_private_h) = 0 ∧
    (derived1_init s d).2.mem (derived1_cast_to_base2 d + off_private_h) = 0 := by
  have hd' := hd
  have hd2' := hd2
  simp only [heap_base, sizeof_derived1_st] at hd' hd2'
  have hd0 : d ≠ 0 := by omega
  obtain ⟨s1, s2, s3, s4, e1, e2, e3, e4, c3, e5, u1, u2, _, _, u5⟩ :=
    derived1_init_unwind s d hs hd hd2 h1 h2 h3
  obtain ⟨r1, r2, r3, r4, r5, r6⟩ := (derived1_init_run s d hs hd hd2).2.2.1 h1 h2 h3
  rw [cast_d1_base1 d hd0, cast_d1_base2 d hd0]
  simp only [off_d1_base1, off_d1_base2, off_private_h, sizeof_private_st, Nat.add_zero]
  refine ⟨⟨s1, s2, s3, s4, _, e1, e2, e3, e4, c3, rfl, u1, u2, u5, e5⟩, r1, r6, r5, ?_, r2, r3,
    r4⟩
  simp only [List.mem_cons, List.mem_singleton, List.not_mem_nil, or_false, not_or]
  constructor <;> omega

/-- C33 at program start with the outcomes [success, success, success, failure] (the object,
then the three private blocks), on the object the first allocation returns: `derived1_init`
returns `MY_RC_E_ENOMEM` and the free log holds base1's block (at the address after the
object) on top of base2's. -/
theorem C33_unwind_on_own_block_failure_witness :
    (derived1_init (calloc (initial_state_failing [false, false, false, true])
        sizeof_derived1_st).2 heap_base).1 = MY_RC_E_ENOMEM ∧
    (derived1_init (calloc (initial_state_failing [false, false, false, true])
        sizeof_derived1_st).2 heap_base).2.freed
      = [heap_base + sizeof_derived1_st, heap_base + sizeof_derived1_st + sizeof_private_st] :=
  have h := C33_unwind_on_own_block_failure
    (calloc (initial_state_failing [false, false, false, true]) sizeof_derived1_st).2 heap_base
    (calloc_statics _ _ (statics_ok_frame initial_state _ statics_ok_initial_state
      (by decide) (fun _ _ => rfl)) (by decide)) (by decide) (by decide)
    (by decide) (by decide) (by decide)
  ⟨h.2.1, h.2.2.1⟩

theorem derived1_init_b2ref (s : State) (d : Nat) (hs : statics_ok s) (hd : heap_base ≤ d)
    (hd2 : d + sizeof_derived1_st ≤ s.brk) :
    (s.calloc_fails.head? = some true →
      (derived1_init s d).2.mem (d + 32) = s.mem (d + 32)) ∧
    (s.calloc_fails.head? ≠ some true → s.calloc_fails.tail.head? = some true →
      (derived1_init s d).2.mem (d + 32) = 0) := by
  have hb := hs.heap
  have hd' := hd
  have hd2' := hd2
  simp only [heap_base, sizeof_derived1_st] at hb hd' hd2'
  have hd0 : d ≠ 0 := by omega
  have hb0 : s.brk ≠ 0 := by omega
  have k1 := calloc_fail_iff s sizeof_private_st hb0
  constructor
  · intro h
    have c1 := k1.mpr h
    obtain ⟨m, _, _, _⟩ := calloc_fail_state s sizeof_private_st hb0 c1
    rw [derived1_init_fail1 s d hd0 c1, store_mem, if_neg (by omega), m]
  · intro h1 h2
    have c1 : (calloc s sizeof_private_st).1 ≠ 0 := fun c => h1 (k1.mp c)
    obtain ⟨s1, s2, e1, e2, s2ok, b2, cf2, al2, fr2, m2d, m2b1, m2b2⟩ :=
      derived1_init_step12 s d hs hd hd2 c1
    have k2 := calloc_fail_iff s2 sizeof_private_st (by rw [b2]; omega)
    rw [cf2] at k2
    have c2 := k2.mpr h2
    rw [derived1_init_fail2 s s1 s2 d hd0 e1 e2 c2, store_mem, if_pos rfl]

theorem derived2_delete_bare (t : State) (d : Nat) (hd0 : d ≠ 0) (m1 : t.mem (d + 8) = 0)
    (m2 : t.mem (d + 32) = 0) (m3 : t.mem d = 0) :
    (derived2_delete t d).freed = d :: t.freed ∧
    (derived2_delete t d).allocated = t.allocated := by
  unfold derived2_delete derived1_friend_delete derived1_delete_internal
  simp only [off_d2_derived1, off_d1_base1, off_d1_base2, off_private_h, Nat.add_zero,
    if_neg hd0]
  unfold base1_friend_delete
  rw [base1_delete_internal_noop t (d + 8) (Or.inr m1)]
  unfold base2_friend_delete
  rw [base2_delete_internal_noop t (d + 32) (Or.inr m2)]
  simp only [m3, ne_eq, not_true_eq_false, if_false, Bool.false_eq_true]
  exact ⟨rfl, rfl⟩

theorem derived2_delete_base1 (t : State) (d : Nat) (hd0 : d ≠ 0) (m1 : t.mem (d + 8) ≠ 0)
    (m2 : t.mem (d + 32) = 0) (m3 : t.mem d = 0) :
    (derived2_delete t d).freed = d :: t.mem (d + 8) :: t.freed ∧
    (derived2_delete t d).allocated = t.allocated := by
  unfold derived2_delete derived1_friend_delete derived1_delete_internal
  simp only [off_d2_derived1, off_d1_base1, off_d1_base2, off_private_h, Nat.add_zero,
    if_neg hd0]
  unfold base1_friend_delete
  rw [base1_delete_internal_eq t (d + 8) false (by omega) m1]
  simp only [Bool.false_eq_true, if_false]
  have w2 : ((free t (t.mem (d + 8))).store (d + 8) 0).mem (d + 32) = 0 := by
    rw [store_mem, if_neg (by omega)]
    exact m2
  unfold base2_friend_delete
  rw [base2_delete_internal_noop _ (d + 32) (Or.inr w2)]
  have w3 : ((free t (t.mem (d + 8))).store (d + 8) 0).mem d = 0 := by
    rw [store_mem, if_neg (by omega)]
    exact m3
  simp only [w3, ne_eq, not_true_eq_false, if_false]
  exact ⟨rfl, rfl⟩

theorem derived2_new1_run (s : State) (hs : statics_ok s)
    (h0 : s.calloc_fails.head? ≠ some true) :
    (s.calloc_fails.tail.head? = some true →
      (derived2_new1 s).1 = 0 ∧
      (derived2_new1 s).2.allocated = s.brk :: s.allocated ∧
      (derived2_new1 s).2.freed = s.brk :: s.freed) ∧
    (s.calloc_fails.tail.head? ≠ some true → s.calloc_fails.tail.tail.head? = some true →
      (derived2_new1 s).1 = 0 ∧
      (derived2_new1 s).2.allocated = (s.brk + 56) :: s.brk :: s.allocated ∧
      (derived2_new1 s).2.freed = s.brk :: (s.brk + 56) :: s.freed) ∧
    (s.calloc_fails.tail.head? ≠ some true → s.calloc_fails.tail.tail.head? ≠ some true →
      s.calloc_fails.tail.tail.tail.head? = some true →
      (derived2_new1 s).1 = 0 ∧
      (derived2_new1 s).2.allocated = (s.brk + 64) :: (s.brk + 56) :: s.brk :: s.allocated ∧
      (derived2_new1 s).2.freed = s.brk :: (s.brk + 56) :: (s.brk + 64) :: s.freed) := by
  have hb := hs.heap
  simp only [heap_base] at hb
  have k0 := calloc_fail_iff s sizeof_derived2_st (by omega)
  have c0 : (calloc s sizeof_derived2_st).1 ≠ 0 := fun c => h0 (k0.mp c)
  obtain ⟨e1, e2, e3⟩ := calloc_ok s sizeof_derived2_st c0
  obtain ⟨al0, fr0⟩ := calloc_ok_lists s sizeof_derived2_st c0
  have l3 := calloc_cf s sizeof_derived2_st
  have uok := calloc_statics s sizeof_derived2_st hs c0
  have hh : heap_base ≤ s.brk := by simp only [heap_base]; omega
  have hh2 : s.brk + sizeof_derived1_st ≤ (calloc s sizeof_derived2_st).2.brk := by rw [e2]
  obtain ⟨rA, rB, rC, _⟩ := derived1_init_run (calloc s sizeof_derived2_st).2 s.brk uok hh hh2
  obtain ⟨qA, qB⟩ := derived1_init_b2ref (calloc s sizeof_derived2_st).2 s.brk uok hh hh2
  obtain ⟨_, i2⟩ := derived2_init_rc (calloc s sizeof_derived2_st).2 s.brk uok hh hh2
  rw [l3] at rA rB rC qA qB
  rw [e2] at rB rC
  have z : ∀ k, k < 56 → (calloc s sizeof_derived2_st).2.mem (s.brk + k) = 0 := by
    intro k hk
    rw [e3, if_pos (by simp only [sizeof_derived2_st]; omega)]
  have z0 := z 0 (by norm_num)
  have z32 := z 32 (by norm_num)
  rw [Nat.add_zero] at z0
  have hb0 : ¬ (s.brk = 0) := by omega
  have fail : ∀ (hrc : (derived1_init (calloc s sizeof_derived2_st).2 s.brk).1
      = MY_RC_E_ENOMEM),
      derived2_new1 s
        = (0, derived2_delete (derived1_init (calloc s sizeof_derived2_st).2 s.brk).2 s.brk) := by
    intro hrc
    have hne : (derived1_init (calloc s sizeof_derived2_st).2 s.brk).1 ≠ MY_RC_E_SUCCESS := by
      rw [hrc]
      decide
    unfold derived2_new1
    simp only [ne_eq, e1, hb0, not_false_eq_true, if_true, i2 hne, hrc]
    rfl
  refine ⟨?_, ?_, ?_⟩
  · intro h1
    obtain ⟨a1, a2, a3, a4, a5⟩ := rA h1
    have a6 := qA h1
    rw [fail a1]
    obtain ⟨f1, f2⟩ := derived2_delete_bare _ s.brk hb0 a3 (a6.trans z32) (a2.trans z0)
    exact ⟨rfl, by rw [f2, a4, al0], by rw [f1, a5, fr0]⟩
  · intro h1 h2
    obtain ⟨a1, a2, a3, a4, a5⟩ := rB h1 h2
    have a6 := qB h1 h2
    rw [fail a1]
    obtain ⟨f1, f2⟩ := derived2_delete_base1 _ s.brk hb0 (by rw [a3]; omega) a6 (a2.trans z0)
    exact ⟨rfl, by rw [f2, a4, al0], by rw [f1, a5, fr0, a3]⟩
  · intro h1 h2 h3
    obtain ⟨a1, a2, a3, a4, a5, a6⟩ := rC h1 h2 h3
    rw [fail a1]
    obtain ⟨f1, f2⟩ := derived2_delete_bare _ s.brk hb0 a3 a4 a2
    exact ⟨rfl, by rw [f2, a5, al0], by rw [f1, a6, fr0]⟩

/-- C34: from a state whose static tables are intact, when the allocation of the derived2
object succeeds and `derived2_new1` nevertheless returns NULL.  Then `derived2_init` has
failed on an allocation (of base1's, base2's or derived1's private block; with intact
tables `derived1_set_vtable` cannot fail), and by the time `derived2_new1` returns, the
blocks allocated during the call (the object, at the old break, and at most two private
blocks) are pairwise distinct and the free log has gained exactly these blocks, in the
reverse of the order of allocation: each block allocated during the call has been freed
exactly once. -/
theorem C34_derived2_new1_rollback (s : State) (hs : statics_ok s)
    (h0 : s.calloc_fails.head? ≠ some true) (hnull : (derived2_new1 s).1 = 0) :
    true ∈ s.calloc_fails.tail.take 3 ∧
    ∃ blocks, s.brk ∈ blocks ∧ blocks.length ≤ 3 ∧ blocks.Nodup ∧
      (derived2_new1 s).2.allocated = blocks ++ s.allocated ∧
      (derived2_new1 s).2.freed = blocks.reverse ++ s.freed := by
  have hiff := derived2_new1_iff s hs
  rw [not_mem_take_succ] at hiff
  have hmem : true ∈ s.calloc_fails.tail.take 3 := by
    by_contra hn
    exact (hiff.mpr ⟨h0, hn⟩) hnull
  refine ⟨hmem, ?_⟩
  obtain ⟨rA, rB, rC⟩ := derived2_new1_run s hs h0
  by_cases h1 : s.calloc_fails.tail.head? = some true
  · obtain ⟨_, a, f⟩ := rA h1
    exact ⟨[s.brk], by simp, by simp, by simp, a, f⟩
  by_cases h2 : s.calloc_fails.tail.tail.head? = some true
  · obtain ⟨_, a, f⟩ := rB h1 h2
    exact ⟨[s.brk + 56, s.brk], by simp, by simp, by simp, a, f⟩
  by_cases h3 : s.calloc_fails.tail.tail.tail.head? = some true
  · obtain ⟨_, a, f⟩ := rC h1 h2 h3
    exact ⟨[s.brk + 64, s.brk + 56, s.brk], by simp, by simp, by simp, a, f⟩
  · exfalso
    rcases hl : s.calloc_fails.tail with _ | ⟨a, _ | ⟨b, _ | ⟨c, l⟩⟩⟩ <;> simp_all

/-- C34 at program start with the outcomes [success, success, failure] (the object and
base1's private block are allocated, base2's is not): `derived2_new1` returns NULL and the
free log holds the object and base1's private block, the two blocks allocated. -/
theorem C34_derived2_new1_rollback_witness :
    (derived2_new1 (initial_state_failing [false, false, true])).1 = 0 ∧
    (derived2_new1 (initial_state_failing [false, false, true])).2.allocated
      = [heap_base + sizeof_derived2_st, heap_base] ∧
    (derived2_new1 (initial_state_failing [false, false, true])).2.freed
      = [heap_base, heap_base + sizeof_derived2_st] ∧
    ∃ blocks, blocks.Nodup ∧
      (derived2_new1 (initial_state_failing [false, false, true])).2.allocated
        = blocks ++ (initial_state_failing [false, false, true]).allocated ∧
      (derived2_new1 (initial_state_failing [false, false, true])).2.freed
        = blocks.reverse ++ (initial_state_failing [false, false, true]).freed :=
  have h := (C34_derived2_new1_rollback (initial_state_failing [false, false, true])
    (statics_ok_frame initial_state _ statics_ok_initial_state (by decide) (fun _ _ => rfl))
    (by decide) (by decide)).2
  ⟨by decide, by decide, by decide,
    h.elim (fun blocks hb => ⟨blocks, hb.2.2.1, hb.2.2.2.1, hb.2.2.2.2⟩)⟩

theorem derived1_inherit_vtable_other (s : State) (p vt x : Nat) (dnc : Bool)
    (hsep : ∀ i, i < 5 → vt + 8 ≠ s.mem vt + 8 * i)
    (hx1 : ∀ i, i < 5 → x ≠ s.mem vt + 8 * i)
    (hx2 : ∀ i, i < 5 → x ≠ s.mem (vt + 8) + 8 * i)
    (hx3 : x ≠ vt + 16) (hx4 : x ≠ vt + 24) :
    (derived1_inherit_vtable s p vt dnc).2.mem x = s.mem x := by
  unfold derived1_inherit_vtable
  by_cases hpc : p = 0 ∨ vt = 0
  · rw [if_pos hpc]
  rw [if_neg hpc]
  simp only [off_d1vt_base1_vtable, off_d1vt_base2_vtable, off_d1vt_delete_fn,
    off_d1vt_increase_val4_fn, Nat.add_zero]
  have a1 := base1_inherit_vtable_other s derived1_base1_vtable (s.mem vt) x false hx1
  have b1 := base1_inherit_vtable_other s derived1_base1_vtable (s.mem vt) (vt + 8) false hsep
  generalize base1_inherit_vtable s derived1_base1_vtable (s.mem vt) false = r1 at a1 b1 ⊢
  by_cases n1 : my_rc_e_is_notok r1.1 = true
  · rw [if_pos n1]
    exact a1
  rw [if_neg n1, base2_inherit_vtable_eq, b1]
  have a2 := base1_inherit_vtable_other r1.2 derived1_base2_vtable (s.mem (vt + 8)) x false hx2
  generalize base1_inherit_vtable r1.2 derived1_base2_vtable (s.mem (vt + 8)) false = r2
    at a2 ⊢
  by_cases n2 : my_rc_e_is_notok r2.1 = true
  · rw [if_pos n2]
    exact a2.trans a1
  rw [if_neg n2]
  have f1 : ∀ t : State, (fill_slot t p vt 16).mem x = t.mem x := by
    intro t
    rw [fill_slot_mem, if_neg (fun h => hx3 h.1)]
  have f2 : ∀ t : State, (fill_slot t p vt 24).mem x = t.mem x := by
    intro t
    rw [fill_slot_mem, if_neg (fun h => hx4 h.1)]
  simp only [INHERIT_VTABLE_FN_eq]
  by_cases k1 : dnc = true ∧ r2.2.mem (vt + 16) = 0 ∧ r2.2.mem (p + 16) = 0
  · simp only [if_pos k1]
    rw [f1]
    exact a2.trans a1
  simp only [if_neg k1]
  by_cases k2 : dnc = true ∧ (fill_slot r2.2 p vt 16).mem (vt + 24) = 0 ∧
      (fill_slot r2.2 p vt 16).mem (p + 24) = 0
  · simp only [if_pos k2]
    rw [f2, f1]
    exact a2.trans a1
  simp only [if_neg k2]
  rw [f2, f1]
  exact a2.trans a1

theorem base1_set_vtable_frame (t : State) (h c : Nat) (hh : ∀ i, i < 5 → h ≠ c + 8 * i) :
    ((base1_set_vtable t h c).1 ≠ MY_RC_E_SUCCESS →
      ∀ x, (∀ i, i < 5 → x ≠ c + 8 * i) → (base1_set_vtable t h c).2.mem x = t.mem x) ∧
    ((base1_set_vtable t h c).1 = MY_RC_E_SUCCESS →
      t.mem h ≠ 0 ∧ ∀ x, (∀ i, i < 5 → x ≠ c + 8 * i) →
        (base1_set_vtable t h c).2.mem x = if x = t.mem h then c else t.mem x) := by
  unfold base1_set_vtable
  simp only [off_private_h, off_vtable, Nat.add_zero]
  by_cases h1 : h = 0 ∨ c = 0
  · rw [if_pos h1]
    exact ⟨fun _ x _ => rfl, fun e => by cases e⟩
  rw [if_neg h1]
  by_cases h2 : t.mem h = 0
  · rw [if_pos h2]
    exact ⟨fun _ x _ => rfl, fun e => by cases e⟩
  rw [if_neg h2]
  have a := fun x hx => base1_inherit_vtable_other t base1_vtable c x true hx
  generalize base1_inherit_vtable t base1_vtable c true = r at a ⊢
  by_cases n : my_rc_e_is_notok r.1 = true
  · rw [if_pos n]
    refine ⟨fun _ x hx => a x hx, fun e => ?_⟩
    dsimp only at e
    rw [e] at n
    exact absurd n (by decide)
  rw [if_neg n]
  refine ⟨fun e => absurd rfl e, fun _ => ⟨h2, fun x hx => ?_⟩⟩
  show (r.2.store (r.2.mem h) c).mem x = _
  rw [store_mem, a h hh, a x hx]

theorem base2_set_vtable_frame (t : State) (h c : Nat) (hh : ∀ i, i < 5 → h ≠ c + 8 * i) :
    ((base2_set_vtable t h c).1 ≠ MY_RC_E_SUCCESS →
      ∀ x, (∀ i, i < 5 → x ≠ c + 8 * i) → (base2_set_vtable t h c).2.mem x = t.mem x) ∧
    ((base2_set_vtable t h c).1 = MY_RC_E_SUCCESS →
      t.mem h ≠ 0 ∧ ∀ x, (∀ i, i < 5 → x ≠ c + 8 * i) →
        (base2_set_vtable t h c).2.mem x = if x = t.mem h then c else t.mem x) := by
  unfold base2_set_vtable
  simp only [off_private_h, off_vtable, Nat.add_zero]
  by_cases h1 : h = 0 ∨ c = 0
  · rw [if_pos h1]
    exact ⟨fun _ x _ => rfl, fun e => by cases e⟩
  rw [if_neg h1]
  by_cases h2 : t.mem h = 0
  · rw [if_pos h2]
    exact ⟨fun _ x _ => rfl, fun e => by cases e⟩
  rw [if_neg h2, base2_inherit_vtable_eq]
  have a := fun x hx => base1_inherit_vtable_other t base2_vtable c x true hx
  generalize base1_inherit_vtable t base2_vtable c true = r at a ⊢
  by_cases n : my_rc_e_is_notok r.1 = true
  · rw [if_pos n]
    refine ⟨fun _ x hx => a x hx, fun e => ?_⟩
    dsimp only at e
    rw [e] at n
    exact absurd n (by decide)
  rw [if_neg n]
  refine ⟨fun e => absurd rfl e, fun _ => ⟨h2, fun x hx => ?_⟩⟩
  show (r.2.store (r.2.mem h) c).mem x = _
  rw [store_mem, a h hh, a x hx]

theorem derived1_set_vtable_cases (s : State) (d vt : Nat) :
    derived1_set_vtable s d vt = (MY_RC_E_EINVAL, s) ∨
    ((derived1_inherit_vtable s derived1_vtable vt true).1 ≠ MY_RC_E_SUCCESS ∧
      derived1_set_vtable s d vt = derived1_inherit_vtable s derived1_vtable vt true) ∨
    (∃ t, derived1_inherit_vtable s derived1_vtable vt true = (MY_RC_E_SUCCESS, t) ∧
      (base1_set_vtable t (d + 8) (t.mem vt)).1 ≠ MY_RC_E_SUCCESS ∧
      derived1_set_vtable s d vt = base1_set_vtable t (d + 8) (t.mem vt)) ∨
    (∃ t u, derived1_inherit_vtable s derived1_vtable vt true = (MY_RC_E_SUCCESS, t) ∧
      base1_set_vtable t (d + 8) (t.mem vt) = (MY_RC_E_SUCCESS, u) ∧
      (base2_set_vtable u (d + 32) (u.mem (vt + 8))).1 ≠ MY_RC_E_SUCCESS ∧
      derived1_set_vtable s d vt = base2_set_vtable u (d + 32) (u.mem (vt + 8))) ∨
    (derived1_set_vtable s d vt).1 = MY_RC_E_SUCCESS := by
  unfold derived1_set_vtable
  simp only [off_private_h, off_vtable, off_d1_base1, off_d1_base2, off_d1vt_base1_vtable,
    off_d1vt_base2_vtable, Nat.add_zero]
  by_cases h1 : d = 0 ∨ vt = 0
  · rw [if_pos h1]
    exact Or.inl rfl
  rw [if_neg h1]
  by_cases h2 : s.mem d = 0
  · rw [if_pos h2]
    exact Or.inl rfl
  rw [if_neg h2]
  generalize derived1_inherit_vtable s derived1_vtable vt true = r
  obtain ⟨rc, t⟩ := r
  dsimp only
  by_cases n : my_rc_e_is_notok rc = true
  · rw [if_pos n]
    exact Or.inr (Or.inl ⟨(my_rc_e_is_notok_iff rc).mp n, rfl⟩)
  rw [if_neg n]
  have hrc : rc = MY_RC_E_SUCCESS := by
    by_contra hne
    exact n ((my_rc_e_is_notok_iff rc).mpr hne)
  subst hrc
  generalize e1 : base1_set_vtable t (d + 8) (t.mem vt) = r1
  obtain ⟨rc1, u⟩ := r1
  dsimp only
  by_cases n1 : my_rc_e_is_notok rc1 = true
  · rw [if_pos n1]
    exact Or.inr (Or.inr (Or.inl ⟨t, rfl, by rw [e1]; exact (my_rc_e_is_notok_iff rc1).mp n1,
      by rw [e1]⟩))
  rw [if_neg n1]
  have hrc1 : rc1 = MY_RC_E_SUCCESS := by
    by_contra hne
    exact n1 ((my_rc_e_is_notok_iff rc1).mpr hne)
  subst hrc1
  generalize e2 : base2_set_vtable u (d + 32) (u.mem (vt + 8)) = r2
  obtain ⟨rc2, v⟩ := r2
  dsimp only
  by_cases n2 : my_rc_e_is_notok rc2 = true
  · rw [if_pos n2]
    exact Or.inr (Or.inr (Or.inr (Or.inl
      ⟨t, u, rfl, e1, by rw [e2]; exact (my_rc_e_is_notok_iff rc2).mp n2, by rw [e2]⟩)))
  rw [if_neg n2]
  exact Or.inr (Or.inr (Or.inr (Or.inr rfl)))

theorem derived1_set_vtable_error_frame (s : State) (d vt : Nat)
    (hvt : vtable_in_statics s vt) (hobj : private_blocks_on_heap s d)
    (herr : (derived1_set_vtable s d vt).1 ≠ MY_RC_E_SUCCESS) :
    (∀ x, heap_base ≤ x → x ≠ s.mem (d + 8) →
      (derived1_set_vtable s d vt).2.mem x = s.mem x) ∧
    (s.mem (d + 8) ≠ 0 →
      (derived1_set_vtable s d vt).2.mem (s.mem (d + 8)) = s.mem (s.mem (d + 8)) ∨
      ((derived1_set_vtable s d vt).2.mem (s.mem (d + 8)) = s.mem vt ∧
        ∃ t u, derived1_inherit_vtable s derived1_vtable vt true = (MY_RC_E_SUCCESS, t) ∧
          base1_set_vtable t (d + 8) (t.mem vt) = (MY_RC_E_SUCCESS, u) ∧
          (base2_set_vtable u (d + 32) (u.mem (vt + 8))).1 ≠ MY_RC_E_SUCCESS ∧
          derived1_set_vtable s d vt = base2_set_vtable u (d + 32) (u.mem (vt + 8)))) := by
  unfold vtable_in_statics at hvt
  unfold private_blocks_on_heap at hobj
  simp only [separate, off_d1vt_base1_vtable, off_d1vt_base2_vtable, sizeof_vtable_st,
    sizeof_derived1_vtable_st, heap_base, off_private_h, off_d1_base1, off_d1_base2,
    sizeof_private_st, sizeof_derived1_st, Nat.add_zero] at hvt hobj
  obtain ⟨v1, v2, v3, v4, v5⟩ := hvt
  obtain ⟨o1, o2, o3, o4⟩ := hobj
  simp only [heap_base]
  -- cells the reconciliation of `vt` against derived1.c's tables leaves alone
  have inh : ∀ x, (65536 ≤ x ∨ x = vt ∨ x = vt + 8) →
      (derived1_inherit_vtable s derived1_vtable vt true).2.mem x = s.mem x := by
    intro x hx
    apply derived1_inherit_vtable_other s derived1_vtable vt x true
    · intro i hi; omega
    · intro i hi; omega
    · intro i hi; omega
    · omega
    · omega
  rcases derived1_set_vtable_cases s d vt with e | ⟨_, e⟩ | ⟨t, et, n, e⟩ | ⟨t, u, et, eu, n, e⟩
    | e
  · rw [e]
    exact ⟨fun _ _ _ => rfl, fun _ => Or.inl rfl⟩
  · rw [e]
    refine ⟨fun x hx _ => inh x (Or.inl hx), fun hp => Or.inl ?_⟩
    exact inh _ (Or.inl (by omega))
  · rw [et] at inh
    dsimp only at inh
    have tv : t.mem vt = s.mem vt := inh vt (Or.inr (Or.inl rfl))
    rw [tv] at n e
    have fr := (base1_set_vtable_frame t (d + 8) (s.mem vt) (by intro i hi; omega)).1 n
    rw [e]
    refine ⟨fun x hx _ => ?_, fun hp => Or.inl ?_⟩
    · rw [fr x (by intro i hi; omega)]
      exact inh x (Or.inl hx)
    · rw [fr _ (by intro i hi; omega)]
      exact inh _ (Or.inl (by omega))
  · have inh2 := inh
    rw [et] at inh2
    dsimp only at inh2
    have tv : t.mem vt = s.mem vt := inh2 vt (Or.inr (Or.inl rfl))
    have tv8 : t.mem (vt + 8) = s.mem (vt + 8) := inh2 (vt + 8) (Or.inr (Or.inr rfl))
    have tp1 : t.mem (d + 8) = s.mem (d + 8) := inh2 (d + 8) (Or.inl (by omega))
    have eu2 := eu
    rw [tv] at eu2
    have hs1 : (base1_set_vtable t (d + 8) (s.mem vt)).1 = MY_RC_E_SUCCESS := by rw [eu2]
    obtain ⟨p1ne, fu⟩ := (base1_set_vtable_frame t (d + 8) (s.mem vt)
      (by intro i hi; omega)).2 hs1
    rw [eu2, tp1] at fu
    dsimp only at fu
    rw [tp1] at p1ne
    have hp1 : 65536 ≤ s.mem (d + 8) := by
      rcases o4 with z | ⟨z, _⟩
      · exact absurd z p1ne
      · exact z
    have uv8 : u.mem (vt + 8) = s.mem (vt + 8) := by
      rw [fu (vt + 8) (by intro i hi; omega), if_neg (by omega), tv8]
    have n2 := n
    rw [uv8] at n2
    have fr := (base2_set_vtable_frame u (d + 32) (s.mem (vt + 8)) (by intro i hi; omega)).1 n2
    refine ⟨fun x hx hne => ?_, fun _ => Or.inr ⟨?_, t, u, et, eu, n, e⟩⟩
    · rw [e, uv8, fr x (by intro i hi; omega), fu x (by intro i hi; omega), if_neg hne]
      exact inh2 x (Or.inl hx)
    · rw [e, uv8, fr _ (by intro i hi; omega), fu _ (by intro i hi; omega), if_pos rfl]
  · exact absurd e herr

/-- C39: `derived1_set_vtable` is not all-or-nothing on the object.  For a
`derived1_vtable_st` in static storage and a derived1 object on the heap whose private
references are null or heap blocks, whenever `derived1_set_vtable` returns an error: the
three private references are unchanged; the vtable reference of the derived1 object itself
and that of the embedded base2 are unchanged; the vtable reference of the embedded base1 is
either unchanged or already replaced by `vtable->base1_vtable`, the latter when the
reconciliation and `base1_set_vtable` succeeded and `base2_set_vtable` then failed; every
other cell of the heap is unchanged. -/
theorem C39_set_vtable_partial_install (s : State) (d vt : Nat)
    (hvt : vtable_in_statics s vt) (hobj : private_blocks_on_heap s d)
    (herr : (derived1_set_vtable s d vt).1 ≠ MY_RC_E_SUCCESS) :
    ((derived1_set_vtable s d vt).2.mem (d + off_private_h) = s.mem (d + off_private_h) ∧
      (derived1_set_vtable s d vt).2.mem (d + off_d1_base1 + off_private_h)
        = s.mem (d + off_d1_base1 + off_private_h) ∧
      (derived1_set_vtable s d vt).2.mem (d + off_d1_base2 + off_private_h)
        = s.mem (d + off_d1_base2 + off_private_h)) ∧
    (s.mem (d + off_private_h) ≠ 0 →
      (derived1_set_vtable s d vt).2.mem (s.mem (d + off_private_h) + off_vtable)
        = s.mem (s.mem (d + off_private_h) + off_vtable)) ∧
    (s.mem (d + off_d1_base2 + off_private_h) ≠ 0 →
      (derived1_set_vtable s d vt).2.mem (s.mem (d + off_d1_base2 + off_private_h) + off_vtable)
        = s.mem (s.mem (d + off_d1_base2 + off_private_h) + off_vtable)) ∧
    (s.mem (d + off_d1_base1 + off_private_h) ≠ 0 →
      (derived1_set_vtable s d vt).2.mem (s.mem (d + off_d1_base1 + off_private_h) + off_vtable)
        = s.mem (s.mem (d + off_d1_base1 + off_private_h) + off_vtable) ∨
      ((derived1_set_vtable s d vt).2.mem
          (s.mem (d + off_d1_base1 + off_private_h) + off_vtable)
        = s.mem (vt + off_d1vt_base1_vtable) ∧
        ∃ t u, derived1_inherit_vtable s derived1_vtable vt true = (MY_RC_E_SUCCESS, t) ∧
          base1_set_vtable t (d + off_d1_base1) (t.mem (vt + off_d1vt_base1_vtable))
            = (MY_RC_E_SUCCESS, u) ∧
          (base2_set_vtable u (d + off_d1_base2) (u.mem (vt + off_d1vt_base2_vtable))).1
            ≠ MY_RC_E_SUCCESS ∧
          derived1_set_vtable s d vt
            = base2_set_vtable u (d + off_d1_base2) (u.mem (vt + off_d1vt_base2_vtable)))) ∧
    (∀ x, heap_base ≤ x → x ≠ s.mem (d + off_d1_base1 + off_private_h) + off_vtable →
      (derived1_set_vtable s d vt).2.mem x = s.mem x) := by
  obtain ⟨fr, b1⟩ := derived1_set_vtable_error_frame s d vt hvt hobj herr
  unfold private_blocks_on_heap at hobj
  simp only [separate, heap_base, off_private_h, off_d1_base1, off_d1_base2, off_vtable,
    off_d1vt_base1_vtable, off_d1vt_base2_vtable, sizeof_private_st, sizeof_derived1_st,
    Nat.add_zero] at hobj fr ⊢
  obtain ⟨o1, o2, o3, o4⟩ := hobj
  refine ⟨⟨?_, ?_, ?_⟩, ?_, ?_, b1, fr⟩
  · apply fr d o1
    rcases o4 with z | ⟨z1, z2, _, _⟩ <;> omega
  · apply fr (d + 8) (by omega)
    rcases o4 with z | ⟨z1, z2, _, _⟩ <;> omega
  · apply fr (d + 32) (by omega)
    rcases o4 with z | ⟨z1, z2, _, _⟩ <;> omega
  · intro hp
    apply fr _ (by omega)
    rcases o4 with z | ⟨_, _, _, z⟩
    · rw [z]; exact hp
    · exact fun h => z h.symm
  · intro hp
    apply fr _ (by omega)
    rcases o4 with z | ⟨_, _, z, _⟩
    · rw [z]; exact hp
    · exact fun h => z h.symm

/-- C39 on the first derived1 object made at program start, after `base2_friend_delete`
has removed the private block of its embedded base2, with derived2.c's table:
`derived1_set_vtable` returns an error and the object's own vtable reference is unchanged. -/
theorem C39_set_vtable_partial_install_witness :
    vtable_in_statics (base2_friend_delete
      (derived1_init (calloc initial_state sizeof_derived1_st).2 heap_base).2
      (heap_base + off_d1_base2)) derived2_derived1_vtable ∧
    private_blocks_on_heap (base2_friend_delete
      (derived1_init (calloc initial_state sizeof_derived1_st).2 heap_base).2
      (heap_base + off_d1_base2)) heap_base ∧
    (derived1_set_vtable (base2_friend_delete
      (derived1_init (calloc initial_state sizeof_derived1_st).2 heap_base).2
      (heap_base + off_d1_base2)) heap_base derived2_derived1_vtable).1 ≠ MY_RC_E_SUCCESS ∧
    (derived1_set_vtable (base2_friend_delete
      (derived1_init (calloc initial_state sizeof_derived1_st).2 heap_base).2
      (heap_base + off_d1_base2)) heap_base derived2_derived1_vtable).2.mem
      ((base2_friend_delete
        (derived1_init (calloc initial_state sizeof_derived1_st).2 heap_base).2
        (heap_base + off_d1_base2)).mem (heap_base + off_private_h) + off_vtable)
      = derived1_vtable :=
  ⟨by decide, by decide, by decide,
    ((C39_set_vtable_partial_install (base2_friend_delete
      (derived1_init (calloc initial_state sizeof_derived1_st).2 heap_base).2
      (heap_base + off_d1_base2)) heap_base derived2_derived1_vtable (by decide) (by decide)
      (by decide)).2.1 (by decide)).trans (by decide)⟩

/-- C39, the claim as stated fails on the first derived1 object made at program start once
`base2_friend_delete` has removed the private block of its embedded base2:
`derived1_set_vtable` with derived2.c's table returns `MY_RC_E_EINVAL` (from
`base2_set_vtable`), yet the vtable reference of the embedded base1, derived1.c's Base1
table before the call, is derived2.c's Base1 table after it. -/
theorem C39_set_vtable_partial_install_counterexample :
    (derived1_set_vtable (base2_friend_delete
      (derived1_init (calloc initial_state sizeof_derived1_st).2 heap_base).2
      (heap_base + off_d1_base2)) heap_base derived2_derived1_vtable).1 = MY_RC_E_EINVAL ∧
    (base2_friend_delete
      (derived1_init (calloc initial_state sizeof_derived1_st).2 heap_base).2
      (heap_base + off_d1_base2)).mem
      ((base2_friend_delete
        (derived1_init (calloc initial_state sizeof_derived1_st).2 heap_base).2
        (heap_base + off_d1_base2)).mem (heap_base + off_d1_base1 + off_private_h)
        + off_vtable) = derived1_base1_vtable ∧
    (derived1_set_vtable (base2_friend_delete
      (derived1_init (calloc initial_state sizeof_derived1_st).2 heap_base).2
      (heap_base + off_d1_base2)) heap_base derived2_derived1_vtable).2.mem
      ((base2_friend_delete
        (derived1_init (calloc initial_state sizeof_derived1_st).2 heap_base).2
        (heap_base + off_d1_base2)).mem (heap_base + off_d1_base1 + off_private_h)
        + off_vtable) = derived2_base1_vtable := by
  refine ⟨?_, ?_, ?_⟩ <;> decide

end COO
